import Mathlib

/-!
# ALS animation instance: shallow embedding and verified properties

The per-frame locomotion-animation state machine of `UAlsAnimationInstance`
(`AlsAnimationInstance.cpp`, `Als_GT_AnimInstance.cpp`, `Als_TS_AnimInstance.cpp`)
is embedded as pure functions over an explicit instance record.

Numbers: the C++ `float`/`double` values are modelled by an arbitrary linearly ordered
field `α` (exact arithmetic, no rounding); every definition is computable for `α = ℚ`.
Functions of the host engine that are not rational (square root, trigonometry, the
exponential, quaternion-to-Euler conversion, world sweeps) are taken from a record
`Engine α` passed to the functions that use them.
-/

namespace ALS

set_option linter.unusedSectionVars false

variable {α : Type} [LinearOrderedField α] [FloorRing α]

/-! ## Host engine numerics (`FMath`, `FAnimWeight`) -/

/-- Engine constant `UE_SMALL_NUMBER` (1e-8). -/
def UE_SMALL_NUMBER : α := 1 / 100000000

/-- Engine constant `UE_KINDA_SMALL_NUMBER` (1e-4). -/
def UE_KINDA_SMALL_NUMBER : α := 1 / 10000

/-- Engine constant `ZERO_ANIMWEIGHT_THRESH` (0.00001). -/
def ZERO_ANIMWEIGHT_THRESH : α := 1 / 100000

/-- Engine predicate `FAnimWeight::IsRelevant`: the weight is above the zero threshold. -/
def FAnimWeight.IsRelevant (InWeight : α) : Prop := InWeight > ZERO_ANIMWEIGHT_THRESH

/-- Engine predicate `FAnimWeight::IsFullWeight`: the weight is at least one minus the zero threshold. -/
def FAnimWeight.IsFullWeight (InWeight : α) : Prop := InWeight ≥ 1 - ZERO_ANIMWEIGHT_THRESH

instance (w : α) : Decidable (FAnimWeight.IsRelevant w) := by
  unfold FAnimWeight.IsRelevant; infer_instance

instance (w : α) : Decidable (FAnimWeight.IsFullWeight w) := by
  unfold FAnimWeight.IsFullWeight; infer_instance

/-- Engine function `FMath::Clamp`. -/
def FMath.Clamp (X Min Max : α) : α := if X < Min then Min else if X < Max then X else Max

/-- Engine function `FMath::Lerp`. -/
def FMath.Lerp (A B Alpha : α) : α := A + Alpha * (B - A)

/-- Engine function `FMath::Square`. -/
def FMath.Square (A : α) : α := A * A

/-- Engine function `FMath::Sign`. -/
def FMath.Sign (A : α) : α := if A > 0 then 1 else if A < 0 then -1 else 0

/-- Engine function `FMath::UnwindDegrees`: subtract 360 while above 180, then add 360 while
below -180.  The two loops are given in closed form by the number of iterations. -/
def FMath.UnwindDegrees (A : α) : α :=
  let A1 := if A > 180 then A - 360 * (⌈(A - 180) / 360⌉ : ℤ) else A
  if A1 < -180 then A1 + 360 * (⌈(-180 - A1) / 360⌉ : ℤ) else A1

/-- Engine function `FMath::IsNearlyZero` with the default tolerance `UE_SMALL_NUMBER`. -/
def FMath.IsNearlyZero (Value : α) : Prop := |Value| ≤ UE_SMALL_NUMBER

instance (v : α) : Decidable (FMath.IsNearlyZero v) := by
  unfold FMath.IsNearlyZero; infer_instance

/-- Engine function `FMath::GetRangePct`. -/
def FMath.GetRangePct (MinValue MaxValue Value : α) : α :=
  let Divisor := MaxValue - MinValue
  if FMath.IsNearlyZero Divisor then (if Value ≥ MaxValue then 1 else 0)
  else (Value - MinValue) / Divisor

/-- Two-component vector `FVector2f`. -/
structure FVector2 (α : Type) where
  X : α
  Y : α

/-- Engine function `FMath::GetMappedRangeValueClamped`. -/
def FMath.GetMappedRangeValueClamped (InputRange OutputRange : FVector2 α) (Value : α) : α :=
  let ClampedPct := FMath.Clamp (FMath.GetRangePct InputRange.X InputRange.Y Value) 0 1
  FMath.Lerp OutputRange.X OutputRange.Y ClampedPct

/-- Engine function `FMath::FInterpTo`. -/
def FMath.FInterpTo (Current Target DeltaTime InterpSpeed : α) : α :=
  if InterpSpeed ≤ 0 then Target
  else
    let Dist := Target - Current
    if FMath.Square Dist < UE_SMALL_NUMBER then Target
    else Current + Dist * FMath.Clamp (DeltaTime * InterpSpeed) 0 1

/-! ## Host engine geometry (`FVector`, `FQuat`, `FRotator`, `FTransform`) -/

/-- Three-component vector (`FVector`, `FVector3f`; the precision casts are the identity here). -/
structure FVector (α : Type) where
  X : α
  Y : α
  Z : α

/-- Quaternion (`FQuat`, `FQuat4f`). -/
structure FQuat (α : Type) where
  X : α
  Y : α
  Z : α
  W : α

/-- Euler rotation in degrees (`FRotator`). -/
structure FRotator (α : Type) where
  Pitch : α
  Yaw : α
  Roll : α

/-- Scaled rigid transform (`FTransform`). -/
structure FTransform (α : Type) where
  Rotation : FQuat α
  Translation : FVector α
  Scale3D : FVector α

/-- Constant `FVector::ZeroVector`. -/
def FVector.ZeroVector : FVector α := ⟨0, 0, 0⟩

/-- Constant `FVector::UpVector`. -/
def FVector.UpVector : FVector α := ⟨0, 0, 1⟩

/-- Component-wise sum. -/
def FVector.add (A B : FVector α) : FVector α := ⟨A.X + B.X, A.Y + B.Y, A.Z + B.Z⟩

/-- Component-wise difference. -/
def FVector.sub (A B : FVector α) : FVector α := ⟨A.X - B.X, A.Y - B.Y, A.Z - B.Z⟩

/-- Component-wise product (`FVector::operator*` on two vectors). -/
def FVector.mul (A B : FVector α) : FVector α := ⟨A.X * B.X, A.Y * B.Y, A.Z * B.Z⟩

/-- Product with a scalar. -/
def FVector.scale (A : FVector α) (k : α) : FVector α := ⟨A.X * k, A.Y * k, A.Z * k⟩

/-- Quotient by a scalar. -/
def FVector.divide (A : FVector α) (k : α) : FVector α := ⟨A.X / k, A.Y / k, A.Z / k⟩

/-- Dot product (`operator|`). -/
def FVector.dot (A B : FVector α) : α := A.X * B.X + A.Y * B.Y + A.Z * B.Z

/-- Cross product (`operator^`). -/
def FVector.cross (A B : FVector α) : FVector α :=
  ⟨A.Y * B.Z - A.Z * B.Y, A.Z * B.X - A.X * B.Z, A.X * B.Y - A.Y * B.X⟩

/-- Squared length of a vector. -/
def FVector.SizeSquared (A : FVector α) : α := A.X * A.X + A.Y * A.Y + A.Z * A.Z

/-- Engine function `FVector::DistSquared`. -/
def FVector.DistSquared (A B : FVector α) : α :=
  FMath.Square (B.X - A.X) + FMath.Square (B.Y - A.Y) + FMath.Square (B.Z - A.Z)

/-- Linear interpolation of vectors (`FMath::Lerp` on `FVector`). -/
def FVector.Lerp (A B : FVector α) (Alpha : α) : FVector α :=
  A.add ((B.sub A).scale Alpha)

/-- Constant `FQuat::Identity`. -/
def FQuat.Identity : FQuat α := ⟨0, 0, 0, 1⟩

/-- Quaternion product (`FQuat::operator*`, Hamilton product). -/
def FQuat.mul (A B : FQuat α) : FQuat α :=
  ⟨A.W * B.X + A.X * B.W + A.Y * B.Z - A.Z * B.Y,
   A.W * B.Y - A.X * B.Z + A.Y * B.W + A.Z * B.X,
   A.W * B.Z + A.X * B.Y - A.Y * B.X + A.Z * B.W,
   A.W * B.W - A.X * B.X - A.Y * B.Y - A.Z * B.Z⟩

/-- Engine function `FQuat::Inverse` (the conjugate; the quaternion is assumed normalised). -/
def FQuat.Inverse (Q : FQuat α) : FQuat α := ⟨-Q.X, -Q.Y, -Q.Z, Q.W⟩

/-- Engine function `FQuat::RotateVector`: `V + 2W(Q × V) + 2 Q × (Q × V)`. -/
def FQuat.RotateVector (Q : FQuat α) (V : FVector α) : FVector α :=
  let Qv : FVector α := ⟨Q.X, Q.Y, Q.Z⟩
  let T := (Qv.cross V).scale 2
  (V.add (T.scale Q.W)).add (Qv.cross T)

/-- Engine function `FQuat::UnrotateVector`: rotation by the inverse quaternion. -/
def FQuat.UnrotateVector (Q : FQuat α) (V : FVector α) : FVector α :=
  let Qv : FVector α := ⟨-Q.X, -Q.Y, -Q.Z⟩
  let T := (Qv.cross V).scale 2
  (V.add (T.scale Q.W)).add (Qv.cross T)

/-- Dot product of two quaternions (`FQuat::operator|`). -/
def FQuat.dot (A B : FQuat α) : α := A.X * B.X + A.Y * B.Y + A.Z * B.Z + A.W * B.W

/-- Product of a quaternion with a scalar. -/
def FQuat.scale (Q : FQuat α) (k : α) : FQuat α := ⟨Q.X * k, Q.Y * k, Q.Z * k, Q.W * k⟩

/-- Component-wise sum of two quaternions. -/
def FQuat.add (A B : FQuat α) : FQuat α := ⟨A.X + B.X, A.Y + B.Y, A.Z + B.Z, A.W + B.W⟩

/-- Engine function `FQuat::FastLerp`: bi-linear interpolation along the shorter arc, not normalised. -/
def FQuat.FastLerp (A B : FQuat α) (Alpha : α) : FQuat α :=
  let Bias : α := if A.dot B ≥ 0 then 1 else -1
  (B.scale Alpha).add (A.scale (Bias * (1 - Alpha)))

/-- Engine function `FTransform::TransformPosition`. -/
def FTransform.TransformPosition (T : FTransform α) (V : FVector α) : FVector α :=
  (T.Rotation.RotateVector (T.Scale3D.mul V)).add T.Translation

/-- Engine function `FTransform::TransformRotation`. -/
def FTransform.TransformRotation (T : FTransform α) (Q : FQuat α) : FQuat α :=
  T.Rotation.mul Q

/-- Constant `FTransform::Identity`. -/
def FTransform.Identity : FTransform α := ⟨FQuat.Identity, FVector.ZeroVector, ⟨1, 1, 1⟩⟩

/-- Result of a world sweep (`FHitResult`), the fields the instance reads. -/
structure FHitResult (α : Type) where
  bBlockingHit : Bool
  bStartPenetrating : Bool
  Time : α
  ImpactNormal : FVector α

/-- Engine function `FHitResult::IsValidBlockingHit`. -/
def FHitResult.IsValidBlockingHit (H : FHitResult α) : Bool :=
  H.bBlockingHit && !H.bStartPenetrating

/-- Movement direction classes (`EAlsMovementDirection`). -/
inductive EAlsMovementDirection where
  | Forward
  | Backward
  | Left
  | Right
  deriving DecidableEq, Repr

/-- Functions and constants declared outside the three source files that have no rational
closed form or whose value is not visible there; every function using one takes this record. -/
structure Externals (α : Type) where
  /-- Engine function `FMath::InvSqrt`. -/
  InvSqrt : α → α
  /-- Engine function `FMath::Sin` (radians). -/
  Sin : α → α
  /-- Engine function `FMath::Cos` (radians). -/
  Cos : α → α
  /-- Engine function `FMath::Acos` (radians). -/
  Acos : α → α
  /-- Engine constant `UE_PI`. -/
  Pi : α
  /-- Engine function `FMath::InvExpApprox`. -/
  InvExpApprox : α → α
  /-- Engine conversion `FQuat::Rotator`. -/
  QuatToRotator : FQuat α → FRotator α
  /-- Engine function `FTransform::operator*`. -/
  TransformMultiply : FTransform α → FTransform α → FTransform α
  /-- Engine function `FTransform::Inverse`. -/
  TransformInverse : FTransform α → FTransform α
  /-- Constant `UAlsRotation::CounterClockwiseRotationAngleThreshold` (degrees). -/
  CounterClockwiseRotationAngleThreshold : α
  /-- Classifier `UAlsMath::CalculateMovementDirection`. -/
  CalculateMovementDirection : α → α → α → EAlsMovementDirection
  /-- World query `UWorld::SweepSingleByChannel` with a capsule: start, end, radius, half height. -/
  SweepSingleByChannel : FVector α → FVector α → α → α → FHitResult α
  /-- Engine function `USceneComponent::MoveComponent` with a zero delta and no sweep: the mesh
  transforms after the world rotation of the mesh is set. -/
  MoveComponentRotation : FTransform α → FTransform α → FQuat α → FTransform α × FTransform α

/-- Engine function `FMath::DegreesToRadians`. -/
def FMath.DegreesToRadians (E : Externals α) (Deg : α) : α := Deg * (E.Pi / 180)

/-- Engine function `FMath::RadiansToDegrees`. -/
def FMath.RadiansToDegrees (E : Externals α) (Rad : α) : α := Rad * (180 / E.Pi)

/-- Engine function `FQuat::Normalize` with the default tolerance. -/
def FQuat.Normalize (E : Externals α) (Q : FQuat α) : FQuat α :=
  let SquareSum := Q.X * Q.X + Q.Y * Q.Y + Q.Z * Q.Z + Q.W * Q.W
  if SquareSum ≥ UE_SMALL_NUMBER then Q.scale (E.InvSqrt SquareSum) else FQuat.Identity

/-- Engine constructor `FQuat(Axis, AngleRad)`. -/
def FQuat.ofAxisAngle (E : Externals α) (Axis : FVector α) (AngleRad : α) : FQuat α :=
  let S := E.Sin (AngleRad / 2)
  let C := E.Cos (AngleRad / 2)
  ⟨S * Axis.X, S * Axis.Y, S * Axis.Z, C⟩

/-! ## ALS utilities referenced by the sources (`UAlsMath`, `UAlsRotation`, `UAlsVector`) -/

/-- Modelled from the spec: `UAlsMath::Clamp01` (Utility/AlsMath.h is not under src/), the clamp of a
scalar to the unit interval. -/
def UAlsMath.Clamp01 (Value : α) : α := if Value > 0 then (if Value < 1 then Value else 1) else 0

/-- Modelled from the spec: `UAlsMath::LerpClamped` (Utility/AlsMath.h is not under src/), the linear
interpolation with the interpolation amount clamped to the unit interval. -/
def UAlsMath.LerpClamped (A B Alpha : α) : α := FMath.Lerp A B (UAlsMath.Clamp01 Alpha)

/-- Modelled from the spec: `UAlsMath::ExponentialDecay(DeltaTime, Lambda)` (Utility/AlsMath.h is not
under src/), the interpolation amount of the frame-rate independent exponential-decay smoothing,
one minus the inverse exponential of `Lambda * DeltaTime`. -/
def UAlsMath.ExponentialDecayAmount (E : Externals α) (DeltaTime Lambda : α) : α :=
  1 - E.InvExpApprox (Lambda * DeltaTime)

/-- Modelled from the spec: `UAlsMath::ExponentialDecay(Current, Target, DeltaTime, Lambda)`
(Utility/AlsMath.h is not under src/), exponential-decay interpolation of a value toward its target;
a non-positive speed gives the target. -/
def UAlsMath.ExponentialDecay (E : Externals α) (Current Target DeltaTime Lambda : α) : α :=
  if Lambda > 0 then FMath.Lerp Current Target (UAlsMath.ExponentialDecayAmount E DeltaTime Lambda)
  else Target

/-- Modelled from the spec: `UAlsRotation::RemapAngleForCounterClockwiseRotation`
(Utility/AlsRotation.h is not under src/); the rule is the one `RefreshLook` applies inline: an angle
above `180 - CounterClockwiseRotationAngleThreshold` is lowered by 360. -/
def UAlsRotation.RemapAngleForCounterClockwiseRotation (E : Externals α) (Angle : α) : α :=
  if Angle > 180 - E.CounterClockwiseRotationAngleThreshold then Angle - 360 else Angle

/-- Modelled from the spec: `UAlsRotation::LerpAngle` (Utility/AlsRotation.h is not under src/), the
angle lerp: the unwound difference, remapped for counter-clockwise rotation, is scaled by the
interpolation amount, added to the start angle and wrapped to [-180, 180]. -/
def UAlsRotation.LerpAngle (E : Externals α) (From To Alpha : α) : α :=
  let Delta := UAlsRotation.RemapAngleForCounterClockwiseRotation E (FMath.UnwindDegrees (To - From))
  FMath.UnwindDegrees (From + Delta * Alpha)

/-- Engine function `FVector2f::GetSafeNormal` with the default tolerance. -/
def FVector2.GetSafeNormal (E : Externals α) (V : FVector2 α) : FVector2 α :=
  let SquareSum := V.X * V.X + V.Y * V.Y
  if SquareSum > UE_SMALL_NUMBER then ⟨V.X * E.InvSqrt SquareSum, V.Y * E.InvSqrt SquareSum⟩
  else ⟨0, 0⟩

/-- Modelled from the spec: `UAlsVector::AngleBetweenSignedXY` (Utility/AlsVector.h is not under
src/), the signed angle in degrees, measured in the XY plane, from the first vector to the second:
the arc cosine of the dot product of the normalised projections, signed by their cross product. -/
def UAlsVector.AngleBetweenSignedXY (E : Externals α) (From To : FVector α) : α :=
  let FromXY := FVector2.GetSafeNormal E ⟨From.X, From.Y⟩
  let ToXY := FVector2.GetSafeNormal E ⟨To.X, To.Y⟩
  FMath.RadiansToDegrees E (E.Acos (FromXY.X * ToXY.X + FromXY.Y * ToXY.Y)) *
    FMath.Sign (FromXY.X * ToXY.Y - FromXY.Y * ToXY.X)

/-- Modelled from the spec: `UAlsVector::ClampMagnitude01` (Utility/AlsVector.h is not under src/),
the clamp of a vector to the unit ball: a vector longer than one is divided by its length. -/
def UAlsVector.ClampMagnitude01 (E : Externals α) (V : FVector α) : FVector α :=
  let MagnitudeSquared := V.SizeSquared
  if MagnitudeSquared ≤ 1 then V else V.scale (E.InvSqrt MagnitudeSquared)

/-- Engine function `FVector3f::Normalize` with the default tolerance: the normalised vector and
whether the vector was long enough to be normalised. -/
def FVector.Normalize (E : Externals α) (V : FVector α) : FVector α × Bool :=
  let SquareSum := V.SizeSquared
  if SquareSum > UE_SMALL_NUMBER then (V.scale (E.InvSqrt SquareSum), true) else (V, false)

/-! ## Gameplay tags, names and asset references -/

/-- Gameplay tags (`FGameplayTag`) compared by the sources, and every other tag. -/
inductive FGameplayTag where
  | EmptyTag
  | ViewMode_FirstPerson
  | ViewMode_ThirdPerson
  | LocomotionMode_Grounded
  | LocomotionMode_InAir
  | RotationMode_VelocityDirection
  | RotationMode_ViewDirection
  | RotationMode_Aiming
  | Stance_Standing
  | Stance_Crouching
  | Gait_Walking
  | Gait_Running
  | Gait_Sprinting
  | LocomotionAction_Ragdolling
  | Other (Id : Nat)
  deriving DecidableEq, Repr

/-- Engine function `FGameplayTag::IsValid`. -/
def FGameplayTag.IsValid (T : FGameplayTag) : Bool := decide (T ≠ FGameplayTag.EmptyTag)

/-- Names (`FName`) the sources obtain from `UAlsConstants`, and `NAME_None`. -/
inductive FName where
  | NAME_None
  | TransitionSlot
  | TurnInPlaceStandingSlot
  | TurnInPlaceCrouchingSlot
  | LayerHeadCurve
  | LayerHeadAdditiveCurve
  | LayerHeadSlotCurve
  | LayerArmLeftCurve
  | LayerArmLeftAdditiveCurve
  | LayerArmLeftSlotCurve
  | LayerArmLeftLocalSpaceCurve
  | LayerArmRightCurve
  | LayerArmRightAdditiveCurve
  | LayerArmRightSlotCurve
  | LayerArmRightLocalSpaceCurve
  | LayerHandLeftCurve
  | LayerHandRightCurve
  | LayerSpineCurve
  | LayerSpineAdditiveCurve
  | LayerSpineSlotCurve
  | LayerPelvisCurve
  | LayerPelvisSlotCurve
  | LayerLegsCurve
  | LayerLegsSlotCurve
  | PoseGroundedCurve
  | PoseInAirCurve
  | PoseStandingCurve
  | PoseCrouchingCurve
  | PoseMovingCurve
  | PoseGaitCurve
  | HipsDirectionLockCurve
  | SprintBlockCurve
  | ViewBlockCurve
  | AllowAimingCurve
  | FootPlantedCurve
  | FeetCrossingCurve
  | FootLeftIkCurve
  | FootLeftLockCurve
  | FootRightIkCurve
  | FootRightLockCurve
  | AllowTransitionsCurve
  | GroundPredictionBlockCurve
  | Other (Id : Nat)
  deriving DecidableEq, Repr

/-- Reference to an animation sequence asset (`UAnimSequenceBase`); an absent or invalid
reference is `none` where a reference is optional. -/
structure UAnimSequenceBase where
  Id : Nat
  deriving DecidableEq, Repr

/-- Scalar curve asset (`UCurveFloat`), used through `GetFloatValue`. -/
structure UCurveFloat (α : Type) where
  GetFloatValue : α → α

/-! ## Settings (`UAlsAnimationInstanceSettings`), the fields the sources read -/

/-- General settings. -/
structure FAlsGeneralAnimationSettings (α : Type) where
  bUseHandIkBones : Bool
  bUseFootIkBones : Bool
  MovingSmoothSpeedThreshold : α
  LeanInterpolationSpeed : α

/-- View settings. -/
structure FAlsViewAnimationSettings (α : Type) where
  LookTowardsCameraRotationInterpolationSpeed : α
  LookTowardsInputYawAngleInterpolationSpeed : α

/-- Grounded settings. -/
structure FAlsGroundedSettings (α : Type) where
  VelocityBlendInterpolationSpeed : α
  RotationYawOffsetForwardCurve : UCurveFloat α
  RotationYawOffsetBackwardCurve : UCurveFloat α
  RotationYawOffsetLeftCurve : UCurveFloat α
  RotationYawOffsetRightCurve : UCurveFloat α

/-- Standing settings. -/
structure FAlsStandingSettings (α : Type) where
  AnimatedWalkSpeed : α
  AnimatedRunSpeed : α
  AnimatedSprintSpeed : α
  StrideBlendAmountWalkCurve : UCurveFloat α
  StrideBlendAmountRunCurve : UCurveFloat α
  PivotActivationSpeedThreshold : α

/-- Crouching settings. -/
structure FAlsCrouchingSettings (α : Type) where
  AnimatedCrouchSpeed : α
  StrideBlendAmountCurve : UCurveFloat α

/-- In-air settings. -/
structure FAlsInAirSettings (α : Type) where
  LeanAmountCurve : UCurveFloat α
  GroundPredictionAmountCurve : UCurveFloat α

/-- Feet settings. -/
structure FAlsFeetSettings (α : Type) where
  bDisableFootLock : Bool
  FootLockAngleLimit : α

/-- Transition settings. -/
structure FAlsTransitionsSettings (α : Type) where
  QuickStopBlendInDuration : α
  QuickStopBlendOutDuration : α
  QuickStopPlayRate : FVector2 α
  QuickStopStartTime : α
  StandingLeftSequence : Option UAnimSequenceBase
  StandingRightSequence : Option UAnimSequenceBase
  CrouchingLeftSequence : Option UAnimSequenceBase
  CrouchingRightSequence : Option UAnimSequenceBase

/-- Dynamic transition settings. -/
structure FAlsDynamicTransitionsSettings (α : Type) where
  FootLockDistanceThreshold : α
  BlendDuration : α
  PlayRate : α
  StandingLeftSequence : Option UAnimSequenceBase
  StandingRightSequence : Option UAnimSequenceBase
  CrouchingLeftSequence : Option UAnimSequenceBase
  CrouchingRightSequence : Option UAnimSequenceBase

/-- Rotate-in-place settings. -/
structure FAlsRotateInPlaceSettings (α : Type) where
  ViewYawAngleThreshold : α
  ReferenceViewYawSpeed : FVector2 α
  PlayRate : FVector2 α

/-- One turn-in-place preset (`UAlsTurnInPlaceSettings`). -/
structure UAlsTurnInPlaceSettings (α : Type) where
  Sequence : Option UAnimSequenceBase
  PlayRate : α
  bScalePlayRateByAnimatedTurnAngle : Bool
  AnimatedTurnAngle : α

/-- Turn-in-place settings with the eight presets. -/
structure FAlsGeneralTurnInPlaceSettings (α : Type) where
  ViewYawAngleThreshold : α
  ViewYawSpeedThreshold : α
  ViewYawAngleToActivationDelay : FVector2 α
  Turn180AngleThreshold : α
  BlendDuration : α
  StandingTurn90Left : Option (UAlsTurnInPlaceSettings α)
  StandingTurn90Right : Option (UAlsTurnInPlaceSettings α)
  StandingTurn180Left : Option (UAlsTurnInPlaceSettings α)
  StandingTurn180Right : Option (UAlsTurnInPlaceSettings α)
  CrouchingTurn90Left : Option (UAlsTurnInPlaceSettings α)
  CrouchingTurn90Right : Option (UAlsTurnInPlaceSettings α)
  CrouchingTurn180Left : Option (UAlsTurnInPlaceSettings α)
  CrouchingTurn180Right : Option (UAlsTurnInPlaceSettings α)

/-- The settings asset bound to an animation instance. -/
structure UAlsAnimationInstanceSettings (α : Type) where
  General : FAlsGeneralAnimationSettings α
  View : FAlsViewAnimationSettings α
  Grounded : FAlsGroundedSettings α
  Standing : FAlsStandingSettings α
  Crouching : FAlsCrouchingSettings α
  InAir : FAlsInAirSettings α
  Feet : FAlsFeetSettings α
  Transitions : FAlsTransitionsSettings α
  DynamicTransitions : FAlsDynamicTransitionsSettings α
  RotateInPlace : FAlsRotateInPlaceSettings α
  TurnInPlace : FAlsGeneralTurnInPlaceSettings α

/-! ## State records of the animation instance -/

/-- Movement base state. -/
structure FAlsMovementBaseState (α : Type) where
  Primitive : Option Nat
  BoneName : FName
  bBaseChanged : Bool
  bHasRelativeLocation : Bool
  bHasRelativeRotation : Bool
  Location : FVector α
  Rotation : FQuat α
  DeltaRotation : FRotator α

/-- Layering state. -/
structure FAlsLayeringState (α : Type) where
  HeadBlendAmount : α
  HeadAdditiveBlendAmount : α
  HeadSlotBlendAmount : α
  ArmLeftBlendAmount : α
  ArmLeftAdditiveBlendAmount : α
  ArmLeftSlotBlendAmount : α
  ArmLeftLocalSpaceBlendAmount : α
  ArmLeftMeshSpaceBlendAmount : α
  ArmRightBlendAmount : α
  ArmRightAdditiveBlendAmount : α
  ArmRightSlotBlendAmount : α
  ArmRightLocalSpaceBlendAmount : α
  ArmRightMeshSpaceBlendAmount : α
  HandLeftBlendAmount : α
  HandRightBlendAmount : α
  SpineBlendAmount : α
  SpineAdditiveBlendAmount : α
  SpineSlotBlendAmount : α
  PelvisBlendAmount : α
  PelvisSlotBlendAmount : α
  LegsBlendAmount : α
  LegsSlotBlendAmount : α

/-- Pose state. -/
structure FAlsPoseState (α : Type) where
  GroundedAmount : α
  InAirAmount : α
  StandingAmount : α
  CrouchingAmount : α
  MovingAmount : α
  GaitAmount : α
  GaitWalkingAmount : α
  GaitRunningAmount : α
  GaitSprintingAmount : α
  UnweightedGaitAmount : α
  UnweightedGaitWalkingAmount : α
  UnweightedGaitRunningAmount : α
  UnweightedGaitSprintingAmount : α

/-- View state. -/
structure FAlsViewAnimationState (α : Type) where
  Rotation : FRotator α
  YawAngle : α
  YawSpeed : α
  PitchAngle : α
  PitchAmount : α
  LookAmount : α

/-- Spine state. -/
structure FAlsSpineState (α : Type) where
  bSpineRotationAllowed : Bool
  SpineAmount : α
  SpineAmountScale : α
  SpineAmountBias : α
  LastYawAngle : α
  LastActorYawAngle : α
  CurrentYawAngle : α
  YawAngle : α

/-- Look state. -/
structure FAlsLookState (α : Type) where
  bInitializationRequired : Bool
  WorldYawAngle : α
  YawAngle : α
  PitchAngle : α
  YawForwardAmount : α
  YawLeftAmount : α
  YawRightAmount : α

/-- Locomotion state gathered on the game thread. -/
structure FAlsLocomotionAnimationState (α : Type) where
  bHasInput : Bool
  InputYawAngle : α
  Speed : α
  Velocity : FVector α
  VelocityYawAngle : α
  Acceleration : FVector α
  MaxAcceleration : α
  MaxBrakingDeceleration : α
  WalkableFloorAngleCos : α
  bMoving : Bool
  bMovingSmooth : Bool
  TargetYawAngle : α
  Location : FVector α
  Rotation : FRotator α
  RotationQuaternion : FQuat α
  YawSpeed : α
  Scale : α
  CapsuleRadius : α
  CapsuleHalfHeight : α

/-- Lean state. -/
structure FAlsLeanState (α : Type) where
  RightAmount : α
  ForwardAmount : α

/-- Velocity blend state. -/
structure FAlsVelocityBlendState (α : Type) where
  bInitializationRequired : Bool
  ForwardAmount : α
  BackwardAmount : α
  LeftAmount : α
  RightAmount : α

/-- Rotation yaw offsets. -/
structure FAlsRotationYawOffsetsState (α : Type) where
  ForwardAngle : α
  BackwardAngle : α
  LeftAngle : α
  RightAngle : α

/-- Grounded state. -/
structure FAlsGroundedState (α : Type) where
  HipsDirectionLockAmount : α
  MovementDirection : EAlsMovementDirection
  VelocityBlend : FAlsVelocityBlendState α
  RotationYawOffsets : FAlsRotationYawOffsetsState α

/-- Standing state. -/
structure FAlsStandingState (α : Type) where
  StrideBlendAmount : α
  WalkRunBlendAmount : α
  PlayRate : α
  SprintBlockAmount : α
  SprintTime : α
  SprintAccelerationAmount : α
  bPivotActive : Bool

/-- Crouching state. -/
structure FAlsCrouchingState (α : Type) where
  StrideBlendAmount : α
  PlayRate : α

/-- In-air state. -/
structure FAlsInAirState (α : Type) where
  bJumpRequested : Bool
  bJumped : Bool
  JumpPlayRate : α
  VerticalVelocity : α
  GroundPredictionAmount : α

/-- State of one foot. -/
structure FAlsFootState (α : Type) where
  ThighAxis : FVector α
  TargetLocation : FVector α
  TargetRotation : FQuat α
  LockAmount : α
  LockLocation : FVector α
  LockRotation : FQuat α
  LockComponentRelativeLocation : FVector α
  LockComponentRelativeRotation : FQuat α
  LockMovementBaseRelativeLocation : FVector α
  LockMovementBaseRelativeRotation : FQuat α
  FinalLocation : FVector α
  FinalRotation : FQuat α

/-- Feet state. -/
structure FAlsFeetState (α : Type) where
  PelvisRotation : FQuat α
  FootPlantedAmount : α
  FeetCrossingAmount : α
  Left : FAlsFootState α
  Right : FAlsFootState α

/-- Transitions state with the queued play and stop requests. -/
structure FAlsTransitionsState (α : Type) where
  bTransitionsAllowed : Bool
  QueuedTransitionSequence : Option UAnimSequenceBase
  QueuedTransitionBlendInDuration : α
  QueuedTransitionBlendOutDuration : α
  QueuedTransitionPlayRate : α
  QueuedTransitionStartTime : α
  bStopTransitionsQueued : Bool
  QueuedStopTransitionsBlendOutDuration : α

/-- Dynamic transitions state. -/
structure FAlsDynamicTransitionsState where
  bUpdatedThisFrame : Bool
  FrameDelay : Int

/-- Rotate-in-place state. -/
structure FAlsRotateInPlaceState (α : Type) where
  bUpdatedThisFrame : Bool
  bRotatingLeft : Bool
  bRotatingRight : Bool
  PlayRate : α

/-- Turn-in-place state with the queued preset. -/
structure FAlsTurnInPlaceState (α : Type) where
  bUpdatedThisFrame : Bool
  ActivationDelay : α
  QueuedSettings : Option (UAlsTurnInPlaceSettings α)
  QueuedSlotName : FName
  QueuedTurnYawAngle : α
  PlayRate : α

/-- Ragdolling state. -/
structure FAlsRagdollingAnimationState (α : Type) where
  FlailPlayRate : α

/-! ## Host objects read by the instance (world, mesh, proxy, character) -/

/-- The world (`UWorld`): validity, kind, frame delta time and current time. -/
structure UWorld (α : Type) where
  bValid : Bool
  bIsGameWorld : Bool
  DeltaSeconds : α
  TimeSeconds : α

/-- The skeletal mesh component, the values the instance reads from it. -/
structure USkeletalMeshComponent (α : Type) where
  bUsingAbsoluteRotation : Bool
  AttachParentTransform : Option (FTransform α)
  ComponentTransform : FTransform α
  RelativeTransform : FTransform α
  PelvisSocketRotation : FQuat α
  FootLeftIkSocketTransform : FTransform α
  FootLeftVirtualSocketTransform : FTransform α
  FootRightIkSocketTransform : FTransform α
  FootRightVirtualSocketTransform : FTransform α

/-- The animation instance proxy: cached transforms, frame delta time and the pose curves. -/
structure FAnimInstanceProxy (α : Type) where
  ComponentTransform : FTransform α
  ComponentRelativeTransform : FTransform α
  ActorTransform : FTransform α
  DeltaSeconds : α
  AnimationCurves : FName → Option α

/-- Based movement of the character (`FBasedMovementInfo`) with the base transform that
`MovementBaseUtility::GetMovementBaseTransform` reports for it. -/
structure FBasedMovementInfo (α : Type) where
  MovementBase : Option Nat
  BoneName : FName
  bHasRelativeLocation : Bool
  bRelativeRotation : Bool
  BaseLocation : FVector α
  BaseRotation : FQuat α

/-- View state of the character. -/
structure FAlsViewState (α : Type) where
  Rotation : FRotator α
  YawSpeed : α

/-- Locomotion state of the character. -/
structure FAlsLocomotionState (α : Type) where
  bHasInput : Bool
  InputYawAngle : α
  Speed : α
  Velocity : FVector α
  VelocityYawAngle : α
  bHasVelocity : Bool
  bMoving : Bool
  TargetYawAngle : α

/-- Character settings (`UAlsCharacterSettings`). -/
structure UAlsCharacterSettings (α : Type) where
  TeleportDistanceThreshold : α

/-- Character movement component, the values the instance reads from it. -/
structure UCharacterMovementComponent (α : Type) where
  MaxAcceleration : α
  MaxBrakingDeceleration : α
  WalkableFloorZ : α
  bNetworkSmoothingDisabled : Bool

/-- The owning character (`AAlsCharacter`), the values the instance reads from it. -/
structure AAlsCharacter (α : Type) where
  ViewMode : FGameplayTag
  LocomotionMode : FGameplayTag
  RotationMode : FGameplayTag
  Stance : FGameplayTag
  Gait : FGameplayTag
  OverlayMode : FGameplayTag
  LocomotionAction : FGameplayTag
  Settings : Option (UAlsCharacterSettings α)
  BaseRotationOffset : FQuat α
  BaseTranslationOffset : FVector α
  ActorTransform : FTransform α
  BasedMovement : FBasedMovementInfo α
  ViewState : FAlsViewState α
  LocomotionState : FAlsLocomotionState α
  CharacterMovement : UCharacterMovementComponent α
  CustomTimeDilation : α
  bSimulatedProxy : Bool
  bListenServer : Bool
  ScaledCapsuleRadius : α
  ScaledCapsuleHalfHeight : α
  RagdollingSpeed : α

/-- Playback request issued to the host on the game thread. -/
inductive FMontageRequest (α : Type) where
  /-- The call `PlaySlotAnimationAsDynamicMontage`: sequence, slot, blend in, blend out, play rate,
  loop count, blend-out trigger time, start time. -/
  | PlaySlotAnimationAsDynamicMontage (Sequence : Option UAnimSequenceBase) (SlotName : FName)
      (BlendInTime BlendOutTime PlayRate : α) (LoopCount : Int) (BlendOutTriggerTime StartTime : α)
  /-- The call `StopSlotAnimation`: blend out, slot. -/
  | StopSlotAnimation (BlendOutTime : α) (SlotName : FName)

/-- The animation instance: host objects, the requests issued to the host so far (latest first),
and the members of `UAlsAnimationInstance`. -/
structure UAlsAnimationInstance (α : Type) where
  bWithEditor : Bool
  bInGameThread : Bool
  bListenServerSmoothingEnabled : Bool
  World : UWorld α
  Mesh : USkeletalMeshComponent α
  Proxy : FAnimInstanceProxy α
  MontageRequests : List (FMontageRequest α)
  Settings : Option (UAlsAnimationInstanceSettings α)
  Character : Option (AAlsCharacter α)
  bPendingUpdate : Bool
  TeleportedTime : α
  ViewMode : FGameplayTag
  LocomotionMode : FGameplayTag
  RotationMode : FGameplayTag
  Stance : FGameplayTag
  Gait : FGameplayTag
  OverlayMode : FGameplayTag
  LocomotionAction : FGameplayTag
  GroundedEntryMode : FGameplayTag
  MovementBase : FAlsMovementBaseState α
  LayeringState : FAlsLayeringState α
  PoseState : FAlsPoseState α
  ViewState : FAlsViewAnimationState α
  SpineState : FAlsSpineState α
  LookState : FAlsLookState α
  LocomotionState : FAlsLocomotionAnimationState α
  LeanState : FAlsLeanState α
  GroundedState : FAlsGroundedState α
  StandingState : FAlsStandingState α
  CrouchingState : FAlsCrouchingState α
  InAirState : FAlsInAirState α
  FeetState : FAlsFeetState α
  TransitionsState : FAlsTransitionsState α
  DynamicTransitionsState : FAlsDynamicTransitionsState
  RotateInPlaceState : FAlsRotateInPlaceState α
  TurnInPlaceState : FAlsTurnInPlaceState α
  RagdollingState : FAlsRagdollingAnimationState α

namespace UAlsAnimationInstance

/-- Engine function `UAnimInstance::GetCurveValue`: the value of a pose curve, zero when absent. -/
def GetCurveValue (s : UAlsAnimationInstance α) (CurveName : FName) : α :=
  (s.Proxy.AnimationCurves CurveName).getD 0

/-- Engine function `UAnimInstance::GetDeltaSeconds`. -/
def GetDeltaSeconds (s : UAlsAnimationInstance α) : α := s.Proxy.DeltaSeconds

/-- The early return under `WITH_EDITOR`: the world is not a valid game world. -/
def EditorPreviewSkip (s : UAlsAnimationInstance α) : Bool :=
  s.bWithEditor && (!s.World.bValid || !s.World.bIsGameWorld)

/-- Source function `GetCurveValueClamped01` (AlsAnimationInstance.cpp:903). -/
def GetCurveValueClamped01 (s : UAlsAnimationInstance α) (CurveName : FName) : α :=
  UAlsMath.Clamp01 (s.GetCurveValue CurveName)

/-- Source function `IsSpineRotationAllowed` (AlsAnimationInstance.cpp:141). -/
def IsSpineRotationAllowed (s : UAlsAnimationInstance α) : Bool :=
  decide (s.RotationMode = FGameplayTag.RotationMode_Aiming)

/-- Source function `IsRotateInPlaceAllowed` (AlsAnimationInstance.cpp:849). -/
def IsRotateInPlaceAllowed (s : UAlsAnimationInstance α) : Bool :=
  decide (s.RotationMode = FGameplayTag.RotationMode_Aiming) ||
    decide (s.ViewMode = FGameplayTag.ViewMode_FirstPerson)

/-- Source function `IsTurnInPlaceAllowed` (AlsAnimationInstance.cpp:854). -/
def IsTurnInPlaceAllowed (s : UAlsAnimationInstance α) : Bool :=
  decide (s.RotationMode = FGameplayTag.RotationMode_ViewDirection) &&
    decide (s.ViewMode ≠ FGameplayTag.ViewMode_FirstPerson)

end UAlsAnimationInstance

/-! ## Foot lock (AlsAnimationInstance.cpp:516-713, Als_TS_AnimInstance.cpp:181-189)

The functions that dereference `Settings` without a validity check take the bound settings as
an argument; their callers check it. -/

namespace UAlsAnimationInstance

/-- The lock location and rotation expressed relative to the movement base
(AlsAnimationInstance.cpp:534-539, 562-567, 644-649, 697-702). -/
def FootLockToMovementBase (s : UAlsAnimationInstance α) (Location : FVector α) (Rotation : FQuat α) :
    FVector α × FQuat α :=
  let BaseRotationInverse := s.MovementBase.Rotation.Inverse
  (BaseRotationInverse.RotateVector (Location.sub s.MovementBase.Location),
   BaseRotationInverse.mul Rotation)

/-- Source function `ProcessFootLockTeleport` (AlsAnimationInstance.cpp:516). -/
def ProcessFootLockTeleport (s : UAlsAnimationInstance α) (IkAmount : α) (FootState : FAlsFootState α) :
    FAlsFootState α :=
  if s.bPendingUpdate = true ∨ s.World.TimeSeconds - s.TeleportedTime > 2 / 10 ∨
      ¬ FAnimWeight.IsRelevant (IkAmount * FootState.LockAmount) then
    FootState
  else
    let ComponentTransform := s.Proxy.ComponentTransform
    let F1 : FAlsFootState α :=
      { FootState with
        LockLocation := ComponentTransform.TransformPosition FootState.LockComponentRelativeLocation
        LockRotation := ComponentTransform.TransformRotation FootState.LockComponentRelativeRotation }
    if s.MovementBase.bHasRelativeLocation = true then
      { F1 with
        LockMovementBaseRelativeLocation := (s.FootLockToMovementBase F1.LockLocation F1.LockRotation).1
        LockMovementBaseRelativeRotation := (s.FootLockToMovementBase F1.LockLocation F1.LockRotation).2 }
    else F1

/-- Source function `ProcessFootLockBaseChange` (AlsAnimationInstance.cpp:543). -/
def ProcessFootLockBaseChange (s : UAlsAnimationInstance α) (IkAmount : α) (FootState : FAlsFootState α)
    (ComponentTransformInverse : FTransform α) : FAlsFootState α :=
  if (s.bPendingUpdate = false ∧ s.MovementBase.bBaseChanged = false) ∨
      ¬ FAnimWeight.IsRelevant (IkAmount * FootState.LockAmount) then
    FootState
  else
    let F1 : FAlsFootState α :=
      if s.bPendingUpdate = true then
        { FootState with LockLocation := FootState.TargetLocation, LockRotation := FootState.TargetRotation }
      else FootState
    let F2 : FAlsFootState α :=
      { F1 with
        LockComponentRelativeLocation := ComponentTransformInverse.TransformPosition F1.LockLocation
        LockComponentRelativeRotation := ComponentTransformInverse.TransformRotation F1.LockRotation }
    if s.MovementBase.bHasRelativeLocation = true then
      { F2 with
        LockMovementBaseRelativeLocation := (s.FootLockToMovementBase F2.LockLocation F2.LockRotation).1
        LockMovementBaseRelativeRotation := (s.FootLockToMovementBase F2.LockLocation F2.LockRotation).2 }
    else
      { F2 with
        LockMovementBaseRelativeLocation := FVector.ZeroVector
        LockMovementBaseRelativeRotation := FQuat.Identity }

/-- The lock weight `NewLockAmount` that `RefreshFootLock` works with
(AlsAnimationInstance.cpp:579-595): the clamped curve value, force-decayed while the character is
moving smoothly or is not grounded. -/
def FootLockNewAmount (s : UAlsAnimationInstance α) (FootState : FAlsFootState α) (LockCurveName : FName)
    (DeltaTime : α) : α :=
  let NewLockAmount := s.GetCurveValueClamped01 LockCurveName
  if s.LocomotionState.bMovingSmooth = true ∨ s.LocomotionMode ≠ FGameplayTag.LocomotionMode_Grounded then
    if s.bPendingUpdate = true then 0
    else
      max 0 (min NewLockAmount
        (FootState.LockAmount - DeltaTime * (if s.LocomotionState.bMovingSmooth = true then 5 else 6 / 10)))
  else NewLockAmount

/-- The branch of `RefreshFootLock` taken when foot lock is disabled or negligible
(AlsAnimationInstance.cpp:599-615). -/
def FootLockDisabled (FootState : FAlsFootState α) (ComponentTransformInverse : FTransform α) :
    FAlsFootState α :=
  let F1 : FAlsFootState α :=
    if FootState.LockAmount > 0 then
      { FootState with
        LockAmount := 0
        LockLocation := FVector.ZeroVector
        LockRotation := FQuat.Identity
        LockComponentRelativeLocation := FVector.ZeroVector
        LockComponentRelativeRotation := FQuat.Identity
        LockMovementBaseRelativeLocation := FVector.ZeroVector
        LockMovementBaseRelativeRotation := FQuat.Identity }
    else FootState
  { F1 with
    FinalLocation := ComponentTransformInverse.TransformPosition F1.TargetLocation
    FinalRotation := ComponentTransformInverse.TransformRotation F1.TargetRotation }

/-- The update of the lock amount and the capture of a new lock transform in `RefreshFootLock`
(AlsAnimationInstance.cpp:618-663). -/
def FootLockUpdateAmount (s : UAlsAnimationInstance α) (FootState : FAlsFootState α)
    (NewLockAmount : α) (ComponentTransformInverse : FTransform α) : FAlsFootState α :=
  if FAnimWeight.IsFullWeight NewLockAmount then
    let F2 : FAlsFootState α :=
      if NewLockAmount > FootState.LockAmount then
        let F1 : FAlsFootState α :=
          if FootState.LockAmount ≤ 9 / 10 then
            { FootState with
              LockLocation := FootState.TargetLocation
              LockRotation := FootState.TargetRotation
              LockComponentRelativeLocation :=
                ComponentTransformInverse.TransformPosition FootState.TargetLocation
              LockComponentRelativeRotation :=
                ComponentTransformInverse.TransformRotation FootState.TargetRotation }
          else FootState
        if s.MovementBase.bHasRelativeLocation = true then
          { F1 with
            LockMovementBaseRelativeLocation :=
              (s.FootLockToMovementBase F1.TargetLocation F1.TargetRotation).1
            LockMovementBaseRelativeRotation :=
              (s.FootLockToMovementBase F1.TargetLocation F1.TargetRotation).2 }
        else
          { F1 with
            LockMovementBaseRelativeLocation := FVector.ZeroVector
            LockMovementBaseRelativeRotation := FQuat.Identity }
      else FootState
    { F2 with LockAmount := 1 }
  else if ¬ (NewLockAmount > FootState.LockAmount) then
    { FootState with LockAmount := NewLockAmount }
  else FootState

/-- The world and component-relative lock transform recomputed from the movement base
(AlsAnimationInstance.cpp:665-674). -/
def FootLockRebase (s : UAlsAnimationInstance α) (FootState : FAlsFootState α)
    (ComponentTransformInverse : FTransform α) : FAlsFootState α :=
  let F1 : FAlsFootState α :=
    if s.MovementBase.bHasRelativeLocation = true then
      { FootState with
        LockLocation := s.MovementBase.Location.add
          (s.MovementBase.Rotation.RotateVector FootState.LockMovementBaseRelativeLocation)
        LockRotation := s.MovementBase.Rotation.mul FootState.LockMovementBaseRelativeRotation }
    else FootState
  { F1 with
    LockComponentRelativeLocation := ComponentTransformInverse.TransformPosition F1.LockLocation
    LockComponentRelativeRotation := ComponentTransformInverse.TransformRotation F1.LockRotation }

/-- The limit on the angle between the thigh axis and the lock location in `RefreshFootLock`
(AlsAnimationInstance.cpp:676-704). -/
def FootLockLimitAngle (E : Externals α) (s : UAlsAnimationInstance α)
    (Settings : UAlsAnimationInstanceSettings α) (FootState : FAlsFootState α) : FAlsFootState α :=
  let ComponentRelativeThighAxis := s.FeetState.PelvisRotation.RotateVector FootState.ThighAxis
  let LockAngle :=
    UAlsVector.AngleBetweenSignedXY E ComponentRelativeThighAxis FootState.LockComponentRelativeLocation
  if |LockAngle| > Settings.Feet.FootLockAngleLimit + UE_KINDA_SMALL_NUMBER then
    let ConstrainedLockAngle :=
      FMath.Clamp LockAngle (-Settings.Feet.FootLockAngleLimit) Settings.Feet.FootLockAngleLimit
    let OffsetRotation :=
      FQuat.ofAxisAngle E FVector.UpVector (FMath.DegreesToRadians E (ConstrainedLockAngle - LockAngle))
    let F1 : FAlsFootState α :=
      { FootState with
        LockComponentRelativeLocation := OffsetRotation.RotateVector FootState.LockComponentRelativeLocation
        LockComponentRelativeRotation :=
          FQuat.Normalize E (OffsetRotation.mul FootState.LockComponentRelativeRotation) }
    let ComponentTransform := s.Proxy.ComponentTransform
    let F2 : FAlsFootState α :=
      { F1 with
        LockLocation := ComponentTransform.TransformPosition F1.LockComponentRelativeLocation
        LockRotation := ComponentTransform.TransformRotation F1.LockComponentRelativeRotation }
    if s.MovementBase.bHasRelativeLocation = true then
      { F2 with
        LockMovementBaseRelativeLocation := (s.FootLockToMovementBase F2.LockLocation F2.LockRotation).1
        LockMovementBaseRelativeRotation := (s.FootLockToMovementBase F2.LockLocation F2.LockRotation).2 }
    else F2
  else FootState

/-- The final foot transform in component space (AlsAnimationInstance.cpp:706-712). -/
def FootLockFinal (E : Externals α) (FootState : FAlsFootState α)
    (ComponentTransformInverse : FTransform α) : FAlsFootState α :=
  let FinalLocation := FVector.Lerp FootState.TargetLocation FootState.LockLocation FootState.LockAmount
  let FinalRotation :=
    FQuat.Normalize E (FQuat.FastLerp FootState.TargetRotation FootState.LockRotation FootState.LockAmount)
  { FootState with
    FinalLocation := ComponentTransformInverse.TransformPosition FinalLocation
    FinalRotation := ComponentTransformInverse.TransformRotation FinalRotation }

/-- Source function `RefreshFootLock` (AlsAnimationInstance.cpp:576). -/
def RefreshFootLock (E : Externals α) (s : UAlsAnimationInstance α)
    (Settings : UAlsAnimationInstanceSettings α) (IkAmount : α) (FootState : FAlsFootState α)
    (LockCurveName : FName) (ComponentTransformInverse : FTransform α) (DeltaTime : α) :
    FAlsFootState α :=
  let NewLockAmount := s.FootLockNewAmount FootState LockCurveName DeltaTime
  if Settings.Feet.bDisableFootLock = true ∨ ¬ FAnimWeight.IsRelevant (IkAmount * NewLockAmount) then
    FootLockDisabled FootState ComponentTransformInverse
  else
    FootLockFinal E
      (FootLockLimitAngle E s Settings
        (s.FootLockRebase (s.FootLockUpdateAmount FootState NewLockAmount ComponentTransformInverse)
          ComponentTransformInverse))
      ComponentTransformInverse

/-- Source function `RefreshFoot` (Als_TS_AnimInstance.cpp:181). -/
def RefreshFoot (E : Externals α) (s : UAlsAnimationInstance α)
    (Settings : UAlsAnimationInstanceSettings α) (FootState : FAlsFootState α)
    (IkCurveName LockCurveName : FName) (ComponentTransformInverse : FTransform α) (DeltaTime : α) :
    FAlsFootState α :=
  let IkAmount := s.GetCurveValueClamped01 IkCurveName
  let F1 := s.ProcessFootLockTeleport IkAmount FootState
  let F2 := s.ProcessFootLockBaseChange IkAmount F1 ComponentTransformInverse
  RefreshFootLock E s Settings IkAmount F2 LockCurveName ComponentTransformInverse DeltaTime

end UAlsAnimationInstance

/-! ## Spine, velocity blend, lean and movement (AlsAnimationInstance.cpp:141-514) -/

namespace UAlsAnimationInstance

/-- The re-basing of the spine amount when the rotation-allowed flag flips in `RefreshSpine`
(AlsAnimationInstance.cpp:148-180). -/
def SpineRebase (s : UAlsAnimationInstance α) : FAlsSpineState α :=
  if s.SpineState.bSpineRotationAllowed ≠ s.IsSpineRotationAllowed then
    let bAllowed := !s.SpineState.bSpineRotationAllowed
    let S1 : FAlsSpineState α :=
      if bAllowed = true then
        if FAnimWeight.IsFullWeight s.SpineState.SpineAmount then
          { s.SpineState with bSpineRotationAllowed := bAllowed, SpineAmountScale := 1, SpineAmountBias := 0 }
        else
          { s.SpineState with
            bSpineRotationAllowed := bAllowed
            SpineAmountScale := 1 / (1 - s.SpineState.SpineAmount)
            SpineAmountBias := -s.SpineState.SpineAmount * (1 / (1 - s.SpineState.SpineAmount)) }
      else
        { s.SpineState with
          bSpineRotationAllowed := bAllowed
          SpineAmountScale :=
            if ¬ FAnimWeight.IsRelevant s.SpineState.SpineAmount then 1 else 1 / s.SpineState.SpineAmount
          SpineAmountBias := 0 }
    { S1 with
      LastYawAngle := S1.CurrentYawAngle
      LastActorYawAngle := s.LocomotionState.Rotation.Yaw }
  else s.SpineState

/-- The interpolation of the spine amount and of the current yaw angle in `RefreshSpine`
(AlsAnimationInstance.cpp:182-240), on the spine state after re-basing. -/
def SpineInterpolate (E : Externals α) (s : UAlsAnimationInstance α) (S : FAlsSpineState α)
    (DeltaTime : α) : FAlsSpineState α :=
  if S.bSpineRotationAllowed = true then
    if s.bPendingUpdate = true ∨ FAnimWeight.IsFullWeight S.SpineAmount then
      { S with SpineAmount := 1, CurrentYawAngle := s.ViewState.YawAngle }
    else
      let Amount := UAlsMath.ExponentialDecay E S.SpineAmount 1 DeltaTime 20
      { S with
        SpineAmount := Amount
        CurrentYawAngle :=
          UAlsRotation.LerpAngle E S.LastYawAngle s.ViewState.YawAngle
            (Amount * S.SpineAmountScale + S.SpineAmountBias) }
  else
    if s.bPendingUpdate = true ∨ ¬ FAnimWeight.IsRelevant S.SpineAmount then
      { S with SpineAmount := 0, CurrentYawAngle := 0 }
    else
      let InterpolationSpeedMultiplier := max 1 (|s.ViewState.YawSpeed| / 40)
      let Amount := UAlsMath.ExponentialDecay E S.SpineAmount 0 DeltaTime (1 * InterpolationSpeedMultiplier)
      let LastActorYawAngle1 :=
        if s.MovementBase.bHasRelativeRotation = true then
          FMath.UnwindDegrees (S.LastActorYawAngle + s.MovementBase.DeltaRotation.Yaw)
        else S.LastActorYawAngle
      let YawAngleOffset :=
        FMath.Clamp (FMath.UnwindDegrees (LastActorYawAngle1 - s.LocomotionState.Rotation.Yaw)) (-30) 30
      { S with
        SpineAmount := Amount
        LastActorYawAngle := FMath.UnwindDegrees (YawAngleOffset + s.LocomotionState.Rotation.Yaw)
        CurrentYawAngle :=
          UAlsRotation.LerpAngle E 0 (S.LastYawAngle + YawAngleOffset)
            (Amount * S.SpineAmountScale + S.SpineAmountBias) }

/-- Source function `RefreshSpine` (AlsAnimationInstance.cpp:146). -/
def RefreshSpine (E : Externals α) (s : UAlsAnimationInstance α) (SpineBlendAmount DeltaTime : α) :
    UAlsAnimationInstance α :=
  let S := SpineInterpolate E s s.SpineRebase DeltaTime
  { s with SpineState := { S with YawAngle := UAlsRotation.LerpAngle E 0 S.CurrentYawAngle SpineBlendAmount } }

/-- Source function `InitializeLook` (AlsAnimationInstance.cpp:245). -/
def InitializeLook (s : UAlsAnimationInstance α) : UAlsAnimationInstance α :=
  { s with LookState := { s.LookState with bInitializationRequired := true } }

/-- Source function `InitializeLean` (AlsAnimationInstance.cpp:250). -/
def InitializeLean (s : UAlsAnimationInstance α) : UAlsAnimationInstance α :=
  { s with LeanState := { s.LeanState with RightAmount := 0, ForwardAmount := 0 } }

/-- Source function `InitializeGrounded` (AlsAnimationInstance.cpp:256). -/
def InitializeGrounded (s : UAlsAnimationInstance α) : UAlsAnimationInstance α :=
  { s with GroundedState :=
      { s.GroundedState with
        VelocityBlend := { s.GroundedState.VelocityBlend with bInitializationRequired := true } } }

/-- Source function `GetRelativeVelocity` (AlsAnimationInstance.cpp:261). -/
def GetRelativeVelocity (s : UAlsAnimationInstance α) : FVector α :=
  s.LocomotionState.RotationQuaternion.UnrotateVector s.LocomotionState.Velocity

/-- Source function `GetRelativeAccelerationAmount` (AlsAnimationInstance.cpp:266). -/
def GetRelativeAccelerationAmount (E : Externals α) (s : UAlsAnimationInstance α) : FVector2 α :=
  let MaxAcceleration :=
    if s.LocomotionState.Acceleration.dot s.LocomotionState.Velocity ≥ 0 then s.LocomotionState.MaxAcceleration
    else s.LocomotionState.MaxBrakingDeceleration
  if MaxAcceleration ≤ UE_KINDA_SMALL_NUMBER then ⟨0, 0⟩
  else
    let RelativeAcceleration :=
      s.LocomotionState.RotationQuaternion.UnrotateVector s.LocomotionState.Acceleration
    let Clamped := UAlsVector.ClampMagnitude01 E (RelativeAcceleration.divide MaxAcceleration)
    ⟨Clamped.X, Clamped.Y⟩

/-- The target of the velocity blend in `RefreshVelocityBlend` (AlsAnimationInstance.cpp:293-301):
the normalised relative velocity divided by the sum of the absolute values of its components. -/
def TargetVelocityBlend (E : Externals α) (s : UAlsAnimationInstance α) : FVector α :=
  let Normalized := FVector.Normalize E s.GetRelativeVelocity
  if Normalized.2 = true then
    Normalized.1.divide (|Normalized.1.X| + |Normalized.1.Y| + |Normalized.1.Z|)
  else FVector.ZeroVector

/-- Source function `RefreshVelocityBlend` (AlsAnimationInstance.cpp:285). -/
def RefreshVelocityBlend (E : Externals α) (s : UAlsAnimationInstance α)
    (Settings : UAlsAnimationInstanceSettings α) : UAlsAnimationInstance α :=
  let VelocityBlend := s.GroundedState.VelocityBlend
  let Target := TargetVelocityBlend E s
  let NewBlend : FAlsVelocityBlendState α :=
    if VelocityBlend.bInitializationRequired = true ∨ Settings.Grounded.VelocityBlendInterpolationSpeed ≤ 0 then
      { bInitializationRequired := false
        ForwardAmount := UAlsMath.Clamp01 Target.X
        BackwardAmount := |FMath.Clamp Target.X (-1) 0|
        LeftAmount := |FMath.Clamp Target.Y (-1) 0|
        RightAmount := UAlsMath.Clamp01 Target.Y }
    else
      let InterpolationAmount :=
        UAlsMath.ExponentialDecayAmount E s.GetDeltaSeconds Settings.Grounded.VelocityBlendInterpolationSpeed
      { VelocityBlend with
        ForwardAmount := FMath.Lerp VelocityBlend.ForwardAmount (UAlsMath.Clamp01 Target.X) InterpolationAmount
        BackwardAmount :=
          FMath.Lerp VelocityBlend.BackwardAmount |FMath.Clamp Target.X (-1) 0| InterpolationAmount
        LeftAmount := FMath.Lerp VelocityBlend.LeftAmount |FMath.Clamp Target.Y (-1) 0| InterpolationAmount
        RightAmount := FMath.Lerp VelocityBlend.RightAmount (UAlsMath.Clamp01 Target.Y) InterpolationAmount }
  { s with GroundedState := { s.GroundedState with VelocityBlend := NewBlend } }

/-- The interpolation of the lean amounts toward a target, shared by `RefreshGroundedLean`
(AlsAnimationInstance.cpp:336-347) and `RefreshInAirLean` (Als_TS_AnimInstance.cpp:561-572). -/
def LeanToward (E : Externals α) (s : UAlsAnimationInstance α)
    (Settings : UAlsAnimationInstanceSettings α) (TargetRight TargetForward : α) : UAlsAnimationInstance α :=
  if s.bPendingUpdate = true ∨ Settings.General.LeanInterpolationSpeed ≤ 0 then
    { s with LeanState := { s.LeanState with RightAmount := TargetRight, ForwardAmount := TargetForward } }
  else
    let InterpolationAmount :=
      UAlsMath.ExponentialDecayAmount E s.GetDeltaSeconds Settings.General.LeanInterpolationSpeed
    { s with LeanState :=
        { s.LeanState with
          RightAmount := FMath.Lerp s.LeanState.RightAmount TargetRight InterpolationAmount
          ForwardAmount := FMath.Lerp s.LeanState.ForwardAmount TargetForward InterpolationAmount } }

/-- Source function `RefreshGroundedLean` (AlsAnimationInstance.cpp:332). -/
def RefreshGroundedLean (E : Externals α) (s : UAlsAnimationInstance α)
    (Settings : UAlsAnimationInstanceSettings α) : UAlsAnimationInstance α :=
  let TargetLeanAmount := GetRelativeAccelerationAmount E s
  LeanToward E s Settings TargetLeanAmount.Y TargetLeanAmount.X

/-- Source function `RefreshMovementDirection` (AlsAnimationInstance.cpp:377). -/
def RefreshMovementDirection (E : Externals α) (s : UAlsAnimationInstance α)
    (ViewRelativeVelocityYawAngle : α) : UAlsAnimationInstance α :=
  if s.RotationMode = FGameplayTag.RotationMode_VelocityDirection ∨ s.Gait = FGameplayTag.Gait_Sprinting then
    { s with GroundedState := { s.GroundedState with MovementDirection := EAlsMovementDirection.Forward } }
  else
    { s with GroundedState :=
        { s.GroundedState with
          MovementDirection := E.CalculateMovementDirection ViewRelativeVelocityYawAngle 70 5 } }

/-- Source function `RefreshRotationYawOffsets` (AlsAnimationInstance.cpp:394). -/
def RefreshRotationYawOffsets (s : UAlsAnimationInstance α) (Settings : UAlsAnimationInstanceSettings α)
    (ViewRelativeVelocityYawAngle : α) : UAlsAnimationInstance α :=
  { s with GroundedState :=
      { s.GroundedState with
        RotationYawOffsets :=
          { ForwardAngle := Settings.Grounded.RotationYawOffsetForwardCurve.GetFloatValue ViewRelativeVelocityYawAngle
            BackwardAngle := Settings.Grounded.RotationYawOffsetBackwardCurve.GetFloatValue ViewRelativeVelocityYawAngle
            LeftAngle := Settings.Grounded.RotationYawOffsetLeftCurve.GetFloatValue ViewRelativeVelocityYawAngle
            RightAngle := Settings.Grounded.RotationYawOffsetRightCurve.GetFloatValue ViewRelativeVelocityYawAngle } } }

/-- Source function `RefreshGroundedMovement` (AlsAnimationInstance.cpp:350). -/
def RefreshGroundedMovement (E : Externals α) (s : UAlsAnimationInstance α) : UAlsAnimationInstance α :=
  if s.EditorPreviewSkip = true then s
  else
    match s.Settings with
    | none => s
    | some Settings =>
      let s1 : UAlsAnimationInstance α :=
        { s with GroundedState :=
            { s.GroundedState with
              HipsDirectionLockAmount := FMath.Clamp (s.GetCurveValue FName.HipsDirectionLockCurve) (-1) 1 } }
      let ViewRelativeVelocityYawAngle :=
        FMath.UnwindDegrees (s1.LocomotionState.VelocityYawAngle - s1.ViewState.Rotation.Yaw)
      RefreshRotationYawOffsets (RefreshMovementDirection E s1 ViewRelativeVelocityYawAngle) Settings
        ViewRelativeVelocityYawAngle

/-- Source function `InitializeStandingMovement` (AlsAnimationInstance.cpp:408). -/
def InitializeStandingMovement (s : UAlsAnimationInstance α) : UAlsAnimationInstance α :=
  { s with StandingState := { s.StandingState with SprintTime := 0, bPivotActive := false } }

/-- Source function `RefreshStandingMovement` (AlsAnimationInstance.cpp:414). -/
def RefreshStandingMovement (E : Externals α) (s : UAlsAnimationInstance α) : UAlsAnimationInstance α :=
  if s.EditorPreviewSkip = true then s
  else
    match s.Settings with
    | none => s
    | some Settings =>
      let Speed := s.LocomotionState.Speed / s.LocomotionState.Scale
      let StrideBlendAmount :=
        FMath.Lerp (Settings.Standing.StrideBlendAmountWalkCurve.GetFloatValue Speed)
          (Settings.Standing.StrideBlendAmountRunCurve.GetFloatValue Speed)
          s.PoseState.UnweightedGaitRunningAmount
      let WalkRunBlendAmount : α := if s.Gait = FGameplayTag.Gait_Walking then 0 else 1
      let WalkRunSpeedAmount :=
        FMath.Lerp (Speed / Settings.Standing.AnimatedWalkSpeed) (Speed / Settings.Standing.AnimatedRunSpeed)
          s.PoseState.UnweightedGaitRunningAmount
      let WalkRunSprintSpeedAmount :=
        FMath.Lerp WalkRunSpeedAmount (Speed / Settings.Standing.AnimatedSprintSpeed)
          s.PoseState.UnweightedGaitSprintingAmount
      let S1 : FAlsStandingState α :=
        { s.StandingState with
          StrideBlendAmount := StrideBlendAmount
          WalkRunBlendAmount := WalkRunBlendAmount
          PlayRate := FMath.Clamp (WalkRunSprintSpeedAmount / StrideBlendAmount) UE_KINDA_SMALL_NUMBER 3
          SprintBlockAmount := s.GetCurveValueClamped01 FName.SprintBlockCurve }
      if s.Gait ≠ FGameplayTag.Gait_Sprinting then
        { s with StandingState := { S1 with SprintTime := 0, SprintAccelerationAmount := 0 } }
      else
        let SprintTime := if s.bPendingUpdate = true then 5 / 10 else S1.SprintTime + s.GetDeltaSeconds
        { s with StandingState :=
            { S1 with
              SprintTime := SprintTime
              SprintAccelerationAmount :=
                if SprintTime ≥ 5 / 10 then 0 else (GetRelativeAccelerationAmount E s).X } }

/-- Source function `ActivatePivot` (AlsAnimationInstance.cpp:485).  The function dereferences
`Settings` without a validity check; `none` stands for the dereference of an unbound settings
object. -/
def ActivatePivot (s : UAlsAnimationInstance α) : Option (UAlsAnimationInstance α) :=
  match s.Settings with
  | none => none
  | some Settings =>
    some { s with StandingState :=
      { s.StandingState with
        bPivotActive := decide (s.LocomotionState.Speed < Settings.Standing.PivotActivationSpeedThreshold) } }

/-- Source function `RefreshCrouchingMovement` (AlsAnimationInstance.cpp:490). -/
def RefreshCrouchingMovement (s : UAlsAnimationInstance α) : UAlsAnimationInstance α :=
  if s.EditorPreviewSkip = true then s
  else
    match s.Settings with
    | none => s
    | some Settings =>
      let Speed := s.LocomotionState.Speed / s.LocomotionState.Scale
      let StrideBlendAmount := Settings.Crouching.StrideBlendAmountCurve.GetFloatValue Speed
      { s with CrouchingState :=
          { s.CrouchingState with
            StrideBlendAmount := StrideBlendAmount
            PlayRate :=
              FMath.Clamp (Speed / (Settings.Crouching.AnimatedCrouchSpeed * StrideBlendAmount))
                UE_KINDA_SMALL_NUMBER 2 } }

end UAlsAnimationInstance

/-! ## Queued transitions and turn in place (AlsAnimationInstance.cpp:84-115, 715-890)

The `check(IsInGameThread())` assertions are not modelled: the functions that carry one are
called here only where the sources call them, on the game thread. -/

namespace UAlsAnimationInstance

/-- Source function `PlayQueuedTransitionAnimation` (AlsAnimationInstance.cpp:812). -/
def PlayQueuedTransitionAnimation (s : UAlsAnimationInstance α) : UAlsAnimationInstance α :=
  if s.TransitionsState.bStopTransitionsQueued = true ∨ s.TransitionsState.QueuedTransitionSequence.isSome = false then
    s
  else
    { s with
      MontageRequests :=
        FMontageRequest.PlaySlotAnimationAsDynamicMontage s.TransitionsState.QueuedTransitionSequence
          FName.TransitionSlot s.TransitionsState.QueuedTransitionBlendInDuration
          s.TransitionsState.QueuedTransitionBlendOutDuration s.TransitionsState.QueuedTransitionPlayRate 1 0
          s.TransitionsState.QueuedTransitionStartTime :: s.MontageRequests
      TransitionsState :=
        { s.TransitionsState with
          QueuedTransitionSequence := none
          QueuedTransitionBlendInDuration := 0
          QueuedTransitionBlendOutDuration := 0
          QueuedTransitionPlayRate := 1
          QueuedTransitionStartTime := 0 } }

/-- Source function `StopQueuedTransitionAndTurnInPlaceAnimations` (AlsAnimationInstance.cpp:832). -/
def StopQueuedTransitionAndTurnInPlaceAnimations (s : UAlsAnimationInstance α) : UAlsAnimationInstance α :=
  if s.TransitionsState.bStopTransitionsQueued = false then s
  else
    { s with
      MontageRequests :=
        FMontageRequest.StopSlotAnimation s.TransitionsState.QueuedStopTransitionsBlendOutDuration
            FName.TurnInPlaceCrouchingSlot ::
          FMontageRequest.StopSlotAnimation s.TransitionsState.QueuedStopTransitionsBlendOutDuration
            FName.TurnInPlaceStandingSlot ::
          FMontageRequest.StopSlotAnimation s.TransitionsState.QueuedStopTransitionsBlendOutDuration
            FName.TransitionSlot :: s.MontageRequests
      TransitionsState :=
        { s.TransitionsState with
          bStopTransitionsQueued := false
          QueuedStopTransitionsBlendOutDuration := 0 } }

/-- Source function `PlayQueuedTurnInPlaceAnimation` (AlsAnimationInstance.cpp:864). -/
def PlayQueuedTurnInPlaceAnimation (s : UAlsAnimationInstance α)
    (Settings : UAlsAnimationInstanceSettings α) : UAlsAnimationInstance α :=
  if s.TransitionsState.bStopTransitionsQueued = true then s
  else
    match s.TurnInPlaceState.QueuedSettings with
    | none => s
    | some TurnInPlaceSettings =>
      let PlayRate :=
        if TurnInPlaceSettings.bScalePlayRateByAnimatedTurnAngle = true then
          TurnInPlaceSettings.PlayRate *
            |s.TurnInPlaceState.QueuedTurnYawAngle / TurnInPlaceSettings.AnimatedTurnAngle|
        else TurnInPlaceSettings.PlayRate
      { s with
        MontageRequests :=
          FMontageRequest.PlaySlotAnimationAsDynamicMontage TurnInPlaceSettings.Sequence
            s.TurnInPlaceState.QueuedSlotName Settings.TurnInPlace.BlendDuration
            Settings.TurnInPlace.BlendDuration TurnInPlaceSettings.PlayRate 1 0 0 :: s.MontageRequests
        TurnInPlaceState :=
          { s.TurnInPlaceState with
            PlayRate := PlayRate
            QueuedSettings := none
            QueuedSlotName := FName.NAME_None
            QueuedTurnYawAngle := 0 } }

/-- Source function `NativePostUpdateAnimation` (AlsAnimationInstance.cpp:84); the editor-only
debug drawing is left out. -/
def NativePostUpdateAnimation (s : UAlsAnimationInstance α) : UAlsAnimationInstance α :=
  match s.Settings with
  | none => s
  | some Settings =>
    if s.Character.isSome = false then s
    else
      let s1 := s.PlayQueuedTransitionAnimation
      let s2 := s1.PlayQueuedTurnInPlaceAnimation Settings
      let s3 := s2.StopQueuedTransitionAndTurnInPlaceAnimations
      { s3 with bPendingUpdate := false }

/-- Source function `PlayTransitionAnimation` (AlsAnimationInstance.cpp:753). -/
def PlayTransitionAnimation (s : UAlsAnimationInstance α) (Sequence : Option UAnimSequenceBase)
    (BlendInDuration BlendOutDuration PlayRate StartTime : α) (bFromStandingIdleOnly : Bool) :
    UAlsAnimationInstance α :=
  if bFromStandingIdleOnly = true ∧
      (s.LocomotionState.bMoving = true ∨ s.Stance ≠ FGameplayTag.Stance_Standing) then
    s
  else
    let s1 : UAlsAnimationInstance α :=
      { s with TransitionsState :=
          { s.TransitionsState with
            QueuedTransitionSequence := Sequence
            QueuedTransitionBlendInDuration := BlendInDuration
            QueuedTransitionBlendOutDuration := BlendOutDuration
            QueuedTransitionPlayRate := PlayRate
            QueuedTransitionStartTime := StartTime } }
    if s1.bInGameThread = true then s1.PlayQueuedTransitionAnimation else s1

/-- Source function `PlayTransitionLeftAnimation` (AlsAnimationInstance.cpp:775). -/
def PlayTransitionLeftAnimation (s : UAlsAnimationInstance α)
    (BlendInDuration BlendOutDuration PlayRate StartTime : α) (bFromStandingIdleOnly : Bool) :
    UAlsAnimationInstance α :=
  match s.Settings with
  | none => s
  | some Settings =>
    s.PlayTransitionAnimation
      (if s.Stance = FGameplayTag.Stance_Crouching then Settings.Transitions.CrouchingLeftSequence
       else Settings.Transitions.StandingLeftSequence)
      BlendInDuration BlendOutDuration PlayRate StartTime bFromStandingIdleOnly

/-- Source function `PlayTransitionRightAnimation` (AlsAnimationInstance.cpp:788). -/
def PlayTransitionRightAnimation (s : UAlsAnimationInstance α)
    (BlendInDuration BlendOutDuration PlayRate StartTime : α) (bFromStandingIdleOnly : Bool) :
    UAlsAnimationInstance α :=
  match s.Settings with
  | none => s
  | some Settings =>
    s.PlayTransitionAnimation
      (if s.Stance = FGameplayTag.Stance_Crouching then Settings.Transitions.CrouchingRightSequence
       else Settings.Transitions.StandingRightSequence)
      BlendInDuration BlendOutDuration PlayRate StartTime bFromStandingIdleOnly

/-- Source function `PlayQuickStopAnimation` (AlsAnimationInstance.cpp:715). -/
def PlayQuickStopAnimation (E : Externals α) (s : UAlsAnimationInstance α) : UAlsAnimationInstance α :=
  match s.Settings with
  | none => s
  | some Settings =>
    if s.RotationMode ≠ FGameplayTag.RotationMode_VelocityDirection then
      s.PlayTransitionLeftAnimation Settings.Transitions.QuickStopBlendInDuration
        Settings.Transitions.QuickStopBlendOutDuration Settings.Transitions.QuickStopPlayRate.X
        Settings.Transitions.QuickStopStartTime false
    else
      let RemainingYawAngle :=
        UAlsRotation.RemapAngleForCounterClockwiseRotation E
          (FMath.UnwindDegrees
            ((if s.LocomotionState.bHasInput = true then s.LocomotionState.InputYawAngle
              else s.LocomotionState.TargetYawAngle) - s.LocomotionState.Rotation.Yaw))
      let PlayRate :=
        FMath.Lerp Settings.Transitions.QuickStopPlayRate.X Settings.Transitions.QuickStopPlayRate.Y
          (|RemainingYawAngle| / 180)
      if RemainingYawAngle ≤ 0 then
        s.PlayTransitionLeftAnimation Settings.Transitions.QuickStopBlendInDuration
          Settings.Transitions.QuickStopBlendOutDuration PlayRate Settings.Transitions.QuickStopStartTime false
      else
        s.PlayTransitionRightAnimation Settings.Transitions.QuickStopBlendInDuration
          Settings.Transitions.QuickStopBlendOutDuration PlayRate Settings.Transitions.QuickStopStartTime false

/-- Source function `StopTransitionAndTurnInPlaceAnimations` (AlsAnimationInstance.cpp:801). -/
def StopTransitionAndTurnInPlaceAnimations (s : UAlsAnimationInstance α) (BlendOutDuration : α) :
    UAlsAnimationInstance α :=
  let s1 : UAlsAnimationInstance α :=
    { s with TransitionsState :=
        { s.TransitionsState with
          bStopTransitionsQueued := true
          QueuedStopTransitionsBlendOutDuration := BlendOutDuration } }
  if s1.bInGameThread = true then s1.StopQueuedTransitionAndTurnInPlaceAnimations else s1

/-- Source function `InitializeTurnInPlace` (AlsAnimationInstance.cpp:859). -/
def InitializeTurnInPlace (s : UAlsAnimationInstance α) : UAlsAnimationInstance α :=
  { s with TurnInPlaceState := { s.TurnInPlaceState with ActivationDelay := 0 } }

end UAlsAnimationInstance

/-! ## Thread-safe update (Als_TS_AnimInstance.cpp) -/

namespace UAlsAnimationInstance

/-- Source function `TS_RefreshLayering` (Als_TS_AnimInstance.cpp:61). -/
def TS_RefreshLayering (s : UAlsAnimationInstance α) : UAlsAnimationInstance α :=
  let GetCurveValue := fun (CurveName : FName) => (s.Proxy.AnimationCurves CurveName).getD 0
  { s with LayeringState :=
      { HeadBlendAmount := GetCurveValue FName.LayerHeadCurve
        HeadAdditiveBlendAmount := GetCurveValue FName.LayerHeadAdditiveCurve
        HeadSlotBlendAmount := GetCurveValue FName.LayerHeadSlotCurve
        ArmLeftBlendAmount := GetCurveValue FName.LayerArmLeftCurve
        ArmLeftAdditiveBlendAmount := GetCurveValue FName.LayerArmLeftAdditiveCurve
        ArmLeftSlotBlendAmount := GetCurveValue FName.LayerArmLeftSlotCurve
        ArmLeftLocalSpaceBlendAmount := GetCurveValue FName.LayerArmLeftLocalSpaceCurve
        ArmLeftMeshSpaceBlendAmount :=
          if ¬ FAnimWeight.IsFullWeight (GetCurveValue FName.LayerArmLeftLocalSpaceCurve) then 1 else 0
        ArmRightBlendAmount := GetCurveValue FName.LayerArmRightCurve
        ArmRightAdditiveBlendAmount := GetCurveValue FName.LayerArmRightAdditiveCurve
        ArmRightSlotBlendAmount := GetCurveValue FName.LayerArmRightSlotCurve
        ArmRightLocalSpaceBlendAmount := GetCurveValue FName.LayerArmRightLocalSpaceCurve
        ArmRightMeshSpaceBlendAmount :=
          if ¬ FAnimWeight.IsFullWeight (GetCurveValue FName.LayerArmRightLocalSpaceCurve) then 1 else 0
        HandLeftBlendAmount := GetCurveValue FName.LayerHandLeftCurve
        HandRightBlendAmount := GetCurveValue FName.LayerHandRightCurve
        SpineBlendAmount := GetCurveValue FName.LayerSpineCurve
        SpineAdditiveBlendAmount := GetCurveValue FName.LayerSpineAdditiveCurve
        SpineSlotBlendAmount := GetCurveValue FName.LayerSpineSlotCurve
        PelvisBlendAmount := GetCurveValue FName.LayerPelvisCurve
        PelvisSlotBlendAmount := GetCurveValue FName.LayerPelvisSlotCurve
        LegsBlendAmount := GetCurveValue FName.LayerLegsCurve
        LegsSlotBlendAmount := GetCurveValue FName.LayerLegsSlotCurve } }

/-- Source function `TS_RefreshPose` (Als_TS_AnimInstance.cpp:106). -/
def TS_RefreshPose (s : UAlsAnimationInstance α) : UAlsAnimationInstance α :=
  let GetCurveValue := fun (CurveName : FName) => (s.Proxy.AnimationCurves CurveName).getD 0
  let GroundedAmount := GetCurveValue FName.PoseGroundedCurve
  let GaitAmount := FMath.Clamp (GetCurveValue FName.PoseGaitCurve) 0 3
  let UnweightedGaitAmount :=
    if GroundedAmount > UE_SMALL_NUMBER then GaitAmount / GroundedAmount else GaitAmount
  { s with PoseState :=
      { GroundedAmount := GroundedAmount
        InAirAmount := GetCurveValue FName.PoseInAirCurve
        StandingAmount := GetCurveValue FName.PoseStandingCurve
        CrouchingAmount := GetCurveValue FName.PoseCrouchingCurve
        MovingAmount := GetCurveValue FName.PoseMovingCurve
        GaitAmount := GaitAmount
        GaitWalkingAmount := UAlsMath.Clamp01 GaitAmount
        GaitRunningAmount := UAlsMath.Clamp01 (GaitAmount - 1)
        GaitSprintingAmount := UAlsMath.Clamp01 (GaitAmount - 2)
        UnweightedGaitAmount := UnweightedGaitAmount
        UnweightedGaitWalkingAmount := UAlsMath.Clamp01 UnweightedGaitAmount
        UnweightedGaitRunningAmount := UAlsMath.Clamp01 (UnweightedGaitAmount - 1)
        UnweightedGaitSprintingAmount := UAlsMath.Clamp01 (UnweightedGaitAmount - 2) } }

/-- Source function `TS_RefreshView` (Als_TS_AnimInstance.cpp:141). -/
def TS_RefreshView (E : Externals α) (s : UAlsAnimationInstance α) (DeltaTime : α) :
    UAlsAnimationInstance α :=
  let s1 : UAlsAnimationInstance α :=
    if s.LocomotionAction.IsValid = false then
      let PitchAngle := FMath.UnwindDegrees (s.ViewState.Rotation.Pitch - s.LocomotionState.Rotation.Pitch)
      { s with ViewState :=
          { s.ViewState with
            YawAngle := FMath.UnwindDegrees (s.ViewState.Rotation.Yaw - s.LocomotionState.Rotation.Yaw)
            PitchAngle := PitchAngle
            PitchAmount := 5 / 10 - PitchAngle / 180 } }
    else s
  let ViewAmount := 1 - s1.GetCurveValueClamped01 FName.ViewBlockCurve
  let AimingAmount := s1.GetCurveValueClamped01 FName.AllowAimingCurve
  let s2 : UAlsAnimationInstance α :=
    { s1 with ViewState := { s1.ViewState with LookAmount := ViewAmount * (1 - AimingAmount) } }
  RefreshSpine E s2 (ViewAmount * AimingAmount) DeltaTime

/-- Source function `TS_RefreshFeet` (Als_TS_AnimInstance.cpp:159). -/
def TS_RefreshFeet (E : Externals α) (s : UAlsAnimationInstance α)
    (Settings : UAlsAnimationInstanceSettings α) (DeltaTime : α) : UAlsAnimationInstance α :=
  let s1 : UAlsAnimationInstance α :=
    { s with FeetState :=
        { s.FeetState with
          FootPlantedAmount := FMath.Clamp (s.GetCurveValue FName.FootPlantedCurve) (-1) 1
          FeetCrossingAmount := s.GetCurveValueClamped01 FName.FeetCrossingCurve } }
  let ComponentTransformInverse := E.TransformInverse s1.Proxy.ComponentTransform
  let s2 : UAlsAnimationInstance α :=
    { s1 with FeetState :=
        { s1.FeetState with
          Left := RefreshFoot E s1 Settings s1.FeetState.Left FName.FootLeftIkCurve FName.FootLeftLockCurve
            ComponentTransformInverse DeltaTime } }
  { s2 with FeetState :=
      { s2.FeetState with
        Right := RefreshFoot E s2 Settings s2.FeetState.Right FName.FootRightIkCurve FName.FootRightLockCurve
          ComponentTransformInverse DeltaTime } }

/-- Source function `TS_RefreshTransitions` (Als_TS_AnimInstance.cpp:173). -/
def TS_RefreshTransitions (s : UAlsAnimationInstance α) : UAlsAnimationInstance α :=
  { s with TransitionsState :=
      { s.TransitionsState with
        bTransitionsAllowed := decide (FAnimWeight.IsFullWeight (s.GetCurveValue FName.AllowTransitionsCurve)) } }

/-- Source function `TS_Refresh` (Als_TS_AnimInstance.cpp:52). -/
def TS_Refresh (E : Externals α) (s : UAlsAnimationInstance α)
    (Settings : UAlsAnimationInstanceSettings α) (DeltaTime : α) : UAlsAnimationInstance α :=
  TS_RefreshTransitions
    (TS_RefreshFeet E (TS_RefreshView E (TS_RefreshPose (TS_RefreshLayering s)) DeltaTime) Settings DeltaTime)

/-- Source function `NativeThreadSafeUpdateAnimation` (Als_TS_AnimInstance.cpp:30). -/
def NativeThreadSafeUpdateAnimation (E : Externals α) (s : UAlsAnimationInstance α) (DeltaTime : α) :
    UAlsAnimationInstance α :=
  match s.Settings with
  | none => s
  | some Settings =>
    if s.Character.isSome = false then s
    else
      let s1 : UAlsAnimationInstance α :=
        { s with
          DynamicTransitionsState := { s.DynamicTransitionsState with bUpdatedThisFrame := false }
          RotateInPlaceState := { s.RotateInPlaceState with bUpdatedThisFrame := false }
          TurnInPlaceState := { s.TurnInPlaceState with bUpdatedThisFrame := false } }
      TS_Refresh E s1 Settings DeltaTime

/-- The sequence `RefreshDynamicTransitions` selects for the two feet
(Als_TS_AnimInstance.cpp:227-267): nothing when neither foot is far enough from its lock location,
otherwise the sequence of the stance for the foot with the greater lock distance. -/
def SelectDynamicTransitionSequence (s : UAlsAnimationInstance α)
    (Settings : UAlsAnimationInstanceSettings α) : Option UAnimSequenceBase :=
  let FootLockDistanceThresholdSquared :=
    FMath.Square (Settings.DynamicTransitions.FootLockDistanceThreshold * s.LocomotionState.Scale)
  let FootLockLeftDistanceSquared :=
    FVector.DistSquared s.FeetState.Left.TargetLocation s.FeetState.Left.LockLocation
  let FootLockRightDistanceSquared :=
    FVector.DistSquared s.FeetState.Right.TargetLocation s.FeetState.Right.LockLocation
  let bTransitionLeftAllowed : Bool :=
    decide (FAnimWeight.IsRelevant s.FeetState.Left.LockAmount ∧
      FootLockLeftDistanceSquared > FootLockDistanceThresholdSquared)
  let bTransitionRightAllowed : Bool :=
    decide (FAnimWeight.IsRelevant s.FeetState.Right.LockAmount ∧
      FootLockRightDistanceSquared > FootLockDistanceThresholdSquared)
  let LeftSequence :=
    if s.Stance = FGameplayTag.Stance_Crouching then Settings.DynamicTransitions.CrouchingLeftSequence
    else Settings.DynamicTransitions.StandingLeftSequence
  let RightSequence :=
    if s.Stance = FGameplayTag.Stance_Crouching then Settings.DynamicTransitions.CrouchingRightSequence
    else Settings.DynamicTransitions.StandingRightSequence
  if bTransitionLeftAllowed = false ∧ bTransitionRightAllowed = false then none
  else if bTransitionLeftAllowed = false then RightSequence
  else if bTransitionRightAllowed = false then LeftSequence
  else if FootLockLeftDistanceSquared ≥ FootLockRightDistanceSquared then LeftSequence
  else RightSequence

/-- The queueing of the selected sequence in `RefreshDynamicTransitions`
(Als_TS_AnimInstance.cpp:269-287): the cooldown of two frames is started, the request is queued,
and it is played at once on the game thread. -/
def QueueDynamicTransition (s : UAlsAnimationInstance α) (Settings : UAlsAnimationInstanceSettings α)
    (DynamicTransitionSequence : UAnimSequenceBase) : UAlsAnimationInstance α :=
  let s1 : UAlsAnimationInstance α :=
    { s with
      DynamicTransitionsState := { s.DynamicTransitionsState with FrameDelay := 2 }
      TransitionsState :=
        { s.TransitionsState with
          QueuedTransitionSequence := some DynamicTransitionSequence
          QueuedTransitionBlendInDuration := Settings.DynamicTransitions.BlendDuration
          QueuedTransitionBlendOutDuration := Settings.DynamicTransitions.BlendDuration
          QueuedTransitionPlayRate := Settings.DynamicTransitions.PlayRate
          QueuedTransitionStartTime := 0 } }
  if s1.bInGameThread = true then s1.PlayQueuedTransitionAnimation else s1

/-- Source function `RefreshDynamicTransitions` (Als_TS_AnimInstance.cpp:192). -/
def RefreshDynamicTransitions (s : UAlsAnimationInstance α) : UAlsAnimationInstance α :=
  if s.EditorPreviewSkip = true then s
  else
    match s.Settings with
    | none => s
    | some Settings =>
      if s.DynamicTransitionsState.bUpdatedThisFrame = true then s
      else
        let s1 : UAlsAnimationInstance α :=
          { s with DynamicTransitionsState := { s.DynamicTransitionsState with bUpdatedThisFrame := true } }
        if s1.DynamicTransitionsState.FrameDelay > 0 then
          { s1 with DynamicTransitionsState :=
              { s1.DynamicTransitionsState with FrameDelay := s1.DynamicTransitionsState.FrameDelay - 1 } }
        else if s1.TransitionsState.bTransitionsAllowed = false then s1
        else
          match SelectDynamicTransitionSequence s1 Settings with
          | none => s1
          | some DynamicTransitionSequence => QueueDynamicTransition s1 Settings DynamicTransitionSequence

/-- Source function `RefreshRotateInPlace` (Als_TS_AnimInstance.cpp:290). -/
def RefreshRotateInPlace (s : UAlsAnimationInstance α) : UAlsAnimationInstance α :=
  if s.EditorPreviewSkip = true then s
  else
    match s.Settings with
    | none => s
    | some Settings =>
      if s.RotateInPlaceState.bUpdatedThisFrame = true then s
      else
        let R1 : FAlsRotateInPlaceState α :=
          if s.LocomotionState.bMoving = true ∨ s.IsRotateInPlaceAllowed = false then
            { s.RotateInPlaceState with
              bUpdatedThisFrame := true, bRotatingLeft := false, bRotatingRight := false }
          else
            { s.RotateInPlaceState with
              bUpdatedThisFrame := true
              bRotatingLeft := decide (s.ViewState.YawAngle < -Settings.RotateInPlace.ViewYawAngleThreshold)
              bRotatingRight := decide (s.ViewState.YawAngle > Settings.RotateInPlace.ViewYawAngleThreshold) }
        if R1.bRotatingLeft = false ∧ R1.bRotatingRight = false then
          { s with RotateInPlaceState :=
              { R1 with
                PlayRate :=
                  if s.bPendingUpdate = true then Settings.RotateInPlace.PlayRate.X
                  else FMath.FInterpTo R1.PlayRate Settings.RotateInPlace.PlayRate.X s.GetDeltaSeconds 5 } }
        else
          let PlayRate :=
            FMath.GetMappedRangeValueClamped Settings.RotateInPlace.ReferenceViewYawSpeed
              Settings.RotateInPlace.PlayRate s.ViewState.YawSpeed
          { s with RotateInPlaceState :=
              { R1 with
                PlayRate :=
                  if s.bPendingUpdate = true then PlayRate
                  else FMath.FInterpTo R1.PlayRate PlayRate s.GetDeltaSeconds 5 } }

/-- The preset and slot `RefreshTurnInPlace` selects by stance, direction and turn size
(Als_TS_AnimInstance.cpp:392-424). -/
def SelectTurnInPlaceSettings (E : Externals α) (s : UAlsAnimationInstance α)
    (Settings : UAlsAnimationInstanceSettings α) : Option (UAlsTurnInPlaceSettings α) × FName :=
  let bTurnLeft : Bool :=
    decide (UAlsRotation.RemapAngleForCounterClockwiseRotation E s.ViewState.YawAngle ≤ 0)
  if s.Stance = FGameplayTag.Stance_Standing then
    if |s.ViewState.YawAngle| < Settings.TurnInPlace.Turn180AngleThreshold then
      (if bTurnLeft = true then Settings.TurnInPlace.StandingTurn90Left
       else Settings.TurnInPlace.StandingTurn90Right, FName.TurnInPlaceStandingSlot)
    else
      (if bTurnLeft = true then Settings.TurnInPlace.StandingTurn180Left
       else Settings.TurnInPlace.StandingTurn180Right, FName.TurnInPlaceStandingSlot)
  else if s.Stance = FGameplayTag.Stance_Crouching then
    if |s.ViewState.YawAngle| < Settings.TurnInPlace.Turn180AngleThreshold then
      (if bTurnLeft = true then Settings.TurnInPlace.CrouchingTurn90Left
       else Settings.TurnInPlace.CrouchingTurn90Right, FName.TurnInPlaceCrouchingSlot)
    else
      (if bTurnLeft = true then Settings.TurnInPlace.CrouchingTurn180Left
       else Settings.TurnInPlace.CrouchingTurn180Right, FName.TurnInPlaceCrouchingSlot)
  else (none, FName.NAME_None)

/-- Source function `RefreshTurnInPlace` (Als_TS_AnimInstance.cpp:343). -/
def RefreshTurnInPlace (E : Externals α) (s : UAlsAnimationInstance α) : UAlsAnimationInstance α :=
  if s.EditorPreviewSkip = true then s
  else
    match s.Settings with
    | none => s
    | some Settings =>
      if s.TurnInPlaceState.bUpdatedThisFrame = true then s
      else
        let s1 : UAlsAnimationInstance α :=
          { s with TurnInPlaceState := { s.TurnInPlaceState with bUpdatedThisFrame := true } }
        if s1.TransitionsState.bTransitionsAllowed = false ∨ s1.IsTurnInPlaceAllowed = false then
          { s1 with TurnInPlaceState := { s1.TurnInPlaceState with ActivationDelay := 0 } }
        else if s1.ViewState.YawSpeed ≥ Settings.TurnInPlace.ViewYawSpeedThreshold ∨
            |s1.ViewState.YawAngle| ≤ Settings.TurnInPlace.ViewYawAngleThreshold then
          { s1 with TurnInPlaceState := { s1.TurnInPlaceState with ActivationDelay := 0 } }
        else
          let s2 : UAlsAnimationInstance α :=
            { s1 with TurnInPlaceState :=
                { s1.TurnInPlaceState with
                  ActivationDelay := s1.TurnInPlaceState.ActivationDelay + s1.GetDeltaSeconds } }
          let ActivationDelay :=
            FMath.GetMappedRangeValueClamped ⟨Settings.TurnInPlace.ViewYawAngleThreshold, 180⟩
              Settings.TurnInPlace.ViewYawAngleToActivationDelay |s2.ViewState.YawAngle|
          if s2.TurnInPlaceState.ActivationDelay ≤ ActivationDelay then s2
          else
            match SelectTurnInPlaceSettings E s2 Settings with
            | (none, _) => s2
            | (some TurnInPlaceSettings, TurnInPlaceSlotName) =>
              if TurnInPlaceSettings.Sequence.isSome = false then s2
              else
                let s3 : UAlsAnimationInstance α :=
                  { s2 with TurnInPlaceState :=
                      { s2.TurnInPlaceState with
                        QueuedSettings := some TurnInPlaceSettings
                        QueuedSlotName := TurnInPlaceSlotName
                        QueuedTurnYawAngle := s2.ViewState.YawAngle } }
                if s3.bInGameThread = true then s3.PlayQueuedTurnInPlaceAnimation Settings else s3

end UAlsAnimationInstance

namespace UAlsAnimationInstance

/-- Source function `RefreshGroundPrediction` (Als_TS_AnimInstance.cpp:477); the editor-only debug
drawing is left out. -/
def RefreshGroundPrediction (E : Externals α) (s : UAlsAnimationInstance α)
    (Settings : UAlsAnimationInstanceSettings α) : UAlsAnimationInstance α :=
  if s.InAirState.VerticalVelocity > -200 then
    { s with InAirState := { s.InAirState with GroundPredictionAmount := 0 } }
  else
    let AllowanceAmount := 1 - s.GetCurveValueClamped01 FName.GroundPredictionBlockCurve
    if AllowanceAmount ≤ UE_KINDA_SMALL_NUMBER then
      { s with InAirState := { s.InAirState with GroundPredictionAmount := 0 } }
    else
      let SweepStartLocation := s.LocomotionState.Location
      let VelocityDirection :=
        (FVector.Normalize E
          { s.LocomotionState.Velocity with Z := FMath.Clamp s.LocomotionState.Velocity.Z (-4000) (-200) }).1
      let SweepVector :=
        (VelocityDirection.scale
          (FMath.GetMappedRangeValueClamped ⟨-200, -4000⟩ ⟨150, 2000⟩ s.InAirState.VerticalVelocity)).scale
          s.LocomotionState.Scale
      let Hit :=
        E.SweepSingleByChannel SweepStartLocation (SweepStartLocation.add SweepVector)
          s.LocomotionState.CapsuleRadius s.LocomotionState.CapsuleHalfHeight
      let bGroundValid : Bool :=
        Hit.IsValidBlockingHit && decide (Hit.ImpactNormal.Z ≥ s.LocomotionState.WalkableFloorAngleCos)
      { s with InAirState :=
          { s.InAirState with
            GroundPredictionAmount :=
              if bGroundValid = true then
                Settings.InAir.GroundPredictionAmountCurve.GetFloatValue Hit.Time * AllowanceAmount
              else 0 } }

/-- Source function `RefreshInAirLean` (Als_TS_AnimInstance.cpp:550). -/
def RefreshInAirLean (E : Externals α) (s : UAlsAnimationInstance α)
    (Settings : UAlsAnimationInstanceSettings α) : UAlsAnimationInstance α :=
  let TargetLeanAmount :=
    (s.GetRelativeVelocity.divide 350).scale
      (Settings.InAir.LeanAmountCurve.GetFloatValue s.InAirState.VerticalVelocity)
  LeanToward E s Settings TargetLeanAmount.Y TargetLeanAmount.X

/-- Source function `RefreshInAir` (Als_TS_AnimInstance.cpp:441). -/
def RefreshInAir (E : Externals α) (s : UAlsAnimationInstance α) : UAlsAnimationInstance α :=
  if s.EditorPreviewSkip = true then s
  else
    match s.Settings with
    | none => s
    | some Settings =>
      let s1 : UAlsAnimationInstance α :=
        if s.InAirState.bJumped = true then
          { s with InAirState :=
              { s.InAirState with
                bJumped := false
                JumpPlayRate := UAlsMath.LerpClamped (12 / 10) (15 / 10) (s.LocomotionState.Speed / 600) } }
        else s
      let s2 : UAlsAnimationInstance α :=
        { s1 with InAirState := { s1.InAirState with VerticalVelocity := s1.LocomotionState.Velocity.Z } }
      RefreshInAirLean E (RefreshGroundPrediction E s2 Settings) Settings

/-- Source function `RefreshGrounded` (Als_TS_AnimInstance.cpp:576). -/
def RefreshGrounded (E : Externals α) (s : UAlsAnimationInstance α) : UAlsAnimationInstance α :=
  if s.EditorPreviewSkip = true then s
  else
    match s.Settings with
    | none => s
    | some Settings => RefreshGroundedLean E (RefreshVelocityBlend E s Settings) Settings

/-- The target yaw angle, target pitch angle and interpolation speed `RefreshLook` works with
(Als_TS_AnimInstance.cpp:623-644). -/
def LookTarget (s : UAlsAnimationInstance α) (Settings : UAlsAnimationInstanceSettings α) : α × α × α :=
  if s.RotationMode = FGameplayTag.RotationMode_VelocityDirection then
    (FMath.UnwindDegrees
      ((if s.LocomotionState.bHasInput = true then s.LocomotionState.InputYawAngle
        else s.LocomotionState.TargetYawAngle) - s.LocomotionState.Rotation.Yaw),
     0, Settings.View.LookTowardsInputYawAngleInterpolationSpeed)
  else
    (s.ViewState.YawAngle, s.ViewState.PitchAngle, Settings.View.LookTowardsCameraRotationInterpolationSpeed)

/-- Source function `RefreshLook` (Als_TS_AnimInstance.cpp:598). -/
def RefreshLook (E : Externals α) (s : UAlsAnimationInstance α) : UAlsAnimationInstance α :=
  if s.EditorPreviewSkip = true then s
  else
    match s.Settings with
    | none => s
    | some Settings =>
      let ActorYawAngle := s.LocomotionState.Rotation.Yaw
      let L0 : FAlsLookState α :=
        if s.MovementBase.bHasRelativeRotation = true then
          { s.LookState with
            WorldYawAngle := FMath.UnwindDegrees (s.LookState.WorldYawAngle + s.MovementBase.DeltaRotation.Yaw) }
        else s.LookState
      let TargetYawAngle := (LookTarget s Settings).1
      let TargetPitchAngle := (LookTarget s Settings).2.1
      let InterpolationSpeed := (LookTarget s Settings).2.2
      let L1 : FAlsLookState α :=
        if L0.bInitializationRequired = true ∨ InterpolationSpeed ≤ 0 then
          { L0 with YawAngle := TargetYawAngle, PitchAngle := TargetPitchAngle, bInitializationRequired := false }
        else
          let YawAngle := FMath.UnwindDegrees (L0.WorldYawAngle - ActorYawAngle)
          let DeltaYawAngle0 := FMath.UnwindDegrees (TargetYawAngle - YawAngle)
          let DeltaYawAngle :=
            if DeltaYawAngle0 > 180 - E.CounterClockwiseRotationAngleThreshold then DeltaYawAngle0 - 360
            else if |s.LocomotionState.YawSpeed| > UE_SMALL_NUMBER ∧ |TargetYawAngle| > 90 then
              (if s.LocomotionState.YawSpeed > 0 then |DeltaYawAngle0| else -|DeltaYawAngle0|)
            else DeltaYawAngle0
          let InterpolationAmount := UAlsMath.ExponentialDecayAmount E s.GetDeltaSeconds InterpolationSpeed
          { L0 with
            YawAngle := FMath.UnwindDegrees (YawAngle + DeltaYawAngle * InterpolationAmount)
            PitchAngle := UAlsRotation.LerpAngle E L0.PitchAngle TargetPitchAngle InterpolationAmount }
      let YawForwardAmount := L1.YawAngle / 360 + 5 / 10
      { s with LookState :=
          { L1 with
            WorldYawAngle := FMath.UnwindDegrees (ActorYawAngle + L1.YawAngle)
            YawForwardAmount := YawForwardAmount
            YawLeftAmount := 5 / 10 - |YawForwardAmount - 5 / 10|
            YawRightAmount := 5 / 10 + |YawForwardAmount - 5 / 10| } }

/-! ## Game-thread update (Als_GT_AnimInstance.cpp) -/

/-- Modelled from the spec: `MarkTeleported` (declared in AlsAnimationInstance.h, not under src/)
marks the character as teleported by recording the current world time as the time of the
teleport. -/
def MarkTeleported (s : UAlsAnimationInstance α) : UAlsAnimationInstance α :=
  { s with TeleportedTime := s.World.TimeSeconds }

/-- Modelled from the spec: `ResetGroundedEntryMode` (declared in AlsAnimationInstance.h, not under
src/) clears the grounded entry mode tag. -/
def ResetGroundedEntryMode (s : UAlsAnimationInstance α) : UAlsAnimationInstance α :=
  { s with GroundedEntryMode := FGameplayTag.EmptyTag }

/-- The manual synchronisation of the mesh rotation with the character rotation in
`NativeUpdateAnimation` (Als_GT_AnimInstance.cpp:25-41). -/
def SynchronizeMeshRotation (E : Externals α) (s : UAlsAnimationInstance α) (Character : AAlsCharacter α) :
    UAlsAnimationInstance α :=
  match s.Mesh.bUsingAbsoluteRotation, s.Mesh.AttachParentTransform with
  | true, some ParentTransform =>
    let Moved :=
      E.MoveComponentRotation s.Mesh.ComponentTransform s.Mesh.RelativeTransform
        (ParentTransform.Rotation.mul Character.BaseRotationOffset)
    { s with
      Mesh := { s.Mesh with ComponentTransform := Moved.1, RelativeTransform := Moved.2 }
      Proxy :=
        { s.Proxy with
          ComponentTransform := Moved.1
          ComponentRelativeTransform := Moved.2
          ActorTransform := Character.ActorTransform } }
  | _, _ => s

/-- The copy of the gameplay tags of the character in `NativeUpdateAnimation`
(Als_GT_AnimInstance.cpp:47-58). -/
def RefreshCharacterModes (s : UAlsAnimationInstance α) (Character : AAlsCharacter α) :
    UAlsAnimationInstance α :=
  let s1 : UAlsAnimationInstance α :=
    { s with
      ViewMode := Character.ViewMode
      LocomotionMode := Character.LocomotionMode
      RotationMode := Character.RotationMode
      Stance := Character.Stance
      Gait := Character.Gait
      OverlayMode := Character.OverlayMode }
  if s1.LocomotionAction ≠ Character.LocomotionAction then
    ResetGroundedEntryMode { s1 with LocomotionAction := Character.LocomotionAction }
  else s1

/-- Source function `NativeUpdateAnimation` (Als_GT_AnimInstance.cpp:12); the editor-only debug
switch is left out. -/
def NativeUpdateAnimation (E : Externals α) (s : UAlsAnimationInstance α) (_DeltaTime : α) :
    UAlsAnimationInstance α :=
  match s.Settings, s.Character with
  | none, _ => s
  | some _, none => s
  | some _, some Character =>
    let s1 := RefreshCharacterModes (SynchronizeMeshRotation E s Character) Character
    let PreviousLocation := s1.LocomotionState.Location
    match Character.Settings with
    | none => s1
    | some CharacterSettings =>
      if s1.bPendingUpdate = false ∧
          FVector.DistSquared PreviousLocation s1.LocomotionState.Location >
            FMath.Square CharacterSettings.TeleportDistanceThreshold then
        MarkTeleported s1
      else s1

/-- Source function `RefreshMovementBaseOnGameThread` (Als_GT_AnimInstance.cpp:82). -/
def RefreshMovementBaseOnGameThread (E : Externals α) (s : UAlsAnimationInstance α)
    (Character : AAlsCharacter α) : UAlsAnimationInstance α :=
  let BasedMovement := Character.BasedMovement
  let bBaseChanged : Bool :=
    decide (BasedMovement.MovementBase ≠ s.MovementBase.Primitive ∨ BasedMovement.BoneName ≠ s.MovementBase.BoneName)
  let PreviousRotation := s.MovementBase.Rotation
  { s with MovementBase :=
      { Primitive := if bBaseChanged = true then BasedMovement.MovementBase else s.MovementBase.Primitive
        BoneName := if bBaseChanged = true then BasedMovement.BoneName else s.MovementBase.BoneName
        bBaseChanged := bBaseChanged
        bHasRelativeLocation := BasedMovement.bHasRelativeLocation
        bHasRelativeRotation := BasedMovement.bHasRelativeLocation && BasedMovement.bRelativeRotation
        Location := BasedMovement.BaseLocation
        Rotation := BasedMovement.BaseRotation
        DeltaRotation :=
          if BasedMovement.bHasRelativeLocation = true ∧ bBaseChanged = false then
            E.QuatToRotator (BasedMovement.BaseRotation.mul PreviousRotation.Inverse)
          else ⟨0, 0, 0⟩ } }

/-- Source function `RefreshViewOnGameThread` (Als_GT_AnimInstance.cpp:110). -/
def RefreshViewOnGameThread (s : UAlsAnimationInstance α) (Character : AAlsCharacter α) :
    UAlsAnimationInstance α :=
  { s with ViewState :=
      { s.ViewState with Rotation := Character.ViewState.Rotation, YawSpeed := Character.ViewState.YawSpeed } }

/-- Source function `RefreshLocomotionOnGameThread` (Als_GT_AnimInstance.cpp:120). -/
def RefreshLocomotionOnGameThread (E : Externals α) (s : UAlsAnimationInstance α)
    (Settings : UAlsAnimationInstanceSettings α) (Character : AAlsCharacter α) : UAlsAnimationInstance α :=
  let ActorDeltaTime : α :=
    if s.World.bValid = true then s.World.DeltaSeconds * Character.CustomTimeDilation else 0
  let bCanCalculateRateOfChange : Bool := !s.bPendingUpdate && decide (ActorDeltaTime > UE_SMALL_NUMBER)
  let Locomotion := Character.LocomotionState
  let PreviousVelocity := s.LocomotionState.Velocity
  let Movement := Character.CharacterMovement
  let PreviousYawAngle := s.LocomotionState.Rotation.Yaw
  let ActorTransform := s.Proxy.ActorTransform
  let MeshRelativeTransform := s.Proxy.ComponentRelativeTransform
  let Smooth : FVector α × FRotator α × FQuat α :=
    if Movement.bNetworkSmoothingDisabled = true ∨
        (Character.bSimulatedProxy = false ∧
          ¬ (Character.bListenServer = true ∧ s.bListenServerSmoothingEnabled = true)) then
      (ActorTransform.Translation, E.QuatToRotator ActorTransform.Rotation, ActorTransform.Rotation)
    else if s.Mesh.bUsingAbsoluteRotation = true then
      (ActorTransform.TransformPosition (MeshRelativeTransform.Translation.sub Character.BaseTranslationOffset),
       E.QuatToRotator ActorTransform.Rotation, ActorTransform.Rotation)
    else
      let SmoothTransform :=
        E.TransformMultiply ActorTransform
          ⟨MeshRelativeTransform.Rotation.mul Character.BaseRotationOffset.Inverse,
           MeshRelativeTransform.Translation.sub Character.BaseTranslationOffset, ⟨1, 1, 1⟩⟩
      (SmoothTransform.Translation, E.QuatToRotator SmoothTransform.Rotation, SmoothTransform.Rotation)
  { s with LocomotionState :=
      { bHasInput := Locomotion.bHasInput
        InputYawAngle := Locomotion.InputYawAngle
        Speed := Locomotion.Speed
        Velocity := Locomotion.Velocity
        VelocityYawAngle := Locomotion.VelocityYawAngle
        Acceleration :=
          if bCanCalculateRateOfChange = true then (Locomotion.Velocity.sub PreviousVelocity).divide ActorDeltaTime
          else FVector.ZeroVector
        MaxAcceleration := Movement.MaxAcceleration
        MaxBrakingDeceleration := Movement.MaxBrakingDeceleration
        WalkableFloorAngleCos := Movement.WalkableFloorZ
        bMoving := Locomotion.bMoving
        bMovingSmooth :=
          (Locomotion.bHasInput && Locomotion.bHasVelocity) ||
            decide (Locomotion.Speed > Settings.General.MovingSmoothSpeedThreshold)
        TargetYawAngle := Locomotion.TargetYawAngle
        Location := Smooth.1
        Rotation := Smooth.2.1
        RotationQuaternion := Smooth.2.2
        YawSpeed :=
          if bCanCalculateRateOfChange = true then
            FMath.UnwindDegrees (Smooth.2.1.Yaw - PreviousYawAngle) / ActorDeltaTime
          else 0
        Scale := s.Proxy.ComponentTransform.Scale3D.Z
        CapsuleRadius := Character.ScaledCapsuleRadius
        CapsuleHalfHeight := Character.ScaledCapsuleHalfHeight } }

/-- Source function `RefreshInAirOnGameThread` (Als_GT_AnimInstance.cpp:243). -/
def RefreshInAirOnGameThread (s : UAlsAnimationInstance α) : UAlsAnimationInstance α :=
  { s with InAirState :=
      { s.InAirState with
        bJumped := !s.bPendingUpdate && (s.InAirState.bJumped || s.InAirState.bJumpRequested)
        bJumpRequested := false } }

/-- Source function `RefreshFeetOnGameThread` (Als_GT_AnimInstance.cpp:206). -/
def RefreshFeetOnGameThread (s : UAlsAnimationInstance α) (Settings : UAlsAnimationInstanceSettings α) :
    UAlsAnimationInstance α :=
  let FootLeftTargetTransform :=
    if Settings.General.bUseFootIkBones = true then s.Mesh.FootLeftIkSocketTransform
    else s.Mesh.FootLeftVirtualSocketTransform
  let FootRightTargetTransform :=
    if Settings.General.bUseFootIkBones = true then s.Mesh.FootRightIkSocketTransform
    else s.Mesh.FootRightVirtualSocketTransform
  { s with FeetState :=
      { s.FeetState with
        PelvisRotation := s.Mesh.PelvisSocketRotation
        Left :=
          { s.FeetState.Left with
            TargetLocation := FootLeftTargetTransform.Translation
            TargetRotation := FootLeftTargetTransform.Rotation }
        Right :=
          { s.FeetState.Right with
            TargetLocation := FootRightTargetTransform.Translation
            TargetRotation := FootRightTargetTransform.Rotation } } }

/-- Source function `RefreshRagdollingOnGameThread` (Als_GT_AnimInstance.cpp:227). -/
def RefreshRagdollingOnGameThread (s : UAlsAnimationInstance α) (Character : AAlsCharacter α) :
    UAlsAnimationInstance α :=
  if s.LocomotionAction ≠ FGameplayTag.LocomotionAction_Ragdolling then s
  else
    { s with RagdollingState :=
        { s.RagdollingState with FlailPlayRate := UAlsMath.Clamp01 (Character.RagdollingSpeed / 1000) } }

/-- Source function `GT_Refresh` (Als_GT_AnimInstance.cpp:70). -/
def GT_Refresh (E : Externals α) (s : UAlsAnimationInstance α)
    (Settings : UAlsAnimationInstanceSettings α) (Character : AAlsCharacter α) (_DeltaTime : α) :
    UAlsAnimationInstance α :=
  RefreshRagdollingOnGameThread
    (RefreshFeetOnGameThread
      (RefreshInAirOnGameThread
        (RefreshLocomotionOnGameThread E
          (RefreshViewOnGameThread (RefreshMovementBaseOnGameThread E s Character) Character)
          Settings Character))
      Settings)
    Character

end UAlsAnimationInstance

/-! ## Fixtures: a zeroed instance, settings and character for concrete evaluations -/

namespace Fixture

/-- A foot state with every field zero. -/
def FootState : FAlsFootState α :=
  { ThighAxis := ⟨0, 0, 0⟩, TargetLocation := ⟨0, 0, 0⟩, TargetRotation := ⟨0, 0, 0, 1⟩, LockAmount := 0
    LockLocation := ⟨0, 0, 0⟩, LockRotation := ⟨0, 0, 0, 1⟩
    LockComponentRelativeLocation := ⟨0, 0, 0⟩, LockComponentRelativeRotation := ⟨0, 0, 0, 1⟩
    LockMovementBaseRelativeLocation := ⟨0, 0, 0⟩, LockMovementBaseRelativeRotation := ⟨0, 0, 0, 1⟩
    FinalLocation := ⟨0, 0, 0⟩, FinalRotation := ⟨0, 0, 0, 1⟩ }

/-- A curve asset that is constantly zero. -/
def Curve : UCurveFloat α := ⟨fun _ => 0⟩

/-- A turn-in-place preset with a valid sequence, play rate one and no play-rate scaling. -/
def TurnPreset (Id : Nat) (AnimatedTurnAngle : α) : UAlsTurnInPlaceSettings α :=
  { Sequence := some ⟨Id⟩, PlayRate := 1, bScalePlayRateByAnimatedTurnAngle := false
    AnimatedTurnAngle := AnimatedTurnAngle }

/-- Settings with zero thresholds and speeds, valid sequences and valid presets. -/
def Settings : UAlsAnimationInstanceSettings α :=
  { General :=
      { bUseHandIkBones := false, bUseFootIkBones := false, MovingSmoothSpeedThreshold := 0
        LeanInterpolationSpeed := 0 }
    View := { LookTowardsCameraRotationInterpolationSpeed := 0, LookTowardsInputYawAngleInterpolationSpeed := 0 }
    Grounded :=
      { VelocityBlendInterpolationSpeed := 0, RotationYawOffsetForwardCurve := Curve
        RotationYawOffsetBackwardCurve := Curve, RotationYawOffsetLeftCurve := Curve
        RotationYawOffsetRightCurve := Curve }
    Standing :=
      { AnimatedWalkSpeed := 1, AnimatedRunSpeed := 1, AnimatedSprintSpeed := 1
        StrideBlendAmountWalkCurve := Curve, StrideBlendAmountRunCurve := Curve
        PivotActivationSpeedThreshold := 0 }
    Crouching := { AnimatedCrouchSpeed := 1, StrideBlendAmountCurve := Curve }
    InAir := { LeanAmountCurve := Curve, GroundPredictionAmountCurve := Curve }
    Feet := { bDisableFootLock := false, FootLockAngleLimit := 90 }
    Transitions :=
      { QuickStopBlendInDuration := 0, QuickStopBlendOutDuration := 0, QuickStopPlayRate := ⟨1, 1⟩
        QuickStopStartTime := 0, StandingLeftSequence := some ⟨1⟩, StandingRightSequence := some ⟨2⟩
        CrouchingLeftSequence := some ⟨3⟩, CrouchingRightSequence := some ⟨4⟩ }
    DynamicTransitions :=
      { FootLockDistanceThreshold := 8, BlendDuration := 0, PlayRate := 1
        StandingLeftSequence := some ⟨5⟩, StandingRightSequence := some ⟨6⟩
        CrouchingLeftSequence := some ⟨7⟩, CrouchingRightSequence := some ⟨8⟩ }
    RotateInPlace := { ViewYawAngleThreshold := 50, ReferenceViewYawSpeed := ⟨180, 460⟩, PlayRate := ⟨1, 2⟩ }
    TurnInPlace :=
      { ViewYawAngleThreshold := 45, ViewYawSpeedThreshold := 50, ViewYawAngleToActivationDelay := ⟨0, 0⟩
        Turn180AngleThreshold := 130, BlendDuration := 0
        StandingTurn90Left := some (TurnPreset 11 (-90)), StandingTurn90Right := some (TurnPreset 12 90)
        StandingTurn180Left := some (TurnPreset 13 (-180)), StandingTurn180Right := some (TurnPreset 14 180)
        CrouchingTurn90Left := some (TurnPreset 15 (-90)), CrouchingTurn90Right := some (TurnPreset 16 90)
        CrouchingTurn180Left := some (TurnPreset 17 (-180))
        CrouchingTurn180Right := some (TurnPreset 18 180) } }

/-- A standing, grounded character at the origin with the given teleport distance threshold. -/
def Character (TeleportDistanceThreshold : α) : AAlsCharacter α :=
  { ViewMode := FGameplayTag.ViewMode_ThirdPerson, LocomotionMode := FGameplayTag.LocomotionMode_Grounded
    RotationMode := FGameplayTag.RotationMode_ViewDirection, Stance := FGameplayTag.Stance_Standing
    Gait := FGameplayTag.Gait_Walking, OverlayMode := FGameplayTag.EmptyTag
    LocomotionAction := FGameplayTag.EmptyTag, Settings := some ⟨TeleportDistanceThreshold⟩
    BaseRotationOffset := ⟨0, 0, 0, 1⟩, BaseTranslationOffset := ⟨0, 0, 0⟩
    ActorTransform := FTransform.Identity
    BasedMovement :=
      { MovementBase := none, BoneName := FName.NAME_None, bHasRelativeLocation := false
        bRelativeRotation := false, BaseLocation := ⟨0, 0, 0⟩, BaseRotation := ⟨0, 0, 0, 1⟩ }
    ViewState := { Rotation := ⟨0, 0, 0⟩, YawSpeed := 0 }
    LocomotionState :=
      { bHasInput := false, InputYawAngle := 0, Speed := 0, Velocity := ⟨0, 0, 0⟩, VelocityYawAngle := 0
        bHasVelocity := false, bMoving := false, TargetYawAngle := 0 }
    CharacterMovement :=
      { MaxAcceleration := 2048, MaxBrakingDeceleration := 2048, WalkableFloorZ := 7 / 10
        bNetworkSmoothingDisabled := true }
    CustomTimeDilation := 1, bSimulatedProxy := false, bListenServer := false
    ScaledCapsuleRadius := 30, ScaledCapsuleHalfHeight := 90, RagdollingSpeed := 0 }

/-- An instance in a game world with the fixture settings and character bound, every state
record zeroed, standing, grounded, in the view-direction rotation mode, off the game thread. -/
def Instance : UAlsAnimationInstance α :=
  { bWithEditor := false, bInGameThread := false, bListenServerSmoothingEnabled := false
    World := { bValid := true, bIsGameWorld := true, DeltaSeconds := 0, TimeSeconds := 0 }
    Mesh :=
      { bUsingAbsoluteRotation := false, AttachParentTransform := none
        ComponentTransform := FTransform.Identity, RelativeTransform := FTransform.Identity
        PelvisSocketRotation := ⟨0, 0, 0, 1⟩
        FootLeftIkSocketTransform := FTransform.Identity, FootLeftVirtualSocketTransform := FTransform.Identity
        FootRightIkSocketTransform := FTransform.Identity
        FootRightVirtualSocketTransform := FTransform.Identity }
    Proxy :=
      { ComponentTransform := FTransform.Identity, ComponentRelativeTransform := FTransform.Identity
        ActorTransform := FTransform.Identity, DeltaSeconds := 0, AnimationCurves := fun _ => none }
    MontageRequests := []
    Settings := some Settings
    Character := some (Character 100)
    bPendingUpdate := false
    TeleportedTime := 0
    ViewMode := FGameplayTag.ViewMode_ThirdPerson
    LocomotionMode := FGameplayTag.LocomotionMode_Grounded
    RotationMode := FGameplayTag.RotationMode_ViewDirection
    Stance := FGameplayTag.Stance_Standing
    Gait := FGameplayTag.Gait_Walking
    OverlayMode := FGameplayTag.EmptyTag
    LocomotionAction := FGameplayTag.EmptyTag
    GroundedEntryMode := FGameplayTag.EmptyTag
    MovementBase :=
      { Primitive := none, BoneName := FName.NAME_None, bBaseChanged := false, bHasRelativeLocation := false
        bHasRelativeRotation := false, Location := ⟨0, 0, 0⟩, Rotation := ⟨0, 0, 0, 1⟩
        DeltaRotation := ⟨0, 0, 0⟩ }
    LayeringState := ⟨0, 0, 0, 0, 0, 0, 0, 0, 0, 0, 0, 0, 0, 0, 0, 0, 0, 0, 0, 0, 0, 0⟩
    PoseState := ⟨0, 0, 0, 0, 0, 0, 0, 0, 0, 0, 0, 0, 0⟩
    ViewState := { Rotation := ⟨0, 0, 0⟩, YawAngle := 0, YawSpeed := 0, PitchAngle := 0, PitchAmount := 0, LookAmount := 0 }
    SpineState :=
      { bSpineRotationAllowed := false, SpineAmount := 0, SpineAmountScale := 1, SpineAmountBias := 0
        LastYawAngle := 0, LastActorYawAngle := 0, CurrentYawAngle := 0, YawAngle := 0 }
    LookState :=
      { bInitializationRequired := false, WorldYawAngle := 0, YawAngle := 0, PitchAngle := 0
        YawForwardAmount := 0, YawLeftAmount := 0, YawRightAmount := 0 }
    LocomotionState :=
      { bHasInput := false, InputYawAngle := 0, Speed := 0, Velocity := ⟨0, 0, 0⟩, VelocityYawAngle := 0
        Acceleration := ⟨0, 0, 0⟩, MaxAcceleration := 2048, MaxBrakingDeceleration := 2048
        WalkableFloorAngleCos := 7 / 10, bMoving := false, bMovingSmooth := false, TargetYawAngle := 0
        Location := ⟨0, 0, 0⟩, Rotation := ⟨0, 0, 0⟩, RotationQuaternion := ⟨0, 0, 0, 1⟩, YawSpeed := 0
        Scale := 1, CapsuleRadius := 30, CapsuleHalfHeight := 90 }
    LeanState := ⟨0, 0⟩
    GroundedState :=
      { HipsDirectionLockAmount := 0, MovementDirection := EAlsMovementDirection.Forward
        VelocityBlend := ⟨false, 0, 0, 0, 0⟩, RotationYawOffsets := ⟨0, 0, 0, 0⟩ }
    StandingState := ⟨0, 0, 0, 0, 0, 0, false⟩
    CrouchingState := ⟨0, 0⟩
    InAirState := ⟨false, false, 0, 0, 0⟩
    FeetState :=
      { PelvisRotation := ⟨0, 0, 0, 1⟩, FootPlantedAmount := 0, FeetCrossingAmount := 0
        Left := FootState, Right := FootState }
    TransitionsState :=
      { bTransitionsAllowed := false, QueuedTransitionSequence := none, QueuedTransitionBlendInDuration := 0
        QueuedTransitionBlendOutDuration := 0, QueuedTransitionPlayRate := 1, QueuedTransitionStartTime := 0
        bStopTransitionsQueued := false, QueuedStopTransitionsBlendOutDuration := 0 }
    DynamicTransitionsState := ⟨false, 0⟩
    RotateInPlaceState := ⟨false, false, false, 1⟩
    TurnInPlaceState :=
      { bUpdatedThisFrame := false, ActivationDelay := 0, QueuedSettings := none
        QueuedSlotName := FName.NAME_None, QueuedTurnYawAngle := 0, PlayRate := 1 }
    RagdollingState := ⟨0⟩ }

/-- Externals whose numeric functions are constantly zero or the identity; for evaluations that
do not depend on them. -/
def Externals : Externals α :=
  { InvSqrt := fun _ => 0, Sin := fun _ => 0, Cos := fun _ => 1, Acos := fun _ => 0, Pi := 3
    InvExpApprox := fun _ => 1 / 2, QuatToRotator := fun _ => ⟨0, 0, 0⟩
    TransformMultiply := fun _ B => B, TransformInverse := fun T => T
    CounterClockwiseRotationAngleThreshold := 5
    CalculateMovementDirection := fun _ _ _ => EAlsMovementDirection.Forward
    SweepSingleByChannel := fun _ _ _ _ => ⟨false, false, 1, ⟨0, 0, 1⟩⟩
    MoveComponentRotation := fun T R _ => (T, R) }

/-- The character of the teleport scenario: threshold 100 units, actor moved to (150, 0, 0). -/
def TeleportCharacter : AAlsCharacter α :=
  { Character 100 with ActorTransform := { Rotation := ⟨0, 0, 0, 1⟩, Translation := ⟨150, 0, 0⟩, Scale3D := ⟨1, 1, 1⟩ } }

/-- The instance of the teleport scenario: the previous tick left the location at the origin,
the update is not pending, the world time is 10 and the last teleport mark is from time 0. -/
def TeleportInstance : UAlsAnimationInstance α :=
  { Instance with
    Character := some TeleportCharacter
    World := { bValid := true, bIsGameWorld := true, DeltaSeconds := 1 / 60, TimeSeconds := 10 }
    Proxy := { Instance.Proxy with ActorTransform := TeleportCharacter.ActorTransform } }

/-- The instance of the stop scenario: a stop request and a transition sequence are both queued
when the game thread drains the queue. -/
def StopQueuedInstance : UAlsAnimationInstance α :=
  { Instance with
    bInGameThread := true
    TransitionsState :=
      { bTransitionsAllowed := true, QueuedTransitionSequence := some ⟨5⟩
        QueuedTransitionBlendInDuration := 2 / 10, QueuedTransitionBlendOutDuration := 2 / 10
        QueuedTransitionPlayRate := 1, QueuedTransitionStartTime := 0
        bStopTransitionsQueued := true, QueuedStopTransitionsBlendOutDuration := 1 / 10 } }

/-- The instance of the spine scenario entering aiming: spine rotation was not allowed, the
rotation mode has become aiming, the spine amount is above the full-weight threshold, the
current yaw angle is 30 and the view yaw angle is 60. -/
def SpineEnterAimingInstance : UAlsAnimationInstance α :=
  { Instance with
    RotationMode := FGameplayTag.RotationMode_Aiming
    ViewState := { Instance.ViewState with YawAngle := 60 }
    SpineState :=
      { bSpineRotationAllowed := false, SpineAmount := 199999 / 200000, SpineAmountScale := 1
        SpineAmountBias := 0, LastYawAngle := 30, LastActorYawAngle := 0, CurrentYawAngle := 30
        YawAngle := 30 } }

/-- The instance of the spine scenario leaving aiming: spine rotation was allowed, the rotation
mode is no longer aiming, the spine amount is positive but not above the relevance threshold and
the current yaw angle is 90. -/
def SpineLeaveAimingInstance : UAlsAnimationInstance α :=
  { Instance with
    RotationMode := FGameplayTag.RotationMode_ViewDirection
    SpineState :=
      { bSpineRotationAllowed := true, SpineAmount := 1 / 200000, SpineAmountScale := 1
        SpineAmountBias := 0, LastYawAngle := 90, LastActorYawAngle := 0, CurrentYawAngle := 90
        YawAngle := 90 } }

/-- The instance of the spine scenario entering aiming half way: as `SpineEnterAimingInstance`
with a spine amount of one half. -/
def SpineEnterAimingHalfInstance : UAlsAnimationInstance α :=
  { SpineEnterAimingInstance with
    SpineState := { SpineEnterAimingInstance.SpineState with SpineAmount := 1 / 2 } }

/-- The instance of the spine scenario leaving aiming half way: as `SpineLeaveAimingInstance`
with a spine amount of one half. -/
def SpineLeaveAimingHalfInstance : UAlsAnimationInstance α :=
  { SpineLeaveAimingInstance with
    SpineState := { SpineLeaveAimingInstance.SpineState with SpineAmount := 1 / 2 } }

/-- Settings of the pending-update scenario: as the fixture settings with a velocity blend
interpolation speed of 1. -/
def SmoothingSettings : UAlsAnimationInstanceSettings α :=
  { Settings with Grounded := { Settings.Grounded with VelocityBlendInterpolationSpeed := 1 } }

/-- The instance of the pending-update scenario: the update is pending, the velocity blend does
not require initialization, the character stands still (the target of the velocity blend is zero)
and the previous forward amount is the given one. -/
def PendingUpdateInstance (PreviousForwardAmount : α) : UAlsAnimationInstance α :=
  { Instance with
    Settings := some SmoothingSettings
    bPendingUpdate := true
    GroundedState :=
      { Instance.GroundedState with
        VelocityBlend :=
          { bInitializationRequired := false, ForwardAmount := PreviousForwardAmount, BackwardAmount := 0
            LeftAmount := 0, RightAmount := 0 } } }

/-- Settings of the turn-in-place scenario: as the fixture settings with the activation delay
range (0, 3/4), which maps the view yaw angle 90 to a delay of 1/4. -/
def TurnInPlaceSettings : UAlsAnimationInstanceSettings α :=
  { Settings with
    TurnInPlace := { Settings.TurnInPlace with ViewYawAngleToActivationDelay := ⟨0, 3 / 4⟩ } }

/-- The instance of the turn-in-place scenario: transitions allowed, view-direction rotation
mode, third person, standing, view yaw angle held at 90 with view yaw speed 0, activation delay 0
and nothing queued; on or off the game thread. -/
def TurnInPlaceInstance (bInGameThread : Bool) : UAlsAnimationInstance α :=
  { Instance with
    bInGameThread := bInGameThread
    Settings := some TurnInPlaceSettings
    ViewState := { Instance.ViewState with YawAngle := 90, YawSpeed := 0 }
    TransitionsState := { Instance.TransitionsState with bTransitionsAllowed := true } }

/-- The instance of the dynamic-transition scenario: transitions allowed, frame delay 0, the left
foot fully locked with its target 10 units from its lock location (threshold 8 units at scale 1),
the right foot not locked. -/
def DynamicTransitionInstance : UAlsAnimationInstance α :=
  { Instance with
    TransitionsState := { Instance.TransitionsState with bTransitionsAllowed := true }
    FeetState :=
      { Instance.FeetState with
        Left := { FootState with LockAmount := 1, TargetLocation := ⟨10, 0, 0⟩ } } }

/-- The host functions of the fixture with the given trigonometry. -/
def ExternalsWith (InvSqrt Sin Cos Acos : α → α) (Pi : α) : ALS.Externals α :=
  { Externals with InvSqrt := InvSqrt, Sin := Sin, Cos := Cos, Acos := Acos, Pi := Pi }

/-- The settings of the angle-limit scenario: foot lock enabled with an angle limit of 45 degrees. -/
def AngleLimitSettings : UAlsAnimationInstanceSettings α :=
  { Settings with Feet := { bDisableFootLock := false, FootLockAngleLimit := 45 } }

/-- The instance of the angle-limit scenario: standing still on the ground with every curve at
one, no movement base, pelvis not rotated. -/
def AngleLimitInstance : UAlsAnimationInstance α :=
  { Instance with Proxy := { Instance.Proxy with AnimationCurves := fun _ => some 1 } }

/-- The foot of the angle-limit scenario: fully locked at (0, 2, 3) with the thigh axis along X,
so the lock location is 90 degrees from the thigh axis. -/
def AngleLimitFootState : FAlsFootState α :=
  { FootState with ThighAxis := ⟨1, 0, 0⟩, LockAmount := 1, LockLocation := ⟨0, 2, 3⟩ }

/-- The instance of a velocity-blend snap: the blend is to be initialised, the actor is not rotated
and moves with the given velocity. -/
def VelocityBlendSnapInstance (Velocity : FVector α) : UAlsAnimationInstance α :=
  { Instance with
    LocomotionState := { Instance.LocomotionState with Velocity := Velocity }
    GroundedState :=
      { Instance.GroundedState with
        VelocityBlend := { Instance.GroundedState.VelocityBlend with bInitializationRequired := true } } }

/-- The instance of a fall: in the air state the vertical velocity is the given one, the velocity
is straight down at that speed, and no curve is set. -/
def FallingInstance (VerticalVelocity : α) : UAlsAnimationInstance α :=
  { Instance with
    LocomotionState := { Instance.LocomotionState with Velocity := ⟨0, 0, VerticalVelocity⟩ }
    InAirState := { Instance.InAirState with VerticalVelocity := VerticalVelocity } }

/-- The host functions of the fixture with a world whose capsule sweep returns the given hit. -/
def ExternalsWithSweep (Hit : FHitResult α) : ALS.Externals α :=
  { Externals with SweepSingleByChannel := fun _ _ _ _ => Hit }

/-- The settings of the ground-prediction scenario: the prediction amount falls linearly from 1 at
hit time 0 to 0 at hit time 1. -/
def GroundPredictionSettings : UAlsAnimationInstanceSettings α :=
  { Settings with InAir := { Settings.InAir with GroundPredictionAmountCurve := ⟨fun Time => 1 - Time⟩ } }

/-- The instance of one sprint tick: sprinting gait, forward acceleration at half the maximum
acceleration, and the given frame delta time. -/
def SprintInstance (DeltaSeconds : α) : UAlsAnimationInstance α :=
  { Instance with
    Gait := FGameplayTag.Gait_Sprinting
    Proxy := { Instance.Proxy with DeltaSeconds := DeltaSeconds }
    LocomotionState :=
      { Instance.LocomotionState with Velocity := ⟨600, 0, 0⟩, Acceleration := ⟨1024, 0, 0⟩ } }

/-- The instance of the turn-in-place scenario with the given activation delay and frame delta
time. -/
def TurnInPlaceTimerInstance (bInGameThread : Bool) (ActivationDelay DeltaSeconds : α) :
    UAlsAnimationInstance α :=
  { TurnInPlaceInstance bInGameThread with
    Proxy := { Instance.Proxy with DeltaSeconds := DeltaSeconds }
    TurnInPlaceState := { Instance.TurnInPlaceState with ActivationDelay := ActivationDelay } }

/-- An instance standing still on the ground whose component sits at (-5, 0, 0), with every curve
at the given value. -/
def OffsetInstance (CurveValue : α) : UAlsAnimationInstance α :=
  { Instance with
    Proxy :=
      { Instance.Proxy with
        ComponentTransform := { Rotation := ⟨0, 0, 0, 1⟩, Translation := ⟨-5, 0, 0⟩, Scale3D := ⟨1, 1, 1⟩ }
        AnimationCurves := fun _ => some CurveValue } }

/-- The inverse of the component transform of `OffsetInstance`: it moves the world origin to
(5, 0, 0). -/
def OffsetComponentTransformInverse : FTransform α :=
  { Rotation := ⟨0, 0, 0, 1⟩, Translation := ⟨5, 0, 0⟩, Scale3D := ⟨1, 1, 1⟩ }

/-- The foot state after one call of `RefreshFootLock` on the zeroed foot state with foot lock
enabled, IK weight 1 and the lock curve at one half. -/
def HalfLockFootState (E : ALS.Externals α) : FAlsFootState α :=
  UAlsAnimationInstance.RefreshFootLock E (OffsetInstance (1 / 2)) Settings 1 FootState FName.FootLeftLockCurve
    OffsetComponentTransformInverse 0

/-- The foot of the reset scenario: fully locked at (1, 2, 3) with its target at (4, 5, 6). -/
def LockedFootState : FAlsFootState α :=
  { FootState with
    LockAmount := 1, LockLocation := ⟨1, 2, 3⟩, LockComponentRelativeLocation := ⟨1, 2, 3⟩
    LockMovementBaseRelativeLocation := ⟨1, 2, 3⟩, TargetLocation := ⟨4, 5, 6⟩ }

/-- The instance of the unweighted-gait scenario: the grounded pose curve is at the given weight,
the gait pose curve at the given value, and no other curve is set. -/
def PoseInstance (GroundedAmount GaitAmount : α) : UAlsAnimationInstance α :=
  { Instance with
    Proxy :=
      { Instance.Proxy with
        AnimationCurves := fun CurveName =>
          if CurveName = FName.PoseGroundedCurve then some GroundedAmount
          else if CurveName = FName.PoseGaitCurve then some GaitAmount
          else none } }

/-- The fixture instance with no settings object bound. -/
def UnboundInstance : UAlsAnimationInstance α :=
  { (Instance : UAlsAnimationInstance α) with Settings := none }

/-- The fixture settings without a standing left sequence for dynamic transitions. -/
def MissingSequenceSettings : UAlsAnimationInstanceSettings α :=
  { (Settings : UAlsAnimationInstanceSettings α) with
    DynamicTransitions :=
      { (Settings : UAlsAnimationInstanceSettings α).DynamicTransitions with StandingLeftSequence := none } }

/-- The instance of the dynamic-transition scenario (standing, left foot 10 units from its lock
location) with settings that have no standing left sequence. -/
def MissingSequenceInstance : UAlsAnimationInstance α :=
  { (DynamicTransitionInstance : UAlsAnimationInstance α) with Settings := some MissingSequenceSettings }

/-- The instance of the turn-in-place scenario, off the game thread, with a stance that is neither
standing nor crouching. -/
def StancelessTurnInstance (ActivationDelay DeltaSeconds : α) : UAlsAnimationInstance α :=
  { (TurnInPlaceTimerInstance false ActivationDelay DeltaSeconds : UAlsAnimationInstance α) with
    Stance := FGameplayTag.EmptyTag }

/-- The instance of the dynamic-transition scenario with both feet fully locked, the left foot 10
units and the right foot the given distance along X from their lock locations, in the given
stance. -/
def BothFeetInstance (RightDistance : α) (Stance : FGameplayTag) : UAlsAnimationInstance α :=
  { (DynamicTransitionInstance : UAlsAnimationInstance α) with
    Stance := Stance
    FeetState :=
      { (DynamicTransitionInstance : UAlsAnimationInstance α).FeetState with
        Right := { (FootState : FAlsFootState α) with LockAmount := 1, TargetLocation := ⟨RightDistance, 0, 0⟩ } } }

/-- The fixture character moving with the given velocity. -/
def MovingCharacter (Velocity : FVector α) : AAlsCharacter α :=
  { (Character 100 : AAlsCharacter α) with
    LocomotionState := { (Character 100 : AAlsCharacter α).LocomotionState with Velocity := Velocity } }

/-- The fixture instance on a tick of the given world delta time, with the given velocity and
pending-update flag left by the previous tick. -/
def LocomotionTickInstance (DeltaSeconds : α) (PreviousVelocity : FVector α) (bPendingUpdate : Bool) :
    UAlsAnimationInstance α :=
  { (Instance : UAlsAnimationInstance α) with
    World := { (Instance : UAlsAnimationInstance α).World with DeltaSeconds := DeltaSeconds }
    bPendingUpdate := bPendingUpdate
    LocomotionState :=
      { (Instance : UAlsAnimationInstance α).LocomotionState with Velocity := PreviousVelocity } }

/-- The instance of the forced-decay scenario: on the ground with every curve at one, moving
smoothly or not as given, in the given locomotion mode. -/
def DecayInstance (bMovingSmooth : Bool) (LocomotionMode : FGameplayTag) : UAlsAnimationInstance α :=
  { (AngleLimitInstance : UAlsAnimationInstance α) with
    LocomotionMode := LocomotionMode
    LocomotionState :=
      { (AngleLimitInstance : UAlsAnimationInstance α).LocomotionState with bMovingSmooth := bMovingSmooth } }

/-- A foot locked by the given amount. -/
def FootStateWithLockAmount (LockAmount : α) : FAlsFootState α :=
  { (FootState : FAlsFootState α) with LockAmount := LockAmount }

/-- The instance of the teleport scenario: the component sits at (-5, 0, 0), every curve is at
one, the world time is the given one and the teleport was marked at time 0. -/
def RecentTeleportInstance (TimeSeconds : α) : UAlsAnimationInstance α :=
  { (OffsetInstance 1 : UAlsAnimationInstance α) with
    World := { (OffsetInstance 1 : UAlsAnimationInstance α).World with TimeSeconds := TimeSeconds } }

/-- The foot of the teleport scenario: fully locked, with the component-relative lock location
(1, 2, 3) and the given world lock location. -/
def TeleportFootState (LockLocation : FVector α) : FAlsFootState α :=
  { (FootState : FAlsFootState α) with
    LockAmount := 1, LockLocation := LockLocation, LockComponentRelativeLocation := ⟨1, 2, 3⟩ }

/-- The instance of the re-lock scenario: standing still on the ground with every curve at one,
on a movement base at (10, 0, 0) that is not rotated, or on no movement base. -/
def RelockInstance (bOnMovementBase : Bool) : UAlsAnimationInstance α :=
  { (AngleLimitInstance : UAlsAnimationInstance α) with
    MovementBase :=
      { (AngleLimitInstance : UAlsAnimationInstance α).MovementBase with
        bHasRelativeLocation := bOnMovementBase
        Location := if bOnMovementBase = true then ⟨10, 0, 0⟩ else ⟨0, 0, 0⟩ } }

/-- The foot of the re-lock scenario: locked by the given amount at (1, 0, 0), which is (-9, 0, 0)
relative to the movement base of the scenario, with its target at (4, 0, 0) and the thigh axis
along X. -/
def RelockFootState (LockAmount : α) : FAlsFootState α :=
  { (FootState : FAlsFootState α) with
    ThighAxis := ⟨1, 0, 0⟩, LockAmount := LockAmount, LockLocation := ⟨1, 0, 0⟩
    LockComponentRelativeLocation := ⟨1, 0, 0⟩, LockMovementBaseRelativeLocation := ⟨-9, 0, 0⟩
    TargetLocation := ⟨4, 0, 0⟩ }

/-- The fixture instance in the aiming rotation mode with the view turned by the given yaw angle
relative to the actor. -/
def AimingInstance (YawAngle : α) : UAlsAnimationInstance α :=
  { (Instance : UAlsAnimationInstance α) with
    RotationMode := FGameplayTag.RotationMode_Aiming
    ViewState := { (Instance : UAlsAnimationInstance α).ViewState with YawAngle := YawAngle } }

/-- The instance of the spine scenario leaving aiming half way on a movement base with relative
rotation that turned by 20 degrees of yaw since the previous tick. -/
def SpineLeaveAimingOnBaseInstance : UAlsAnimationInstance α :=
  { (SpineLeaveAimingHalfInstance : UAlsAnimationInstance α) with
    MovementBase :=
      { (SpineLeaveAimingHalfInstance : UAlsAnimationInstance α).MovementBase with
        bHasRelativeRotation := true
        DeltaRotation := { Pitch := 0, Yaw := 20, Roll := 0 } } }

end Fixture

/-! ## Harness for sequences of foot-lock ticks -/

/-- Inputs of one call of `RefreshFootLock` in a sequence of ticks: everything the call reads
apart from the lock amount the previous call left in the foot state. -/
structure FootLockTick (α : Type) where
  Instance : UAlsAnimationInstance α
  Settings : UAlsAnimationInstanceSettings α
  IkAmount : α
  FootState : FAlsFootState α
  LockCurveName : FName
  ComponentTransformInverse : FTransform α
  DeltaTime : α

/-- The lock amounts realized by successive calls of `RefreshFootLock`, each call starting from
the lock amount the previous one produced. -/
def LockAmountsAfterTicks (E : Externals α) (LockAmount : α) : List (FootLockTick α) → List α
  | [] => []
  | T :: Ts =>
    let Next :=
      (UAlsAnimationInstance.RefreshFootLock E T.Instance T.Settings T.IkAmount
        { T.FootState with LockAmount := LockAmount } T.LockCurveName T.ComponentTransformInverse
        T.DeltaTime).LockAmount
    Next :: LockAmountsAfterTicks E Next Ts

/-! ## Harness for sequences of turn-in-place ticks -/

/-- One tick of the turn-in-place machine: the per-tick guard is reset, as
`NativeThreadSafeUpdateAnimation` does at the top of the tick, the frame delta time is the given
one, and `RefreshTurnInPlace` is called once. -/
def TurnInPlaceTick (E : Externals α) (s : UAlsAnimationInstance α) (DeltaSeconds : α) :
    UAlsAnimationInstance α :=
  UAlsAnimationInstance.RefreshTurnInPlace E
    { s with
      Proxy := { s.Proxy with DeltaSeconds := DeltaSeconds }
      TurnInPlaceState := { s.TurnInPlaceState with bUpdatedThisFrame := false } }

/-- A sequence of turn-in-place ticks with the given frame delta times. -/
def TurnInPlaceTicks (E : Externals α) (s : UAlsAnimationInstance α) (DeltaTimes : List α) :
    UAlsAnimationInstance α :=
  DeltaTimes.foldl (TurnInPlaceTick E) s

/-- One tick of the turn-in-place machine followed by the drain of the queue on the game
thread, `NativePostUpdateAnimation`. -/
def TurnInPlaceTickAndDrain (E : Externals α) (s : UAlsAnimationInstance α) (DeltaSeconds : α) :
    UAlsAnimationInstance α :=
  UAlsAnimationInstance.NativePostUpdateAnimation (TurnInPlaceTick E s DeltaSeconds)

/-- The held pose of the turn-in-place scenario: a game world with settings bound, off the game
thread, transitions and turn in place allowed, standing, view yaw angle held at 90 degrees with
view yaw speed 0, a view yaw angle threshold of 45 degrees, a positive view yaw speed threshold, a
180-degree turn threshold above 90 degrees, a valid standing 90-degree right preset, and a
counter-clockwise remap threshold that leaves 90 degrees a clockwise turn. -/
structure TurnInPlaceScenario (E : Externals α) (s : UAlsAnimationInstance α)
    (Settings : UAlsAnimationInstanceSettings α) (Preset : UAlsTurnInPlaceSettings α) : Prop where
  hSkip : s.EditorPreviewSkip = false
  hSettings : s.Settings = some Settings
  hThread : s.bInGameThread = false
  hTransitions : s.TransitionsState.bTransitionsAllowed = true
  hRotationMode : s.RotationMode = FGameplayTag.RotationMode_ViewDirection
  hViewMode : s.ViewMode ≠ FGameplayTag.ViewMode_FirstPerson
  hStance : s.Stance = FGameplayTag.Stance_Standing
  hYawAngle : s.ViewState.YawAngle = 90
  hYawSpeed : s.ViewState.YawSpeed = 0
  hAngleThreshold : Settings.TurnInPlace.ViewYawAngleThreshold = 45
  hSpeedThreshold : 0 < Settings.TurnInPlace.ViewYawSpeedThreshold
  hTurn180 : 90 < Settings.TurnInPlace.Turn180AngleThreshold
  hPreset : Settings.TurnInPlace.StandingTurn90Right = some Preset
  hSequence : Preset.Sequence.isSome = true
  hRemap : 90 ≤ 180 - E.CounterClockwiseRotationAngleThreshold

/-- The activation delay the turn-in-place settings map to a view yaw angle of 90 degrees. -/
def TurnInPlaceDelayAt90 (Settings : UAlsAnimationInstanceSettings α) : α :=
  FMath.GetMappedRangeValueClamped ⟨Settings.TurnInPlace.ViewYawAngleThreshold, 180⟩
    Settings.TurnInPlace.ViewYawAngleToActivationDelay 90

/-! ## Harness for sequences of dynamic-transition ticks -/

/-- The instance a later tick of the dynamic-transition machine starts from: it is arbitrary
(foot state, transitions-allowed flag, settings and everything else), except that it carries the
frame delay the previous call left and that the per-tick guard has been reset, as
`NativeThreadSafeUpdateAnimation` does at the top of the tick. -/
def DynamicTransitionsTickStart (Previous Next : UAlsAnimationInstance α) : UAlsAnimationInstance α :=
  { Next with
    DynamicTransitionsState :=
      { bUpdatedThisFrame := false, FrameDelay := Previous.DynamicTransitionsState.FrameDelay } }

/-- One later tick of the dynamic-transition machine: `RefreshDynamicTransitions` called once on
the instance of the new tick. -/
def DynamicTransitionsTick (Previous Next : UAlsAnimationInstance α) : UAlsAnimationInstance α :=
  UAlsAnimationInstance.RefreshDynamicTransitions (DynamicTransitionsTickStart Previous Next)

/-! ## Harness for the foot-lock angle limit -/

namespace UAlsAnimationInstance

/-- The foot state of `RefreshFootLock` at the point where the lock angle is measured
(AlsAnimationInstance.cpp:675): after the update of the lock amount and the recomputation of the
component-relative lock transform. -/
def FootLockBeforeLimit (s : UAlsAnimationInstance α) (FootState : FAlsFootState α) (LockCurveName : FName)
    (ComponentTransformInverse : FTransform α) (DeltaTime : α) : FAlsFootState α :=
  s.FootLockRebase
    (s.FootLockUpdateAmount FootState (s.FootLockNewAmount FootState LockCurveName DeltaTime)
      ComponentTransformInverse)
    ComponentTransformInverse

/-- The local `LockAngle` of `RefreshFootLock` (AlsAnimationInstance.cpp:678-679): the signed XY
angle from the component-relative thigh axis to the component-relative lock location. -/
def FootLockAngle (E : Externals α) (s : UAlsAnimationInstance α) (FootState : FAlsFootState α) : α :=
  UAlsVector.AngleBetweenSignedXY E (s.FeetState.PelvisRotation.RotateVector FootState.ThighAxis)
    FootState.LockComponentRelativeLocation

end UAlsAnimationInstance

/-- The host functions computed without rounding: the inverse square root, sine, cosine and arc
cosine are the real ones and `UE_PI` is pi. -/
structure Externals.Exact (E : Externals ℝ) : Prop where
  InvSqrt_eq : ∀ x, E.InvSqrt x = (Real.sqrt x)⁻¹
  Sin_eq : ∀ x, E.Sin x = Real.sin x
  Cos_eq : ∀ x, E.Cos x = Real.cos x
  Acos_eq : ∀ x, E.Acos x = Real.arccos x
  Pi_eq : E.Pi = Real.pi

/-! ## Harness for the ground prediction -/

namespace UAlsAnimationInstance

/-- The capsule sweep `RefreshGroundPrediction` makes (Als_TS_AnimInstance.cpp:497-515): from the
actor location along the velocity with its vertical part clamped to [-4000, -200], normalised, over
a distance mapped from the vertical velocity onto [150, 2000] and scaled by the actor scale. -/
def GroundPredictionHit (E : Externals α) (s : UAlsAnimationInstance α) : FHitResult α :=
  E.SweepSingleByChannel s.LocomotionState.Location
    (s.LocomotionState.Location.add
      (((FVector.Normalize E
          { s.LocomotionState.Velocity with
            Z := FMath.Clamp s.LocomotionState.Velocity.Z (-4000) (-200) }).1.scale
          (FMath.GetMappedRangeValueClamped ⟨-200, -4000⟩ ⟨150, 2000⟩ s.InAirState.VerticalVelocity)).scale
        s.LocomotionState.Scale))
    s.LocomotionState.CapsuleRadius s.LocomotionState.CapsuleHalfHeight

end UAlsAnimationInstance

/-! ## Harness for sequences of standing-movement ticks -/

/-- One call of `RefreshStandingMovement` in a sequence of ticks: the tick supplies everything the
call reads apart from the standing state, which is the one the previous call left. -/
def StandingMovementTick (E : Externals α) (Standing : FAlsStandingState α)
    (Tick : UAlsAnimationInstance α) : FAlsStandingState α :=
  (UAlsAnimationInstance.RefreshStandingMovement E { Tick with StandingState := Standing }).StandingState

/-- The standing state after a sequence of `RefreshStandingMovement` ticks. -/
def StandingMovementTicks (E : Externals α) (Standing : FAlsStandingState α)
    (Ticks : List (UAlsAnimationInstance α)) : FAlsStandingState α :=
  Ticks.foldl (StandingMovementTick E) Standing

/-- The time elapsed over a sequence of ticks: the sum of their frame delta times. -/
def ElapsedTime (Ticks : List (UAlsAnimationInstance α)) : α :=
  (Ticks.map UAlsAnimationInstance.GetDeltaSeconds).sum

/-- A tick on which `RefreshStandingMovement` is evaluated (game world, settings bound) with the
sprinting gait and a non-negative frame delta time. -/
structure SprintingTick (Tick : UAlsAnimationInstance α) : Prop where
  Evaluated : Tick.EditorPreviewSkip = false
  SettingsBound : Tick.Settings.isSome = true
  Sprinting : Tick.Gait = FGameplayTag.Gait_Sprinting
  DeltaNonneg : 0 ≤ Tick.GetDeltaSeconds

/-! ## Harness for the turn-in-place timer and preset selection -/

/-- The conditions under which an evaluated `RefreshTurnInPlace` resets the activation delay
(Als_TS_AnimInstance.cpp:363-378): transitions not allowed, turn in place not allowed, view yaw
speed not below its threshold, or the magnitude of the view yaw angle not above its threshold. -/
def TurnInPlaceBlocked (s : UAlsAnimationInstance α) (Settings : UAlsAnimationInstanceSettings α) : Prop :=
  s.TransitionsState.bTransitionsAllowed = false ∨ s.IsTurnInPlaceAllowed = false ∨
    s.ViewState.YawSpeed ≥ Settings.TurnInPlace.ViewYawSpeedThreshold ∨
    |s.ViewState.YawAngle| ≤ Settings.TurnInPlace.ViewYawAngleThreshold

instance (s : UAlsAnimationInstance α) (Settings : UAlsAnimationInstanceSettings α) :
    Decidable (TurnInPlaceBlocked s Settings) := by
  unfold TurnInPlaceBlocked; infer_instance

/-- The delay `RefreshTurnInPlace` requires before a turn (Als_TS_AnimInstance.cpp:382-383): the
clamped linear map of the magnitude of the view yaw angle from [`ViewYawAngleThreshold`, 180] onto
the configured delay range. -/
def TurnInPlaceRequiredDelay (s : UAlsAnimationInstance α) (Settings : UAlsAnimationInstanceSettings α) : α :=
  FMath.GetMappedRangeValueClamped ⟨Settings.TurnInPlace.ViewYawAngleThreshold, 180⟩
    Settings.TurnInPlace.ViewYawAngleToActivationDelay |s.ViewState.YawAngle|

/-- The instance after `RefreshTurnInPlace` has set its guard and the activation delay and queued
nothing. -/
def TurnInPlaceTimed (s : UAlsAnimationInstance α) (ActivationDelay : α) : UAlsAnimationInstance α :=
  { s with
    TurnInPlaceState := { s.TurnInPlaceState with bUpdatedThisFrame := true, ActivationDelay := ActivationDelay } }

/-- The instance after `RefreshTurnInPlace` has set its guard, advanced the activation delay by the
frame delta time and written a preset, a slot and the view yaw angle to the queue. -/
def TurnInPlaceQueued (s : UAlsAnimationInstance α) (Preset : UAlsTurnInPlaceSettings α) (SlotName : FName) :
    UAlsAnimationInstance α :=
  { s with
    TurnInPlaceState :=
      { s.TurnInPlaceState with
        bUpdatedThisFrame := true
        ActivationDelay := s.TurnInPlaceState.ActivationDelay + s.GetDeltaSeconds
        QueuedSettings := some Preset
        QueuedSlotName := SlotName
        QueuedTurnYawAngle := s.ViewState.YawAngle } }

/-- The eight turn-in-place presets as the specification tabulates them: by stance (crouching or
standing), direction (left or right) and size (90 or 180 degrees). -/
def TurnInPlacePresetTable (T : FAlsGeneralTurnInPlaceSettings α) :
    Bool → Bool → Bool → Option (UAlsTurnInPlaceSettings α)
  | false, true, true => T.StandingTurn90Left
  | false, false, true => T.StandingTurn90Right
  | false, true, false => T.StandingTurn180Left
  | false, false, false => T.StandingTurn180Right
  | true, true, true => T.CrouchingTurn90Left
  | true, false, true => T.CrouchingTurn90Right
  | true, true, false => T.CrouchingTurn180Left
  | true, false, false => T.CrouchingTurn180Right

/-- The preset the specification selects for an instance: standing presets for the standing
stance and crouching presets for the crouching stance (none for any other stance), left exactly
when the view yaw angle remapped for counter-clockwise rotation is at most 0, the 90-degree preset
exactly when the magnitude of the view yaw angle is below `Turn180AngleThreshold`. -/
def TurnInPlacePresetBySpec (E : Externals α) (s : UAlsAnimationInstance α)
    (Settings : UAlsAnimationInstanceSettings α) : Option (UAlsTurnInPlaceSettings α) :=
  if s.Stance = FGameplayTag.Stance_Standing ∨ s.Stance = FGameplayTag.Stance_Crouching then
    TurnInPlacePresetTable Settings.TurnInPlace (decide (s.Stance = FGameplayTag.Stance_Crouching))
      (decide (UAlsRotation.RemapAngleForCounterClockwiseRotation E s.ViewState.YawAngle ≤ 0))
      (decide (|s.ViewState.YawAngle| < Settings.TurnInPlace.Turn180AngleThreshold))
  else none

/-- The slot the specification selects for an instance: the crouching slot for the crouching
stance and the standing slot for the standing stance. -/
def TurnInPlaceSlotBySpec (s : UAlsAnimationInstance α) : FName :=
  if s.Stance = FGameplayTag.Stance_Crouching then FName.TurnInPlaceCrouchingSlot
  else FName.TurnInPlaceStandingSlot

/-! ## Harness for sequences of foot refreshes -/

/-- Inputs of one call of `RefreshFoot` in a sequence of calls: everything the call reads apart
from the lock amount the previous call left in the foot state. -/
structure FootTick (α : Type) where
  Instance : UAlsAnimationInstance α
  Settings : UAlsAnimationInstanceSettings α
  FootState : FAlsFootState α
  IkCurveName : FName
  LockCurveName : FName
  ComponentTransformInverse : FTransform α
  DeltaTime : α

/-- One call on a foot: `RefreshFoot`, or `RefreshFootLock` directly. -/
inductive FootCall (α : Type) where
  | RefreshFoot (Tick : FootTick α)
  | RefreshFootLock (Tick : FootLockTick α)

/-- The lock amount a call leaves, started from the given lock amount. -/
def LockAmountAfterCall (E : Externals α) (LockAmount : α) : FootCall α → α
  | FootCall.RefreshFoot T =>
    (UAlsAnimationInstance.RefreshFoot E T.Instance T.Settings { T.FootState with LockAmount := LockAmount }
      T.IkCurveName T.LockCurveName T.ComponentTransformInverse T.DeltaTime).LockAmount
  | FootCall.RefreshFootLock T =>
    (UAlsAnimationInstance.RefreshFootLock E T.Instance T.Settings T.IkAmount
      { T.FootState with LockAmount := LockAmount } T.LockCurveName T.ComponentTransformInverse
      T.DeltaTime).LockAmount

/-- The lock amounts realized by successive calls on a foot, each call starting from the lock
amount the previous one produced. -/
def LockAmountsAfterCalls (E : Externals α) (LockAmount : α) : List (FootCall α) → List α
  | [] => []
  | C :: Cs => LockAmountAfterCall E LockAmount C :: LockAmountsAfterCalls E (LockAmountAfterCall E LockAmount C) Cs

/-- The range of a lock amount: within [0, 1], and either exactly 1 or strictly below the
full-weight threshold. -/
def LockAmountInRange (LockAmount : α) : Prop :=
  0 ≤ LockAmount ∧ LockAmount ≤ 1 ∧ (LockAmount = 1 ∨ LockAmount < 1 - ZERO_ANIMWEIGHT_THRESH)

/-! ## Harness for the spine amount range -/

/-- Engine function `FMath::InvExpApprox`: the rational approximation
1 / (1 + A X + B X^2 + C X^3) of the inverse exponential, with the engine constants
A = 1.00746054, B = 0.45053901 and C = 0.25724632. -/
def FMath.InvExpApprox (X : α) : α :=
  1 / (1 + 100746054 / 100000000 * X + 45053901 / 100000000 * X * X + 25724632 / 100000000 * X * X * X)

/-- The inverse exponential of the host lies in [0, 1] on non-negative arguments. -/
def Externals.InvExpApproxInUnitInterval (E : Externals α) : Prop :=
  ∀ X : α, 0 ≤ X → 0 ≤ E.InvExpApprox X ∧ E.InvExpApprox X ≤ 1

/-- The host functions of the fixture with the inverse exponential of the engine. -/
def Fixture.ExternalsWithInvExpApprox : ALS.Externals α :=
  { Fixture.Externals with InvExpApprox := FMath.InvExpApprox }

/-! ## Harness for the relative acceleration amount -/

namespace UAlsAnimationInstance

/-- The local `MaxAcceleration` of `GetRelativeAccelerationAmount` (AlsAnimationInstance.cpp:272-273):
the maximum acceleration when the acceleration does not oppose the velocity, the maximum braking
deceleration when it does. -/
def SelectedMaxAcceleration (s : UAlsAnimationInstance α) : α :=
  if s.LocomotionState.Acceleration.dot s.LocomotionState.Velocity ≥ 0 then s.LocomotionState.MaxAcceleration
  else s.LocomotionState.MaxBrakingDeceleration

/-- The unclamped quotient of `GetRelativeAccelerationAmount` (AlsAnimationInstance.cpp:280-282): the
actor-relative acceleration divided by the selected maximum. -/
def RelativeAccelerationQuotient (s : UAlsAnimationInstance α) : FVector α :=
  (s.LocomotionState.RotationQuaternion.UnrotateVector s.LocomotionState.Acceleration).divide
    s.SelectedMaxAcceleration

end UAlsAnimationInstance

/-- The inverse square root of the host does not overshoot above one: it is non-negative and its
square times the argument is at most one. -/
def Externals.InvSqrtBounded (E : Externals α) : Prop :=
  ∀ X : α, 1 < X → 0 ≤ E.InvSqrt X ∧ E.InvSqrt X * E.InvSqrt X * X ≤ 1

/-! ## Harness for the selection of the dynamic transition -/

/-- A foot. -/
inductive EAlsFoot where
  | Left
  | Right
  deriving DecidableEq, Repr

/-- The eligibility of a foot for a dynamic transition as the specification states it: the lock
amount is relevant and the squared distance between the target location and the lock location is
strictly greater than the square of the foot lock distance threshold times the scale. -/
def DynamicTransitionEligibleBySpec (s : UAlsAnimationInstance α) (Settings : UAlsAnimationInstanceSettings α)
    (FootState : FAlsFootState α) : Prop :=
  FAnimWeight.IsRelevant FootState.LockAmount ∧
    FVector.DistSquared FootState.TargetLocation FootState.LockLocation >
      (Settings.DynamicTransitions.FootLockDistanceThreshold * s.LocomotionState.Scale) ^ 2

instance (s : UAlsAnimationInstance α) (Settings : UAlsAnimationInstanceSettings α) (FootState : FAlsFootState α) :
    Decidable (DynamicTransitionEligibleBySpec s Settings FootState) := by
  unfold DynamicTransitionEligibleBySpec; infer_instance

/-- The foot the specification chooses for a dynamic transition: none when neither foot is
eligible, the eligible foot when exactly one is, and of two eligible feet the one with the greater
lock distance (compared by its square), the left one on a tie. -/
def DynamicTransitionFootBySpec (s : UAlsAnimationInstance α) (Settings : UAlsAnimationInstanceSettings α) :
    Option EAlsFoot :=
  if DynamicTransitionEligibleBySpec s Settings s.FeetState.Left then
    if DynamicTransitionEligibleBySpec s Settings s.FeetState.Right then
      if FVector.DistSquared s.FeetState.Right.TargetLocation s.FeetState.Right.LockLocation >
          FVector.DistSquared s.FeetState.Left.TargetLocation s.FeetState.Left.LockLocation then
        some EAlsFoot.Right
      else some EAlsFoot.Left
    else some EAlsFoot.Left
  else if DynamicTransitionEligibleBySpec s Settings s.FeetState.Right then some EAlsFoot.Right
  else none

/-- The dynamic-transition sequences as the specification tabulates them: by stance (crouching or
not) and foot. -/
def DynamicTransitionSequenceTable (T : FAlsDynamicTransitionsSettings α) :
    Bool → EAlsFoot → Option UAnimSequenceBase
  | true, EAlsFoot.Left => T.CrouchingLeftSequence
  | true, EAlsFoot.Right => T.CrouchingRightSequence
  | false, EAlsFoot.Left => T.StandingLeftSequence
  | false, EAlsFoot.Right => T.StandingRightSequence

/-- The sequence the specification selects: the sequence of the chosen foot, crouching exactly when
the stance is crouching; none when no foot is chosen or the sequence is not set. -/
def DynamicTransitionSequenceBySpec (s : UAlsAnimationInstance α) (Settings : UAlsAnimationInstanceSettings α) :
    Option UAnimSequenceBase :=
  match DynamicTransitionFootBySpec s Settings with
  | none => none
  | some Foot =>
    DynamicTransitionSequenceTable Settings.DynamicTransitions
      (decide (s.Stance = FGameplayTag.Stance_Crouching)) Foot

/-- The instance after `RefreshDynamicTransitions` has set its guard and done nothing else. -/
def DynamicTransitionGuarded (s : UAlsAnimationInstance α) : UAlsAnimationInstance α :=
  { s with DynamicTransitionsState := { s.DynamicTransitionsState with bUpdatedThisFrame := true } }

/-! ## Harness for the rates of change on the game thread -/

/-- The local `ActorDeltaTime` of `RefreshLocomotionOnGameThread` (Als_GT_AnimInstance.cpp:126): the
world delta time scaled by the time dilation of the character, 0 without a valid world. -/
def UAlsAnimationInstance.ActorDeltaTime (s : UAlsAnimationInstance α) (Character : AAlsCharacter α) : α :=
  if s.World.bValid = true then s.World.DeltaSeconds * Character.CustomTimeDilation else 0

/-! ## Harness for the yaw offset of the spine -/

/-- The local `YawAngleOffset` of `RefreshSpine` (AlsAnimationInstance.cpp:219-231) on a call that
reaches the interpolation toward 0 with the given `LastActorYawAngle`: that angle, moved by the
yaw of the delta rotation of the movement base when the base has a relative rotation, taken
relative to the actor yaw, unwound and clamped to 30 degrees. -/
def UAlsAnimationInstance.SpineYawAngleOffset (s : UAlsAnimationInstance α) (LastActorYawAngle : α) : α :=
  FMath.Clamp
    (FMath.UnwindDegrees
      ((if s.MovementBase.bHasRelativeRotation = true then
          FMath.UnwindDegrees (LastActorYawAngle + s.MovementBase.DeltaRotation.Yaw)
        else LastActorYawAngle) - s.LocomotionState.Rotation.Yaw))
    (-30) 30

/-! ## Shared lemmas: the lock amount through the stages of `RefreshFootLock` -/

namespace UAlsAnimationInstance

theorem FootLockFinal_LockAmount (E : Externals α) (F : FAlsFootState α) (C : FTransform α) :
    (FootLockFinal E F C).LockAmount = F.LockAmount := rfl

theorem FootLockLimitAngle_LockAmount (E : Externals α) (s : UAlsAnimationInstance α)
    (Settings : UAlsAnimationInstanceSettings α) (F : FAlsFootState α) :
    (FootLockLimitAngle E s Settings F).LockAmount = F.LockAmount := by
  unfold FootLockLimitAngle
  simp only
  split_ifs <;> rfl

theorem FootLockRebase_LockAmount (s : UAlsAnimationInstance α) (F : FAlsFootState α) (C : FTransform α) :
    (s.FootLockRebase F C).LockAmount = F.LockAmount := by
  unfold FootLockRebase
  simp only
  split_ifs <;> rfl

theorem FootLockUpdateAmount_LockAmount (s : UAlsAnimationInstance α) (F : FAlsFootState α) (N : α)
    (C : FTransform α) :
    (s.FootLockUpdateAmount F N C).LockAmount =
      if FAnimWeight.IsFullWeight N then 1 else if N > F.LockAmount then F.LockAmount else N := by
  unfold FootLockUpdateAmount
  split_ifs <;> rfl

theorem FootLockDisabled_LockAmount (F : FAlsFootState α) (C : FTransform α) :
    (FootLockDisabled F C).LockAmount = if F.LockAmount > 0 then 0 else F.LockAmount := by
  unfold FootLockDisabled
  simp only
  split_ifs <;> rfl

/-- The lock amount `RefreshFootLock` leaves, as a function of the previous amount and of the
lock weight `FootLockNewAmount`. -/
theorem RefreshFootLock_LockAmount (E : Externals α) (s : UAlsAnimationInstance α)
    (Settings : UAlsAnimationInstanceSettings α) (IkAmount : α) (F : FAlsFootState α)
    (LockCurveName : FName) (C : FTransform α) (DeltaTime : α) :
    (RefreshFootLock E s Settings IkAmount F LockCurveName C DeltaTime).LockAmount =
      if Settings.Feet.bDisableFootLock = true ∨
          ¬ FAnimWeight.IsRelevant (IkAmount * s.FootLockNewAmount F LockCurveName DeltaTime) then
        (if F.LockAmount > 0 then 0 else F.LockAmount)
      else if FAnimWeight.IsFullWeight (s.FootLockNewAmount F LockCurveName DeltaTime) then 1
      else if s.FootLockNewAmount F LockCurveName DeltaTime > F.LockAmount then F.LockAmount
      else s.FootLockNewAmount F LockCurveName DeltaTime := by
  unfold RefreshFootLock
  simp only
  by_cases h : Settings.Feet.bDisableFootLock = true ∨
      ¬ FAnimWeight.IsRelevant (IkAmount * s.FootLockNewAmount F LockCurveName DeltaTime)
  · rw [if_pos h, if_pos h, FootLockDisabled_LockAmount]
  · rw [if_neg h, if_neg h, FootLockFinal_LockAmount, FootLockLimitAngle_LockAmount,
      FootLockRebase_LockAmount, FootLockUpdateAmount_LockAmount]

/-- One call of `RefreshFootLock` never raises the lock amount except to exactly one. -/
theorem RefreshFootLock_LockAmount_step (E : Externals α) (s : UAlsAnimationInstance α)
    (Settings : UAlsAnimationInstanceSettings α) (IkAmount : α) (F : FAlsFootState α)
    (LockCurveName : FName) (C : FTransform α) (DeltaTime : α) :
    (RefreshFootLock E s Settings IkAmount F LockCurveName C DeltaTime).LockAmount ≤ F.LockAmount ∨
      (RefreshFootLock E s Settings IkAmount F LockCurveName C DeltaTime).LockAmount = 1 := by
  rw [RefreshFootLock_LockAmount]
  split_ifs with h1 h2 h3 h4
  · exact Or.inl (le_of_lt h2)
  · exact Or.inl le_rfl
  · exact Or.inr rfl
  · exact Or.inl le_rfl
  · exact Or.inl (not_lt.mp h4)

end UAlsAnimationInstance

/-! ## Verified properties -/

/-- C1: one call of `RefreshFootLock` leaves `LockAmount` less than or equal to its previous
value or exactly equal to 1, for every foot state (whether or not its `LockAmount` is in [0,1]) and
every IK weight, lock-curve value, delta time, settings and mode flags; hence along any sequence
of ticks each realized `LockAmount` is at most the previous one or is exactly 1. -/
theorem C1_foot_lock_amount_never_increases_except_to_one (E : Externals α)
    (s : UAlsAnimationInstance α) (Settings : UAlsAnimationInstanceSettings α) (IkAmount : α)
    (FootState : FAlsFootState α) (LockCurveName : FName) (ComponentTransformInverse : FTransform α)
    (DeltaTime : α) :
    ((UAlsAnimationInstance.RefreshFootLock E s Settings IkAmount FootState LockCurveName
          ComponentTransformInverse DeltaTime).LockAmount ≤ FootState.LockAmount ∨
      (UAlsAnimationInstance.RefreshFootLock E s Settings IkAmount FootState LockCurveName
          ComponentTransformInverse DeltaTime).LockAmount = 1) ∧
    ∀ Ticks : List (FootLockTick α),
      List.Chain (fun Previous Next => Next ≤ Previous ∨ Next = 1) FootState.LockAmount
        (LockAmountsAfterTicks E FootState.LockAmount Ticks) := by
  refine ⟨UAlsAnimationInstance.RefreshFootLock_LockAmount_step E s Settings IkAmount FootState
    LockCurveName ComponentTransformInverse DeltaTime, ?_⟩
  intro Ticks
  generalize FootState.LockAmount = a
  induction Ticks generalizing a with
  | nil => exact List.Chain.nil
  | cons T Ts ih =>
    refine List.Chain.cons ?_ (ih _)
    exact UAlsAnimationInstance.RefreshFootLock_LockAmount_step E T.Instance T.Settings T.IkAmount
      { T.FootState with LockAmount := a } T.LockCurveName T.ComponentTransformInverse T.DeltaTime


theorem UAlsAnimationInstance.SynchronizeMeshRotation_frame (E : Externals α)
    (s : UAlsAnimationInstance α) (C : AAlsCharacter α) :
    (UAlsAnimationInstance.SynchronizeMeshRotation E s C).TeleportedTime = s.TeleportedTime ∧
      (UAlsAnimationInstance.SynchronizeMeshRotation E s C).LocomotionState = s.LocomotionState ∧
      (UAlsAnimationInstance.SynchronizeMeshRotation E s C).bPendingUpdate = s.bPendingUpdate := by
  unfold UAlsAnimationInstance.SynchronizeMeshRotation
  split <;> exact ⟨rfl, rfl, rfl⟩

theorem UAlsAnimationInstance.RefreshCharacterModes_frame (s : UAlsAnimationInstance α)
    (C : AAlsCharacter α) :
    (UAlsAnimationInstance.RefreshCharacterModes s C).TeleportedTime = s.TeleportedTime ∧
      (UAlsAnimationInstance.RefreshCharacterModes s C).LocomotionState = s.LocomotionState ∧
      (UAlsAnimationInstance.RefreshCharacterModes s C).bPendingUpdate = s.bPendingUpdate := by
  unfold UAlsAnimationInstance.RefreshCharacterModes
  simp only
  split_ifs <;> exact ⟨rfl, rfl, rfl⟩

/-- The squared distance of a location from itself never exceeds a squared threshold. -/
theorem FVector.DistSquared_self_not_gt (P : FVector α) (t : α) :
    ¬ (FVector.DistSquared P P > FMath.Square t) := by
  simp only [FVector.DistSquared, FMath.Square, sub_self, mul_zero, add_zero, gt_iff_lt, not_lt]
  exact mul_self_nonneg t

/-- `NativeUpdateAnimation` compares the location with itself, so it never changes the time of
the teleport mark. -/
theorem UAlsAnimationInstance.NativeUpdateAnimation_TeleportedTime (E : Externals α)
    (s : UAlsAnimationInstance α) (DeltaTime : α) :
    (UAlsAnimationInstance.NativeUpdateAnimation E s DeltaTime).TeleportedTime = s.TeleportedTime := by
  unfold UAlsAnimationInstance.NativeUpdateAnimation
  split
  · rfl
  · rfl
  · rename_i C _ _
    have h1 := (UAlsAnimationInstance.RefreshCharacterModes_frame
      (UAlsAnimationInstance.SynchronizeMeshRotation E s C) C).1
    have h2 := (UAlsAnimationInstance.SynchronizeMeshRotation_frame E s C).1
    simp only
    split
    · rw [h1, h2]
    · split_ifs with h
      · exact absurd h.2 (FVector.DistSquared_self_not_gt _ _)
      · rw [h1, h2]


/-- The game-thread refresh does not touch the time of the teleport mark. -/
theorem UAlsAnimationInstance.GT_Refresh_TeleportedTime (E : Externals α) (s : UAlsAnimationInstance α)
    (Settings : UAlsAnimationInstanceSettings α) (Character : AAlsCharacter α) (DeltaTime : α) :
    (UAlsAnimationInstance.GT_Refresh E s Settings Character DeltaTime).TeleportedTime =
      s.TeleportedTime := by
  simp only [UAlsAnimationInstance.GT_Refresh, UAlsAnimationInstance.RefreshRagdollingOnGameThread,
    UAlsAnimationInstance.RefreshFeetOnGameThread, UAlsAnimationInstance.RefreshInAirOnGameThread,
    UAlsAnimationInstance.RefreshLocomotionOnGameThread, UAlsAnimationInstance.RefreshViewOnGameThread,
    UAlsAnimationInstance.RefreshMovementBaseOnGameThread]
  split_ifs <;> rfl

/-- C2 (defect of the code): with a teleport threshold of 100 units, no pending update and valid
character settings, the character moves 150 units in one tick (the game-thread refresh takes the
location from the origin to (150, 0, 0)), yet `NativeUpdateAnimation` leaves the teleport mark
at its old time 0 instead of the world time 10, whether it runs before or after the refresh:
it compares the location with itself. -/
theorem C2_teleport_not_marked_after_150_unit_move :
    (Fixture.TeleportInstance : UAlsAnimationInstance ℚ).bPendingUpdate = false ∧
    (Fixture.TeleportInstance : UAlsAnimationInstance ℚ).LocomotionState.Location = ⟨0, 0, 0⟩ ∧
    (UAlsAnimationInstance.GT_Refresh Fixture.Externals (Fixture.TeleportInstance : UAlsAnimationInstance ℚ)
        Fixture.Settings Fixture.TeleportCharacter 0).LocomotionState.Location = ⟨150, 0, 0⟩ ∧
    FVector.DistSquared (⟨0, 0, 0⟩ : FVector ℚ) ⟨150, 0, 0⟩ > FMath.Square 100 ∧
    (UAlsAnimationInstance.MarkTeleported (Fixture.TeleportInstance : UAlsAnimationInstance ℚ)).TeleportedTime = 10 ∧
    (UAlsAnimationInstance.NativeUpdateAnimation Fixture.Externals
        (Fixture.TeleportInstance : UAlsAnimationInstance ℚ) 0).TeleportedTime = 0 ∧
    (UAlsAnimationInstance.NativeUpdateAnimation Fixture.Externals
        (UAlsAnimationInstance.GT_Refresh Fixture.Externals (Fixture.TeleportInstance : UAlsAnimationInstance ℚ)
          Fixture.Settings Fixture.TeleportCharacter 0) 0).TeleportedTime = 0 ∧
    (UAlsAnimationInstance.GT_Refresh Fixture.Externals
        (UAlsAnimationInstance.NativeUpdateAnimation Fixture.Externals
          (Fixture.TeleportInstance : UAlsAnimationInstance ℚ) 0)
        Fixture.Settings Fixture.TeleportCharacter 0).TeleportedTime = 0 := by
  have h0 : (Fixture.TeleportInstance : UAlsAnimationInstance ℚ).TeleportedTime = 0 := by
    simp [Fixture.TeleportInstance, Fixture.Instance]
  refine ⟨rfl, ?_, ?_, ?_, ?_, ?_, ?_, ?_⟩
  · simp [Fixture.TeleportInstance, Fixture.Instance]
  · simp [UAlsAnimationInstance.GT_Refresh, UAlsAnimationInstance.RefreshRagdollingOnGameThread,
      UAlsAnimationInstance.RefreshFeetOnGameThread, UAlsAnimationInstance.RefreshInAirOnGameThread,
      UAlsAnimationInstance.RefreshLocomotionOnGameThread, UAlsAnimationInstance.RefreshViewOnGameThread,
      UAlsAnimationInstance.RefreshMovementBaseOnGameThread,
      Fixture.TeleportInstance, Fixture.Instance, Fixture.TeleportCharacter, Fixture.Character]
  · norm_num [FVector.DistSquared, FMath.Square]
  · simp [UAlsAnimationInstance.MarkTeleported, Fixture.TeleportInstance]
  · rw [UAlsAnimationInstance.NativeUpdateAnimation_TeleportedTime, h0]
  · rw [UAlsAnimationInstance.NativeUpdateAnimation_TeleportedTime,
      UAlsAnimationInstance.GT_Refresh_TeleportedTime, h0]
  · rw [UAlsAnimationInstance.GT_Refresh_TeleportedTime,
      UAlsAnimationInstance.NativeUpdateAnimation_TeleportedTime, h0]


/-- C3 (as stated, refuted): a transition sequence queued together with a stop request is still
queued after `NativePostUpdateAnimation`, and the next `NativePostUpdateAnimation` plays it. -/
theorem C3_queued_request_survives_stop_and_plays_later :
    (Fixture.StopQueuedInstance : UAlsAnimationInstance ℚ).TransitionsState.bStopTransitionsQueued = true ∧
    (Fixture.StopQueuedInstance : UAlsAnimationInstance ℚ).TransitionsState.QueuedTransitionSequence =
      some ⟨5⟩ ∧
    (UAlsAnimationInstance.NativePostUpdateAnimation
        (Fixture.StopQueuedInstance : UAlsAnimationInstance ℚ)).TransitionsState.QueuedTransitionSequence =
      some ⟨5⟩ ∧
    (UAlsAnimationInstance.NativePostUpdateAnimation
        (UAlsAnimationInstance.NativePostUpdateAnimation
          (Fixture.StopQueuedInstance : UAlsAnimationInstance ℚ))).MontageRequests.head? =
      some (FMontageRequest.PlaySlotAnimationAsDynamicMontage (some ⟨5⟩) FName.TransitionSlot
        (2 / 10) (2 / 10) 1 1 0 0) := by
  simp [UAlsAnimationInstance.NativePostUpdateAnimation, UAlsAnimationInstance.PlayQueuedTransitionAnimation,
    UAlsAnimationInstance.PlayQueuedTurnInPlaceAnimation,
    UAlsAnimationInstance.StopQueuedTransitionAndTurnInPlaceAnimations,
    Fixture.StopQueuedInstance, Fixture.Instance]

/-- C3 (amended): after `NativePostUpdateAnimation` with settings and character bound the stop
flag is clear; when the stop flag was set, the only requests issued in that tick are the three
stop requests, so no queued request is played in that tick; when the stop flag was clear, no
queued transition sequence and no queued turn-in-place preset remains. -/
theorem C3_drain_with_stop_flag (s : UAlsAnimationInstance α)
    (Settings : UAlsAnimationInstanceSettings α) (Character : AAlsCharacter α)
    (hSettings : s.Settings = some Settings) (hCharacter : s.Character = some Character) :
    (UAlsAnimationInstance.NativePostUpdateAnimation s).TransitionsState.bStopTransitionsQueued = false ∧
    (s.TransitionsState.bStopTransitionsQueued = true →
      (UAlsAnimationInstance.NativePostUpdateAnimation s).MontageRequests =
        FMontageRequest.StopSlotAnimation s.TransitionsState.QueuedStopTransitionsBlendOutDuration
            FName.TurnInPlaceCrouchingSlot ::
          FMontageRequest.StopSlotAnimation s.TransitionsState.QueuedStopTransitionsBlendOutDuration
            FName.TurnInPlaceStandingSlot ::
          FMontageRequest.StopSlotAnimation s.TransitionsState.QueuedStopTransitionsBlendOutDuration
            FName.TransitionSlot :: s.MontageRequests) ∧
    (s.TransitionsState.bStopTransitionsQueued = false →
      (UAlsAnimationInstance.NativePostUpdateAnimation s).TransitionsState.QueuedTransitionSequence = none ∧
      (UAlsAnimationInstance.NativePostUpdateAnimation s).TurnInPlaceState.QueuedSettings = none) := by
  unfold UAlsAnimationInstance.NativePostUpdateAnimation
  simp only [hSettings, hCharacter, Option.isSome_some]
  cases hStop : s.TransitionsState.bStopTransitionsQueued
  · cases hQ : s.TransitionsState.QueuedTransitionSequence <;>
      cases hT : s.TurnInPlaceState.QueuedSettings <;>
      simp [UAlsAnimationInstance.PlayQueuedTransitionAnimation,
        UAlsAnimationInstance.PlayQueuedTurnInPlaceAnimation,
        UAlsAnimationInstance.StopQueuedTransitionAndTurnInPlaceAnimations, hStop, hQ, hT]
  · simp [UAlsAnimationInstance.PlayQueuedTransitionAnimation,
      UAlsAnimationInstance.PlayQueuedTurnInPlaceAnimation,
      UAlsAnimationInstance.StopQueuedTransitionAndTurnInPlaceAnimations, hStop]

/-- C3 (amended), applied to the stop scenario: the drain issues the three stop requests
only and clears the stop flag. -/
theorem C3_drain_with_stop_flag_witness :
    (Fixture.StopQueuedInstance : UAlsAnimationInstance ℚ).Settings = some Fixture.Settings ∧
    (Fixture.StopQueuedInstance : UAlsAnimationInstance ℚ).Character = some (Fixture.Character 100) ∧
    (UAlsAnimationInstance.NativePostUpdateAnimation
        (Fixture.StopQueuedInstance : UAlsAnimationInstance ℚ)).TransitionsState.bStopTransitionsQueued =
      false ∧
    (UAlsAnimationInstance.NativePostUpdateAnimation
        (Fixture.StopQueuedInstance : UAlsAnimationInstance ℚ)).MontageRequests =
      [FMontageRequest.StopSlotAnimation (1 / 10) FName.TurnInPlaceCrouchingSlot,
       FMontageRequest.StopSlotAnimation (1 / 10) FName.TurnInPlaceStandingSlot,
       FMontageRequest.StopSlotAnimation (1 / 10) FName.TransitionSlot] :=
  ⟨rfl, rfl,
   (C3_drain_with_stop_flag Fixture.StopQueuedInstance Fixture.Settings (Fixture.Character 100) rfl rfl).1,
   (C3_drain_with_stop_flag Fixture.StopQueuedInstance Fixture.Settings (Fixture.Character 100) rfl rfl).2.1
     rfl⟩


/-! ### Spine re-basing -/

/-- An angle already in [-180, 180] is left unchanged by `FMath::UnwindDegrees`. -/
theorem FMath.UnwindDegrees_of_mem (A : α) (h1 : -180 ≤ A) (h2 : A ≤ 180) :
    FMath.UnwindDegrees A = A := by
  unfold FMath.UnwindDegrees
  simp only [gt_iff_lt, not_lt.mpr h2, if_false, not_lt.mpr h1]

/-- The angle lerp at amount zero gives the start angle when it lies in [-180, 180]. -/
theorem UAlsRotation.LerpAngle_zero (E : Externals α) (From To : α) (h1 : -180 ≤ From) (h2 : From ≤ 180) :
    UAlsRotation.LerpAngle E From To 0 = From := by
  unfold UAlsRotation.LerpAngle
  simp only [mul_zero, add_zero]
  exact FMath.UnwindDegrees_of_mem From h1 h2

/-- The angle lerp from zero at amount one gives the target angle when it lies in [-180, 180). -/
theorem UAlsRotation.LerpAngle_from_zero_one (E : Externals α) (To : α) (h1 : -180 ≤ To) (h2 : To < 180) :
    UAlsRotation.LerpAngle E 0 To 1 = To := by
  unfold UAlsRotation.LerpAngle UAlsRotation.RemapAngleForCounterClockwiseRotation
  simp only [sub_zero, mul_one, zero_add, FMath.UnwindDegrees_of_mem To h1 h2.le]
  split_ifs with h
  · unfold FMath.UnwindDegrees
    have h3 : ¬ (To - 360 > 180) := by simp only [gt_iff_lt, not_lt]; linarith
    have h4 : To - 360 < -180 := by linarith
    simp only [h3, if_false, h4, if_true]
    have h5 : ⌈(-180 - (To - 360)) / 360⌉ = 1 := by
      rw [Int.ceil_eq_iff]
      constructor
      · simp only [Int.cast_one, sub_self]
        apply div_pos <;> linarith
      · simp only [Int.cast_one]
        rw [div_le_one (by norm_num)]
        linarith
    rw [h5]
    simp
  · exact FMath.UnwindDegrees_of_mem To h1 h2.le

namespace UAlsAnimationInstance

/-- The interpolation step of `RefreshSpine` keeps the flag, the scale, the bias and the last
yaw angle of the re-based spine state. -/
theorem SpineInterpolate_frame (E : Externals α) (s : UAlsAnimationInstance α) (S : FAlsSpineState α)
    (DeltaTime : α) :
    (SpineInterpolate E s S DeltaTime).bSpineRotationAllowed = S.bSpineRotationAllowed ∧
    (SpineInterpolate E s S DeltaTime).SpineAmountScale = S.SpineAmountScale ∧
    (SpineInterpolate E s S DeltaTime).SpineAmountBias = S.SpineAmountBias ∧
    (SpineInterpolate E s S DeltaTime).LastYawAngle = S.LastYawAngle := by
  unfold SpineInterpolate
  split_ifs <;> exact ⟨rfl, rfl, rfl, rfl⟩

/-- After the re-basing step the flag agrees with the rotation mode. -/
theorem SpineRebase_flag (s : UAlsAnimationInstance α) :
    s.SpineRebase.bSpineRotationAllowed = s.IsSpineRotationAllowed := by
  unfold SpineRebase
  cases h1 : s.SpineState.bSpineRotationAllowed <;> cases h2 : s.IsSpineRotationAllowed <;>
    simp [h1, h2]
  split_ifs <;> rfl

end UAlsAnimationInstance


/-- C4 (as stated, refuted): entering aiming with a spine amount of 0.999995, which is in [0,1],
and a current yaw angle of 30, the scale is set to 1 and not to 1/(1 - amount) = 200000, and the
angle interpolated at the same amount differs from the current yaw angle. -/
theorem C4_full_weight_amount_is_not_rebased :
    (0 : ℚ) ≤ (Fixture.SpineEnterAimingInstance : UAlsAnimationInstance ℚ).SpineState.SpineAmount ∧
    (Fixture.SpineEnterAimingInstance : UAlsAnimationInstance ℚ).SpineState.SpineAmount ≤ 1 ∧
    (Fixture.SpineEnterAimingInstance : UAlsAnimationInstance ℚ).SpineState.CurrentYawAngle = 30 ∧
    (Fixture.SpineEnterAimingInstance : UAlsAnimationInstance ℚ).SpineState.bSpineRotationAllowed = false ∧
    (UAlsAnimationInstance.RefreshSpine Fixture.Externals
        (Fixture.SpineEnterAimingInstance : UAlsAnimationInstance ℚ) 1 0).SpineState.bSpineRotationAllowed =
      true ∧
    (UAlsAnimationInstance.RefreshSpine Fixture.Externals
        (Fixture.SpineEnterAimingInstance : UAlsAnimationInstance ℚ) 1 0).SpineState.SpineAmountScale = 1 ∧
    (UAlsAnimationInstance.RefreshSpine Fixture.Externals
        (Fixture.SpineEnterAimingInstance : UAlsAnimationInstance ℚ) 1 0).SpineState.SpineAmountScale ≠
      1 / (1 - (Fixture.SpineEnterAimingInstance : UAlsAnimationInstance ℚ).SpineState.SpineAmount) ∧
    UAlsRotation.LerpAngle Fixture.Externals
        (UAlsAnimationInstance.RefreshSpine Fixture.Externals
          (Fixture.SpineEnterAimingInstance : UAlsAnimationInstance ℚ) 1 0).SpineState.LastYawAngle
        (Fixture.SpineEnterAimingInstance : UAlsAnimationInstance ℚ).ViewState.YawAngle
        ((Fixture.SpineEnterAimingInstance : UAlsAnimationInstance ℚ).SpineState.SpineAmount *
            (UAlsAnimationInstance.RefreshSpine Fixture.Externals
              (Fixture.SpineEnterAimingInstance : UAlsAnimationInstance ℚ) 1 0).SpineState.SpineAmountScale +
          (UAlsAnimationInstance.RefreshSpine Fixture.Externals
            (Fixture.SpineEnterAimingInstance : UAlsAnimationInstance ℚ) 1 0).SpineState.SpineAmountBias) ≠
      (Fixture.SpineEnterAimingInstance : UAlsAnimationInstance ℚ).SpineState.CurrentYawAngle := by
  norm_num [UAlsAnimationInstance.RefreshSpine, UAlsAnimationInstance.SpineInterpolate,
    UAlsAnimationInstance.SpineRebase, UAlsAnimationInstance.IsSpineRotationAllowed,
    FAnimWeight.IsFullWeight, ZERO_ANIMWEIGHT_THRESH, UAlsRotation.LerpAngle,
    UAlsRotation.RemapAngleForCounterClockwiseRotation, FMath.UnwindDegrees,
    Fixture.SpineEnterAimingInstance, Fixture.Instance, Fixture.Externals]

/-- C4 (amended): when `RefreshSpine` flips `bSpineRotationAllowed` from false to true with a
spine amount a below the full-weight threshold 1 - 0.00001 and a current yaw angle c in
[-180, 180], it sets `SpineAmountScale` = 1/(1 - a), `SpineAmountBias` = -a * `SpineAmountScale`
and `LastYawAngle` = c, and the angle interpolated from `LastYawAngle` to the view yaw angle at the
same amount a equals c; with a spine amount at or above the full-weight threshold it sets the
scale to 1 and the bias to 0 and the call leaves the spine amount at 1 and the current yaw angle
at the view yaw angle. -/
theorem C4_spine_continuity_on_entering_aiming (E : Externals α) (s : UAlsAnimationInstance α)
    (SpineBlendAmount DeltaTime : α)
    (hFlag : s.SpineState.bSpineRotationAllowed = false)
    (hMode : s.RotationMode = FGameplayTag.RotationMode_Aiming)
    (hc1 : -180 ≤ s.SpineState.CurrentYawAngle) (hc2 : s.SpineState.CurrentYawAngle ≤ 180) :
    (UAlsAnimationInstance.RefreshSpine E s SpineBlendAmount DeltaTime).SpineState.bSpineRotationAllowed =
      true ∧
    (¬ FAnimWeight.IsFullWeight s.SpineState.SpineAmount →
      (UAlsAnimationInstance.RefreshSpine E s SpineBlendAmount DeltaTime).SpineState.SpineAmountScale =
        1 / (1 - s.SpineState.SpineAmount) ∧
      (UAlsAnimationInstance.RefreshSpine E s SpineBlendAmount DeltaTime).SpineState.SpineAmountBias =
        -s.SpineState.SpineAmount *
          (UAlsAnimationInstance.RefreshSpine E s SpineBlendAmount DeltaTime).SpineState.SpineAmountScale ∧
      (UAlsAnimationInstance.RefreshSpine E s SpineBlendAmount DeltaTime).SpineState.LastYawAngle =
        s.SpineState.CurrentYawAngle ∧
      UAlsRotation.LerpAngle E
          (UAlsAnimationInstance.RefreshSpine E s SpineBlendAmount DeltaTime).SpineState.LastYawAngle
          s.ViewState.YawAngle
          (s.SpineState.SpineAmount *
              (UAlsAnimationInstance.RefreshSpine E s SpineBlendAmount DeltaTime).SpineState.SpineAmountScale +
            (UAlsAnimationInstance.RefreshSpine E s SpineBlendAmount DeltaTime).SpineState.SpineAmountBias) =
        s.SpineState.CurrentYawAngle) ∧
    (FAnimWeight.IsFullWeight s.SpineState.SpineAmount →
      (UAlsAnimationInstance.RefreshSpine E s SpineBlendAmount DeltaTime).SpineState.SpineAmountScale = 1 ∧
      (UAlsAnimationInstance.RefreshSpine E s SpineBlendAmount DeltaTime).SpineState.SpineAmountBias = 0 ∧
      (UAlsAnimationInstance.RefreshSpine E s SpineBlendAmount DeltaTime).SpineState.SpineAmount = 1 ∧
      (UAlsAnimationInstance.RefreshSpine E s SpineBlendAmount DeltaTime).SpineState.CurrentYawAngle =
        s.ViewState.YawAngle) := by
  have hAllowed : s.IsSpineRotationAllowed = true := by
    simp [UAlsAnimationInstance.IsSpineRotationAllowed, hMode]
  obtain ⟨f1, f2, f3, f4⟩ := UAlsAnimationInstance.SpineInterpolate_frame E s s.SpineRebase DeltaTime
  have e1 : (UAlsAnimationInstance.RefreshSpine E s SpineBlendAmount DeltaTime).SpineState.bSpineRotationAllowed
      = s.SpineRebase.bSpineRotationAllowed := f1
  have e2 : (UAlsAnimationInstance.RefreshSpine E s SpineBlendAmount DeltaTime).SpineState.SpineAmountScale
      = s.SpineRebase.SpineAmountScale := f2
  have e3 : (UAlsAnimationInstance.RefreshSpine E s SpineBlendAmount DeltaTime).SpineState.SpineAmountBias
      = s.SpineRebase.SpineAmountBias := f3
  have e4 : (UAlsAnimationInstance.RefreshSpine E s SpineBlendAmount DeltaTime).SpineState.LastYawAngle
      = s.SpineRebase.LastYawAngle := f4
  rw [e1, e2, e3, e4]
  refine ⟨by rw [UAlsAnimationInstance.SpineRebase_flag, hAllowed], ?_, ?_⟩
  · intro hNotFull
    have r : s.SpineRebase.SpineAmountScale = 1 / (1 - s.SpineState.SpineAmount) ∧
        s.SpineRebase.SpineAmountBias = -s.SpineState.SpineAmount * (1 / (1 - s.SpineState.SpineAmount)) ∧
        s.SpineRebase.LastYawAngle = s.SpineState.CurrentYawAngle := by
      unfold UAlsAnimationInstance.SpineRebase
      simp [hFlag, hAllowed, hNotFull]
    obtain ⟨r1, r2, r3⟩ := r
    rw [r1, r2, r3]
    refine ⟨rfl, rfl, rfl, ?_⟩
    have hz : s.SpineState.SpineAmount * (1 / (1 - s.SpineState.SpineAmount)) +
        -s.SpineState.SpineAmount * (1 / (1 - s.SpineState.SpineAmount)) = 0 := by ring
    rw [hz]
    exact UAlsRotation.LerpAngle_zero E _ _ hc1 hc2
  · intro hFull
    have r : s.SpineRebase.SpineAmountScale = 1 ∧ s.SpineRebase.SpineAmountBias = 0 ∧
        s.SpineRebase.SpineAmount = s.SpineState.SpineAmount ∧
        s.SpineRebase.bSpineRotationAllowed = true := by
      unfold UAlsAnimationInstance.SpineRebase
      simp [hFlag, hAllowed, hFull]
    obtain ⟨r1, r2, r3, r4⟩ := r
    refine ⟨r1, r2, ?_, ?_⟩
    · show (UAlsAnimationInstance.SpineInterpolate E s s.SpineRebase DeltaTime).SpineAmount = 1
      unfold UAlsAnimationInstance.SpineInterpolate
      simp [r4, r3, hFull]
    · show (UAlsAnimationInstance.SpineInterpolate E s s.SpineRebase DeltaTime).CurrentYawAngle =
        s.ViewState.YawAngle
      unfold UAlsAnimationInstance.SpineInterpolate
      simp [r4, r3, hFull]


/-- C4 (amended), applied to the scenario entering aiming with a spine amount of one half, a
current yaw angle of 30 and a view yaw angle of 60: the scale is 2 and the angle interpolated at
amount one half is 30. -/
theorem C4_spine_continuity_on_entering_aiming_witness :
    (Fixture.SpineEnterAimingHalfInstance : UAlsAnimationInstance ℚ).SpineState.bSpineRotationAllowed =
      false ∧
    (Fixture.SpineEnterAimingHalfInstance : UAlsAnimationInstance ℚ).RotationMode =
      FGameplayTag.RotationMode_Aiming ∧
    ¬ FAnimWeight.IsFullWeight
      (Fixture.SpineEnterAimingHalfInstance : UAlsAnimationInstance ℚ).SpineState.SpineAmount ∧
    (UAlsAnimationInstance.RefreshSpine Fixture.Externals
        (Fixture.SpineEnterAimingHalfInstance : UAlsAnimationInstance ℚ) 1 (1 / 60)).SpineState.SpineAmountScale =
      1 / (1 - (Fixture.SpineEnterAimingHalfInstance : UAlsAnimationInstance ℚ).SpineState.SpineAmount) ∧
    UAlsRotation.LerpAngle Fixture.Externals
        (UAlsAnimationInstance.RefreshSpine Fixture.Externals
          (Fixture.SpineEnterAimingHalfInstance : UAlsAnimationInstance ℚ) 1 (1 / 60)).SpineState.LastYawAngle
        (Fixture.SpineEnterAimingHalfInstance : UAlsAnimationInstance ℚ).ViewState.YawAngle
        ((Fixture.SpineEnterAimingHalfInstance : UAlsAnimationInstance ℚ).SpineState.SpineAmount *
            (UAlsAnimationInstance.RefreshSpine Fixture.Externals
              (Fixture.SpineEnterAimingHalfInstance : UAlsAnimationInstance ℚ) 1
              (1 / 60)).SpineState.SpineAmountScale +
          (UAlsAnimationInstance.RefreshSpine Fixture.Externals
            (Fixture.SpineEnterAimingHalfInstance : UAlsAnimationInstance ℚ) 1
            (1 / 60)).SpineState.SpineAmountBias) =
      (Fixture.SpineEnterAimingHalfInstance : UAlsAnimationInstance ℚ).SpineState.CurrentYawAngle := by
  have hNotFull : ¬ FAnimWeight.IsFullWeight
      (Fixture.SpineEnterAimingHalfInstance : UAlsAnimationInstance ℚ).SpineState.SpineAmount := by
    norm_num [FAnimWeight.IsFullWeight, ZERO_ANIMWEIGHT_THRESH, Fixture.SpineEnterAimingHalfInstance]
  have h := C4_spine_continuity_on_entering_aiming Fixture.Externals
    (Fixture.SpineEnterAimingHalfInstance : UAlsAnimationInstance ℚ) 1 (1 / 60) rfl rfl
    (by norm_num [Fixture.SpineEnterAimingHalfInstance, Fixture.SpineEnterAimingInstance])
    (by norm_num [Fixture.SpineEnterAimingHalfInstance, Fixture.SpineEnterAimingInstance])
  exact ⟨rfl, rfl, hNotFull, (h.2.1 hNotFull).1, (h.2.1 hNotFull).2.2.2⟩

/-- C5 (as stated, refuted): leaving aiming with a spine amount of 0.000005, which is in (0,1],
and a current yaw angle of 90, the scale is set to 1 and not to 1/amount = 200000, and the angle
interpolated at the same amount differs from the current yaw angle. -/
theorem C5_irrelevant_amount_is_not_rebased :
    (0 : ℚ) < (Fixture.SpineLeaveAimingInstance : UAlsAnimationInstance ℚ).SpineState.SpineAmount ∧
    (Fixture.SpineLeaveAimingInstance : UAlsAnimationInstance ℚ).SpineState.SpineAmount ≤ 1 ∧
    (Fixture.SpineLeaveAimingInstance : UAlsAnimationInstance ℚ).SpineState.CurrentYawAngle = 90 ∧
    (Fixture.SpineLeaveAimingInstance : UAlsAnimationInstance ℚ).SpineState.bSpineRotationAllowed = true ∧
    (UAlsAnimationInstance.RefreshSpine Fixture.Externals
        (Fixture.SpineLeaveAimingInstance : UAlsAnimationInstance ℚ) 1 0).SpineState.bSpineRotationAllowed =
      false ∧
    (UAlsAnimationInstance.RefreshSpine Fixture.Externals
        (Fixture.SpineLeaveAimingInstance : UAlsAnimationInstance ℚ) 1 0).SpineState.SpineAmountScale = 1 ∧
    (UAlsAnimationInstance.RefreshSpine Fixture.Externals
        (Fixture.SpineLeaveAimingInstance : UAlsAnimationInstance ℚ) 1 0).SpineState.SpineAmountScale ≠
      1 / (Fixture.SpineLeaveAimingInstance : UAlsAnimationInstance ℚ).SpineState.SpineAmount ∧
    UAlsRotation.LerpAngle Fixture.Externals 0
        ((UAlsAnimationInstance.RefreshSpine Fixture.Externals
          (Fixture.SpineLeaveAimingInstance : UAlsAnimationInstance ℚ) 1 0).SpineState.LastYawAngle + 0)
        ((Fixture.SpineLeaveAimingInstance : UAlsAnimationInstance ℚ).SpineState.SpineAmount *
            (UAlsAnimationInstance.RefreshSpine Fixture.Externals
              (Fixture.SpineLeaveAimingInstance : UAlsAnimationInstance ℚ) 1 0).SpineState.SpineAmountScale +
          (UAlsAnimationInstance.RefreshSpine Fixture.Externals
            (Fixture.SpineLeaveAimingInstance : UAlsAnimationInstance ℚ) 1 0).SpineState.SpineAmountBias) ≠
      (Fixture.SpineLeaveAimingInstance : UAlsAnimationInstance ℚ).SpineState.CurrentYawAngle := by
  simp only [UAlsAnimationInstance.RefreshSpine, UAlsAnimationInstance.SpineInterpolate,
    UAlsAnimationInstance.SpineRebase, UAlsAnimationInstance.IsSpineRotationAllowed,
    Fixture.SpineLeaveAimingInstance, Fixture.Instance, Fixture.Externals, reduceCtorEq, decide_False,
    ne_eq, Bool.true_eq_false, not_false_eq_true, if_true, if_false, Bool.not_true]
  norm_num [FAnimWeight.IsRelevant, ZERO_ANIMWEIGHT_THRESH, UAlsRotation.LerpAngle,
    UAlsRotation.RemapAngleForCounterClockwiseRotation, FMath.UnwindDegrees]

namespace UAlsAnimationInstance

/-- The spine state after the re-basing step of a call that leaves aiming. -/
theorem SpineRebase_leaving (s : UAlsAnimationInstance α)
    (hFlag : s.SpineState.bSpineRotationAllowed = true)
    (hMode : s.RotationMode ≠ FGameplayTag.RotationMode_Aiming) :
    s.SpineRebase =
      { s.SpineState with
        bSpineRotationAllowed := false
        SpineAmountScale :=
          if ¬ FAnimWeight.IsRelevant s.SpineState.SpineAmount then 1 else 1 / s.SpineState.SpineAmount
        SpineAmountBias := 0
        LastYawAngle := s.SpineState.CurrentYawAngle
        LastActorYawAngle := s.LocomotionState.Rotation.Yaw } := by
  have hAllowed : s.IsSpineRotationAllowed = false := by
    simp [IsSpineRotationAllowed, hMode]
  unfold SpineRebase
  simp [hFlag, hAllowed]

/-- The spine state a call of `RefreshSpine` that leaves aiming returns, apart from the blended
yaw angle: reset on a pending update or with a spine amount that is not relevant, and otherwise
interpolated toward 0 with the yaw offset measured from the actor yaw. -/
theorem RefreshSpine_leaving (E : Externals α) (s : UAlsAnimationInstance α) (SpineBlendAmount DeltaTime : α)
    (hFlag : s.SpineState.bSpineRotationAllowed = true)
    (hMode : s.RotationMode ≠ FGameplayTag.RotationMode_Aiming) :
    (RefreshSpine E s SpineBlendAmount DeltaTime).SpineState.bSpineRotationAllowed = false ∧
      (RefreshSpine E s SpineBlendAmount DeltaTime).SpineState.SpineAmountScale =
        (if ¬ FAnimWeight.IsRelevant s.SpineState.SpineAmount then 1 else 1 / s.SpineState.SpineAmount) ∧
      (RefreshSpine E s SpineBlendAmount DeltaTime).SpineState.SpineAmountBias = 0 ∧
      (RefreshSpine E s SpineBlendAmount DeltaTime).SpineState.LastYawAngle = s.SpineState.CurrentYawAngle ∧
      (s.bPendingUpdate = true ∨ ¬ FAnimWeight.IsRelevant s.SpineState.SpineAmount →
        (RefreshSpine E s SpineBlendAmount DeltaTime).SpineState.SpineAmount = 0 ∧
          (RefreshSpine E s SpineBlendAmount DeltaTime).SpineState.CurrentYawAngle = 0 ∧
          (RefreshSpine E s SpineBlendAmount DeltaTime).SpineState.LastActorYawAngle =
            s.LocomotionState.Rotation.Yaw) ∧
      (s.bPendingUpdate = false ∧ FAnimWeight.IsRelevant s.SpineState.SpineAmount →
        (RefreshSpine E s SpineBlendAmount DeltaTime).SpineState.LastActorYawAngle =
            FMath.UnwindDegrees
              (s.SpineYawAngleOffset s.LocomotionState.Rotation.Yaw + s.LocomotionState.Rotation.Yaw) ∧
          (RefreshSpine E s SpineBlendAmount DeltaTime).SpineState.CurrentYawAngle =
            UAlsRotation.LerpAngle E 0
              ((RefreshSpine E s SpineBlendAmount DeltaTime).SpineState.LastYawAngle +
                s.SpineYawAngleOffset s.LocomotionState.Rotation.Yaw)
              ((RefreshSpine E s SpineBlendAmount DeltaTime).SpineState.SpineAmount *
                  (RefreshSpine E s SpineBlendAmount DeltaTime).SpineState.SpineAmountScale +
                (RefreshSpine E s SpineBlendAmount DeltaTime).SpineState.SpineAmountBias)) := by
  have hFlagR : (RefreshSpine E s SpineBlendAmount DeltaTime).SpineState.bSpineRotationAllowed =
      (SpineInterpolate E s s.SpineRebase DeltaTime).bSpineRotationAllowed := rfl
  have hScaleR : (RefreshSpine E s SpineBlendAmount DeltaTime).SpineState.SpineAmountScale =
      (SpineInterpolate E s s.SpineRebase DeltaTime).SpineAmountScale := rfl
  have hBiasR : (RefreshSpine E s SpineBlendAmount DeltaTime).SpineState.SpineAmountBias =
      (SpineInterpolate E s s.SpineRebase DeltaTime).SpineAmountBias := rfl
  have hLastR : (RefreshSpine E s SpineBlendAmount DeltaTime).SpineState.LastYawAngle =
      (SpineInterpolate E s s.SpineRebase DeltaTime).LastYawAngle := rfl
  have hAmountR : (RefreshSpine E s SpineBlendAmount DeltaTime).SpineState.SpineAmount =
      (SpineInterpolate E s s.SpineRebase DeltaTime).SpineAmount := rfl
  have hCurrentR : (RefreshSpine E s SpineBlendAmount DeltaTime).SpineState.CurrentYawAngle =
      (SpineInterpolate E s s.SpineRebase DeltaTime).CurrentYawAngle := rfl
  have hActorR : (RefreshSpine E s SpineBlendAmount DeltaTime).SpineState.LastActorYawAngle =
      (SpineInterpolate E s s.SpineRebase DeltaTime).LastActorYawAngle := rfl
  rw [hFlagR, hScaleR, hBiasR, hLastR, hAmountR, hCurrentR, hActorR, SpineRebase_leaving s hFlag hMode]
  obtain ⟨f1, f2, f3, f4⟩ := SpineInterpolate_frame E s
    ({ s.SpineState with
        bSpineRotationAllowed := false
        SpineAmountScale :=
          if ¬ FAnimWeight.IsRelevant s.SpineState.SpineAmount then 1 else 1 / s.SpineState.SpineAmount
        SpineAmountBias := 0
        LastYawAngle := s.SpineState.CurrentYawAngle
        LastActorYawAngle := s.LocomotionState.Rotation.Yaw } : FAlsSpineState α) DeltaTime
  refine ⟨f1, f2, f3, f4, ?_, ?_⟩
  · intro hReset
    unfold SpineInterpolate
    simp only [Bool.false_eq_true, if_false]
    rw [if_pos hReset]
    exact ⟨rfl, rfl, rfl⟩
  · rintro ⟨hPending, hRel⟩
    have hNoReset : ¬ (s.bPendingUpdate = true ∨ ¬ FAnimWeight.IsRelevant s.SpineState.SpineAmount) := by
      rintro (h | h)
      · rw [hPending] at h
        exact Bool.false_ne_true h
      · exact h hRel
    rw [f2, f3, f4]
    unfold SpineInterpolate SpineYawAngleOffset
    simp only [Bool.false_eq_true, if_false]
    rw [if_neg hNoReset]
    exact ⟨rfl, rfl⟩

end UAlsAnimationInstance

/-- C5 (amended): when `RefreshSpine` flips `bSpineRotationAllowed` from true to false with a
spine amount a above the relevance threshold 0.00001 and a current yaw angle c in [-180, 180), it
sets `SpineAmountScale` = 1/a, `SpineAmountBias` = 0 and `LastYawAngle` = c.  When the update is
not pending, the call leaves `LastActorYawAngle` at the unwound sum of the actor yaw and the yaw
offset the code measures from the actor yaw, and `CurrentYawAngle` at the angle interpolated from 0
to `LastYawAngle` plus that offset at the decayed amount; with no relative rotation of the movement
base the offset is 0, `LastActorYawAngle` is the unwound actor yaw (the actor yaw itself when it
lies in [-180, 180]) and the angle interpolated from 0 to `LastYawAngle` plus the offset at the
same amount a equals c, while with a relative rotation it is the angle interpolated to c plus the
offset at amount 1.  When the update is pending the call resets the spine amount and the current
yaw angle to 0 and leaves `LastActorYawAngle` at the actor yaw.  With a spine amount not above the
relevance threshold it sets the scale to 1 and the bias to 0 and leaves the spine amount and the
current yaw angle at 0 and `LastActorYawAngle` at the actor yaw. -/
theorem C5_spine_continuity_on_leaving_aiming (E : Externals α) (s : UAlsAnimationInstance α)
    (SpineBlendAmount DeltaTime : α)
    (hFlag : s.SpineState.bSpineRotationAllowed = true)
    (hMode : s.RotationMode ≠ FGameplayTag.RotationMode_Aiming)
    (hc1 : -180 ≤ s.SpineState.CurrentYawAngle) (hc2 : s.SpineState.CurrentYawAngle < 180) :
    (UAlsAnimationInstance.RefreshSpine E s SpineBlendAmount DeltaTime).SpineState.bSpineRotationAllowed =
      false ∧
    (FAnimWeight.IsRelevant s.SpineState.SpineAmount →
      (UAlsAnimationInstance.RefreshSpine E s SpineBlendAmount DeltaTime).SpineState.SpineAmountScale =
        1 / s.SpineState.SpineAmount ∧
      (UAlsAnimationInstance.RefreshSpine E s SpineBlendAmount DeltaTime).SpineState.SpineAmountBias = 0 ∧
      (UAlsAnimationInstance.RefreshSpine E s SpineBlendAmount DeltaTime).SpineState.LastYawAngle =
        s.SpineState.CurrentYawAngle ∧
      (s.bPendingUpdate = false →
        (UAlsAnimationInstance.RefreshSpine E s SpineBlendAmount DeltaTime).SpineState.LastActorYawAngle =
            FMath.UnwindDegrees
              (s.SpineYawAngleOffset s.LocomotionState.Rotation.Yaw + s.LocomotionState.Rotation.Yaw) ∧
          (UAlsAnimationInstance.RefreshSpine E s SpineBlendAmount DeltaTime).SpineState.CurrentYawAngle =
            UAlsRotation.LerpAngle E 0
              ((UAlsAnimationInstance.RefreshSpine E s SpineBlendAmount DeltaTime).SpineState.LastYawAngle +
                s.SpineYawAngleOffset s.LocomotionState.Rotation.Yaw)
              ((UAlsAnimationInstance.RefreshSpine E s SpineBlendAmount DeltaTime).SpineState.SpineAmount *
                  (UAlsAnimationInstance.RefreshSpine E s SpineBlendAmount
                    DeltaTime).SpineState.SpineAmountScale +
                (UAlsAnimationInstance.RefreshSpine E s SpineBlendAmount DeltaTime).SpineState.SpineAmountBias) ∧
          UAlsRotation.LerpAngle E 0
              ((UAlsAnimationInstance.RefreshSpine E s SpineBlendAmount DeltaTime).SpineState.LastYawAngle +
                s.SpineYawAngleOffset s.LocomotionState.Rotation.Yaw)
              (s.SpineState.SpineAmount *
                  (UAlsAnimationInstance.RefreshSpine E s SpineBlendAmount
                    DeltaTime).SpineState.SpineAmountScale +
                (UAlsAnimationInstance.RefreshSpine E s SpineBlendAmount DeltaTime).SpineState.SpineAmountBias) =
            UAlsRotation.LerpAngle E 0
              (s.SpineState.CurrentYawAngle + s.SpineYawAngleOffset s.LocomotionState.Rotation.Yaw) 1 ∧
          (s.MovementBase.bHasRelativeRotation = false →
            s.SpineYawAngleOffset s.LocomotionState.Rotation.Yaw = 0 ∧
              (UAlsAnimationInstance.RefreshSpine E s SpineBlendAmount DeltaTime).SpineState.LastActorYawAngle =
                FMath.UnwindDegrees s.LocomotionState.Rotation.Yaw ∧
              (-180 ≤ s.LocomotionState.Rotation.Yaw → s.LocomotionState.Rotation.Yaw ≤ 180 →
                (UAlsAnimationInstance.RefreshSpine E s SpineBlendAmount DeltaTime).SpineState.LastActorYawAngle =
                  s.LocomotionState.Rotation.Yaw) ∧
              UAlsRotation.LerpAngle E 0
                  ((UAlsAnimationInstance.RefreshSpine E s SpineBlendAmount DeltaTime).SpineState.LastYawAngle +
                    s.SpineYawAngleOffset s.LocomotionState.Rotation.Yaw)
                  (s.SpineState.SpineAmount *
                      (UAlsAnimationInstance.RefreshSpine E s SpineBlendAmount
                        DeltaTime).SpineState.SpineAmountScale +
                    (UAlsAnimationInstance.RefreshSpine E s SpineBlendAmount
                      DeltaTime).SpineState.SpineAmountBias) =
                s.SpineState.CurrentYawAngle)) ∧
      (s.bPendingUpdate = true →
        (UAlsAnimationInstance.RefreshSpine E s SpineBlendAmount DeltaTime).SpineState.SpineAmount = 0 ∧
          (UAlsAnimationInstance.RefreshSpine E s SpineBlendAmount DeltaTime).SpineState.CurrentYawAngle = 0 ∧
          (UAlsAnimationInstance.RefreshSpine E s SpineBlendAmount DeltaTime).SpineState.LastActorYawAngle =
            s.LocomotionState.Rotation.Yaw)) ∧
    (¬ FAnimWeight.IsRelevant s.SpineState.SpineAmount →
      (UAlsAnimationInstance.RefreshSpine E s SpineBlendAmount DeltaTime).SpineState.SpineAmountScale = 1 ∧
      (UAlsAnimationInstance.RefreshSpine E s SpineBlendAmount DeltaTime).SpineState.SpineAmountBias = 0 ∧
      (UAlsAnimationInstance.RefreshSpine E s SpineBlendAmount DeltaTime).SpineState.SpineAmount = 0 ∧
      (UAlsAnimationInstance.RefreshSpine E s SpineBlendAmount DeltaTime).SpineState.CurrentYawAngle = 0 ∧
      (UAlsAnimationInstance.RefreshSpine E s SpineBlendAmount DeltaTime).SpineState.LastActorYawAngle =
        s.LocomotionState.Rotation.Yaw) := by
  obtain ⟨hF, hScale, hBias, hLast, hReset, hRun⟩ :=
    UAlsAnimationInstance.RefreshSpine_leaving E s SpineBlendAmount DeltaTime hFlag hMode
  refine ⟨hF, ?_, ?_⟩
  · intro hRel
    rw [if_neg (not_not.2 hRel)] at hScale
    have hpos : (0 : α) < s.SpineState.SpineAmount := by
      have h0 : (0 : α) < ZERO_ANIMWEIGHT_THRESH := by norm_num [ZERO_ANIMWEIGHT_THRESH]
      exact lt_trans h0 hRel
    have hOne : s.SpineState.SpineAmount *
        (UAlsAnimationInstance.RefreshSpine E s SpineBlendAmount DeltaTime).SpineState.SpineAmountScale +
        (UAlsAnimationInstance.RefreshSpine E s SpineBlendAmount DeltaTime).SpineState.SpineAmountBias = 1 := by
      rw [hScale, hBias]
      field_simp
    refine ⟨hScale, hBias, hLast, ?_, fun hPending => hReset (Or.inl hPending)⟩
    intro hPending
    obtain ⟨hActor, hCurrent⟩ := hRun ⟨hPending, hRel⟩
    refine ⟨hActor, hCurrent, by rw [hOne, hLast], ?_⟩
    intro hBase
    have hOffset : s.SpineYawAngleOffset s.LocomotionState.Rotation.Yaw = 0 := by
      unfold UAlsAnimationInstance.SpineYawAngleOffset
      rw [if_neg (by rw [hBase]; exact Bool.false_ne_true), sub_self,
        FMath.UnwindDegrees_of_mem 0 (by norm_num) (by norm_num)]
      norm_num [FMath.Clamp]
    refine ⟨hOffset, ?_, ?_, ?_⟩
    · rw [hActor, hOffset, zero_add]
    · intro h1 h2
      rw [hActor, hOffset, zero_add, FMath.UnwindDegrees_of_mem _ h1 h2]
    · rw [hOne, hLast, hOffset, add_zero]
      exact UAlsRotation.LerpAngle_from_zero_one E _ hc1 hc2
  · intro hNotRel
    rw [if_pos hNotRel] at hScale
    obtain ⟨h1, h2, h3⟩ := hReset (Or.inr hNotRel)
    exact ⟨hScale, hBias, h1, h2, h3⟩

/-- C5 (amended), applied to the scenario leaving aiming with a spine amount of one half, a current
yaw angle of 90 and an actor yaw of 0: off a movement base the scale is 2, `LastActorYawAngle` is
the actor yaw 0 and the angle interpolated at amount one half is 90; on a movement base with
relative rotation that turned by 20 degrees the same call leaves `LastActorYawAngle` at 20. -/
theorem C5_spine_continuity_on_leaving_aiming_witness :
    (UAlsAnimationInstance.RefreshSpine Fixture.Externals
        (Fixture.SpineLeaveAimingHalfInstance : UAlsAnimationInstance ℚ) 1 (1 / 60)).SpineState.SpineAmountScale =
      2 ∧
    (UAlsAnimationInstance.RefreshSpine Fixture.Externals
        (Fixture.SpineLeaveAimingHalfInstance : UAlsAnimationInstance ℚ) 1 (1 / 60)).SpineState.LastActorYawAngle =
      0 ∧
    UAlsRotation.LerpAngle Fixture.Externals 0
        ((UAlsAnimationInstance.RefreshSpine Fixture.Externals
            (Fixture.SpineLeaveAimingHalfInstance : UAlsAnimationInstance ℚ) 1 (1 / 60)).SpineState.LastYawAngle +
          (Fixture.SpineLeaveAimingHalfInstance : UAlsAnimationInstance ℚ).SpineYawAngleOffset 0)
        ((Fixture.SpineLeaveAimingHalfInstance : UAlsAnimationInstance ℚ).SpineState.SpineAmount *
            (UAlsAnimationInstance.RefreshSpine Fixture.Externals
              (Fixture.SpineLeaveAimingHalfInstance : UAlsAnimationInstance ℚ) 1
              (1 / 60)).SpineState.SpineAmountScale +
          (UAlsAnimationInstance.RefreshSpine Fixture.Externals
            (Fixture.SpineLeaveAimingHalfInstance : UAlsAnimationInstance ℚ) 1
            (1 / 60)).SpineState.SpineAmountBias) = 90 ∧
    (UAlsAnimationInstance.RefreshSpine Fixture.Externals
        (Fixture.SpineLeaveAimingOnBaseInstance : UAlsAnimationInstance ℚ) 1 (1 / 60)).SpineState.LastActorYawAngle =
      20 := by
  have hRel : ∀ s : UAlsAnimationInstance ℚ, s.SpineState.SpineAmount = 1 / 2 →
      FAnimWeight.IsRelevant s.SpineState.SpineAmount := by
    intro s h
    rw [h]
    norm_num [FAnimWeight.IsRelevant, ZERO_ANIMWEIGHT_THRESH]
  have hMode : (Fixture.SpineLeaveAimingHalfInstance : UAlsAnimationInstance ℚ).RotationMode ≠
      FGameplayTag.RotationMode_Aiming := by
    simp [Fixture.SpineLeaveAimingHalfInstance, Fixture.SpineLeaveAimingInstance]
  have h := (C5_spine_continuity_on_leaving_aiming Fixture.Externals
    (Fixture.SpineLeaveAimingHalfInstance : UAlsAnimationInstance ℚ) 1 (1 / 60) rfl hMode
    (by norm_num [Fixture.SpineLeaveAimingHalfInstance, Fixture.SpineLeaveAimingInstance])
    (by norm_num [Fixture.SpineLeaveAimingHalfInstance, Fixture.SpineLeaveAimingInstance])).2.1
    (hRel _ rfl)
  have hOff := (h.2.2.2.1 rfl).2.2.2 rfl
  have hB := ((C5_spine_continuity_on_leaving_aiming Fixture.Externals
    (Fixture.SpineLeaveAimingOnBaseInstance : UAlsAnimationInstance ℚ) 1 (1 / 60) rfl hMode
    (by norm_num [Fixture.SpineLeaveAimingOnBaseInstance, Fixture.SpineLeaveAimingHalfInstance,
      Fixture.SpineLeaveAimingInstance])
    (by norm_num [Fixture.SpineLeaveAimingOnBaseInstance, Fixture.SpineLeaveAimingHalfInstance,
      Fixture.SpineLeaveAimingInstance])).2.1 (hRel _ rfl)).2.2.2.1 rfl
  refine ⟨?_, ?_, ?_, ?_⟩
  · rw [h.1]
    norm_num [Fixture.SpineLeaveAimingHalfInstance, Fixture.SpineLeaveAimingInstance]
  · exact hOff.2.2.1 (by norm_num [Fixture.SpineLeaveAimingHalfInstance, Fixture.SpineLeaveAimingInstance,
      Fixture.Instance]) (by norm_num [Fixture.SpineLeaveAimingHalfInstance, Fixture.SpineLeaveAimingInstance,
      Fixture.Instance])
  · exact hOff.2.2.2
  · rw [hB.1]
    have hOffset : (Fixture.SpineLeaveAimingOnBaseInstance : UAlsAnimationInstance ℚ).SpineYawAngleOffset
        (Fixture.SpineLeaveAimingOnBaseInstance : UAlsAnimationInstance ℚ).LocomotionState.Rotation.Yaw = 20 := by
      unfold UAlsAnimationInstance.SpineYawAngleOffset
      have hY : (Fixture.SpineLeaveAimingOnBaseInstance : UAlsAnimationInstance ℚ).LocomotionState.Rotation.Yaw =
          0 := rfl
      have hD : (Fixture.SpineLeaveAimingOnBaseInstance : UAlsAnimationInstance ℚ).MovementBase.DeltaRotation.Yaw =
          20 := rfl
      have hBase : (Fixture.SpineLeaveAimingOnBaseInstance : UAlsAnimationInstance ℚ).MovementBase.bHasRelativeRotation =
          true := rfl
      rw [if_pos hBase, hY, hD, zero_add, sub_zero,
        FMath.UnwindDegrees_of_mem 20 (by norm_num) (by norm_num),
        FMath.UnwindDegrees_of_mem 20 (by norm_num) (by norm_num)]
      norm_num [FMath.Clamp]
    rw [hOffset]
    have hY : (Fixture.SpineLeaveAimingOnBaseInstance : UAlsAnimationInstance ℚ).LocomotionState.Rotation.Yaw =
        0 := rfl
    rw [hY, add_zero]
    exact FMath.UnwindDegrees_of_mem 20 (by norm_num) (by norm_num)

/-! ### Snapping of the smoothed values -/

/-- C6 (as stated, refuted): with the pending-update flag set, a velocity blend that does not
require initialization and a positive interpolation speed, `RefreshVelocityBlend` interpolates:
from a previous forward amount of 1 toward the target 0 it yields 1/2, and from a previous forward
amount of 0 it yields 0, so the result is neither the target nor independent of the previous
value. -/
theorem C6_velocity_blend_interpolates_on_pending_update :
    (Fixture.PendingUpdateInstance 1 : UAlsAnimationInstance ℚ).bPendingUpdate = true ∧
    UAlsMath.Clamp01
      (UAlsAnimationInstance.TargetVelocityBlend Fixture.Externals
        (Fixture.PendingUpdateInstance 1 : UAlsAnimationInstance ℚ)).X = 0 ∧
    (UAlsAnimationInstance.RefreshVelocityBlend Fixture.Externals
        (Fixture.PendingUpdateInstance 1 : UAlsAnimationInstance ℚ)
        Fixture.SmoothingSettings).GroundedState.VelocityBlend.ForwardAmount = 1 / 2 ∧
    (UAlsAnimationInstance.RefreshVelocityBlend Fixture.Externals
        (Fixture.PendingUpdateInstance 0 : UAlsAnimationInstance ℚ)
        Fixture.SmoothingSettings).GroundedState.VelocityBlend.ForwardAmount = 0 := by
  refine ⟨rfl, ?_, ?_, ?_⟩ <;>
  norm_num [UAlsAnimationInstance.RefreshVelocityBlend, UAlsAnimationInstance.TargetVelocityBlend,
    UAlsAnimationInstance.GetRelativeVelocity, UAlsAnimationInstance.GetDeltaSeconds,
    UAlsMath.ExponentialDecayAmount, UAlsMath.Clamp01, FMath.Lerp, FMath.Clamp, FVector.Normalize,
    FVector.SizeSquared, FVector.ZeroVector, FQuat.UnrotateVector, FVector.cross, FVector.add,
    FVector.scale, UE_SMALL_NUMBER,
    Fixture.PendingUpdateInstance, Fixture.Instance, Fixture.SmoothingSettings, Fixture.Settings,
    Fixture.Externals]


/-- C6 (amended): when the pending-update flag is set, the lean amounts after
`RefreshGroundedLean` and `RefreshInAirLean`, the spine amount and current yaw angle after
`RefreshSpine` and the play rate after an evaluated `RefreshRotateInPlace` are exactly equal to
their targets and do not depend on the previous smoothed values; the four velocity-blend amounts
after `RefreshVelocityBlend` and the look yaw and pitch angles after an evaluated `RefreshLook` are
exactly equal to their targets when their own `bInitializationRequired` flag is set. -/
theorem C6_snap_to_target (E : Externals α) (s : UAlsAnimationInstance α)
    (Settings : UAlsAnimationInstanceSettings α) (SpineBlendAmount DeltaTime : α)
    (hPending : s.bPendingUpdate = true) :
    ((UAlsAnimationInstance.RefreshGroundedLean E s Settings).LeanState.RightAmount =
        (UAlsAnimationInstance.GetRelativeAccelerationAmount E s).Y ∧
      (UAlsAnimationInstance.RefreshGroundedLean E s Settings).LeanState.ForwardAmount =
        (UAlsAnimationInstance.GetRelativeAccelerationAmount E s).X ∧
      ∀ L : FAlsLeanState α,
        (UAlsAnimationInstance.RefreshGroundedLean E { s with LeanState := L } Settings).LeanState =
          (UAlsAnimationInstance.RefreshGroundedLean E s Settings).LeanState) ∧
    ((UAlsAnimationInstance.RefreshInAirLean E s Settings).LeanState.RightAmount =
        ((s.GetRelativeVelocity.divide 350).scale
          (Settings.InAir.LeanAmountCurve.GetFloatValue s.InAirState.VerticalVelocity)).Y ∧
      (UAlsAnimationInstance.RefreshInAirLean E s Settings).LeanState.ForwardAmount =
        ((s.GetRelativeVelocity.divide 350).scale
          (Settings.InAir.LeanAmountCurve.GetFloatValue s.InAirState.VerticalVelocity)).X ∧
      ∀ L : FAlsLeanState α,
        (UAlsAnimationInstance.RefreshInAirLean E { s with LeanState := L } Settings).LeanState =
          (UAlsAnimationInstance.RefreshInAirLean E s Settings).LeanState) ∧
    ((UAlsAnimationInstance.RefreshSpine E s SpineBlendAmount DeltaTime).SpineState.SpineAmount =
        (if s.IsSpineRotationAllowed = true then 1 else 0) ∧
      (UAlsAnimationInstance.RefreshSpine E s SpineBlendAmount DeltaTime).SpineState.CurrentYawAngle =
        (if s.IsSpineRotationAllowed = true then s.ViewState.YawAngle else 0)) ∧
    (s.EditorPreviewSkip = false → s.Settings = some Settings →
      s.RotateInPlaceState.bUpdatedThisFrame = false →
      (UAlsAnimationInstance.RefreshRotateInPlace s).RotateInPlaceState.PlayRate =
        (if (UAlsAnimationInstance.RefreshRotateInPlace s).RotateInPlaceState.bRotatingLeft = false ∧
            (UAlsAnimationInstance.RefreshRotateInPlace s).RotateInPlaceState.bRotatingRight = false then
          Settings.RotateInPlace.PlayRate.X
        else
          FMath.GetMappedRangeValueClamped Settings.RotateInPlace.ReferenceViewYawSpeed
            Settings.RotateInPlace.PlayRate s.ViewState.YawSpeed) ∧
      ∀ P : α,
        (UAlsAnimationInstance.RefreshRotateInPlace
            { s with RotateInPlaceState := { s.RotateInPlaceState with PlayRate := P } }).RotateInPlaceState =
          (UAlsAnimationInstance.RefreshRotateInPlace s).RotateInPlaceState) ∧
    (s.GroundedState.VelocityBlend.bInitializationRequired = true →
      (UAlsAnimationInstance.RefreshVelocityBlend E s Settings).GroundedState.VelocityBlend.ForwardAmount =
        UAlsMath.Clamp01 (UAlsAnimationInstance.TargetVelocityBlend E s).X ∧
      (UAlsAnimationInstance.RefreshVelocityBlend E s Settings).GroundedState.VelocityBlend.BackwardAmount =
        |FMath.Clamp (UAlsAnimationInstance.TargetVelocityBlend E s).X (-1) 0| ∧
      (UAlsAnimationInstance.RefreshVelocityBlend E s Settings).GroundedState.VelocityBlend.LeftAmount =
        |FMath.Clamp (UAlsAnimationInstance.TargetVelocityBlend E s).Y (-1) 0| ∧
      (UAlsAnimationInstance.RefreshVelocityBlend E s Settings).GroundedState.VelocityBlend.RightAmount =
        UAlsMath.Clamp01 (UAlsAnimationInstance.TargetVelocityBlend E s).Y) ∧
    (s.EditorPreviewSkip = false → s.Settings = some Settings →
      s.LookState.bInitializationRequired = true →
      (UAlsAnimationInstance.RefreshLook E s).LookState.YawAngle =
        (UAlsAnimationInstance.LookTarget s Settings).1 ∧
      (UAlsAnimationInstance.RefreshLook E s).LookState.PitchAngle =
        (UAlsAnimationInstance.LookTarget s Settings).2.1) := by
  refine ⟨?_, ?_, ?_, ?_, ?_, ?_⟩
  · simp [UAlsAnimationInstance.RefreshGroundedLean, UAlsAnimationInstance.LeanToward, hPending,
      UAlsAnimationInstance.GetRelativeAccelerationAmount]
  · simp [UAlsAnimationInstance.RefreshInAirLean, UAlsAnimationInstance.LeanToward, hPending,
      UAlsAnimationInstance.GetRelativeVelocity]
  · have hflag := UAlsAnimationInstance.SpineRebase_flag s
    constructor
    · show (UAlsAnimationInstance.SpineInterpolate E s s.SpineRebase DeltaTime).SpineAmount = _
      unfold UAlsAnimationInstance.SpineInterpolate
      cases h : s.IsSpineRotationAllowed <;> simp [hflag, h, hPending]
    · show (UAlsAnimationInstance.SpineInterpolate E s s.SpineRebase DeltaTime).CurrentYawAngle = _
      unfold UAlsAnimationInstance.SpineInterpolate
      cases h : s.IsSpineRotationAllowed <;> simp [hflag, h, hPending]
  · intro hSkip hSettings hGuard
    constructor
    · unfold UAlsAnimationInstance.RefreshRotateInPlace
      simp only [hSkip, hSettings, hGuard, hPending]
      simp only [Bool.false_eq_true, if_false, if_true]
      split_ifs <;> simp_all
    · intro P
      unfold UAlsAnimationInstance.RefreshRotateInPlace
      simp only [hSkip, hSettings, hGuard, hPending, UAlsAnimationInstance.EditorPreviewSkip,
        UAlsAnimationInstance.IsRotateInPlaceAllowed, UAlsAnimationInstance.GetDeltaSeconds]
      simp only [Bool.false_eq_true, if_false, if_true]
      have hSkip2 := hSkip
      simp only [UAlsAnimationInstance.EditorPreviewSkip] at hSkip2
      simp only [hSkip2, Bool.false_eq_true, if_false]
      split_ifs <;> simp_all
  · intro hInit
    simp [UAlsAnimationInstance.RefreshVelocityBlend, hInit]
  · intro hSkip hSettings hInit
    unfold UAlsAnimationInstance.RefreshLook
    simp only [hSkip, hSettings, Bool.false_eq_true, if_false]
    split_ifs <;> simp_all


/-- C6 (amended), applied to the pending-update scenario: the lean amounts after
`RefreshGroundedLean` are the relative acceleration amounts. -/
theorem C6_snap_to_target_witness :
    (Fixture.PendingUpdateInstance 1 : UAlsAnimationInstance ℚ).bPendingUpdate = true ∧
    (UAlsAnimationInstance.RefreshGroundedLean Fixture.Externals
        (Fixture.PendingUpdateInstance 1 : UAlsAnimationInstance ℚ)
        Fixture.SmoothingSettings).LeanState.RightAmount =
      (UAlsAnimationInstance.GetRelativeAccelerationAmount Fixture.Externals
        (Fixture.PendingUpdateInstance 1 : UAlsAnimationInstance ℚ)).Y ∧
    (UAlsAnimationInstance.RefreshSpine Fixture.Externals
        (Fixture.PendingUpdateInstance 1 : UAlsAnimationInstance ℚ) 1 (1 / 60)).SpineState.SpineAmount =
      (if (Fixture.PendingUpdateInstance 1 : UAlsAnimationInstance ℚ).IsSpineRotationAllowed = true then 1
       else 0) :=
  ⟨rfl,
   (C6_snap_to_target Fixture.Externals (Fixture.PendingUpdateInstance 1) Fixture.SmoothingSettings 1
      (1 / 60) rfl).1.1,
   (C6_snap_to_target Fixture.Externals (Fixture.PendingUpdateInstance 1) Fixture.SmoothingSettings 1
      (1 / 60) rfl).2.2.1.1⟩

/-! ### Turn in place -/

/-- One tick of the held turn-in-place pose: the pose is kept, the activation delay grows by the
delta time, nothing is queued while the delay does not exceed the mapped delay, and the standing
90-degree right preset is queued with the yaw angle 90 once it does. -/
theorem TurnInPlaceTick_held (E : Externals α) (s : UAlsAnimationInstance α)
    (Settings : UAlsAnimationInstanceSettings α) (Preset : UAlsTurnInPlaceSettings α)
    (h : TurnInPlaceScenario E s Settings Preset) (d : α) :
    TurnInPlaceScenario E (TurnInPlaceTick E s d) Settings Preset ∧
    ((TurnInPlaceTick E s d).MontageRequests = s.MontageRequests ∧
      (TurnInPlaceTick E s d).Character = s.Character ∧
      (TurnInPlaceTick E s d).TransitionsState = s.TransitionsState) ∧
    (TurnInPlaceTick E s d).TurnInPlaceState.ActivationDelay = s.TurnInPlaceState.ActivationDelay + d ∧
    (s.TurnInPlaceState.ActivationDelay + d ≤ TurnInPlaceDelayAt90 Settings →
      (TurnInPlaceTick E s d).TurnInPlaceState.QueuedSettings = s.TurnInPlaceState.QueuedSettings ∧
      (TurnInPlaceTick E s d).TurnInPlaceState.QueuedSlotName = s.TurnInPlaceState.QueuedSlotName ∧
      (TurnInPlaceTick E s d).TurnInPlaceState.QueuedTurnYawAngle =
        s.TurnInPlaceState.QueuedTurnYawAngle) ∧
    (TurnInPlaceDelayAt90 Settings < s.TurnInPlaceState.ActivationDelay + d →
      (TurnInPlaceTick E s d).TurnInPlaceState.QueuedSettings = some Preset ∧
      (TurnInPlaceTick E s d).TurnInPlaceState.QueuedSlotName = FName.TurnInPlaceStandingSlot ∧
      (TurnInPlaceTick E s d).TurnInPlaceState.QueuedTurnYawAngle = 90) := by
  obtain ⟨hSkip, hSettings, hThread, hTransitions, hRotationMode, hViewMode, hStance, hYawAngle,
    hYawSpeed, hAngleThreshold, hSpeedThreshold, hTurn180, hPreset, hSequence, hRemap⟩ := h
  have hSkip2 : (s.bWithEditor && (!s.World.bValid || !s.World.bIsGameWorld)) = false := hSkip
  have hAbs : |(90 : α)| = 90 := abs_of_pos (by norm_num)
  have hSel : ∀ s1 : UAlsAnimationInstance α, s1.Stance = FGameplayTag.Stance_Standing →
      s1.ViewState.YawAngle = 90 →
      UAlsAnimationInstance.SelectTurnInPlaceSettings E s1 Settings =
        (some Preset, FName.TurnInPlaceStandingSlot) := by
    intro s1 h1 h2
    unfold UAlsAnimationInstance.SelectTurnInPlaceSettings
      UAlsRotation.RemapAngleForCounterClockwiseRotation
    simp only [h1, h2, hAbs, hTurn180, if_true, hPreset]
    have h3 : ¬ ((90 : α) > 180 - E.CounterClockwiseRotationAngleThreshold) := not_lt.mpr hRemap
    simp [h3]
  unfold TurnInPlaceTick UAlsAnimationInstance.RefreshTurnInPlace
  simp only [UAlsAnimationInstance.EditorPreviewSkip, hSkip2, hSettings, Bool.false_eq_true, if_false,
    hTransitions, UAlsAnimationInstance.IsTurnInPlaceAllowed, hRotationMode, hViewMode, hYawSpeed,
    hYawAngle, hAbs, hAngleThreshold, UAlsAnimationInstance.GetDeltaSeconds, TurnInPlaceDelayAt90]
  have h2 : ¬ ((0 : α) ≥ Settings.TurnInPlace.ViewYawSpeedThreshold ∨ (90 : α) ≤ 45) := by
    rintro (h | h)
    · exact absurd h (not_le.mpr hSpeedThreshold)
    · norm_num at h
  have hV : decide (¬ s.ViewMode = FGameplayTag.ViewMode_FirstPerson) = true := by
    simpa using hViewMode
  simp only [decide_True, ne_eq, hV, Bool.and_self, Bool.true_eq_false, or_self, if_false, h2]
  by_cases hd : s.TurnInPlaceState.ActivationDelay + d ≤
      FMath.GetMappedRangeValueClamped ⟨45, 180⟩ Settings.TurnInPlace.ViewYawAngleToActivationDelay 90
  · simp only [hd, if_true]
    refine ⟨?_, ⟨trivial, trivial, trivial⟩, trivial, fun _ => ⟨trivial, trivial, trivial⟩,
      fun h => absurd hd (not_le.mpr h)⟩
    constructor <;> first | rfl | assumption
  · simp only [hd, if_false]
    rw [hSel _ (by exact hStance) (by exact hYawAngle)]
    simp only [hSequence, hThread, Bool.true_eq_false, Bool.false_eq_true, if_false]
    refine ⟨?_, ⟨trivial, trivial, trivial⟩, trivial, fun h => False.elim h,
      fun _ => ⟨trivial, trivial, trivial⟩⟩
    constructor <;> first | rfl | assumption


/-- A sequence of ticks of the held turn-in-place pose with positive delta times: the activation
delay is the accumulated time, nothing is queued while it does not exceed the mapped delay, and
the standing 90-degree right preset is queued once it does. -/
theorem TurnInPlaceTicks_held (E : Externals α) (Settings : UAlsAnimationInstanceSettings α)
    (Preset : UAlsTurnInPlaceSettings α) (DeltaTimes : List α) (hPos : ∀ d ∈ DeltaTimes, 0 < d)
    (s : UAlsAnimationInstance α) (h : TurnInPlaceScenario E s Settings Preset) :
    (TurnInPlaceTicks E s DeltaTimes).MontageRequests = s.MontageRequests ∧
    (TurnInPlaceTicks E s DeltaTimes).TurnInPlaceState.ActivationDelay =
      s.TurnInPlaceState.ActivationDelay + DeltaTimes.sum ∧
    (s.TurnInPlaceState.ActivationDelay + DeltaTimes.sum ≤ TurnInPlaceDelayAt90 Settings →
      (TurnInPlaceTicks E s DeltaTimes).TurnInPlaceState.QueuedSettings =
        s.TurnInPlaceState.QueuedSettings ∧
      (TurnInPlaceTicks E s DeltaTimes).TurnInPlaceState.QueuedSlotName =
        s.TurnInPlaceState.QueuedSlotName ∧
      (TurnInPlaceTicks E s DeltaTimes).TurnInPlaceState.QueuedTurnYawAngle =
        s.TurnInPlaceState.QueuedTurnYawAngle) ∧
    (TurnInPlaceDelayAt90 Settings < s.TurnInPlaceState.ActivationDelay + DeltaTimes.sum →
      DeltaTimes ≠ [] →
      (TurnInPlaceTicks E s DeltaTimes).TurnInPlaceState.QueuedSettings = some Preset ∧
      (TurnInPlaceTicks E s DeltaTimes).TurnInPlaceState.QueuedSlotName = FName.TurnInPlaceStandingSlot ∧
      (TurnInPlaceTicks E s DeltaTimes).TurnInPlaceState.QueuedTurnYawAngle = 90) := by
  induction DeltaTimes generalizing s with
  | nil =>
    simp [TurnInPlaceTicks]
  | cons d ds ih =>
    obtain ⟨h1, h2, h3, h4, h5⟩ := TurnInPlaceTick_held E s Settings Preset h d
    have hPos' : ∀ x ∈ ds, 0 < x := fun x hx => hPos x (List.mem_cons_of_mem d hx)
    have hsum : 0 ≤ ds.sum := List.sum_nonneg (fun x hx => (hPos' x hx).le)
    obtain ⟨i1, i2, i3, i4⟩ := ih hPos' (TurnInPlaceTick E s d) h1
    have hfold : TurnInPlaceTicks E s (d :: ds) = TurnInPlaceTicks E (TurnInPlaceTick E s d) ds := rfl
    rw [hfold, List.sum_cons]
    rw [h3] at i2 i3 i4
    refine ⟨i1.trans h2.1, by rw [i2]; ring, ?_, ?_⟩
    · intro hle
      have hle1 : s.TurnInPlaceState.ActivationDelay + d ≤ TurnInPlaceDelayAt90 Settings := by linarith
      obtain ⟨a1, a2, a3⟩ := h4 hle1
      obtain ⟨b1, b2, b3⟩ := i3 (by linarith)
      exact ⟨b1.trans a1, b2.trans a2, b3.trans a3⟩
    · intro hlt _
      cases ds with
      | nil =>
        have hlt1 : TurnInPlaceDelayAt90 Settings < s.TurnInPlaceState.ActivationDelay + d := by
          simpa using hlt
        exact h5 hlt1
      | cons e es =>
        exact i4 (by linarith) (List.cons_ne_nil e es)

/-- C7 (amended): in the held turn-in-place pose (view yaw angle threshold 45, 180-degree turn
threshold above 90, positive view yaw speed threshold, transitions and turn in place allowed,
standing, valid presets, view yaw angle 90, view yaw speed 0, off the game thread) started with
activation delay 0 and nothing queued, after any sequence of ticks with positive delta times the
activation delay is the total time; while the total time does not exceed the mapped activation
delay nothing is queued and nothing is played; once it exceeds the mapped delay the queue holds the
standing 90-degree right-turn preset in the standing slot with `QueuedTurnYawAngle` = 90. -/
theorem C7_turn_in_place_fires_after_mapped_delay (E : Externals α) (s : UAlsAnimationInstance α)
    (Settings : UAlsAnimationInstanceSettings α) (Preset : UAlsTurnInPlaceSettings α)
    (DeltaTimes : List α) (h : TurnInPlaceScenario E s Settings Preset)
    (hDelay : s.TurnInPlaceState.ActivationDelay = 0)
    (hQueue : s.TurnInPlaceState.QueuedSettings = none)
    (hPos : ∀ d ∈ DeltaTimes, 0 < d) :
    (TurnInPlaceTicks E s DeltaTimes).TurnInPlaceState.ActivationDelay = DeltaTimes.sum ∧
    (TurnInPlaceTicks E s DeltaTimes).MontageRequests = s.MontageRequests ∧
    (DeltaTimes.sum ≤ TurnInPlaceDelayAt90 Settings →
      (TurnInPlaceTicks E s DeltaTimes).TurnInPlaceState.QueuedSettings = none) ∧
    (TurnInPlaceDelayAt90 Settings < DeltaTimes.sum → DeltaTimes ≠ [] →
      (TurnInPlaceTicks E s DeltaTimes).TurnInPlaceState.QueuedSettings =
        Settings.TurnInPlace.StandingTurn90Right ∧
      (TurnInPlaceTicks E s DeltaTimes).TurnInPlaceState.QueuedSettings = some Preset ∧
      (TurnInPlaceTicks E s DeltaTimes).TurnInPlaceState.QueuedSlotName = FName.TurnInPlaceStandingSlot ∧
      (TurnInPlaceTicks E s DeltaTimes).TurnInPlaceState.QueuedTurnYawAngle = 90) := by
  obtain ⟨t1, t2, t3, t4⟩ := TurnInPlaceTicks_held E Settings Preset DeltaTimes hPos s h
  rw [hDelay, zero_add] at t2 t3 t4
  refine ⟨t2, t1, fun hle => (t3 hle).1.trans hQueue, fun hlt hne => ?_⟩
  obtain ⟨q1, q2, q3⟩ := t4 hlt hne
  exact ⟨q1.trans h.hPreset.symm, q1, q2, q3⟩


/-- One tick of the held turn-in-place pose followed by the drain of the queue, started with an
empty queue and no stop request: the pose is kept, the queue is empty again, and the drain plays
the standing 90-degree right preset exactly when the accumulated delay exceeds the mapped
delay. -/
theorem TurnInPlaceTickAndDrain_held (E : Externals α) (s : UAlsAnimationInstance α)
    (Settings : UAlsAnimationInstanceSettings α) (Preset : UAlsTurnInPlaceSettings α)
    (h : TurnInPlaceScenario E s Settings Preset) (hCharacter : s.Character.isSome = true)
    (hStop : s.TransitionsState.bStopTransitionsQueued = false)
    (hSequence : s.TransitionsState.QueuedTransitionSequence = none)
    (hQueue : s.TurnInPlaceState.QueuedSettings = none) (d : α) :
    (TurnInPlaceScenario E (TurnInPlaceTickAndDrain E s d) Settings Preset ∧
      (TurnInPlaceTickAndDrain E s d).Character.isSome = true ∧
      (TurnInPlaceTickAndDrain E s d).TransitionsState.bStopTransitionsQueued = false ∧
      (TurnInPlaceTickAndDrain E s d).TransitionsState.QueuedTransitionSequence = none ∧
      (TurnInPlaceTickAndDrain E s d).TurnInPlaceState.QueuedSettings = none) ∧
    (TurnInPlaceTickAndDrain E s d).TurnInPlaceState.ActivationDelay =
      s.TurnInPlaceState.ActivationDelay + d ∧
    (s.TurnInPlaceState.ActivationDelay + d ≤ TurnInPlaceDelayAt90 Settings →
      (TurnInPlaceTickAndDrain E s d).MontageRequests = s.MontageRequests) ∧
    (TurnInPlaceDelayAt90 Settings < s.TurnInPlaceState.ActivationDelay + d →
      (TurnInPlaceTickAndDrain E s d).MontageRequests =
        FMontageRequest.PlaySlotAnimationAsDynamicMontage Preset.Sequence FName.TurnInPlaceStandingSlot
          Settings.TurnInPlace.BlendDuration Settings.TurnInPlace.BlendDuration Preset.PlayRate 1 0 0 ::
          s.MontageRequests) := by
  obtain ⟨h1, ⟨h2, hC, hT⟩, h3, h4, h5⟩ := TurnInPlaceTick_held E s Settings Preset h d
  have hS1 := h1.hSettings
  have hC1 : (TurnInPlaceTick E s d).Character.isSome = true := by rw [hC]; exact hCharacter
  have hStop1 : (TurnInPlaceTick E s d).TransitionsState.bStopTransitionsQueued = false := by
    rw [hT]; exact hStop
  have hSeq1 : (TurnInPlaceTick E s d).TransitionsState.QueuedTransitionSequence = none := by
    rw [hT]; exact hSequence
  obtain ⟨k1, k2, k3, k4, k5, k6, k7, k8, k9, k10, k11, k12, k13, k14, k15⟩ := h1
  rcases le_or_lt (s.TurnInPlaceState.ActivationDelay + d) (TurnInPlaceDelayAt90 Settings) with hle | hlt
  · have hQ1 : (TurnInPlaceTick E s d).TurnInPlaceState.QueuedSettings = none := by
      rw [(h4 hle).1]; exact hQueue
    unfold TurnInPlaceTickAndDrain UAlsAnimationInstance.NativePostUpdateAnimation
    simp only [hS1, hC1, Bool.true_eq_false, if_false,
      UAlsAnimationInstance.PlayQueuedTransitionAnimation, hStop1, hSeq1, Option.isSome_none,
      Bool.false_eq_true, false_or, if_true, UAlsAnimationInstance.PlayQueuedTurnInPlaceAnimation, hQ1,
      UAlsAnimationInstance.StopQueuedTransitionAndTurnInPlaceAnimations]
    refine ⟨⟨?_, ?_, ?_, ?_, ?_⟩, ?_, ?_, ?_⟩
    · constructor <;> first | rfl | assumption
    all_goals first | trivial | assumption | exact fun _ => h2 | exact fun h => absurd hle (not_le.mpr h)
  · obtain ⟨q1, q2, q3⟩ := h5 hlt
    unfold TurnInPlaceTickAndDrain UAlsAnimationInstance.NativePostUpdateAnimation
    simp only [hS1, hC1, Bool.true_eq_false, if_false,
      UAlsAnimationInstance.PlayQueuedTransitionAnimation, hStop1, hSeq1, Option.isSome_none,
      Bool.false_eq_true, false_or, if_true, UAlsAnimationInstance.PlayQueuedTurnInPlaceAnimation, q1, q2,
      UAlsAnimationInstance.StopQueuedTransitionAndTurnInPlaceAnimations]
    refine ⟨⟨?_, ?_, ?_, ?_, ?_⟩, ?_, ?_, ?_⟩
    · constructor <;> first | rfl | assumption
    all_goals first | trivial | assumption | exact fun h => absurd h (not_le.mpr hlt) | skip
    intro _
    rw [h2]


/-- The fixture instance off the game thread is in the held turn-in-place pose. -/
theorem Fixture.TurnInPlaceInstance_scenario :
    TurnInPlaceScenario Fixture.Externals (Fixture.TurnInPlaceInstance false : UAlsAnimationInstance ℚ)
      Fixture.TurnInPlaceSettings (Fixture.TurnPreset 12 90) := by
  constructor <;>
    first
      | rfl
      | simp [Fixture.TurnInPlaceInstance, Fixture.Instance, Fixture.TurnInPlaceSettings, Fixture.Settings,
          Fixture.TurnPreset, Fixture.Externals, UAlsAnimationInstance.EditorPreviewSkip] <;> norm_num

/-- The mapped activation delay of the fixture settings at a view yaw angle of 90 is 1/4. -/
theorem Fixture.TurnInPlaceDelayAt90_eq :
    TurnInPlaceDelayAt90 (Fixture.TurnInPlaceSettings : UAlsAnimationInstanceSettings ℚ) = 1 / 4 := by
  norm_num [TurnInPlaceDelayAt90, FMath.GetMappedRangeValueClamped, FMath.GetRangePct,
    FMath.IsNearlyZero, FMath.Clamp, FMath.Lerp, UE_SMALL_NUMBER, Fixture.TurnInPlaceSettings,
    Fixture.Settings]

/-- C7 (as stated, refuted): in the turn-in-place scenario with a mapped activation delay of 1/4
and three ticks of 1/5 (total time 3/5), each followed by the drain of the queue on the game
thread, the second and the third tick both queue the turn: two turn animations are played in
total, not exactly one. -/
theorem C7_turn_in_place_fires_on_every_tick_after_delay :
    TurnInPlaceScenario Fixture.Externals (Fixture.TurnInPlaceInstance false : UAlsAnimationInstance ℚ)
      Fixture.TurnInPlaceSettings (Fixture.TurnPreset 12 90) ∧
    TurnInPlaceDelayAt90 (Fixture.TurnInPlaceSettings : UAlsAnimationInstanceSettings ℚ) = 1 / 4 ∧
    (TurnInPlaceTickAndDrain Fixture.Externals
        (Fixture.TurnInPlaceInstance false : UAlsAnimationInstance ℚ) (1 / 5)).MontageRequests = [] ∧
    (TurnInPlaceTickAndDrain Fixture.Externals
        (TurnInPlaceTickAndDrain Fixture.Externals
          (Fixture.TurnInPlaceInstance false : UAlsAnimationInstance ℚ) (1 / 5)) (1 / 5)).MontageRequests =
      [FMontageRequest.PlaySlotAnimationAsDynamicMontage (some ⟨12⟩) FName.TurnInPlaceStandingSlot 0 0 1 1 0
        0] ∧
    (TurnInPlaceTickAndDrain Fixture.Externals
        (TurnInPlaceTickAndDrain Fixture.Externals
          (TurnInPlaceTickAndDrain Fixture.Externals
            (Fixture.TurnInPlaceInstance false : UAlsAnimationInstance ℚ) (1 / 5)) (1 / 5))
        (1 / 5)).MontageRequests =
      [FMontageRequest.PlaySlotAnimationAsDynamicMontage (some ⟨12⟩) FName.TurnInPlaceStandingSlot 0 0 1 1 0 0,
       FMontageRequest.PlaySlotAnimationAsDynamicMontage (some ⟨12⟩) FName.TurnInPlaceStandingSlot 0 0 1 1 0
         0] := by
  have hD := Fixture.TurnInPlaceDelayAt90_eq
  have h0 : (Fixture.TurnInPlaceInstance false : UAlsAnimationInstance ℚ).TurnInPlaceState.ActivationDelay
      = 0 := rfl
  have hR0 : (Fixture.TurnInPlaceInstance false : UAlsAnimationInstance ℚ).MontageRequests = [] := rfl
  obtain ⟨⟨a1, a2, a3, a4, a5⟩, a6, a7, _⟩ :=
    TurnInPlaceTickAndDrain_held Fixture.Externals (Fixture.TurnInPlaceInstance false)
      Fixture.TurnInPlaceSettings (Fixture.TurnPreset 12 90) Fixture.TurnInPlaceInstance_scenario
      rfl rfl rfl rfl (1 / 5)
  rw [h0, hD] at a7
  rw [h0] at a6
  have r1 := a7 (by norm_num)
  rw [hR0] at r1
  obtain ⟨⟨b1, b2, b3, b4, b5⟩, b6, _, b8⟩ :=
    TurnInPlaceTickAndDrain_held Fixture.Externals _ Fixture.TurnInPlaceSettings (Fixture.TurnPreset 12 90)
      a1 a2 a3 a4 a5 (1 / 5)
  rw [a6, hD] at b8
  rw [a6] at b6
  have r2 := b8 (by norm_num)
  rw [r1] at r2
  obtain ⟨_, _, _, c8⟩ :=
    TurnInPlaceTickAndDrain_held Fixture.Externals _ Fixture.TurnInPlaceSettings (Fixture.TurnPreset 12 90)
      b1 b2 b3 b4 b5 (1 / 5)
  rw [b6, hD] at c8
  have r3 := c8 (by norm_num)
  rw [r2] at r3
  refine ⟨Fixture.TurnInPlaceInstance_scenario, hD, r1, ?_, ?_⟩
  · rw [r2]
    simp [Fixture.TurnPreset, Fixture.TurnInPlaceSettings, Fixture.Settings]
  · rw [r3]
    simp [Fixture.TurnPreset, Fixture.TurnInPlaceSettings, Fixture.Settings]

/-- C7 (amended), applied to the turn-in-place scenario with the ticks 1/5 and 1/5: the total
time 2/5 exceeds the mapped delay 1/4 and the queue holds the standing 90-degree right preset with
the yaw angle 90. -/
theorem C7_turn_in_place_fires_after_mapped_delay_witness :
    TurnInPlaceScenario Fixture.Externals (Fixture.TurnInPlaceInstance false : UAlsAnimationInstance ℚ)
      Fixture.TurnInPlaceSettings (Fixture.TurnPreset 12 90) ∧
    (∀ d ∈ [(1 / 5 : ℚ), 1 / 5], 0 < d) ∧
    TurnInPlaceDelayAt90 (Fixture.TurnInPlaceSettings : UAlsAnimationInstanceSettings ℚ) <
      [(1 / 5 : ℚ), 1 / 5].sum ∧
    (TurnInPlaceTicks Fixture.Externals (Fixture.TurnInPlaceInstance false : UAlsAnimationInstance ℚ)
        [1 / 5, 1 / 5]).TurnInPlaceState.QueuedSettings = some (Fixture.TurnPreset 12 90) ∧
    (TurnInPlaceTicks Fixture.Externals (Fixture.TurnInPlaceInstance false : UAlsAnimationInstance ℚ)
        [1 / 5, 1 / 5]).TurnInPlaceState.QueuedTurnYawAngle = 90 := by
  have hPos : ∀ d ∈ [(1 / 5 : ℚ), 1 / 5], 0 < d := by
    intro d hd
    simp only [List.mem_cons, List.mem_singleton, List.not_mem_nil, or_false, or_self] at hd
    rw [hd]; norm_num
  have hlt : TurnInPlaceDelayAt90 (Fixture.TurnInPlaceSettings : UAlsAnimationInstanceSettings ℚ) <
      [(1 / 5 : ℚ), 1 / 5].sum := by
    rw [Fixture.TurnInPlaceDelayAt90_eq]; norm_num
  have h := C7_turn_in_place_fires_after_mapped_delay Fixture.Externals
    (Fixture.TurnInPlaceInstance false : UAlsAnimationInstance ℚ) Fixture.TurnInPlaceSettings
    (Fixture.TurnPreset 12 90) [1 / 5, 1 / 5] Fixture.TurnInPlaceInstance_scenario rfl rfl hPos
  exact ⟨Fixture.TurnInPlaceInstance_scenario, hPos, hlt,
    (h.2.2.2 hlt (List.cons_ne_nil _ _)).2.1, (h.2.2.2 hlt (List.cons_ne_nil _ _)).2.2.2⟩


/-! ### Dynamic transitions -/

namespace UAlsAnimationInstance

/-- Playing the queued transition does not touch the dynamic transitions state. -/
theorem PlayQueuedTransitionAnimation_DynamicTransitionsState (s : UAlsAnimationInstance α) :
    s.PlayQueuedTransitionAnimation.DynamicTransitionsState = s.DynamicTransitionsState := by
  unfold PlayQueuedTransitionAnimation
  split_ifs <;> rfl

/-- Queueing a dynamic transition sets the guard and starts the cooldown of two frames. -/
theorem QueueDynamicTransition_DynamicTransitionsState (s : UAlsAnimationInstance α)
    (Settings : UAlsAnimationInstanceSettings α) (Sequence : UAnimSequenceBase) :
    (QueueDynamicTransition s Settings Sequence).DynamicTransitionsState =
      { s.DynamicTransitionsState with FrameDelay := 2 } := by
  unfold QueueDynamicTransition
  simp only
  split_ifs
  · rw [PlayQueuedTransitionAnimation_DynamicTransitionsState]
  · rfl

/-- During the cooldown `RefreshDynamicTransitions` leaves the transitions state and the issued
requests unchanged, and an evaluated call lowers the frame delay by one. -/
theorem RefreshDynamicTransitions_cooldown (s : UAlsAnimationInstance α)
    (hDelay : 0 < s.DynamicTransitionsState.FrameDelay) :
    (RefreshDynamicTransitions s).TransitionsState = s.TransitionsState ∧
    (RefreshDynamicTransitions s).MontageRequests = s.MontageRequests ∧
    ((s.EditorPreviewSkip = false ∧ s.Settings.isSome = true ∧
        s.DynamicTransitionsState.bUpdatedThisFrame = false) →
      (RefreshDynamicTransitions s).DynamicTransitionsState.FrameDelay =
        s.DynamicTransitionsState.FrameDelay - 1) ∧
    (¬ (s.EditorPreviewSkip = false ∧ s.Settings.isSome = true ∧
        s.DynamicTransitionsState.bUpdatedThisFrame = false) →
      (RefreshDynamicTransitions s).DynamicTransitionsState.FrameDelay =
        s.DynamicTransitionsState.FrameDelay) := by
  unfold RefreshDynamicTransitions
  cases hSkip : s.EditorPreviewSkip
  · cases hS : s.Settings with
    | none => simp
    | some Settings =>
      cases hG : s.DynamicTransitionsState.bUpdatedThisFrame
      · simp [hDelay]
      · simp
  · simp

/-- A call of `RefreshDynamicTransitions` either leaves the transitions state, the issued
requests and the frame delay as they are or lowers a positive frame delay by one, or it queues a
sequence and leaves the frame delay at 2. -/
theorem RefreshDynamicTransitions_cases (s : UAlsAnimationInstance α) :
    ((RefreshDynamicTransitions s).TransitionsState = s.TransitionsState ∧
      (RefreshDynamicTransitions s).MontageRequests = s.MontageRequests ∧
      ((RefreshDynamicTransitions s).DynamicTransitionsState.FrameDelay =
          s.DynamicTransitionsState.FrameDelay ∨
        (0 < s.DynamicTransitionsState.FrameDelay ∧
          (RefreshDynamicTransitions s).DynamicTransitionsState.FrameDelay =
            s.DynamicTransitionsState.FrameDelay - 1))) ∨
    (RefreshDynamicTransitions s).DynamicTransitionsState.FrameDelay = 2 := by
  unfold RefreshDynamicTransitions
  cases hSkip : s.EditorPreviewSkip
  · cases hS : s.Settings with
    | none => exact Or.inl ⟨rfl, rfl, Or.inl rfl⟩
    | some Settings =>
      cases hG : s.DynamicTransitionsState.bUpdatedThisFrame
      · simp only [Bool.false_eq_true, if_false]
        by_cases hD : s.DynamicTransitionsState.FrameDelay > 0
        · simp only [hD, if_true]
          exact Or.inl ⟨trivial, trivial, Or.inr ⟨trivial, trivial⟩⟩
        · simp only [hD, if_false]
          cases hA : s.TransitionsState.bTransitionsAllowed
          · exact Or.inl ⟨rfl, rfl, Or.inl rfl⟩
          · simp only [Bool.true_eq_false, if_false]
            split
            · exact Or.inl ⟨rfl, rfl, Or.inl rfl⟩
            · right
              rw [QueueDynamicTransition_DynamicTransitionsState]
      · exact Or.inl ⟨rfl, rfl, Or.inl rfl⟩
  · exact Or.inl ⟨rfl, rfl, Or.inl rfl⟩

/-- The frame delay stays in {0, 1, 2} through `RefreshDynamicTransitions`. -/
theorem RefreshDynamicTransitions_delay_range (s : UAlsAnimationInstance α)
    (h : s.DynamicTransitionsState.FrameDelay = 0 ∨ s.DynamicTransitionsState.FrameDelay = 1 ∨
      s.DynamicTransitionsState.FrameDelay = 2) :
    (RefreshDynamicTransitions s).DynamicTransitionsState.FrameDelay = 0 ∨
      (RefreshDynamicTransitions s).DynamicTransitionsState.FrameDelay = 1 ∨
      (RefreshDynamicTransitions s).DynamicTransitionsState.FrameDelay = 2 := by
  rcases RefreshDynamicTransitions_cases s with ⟨_, _, h1 | ⟨_, h1⟩⟩ | h1
  · rw [h1]; exact h
  · rw [h1]; omega
  · exact Or.inr (Or.inr h1)

/-- The selected sequence depends on the locomotion state, the feet state and the stance only. -/
theorem SelectDynamicTransitionSequence_congr (s1 s2 : UAlsAnimationInstance α)
    (Settings : UAlsAnimationInstanceSettings α) (h1 : s1.LocomotionState = s2.LocomotionState)
    (h2 : s1.FeetState = s2.FeetState) (h3 : s1.Stance = s2.Stance) :
    s1.SelectDynamicTransitionSequence Settings = s2.SelectDynamicTransitionSequence Settings := by
  unfold SelectDynamicTransitionSequence
  rw [h1, h2, h3]

/-- Queueing a dynamic transition off the game thread, or while a stop request is queued, leaves
the request in the queue with the blend durations and play rate of the settings and start time 0;
on the game thread without a stop request it is played at once with these parameters. -/
theorem QueueDynamicTransition_effect (s : UAlsAnimationInstance α)
    (Settings : UAlsAnimationInstanceSettings α) (Sequence : UAnimSequenceBase) :
    ((s.bInGameThread = false ∨ s.TransitionsState.bStopTransitionsQueued = true) →
      (QueueDynamicTransition s Settings Sequence).MontageRequests = s.MontageRequests ∧
      (QueueDynamicTransition s Settings Sequence).TransitionsState =
        { s.TransitionsState with
          QueuedTransitionSequence := some Sequence
          QueuedTransitionBlendInDuration := Settings.DynamicTransitions.BlendDuration
          QueuedTransitionBlendOutDuration := Settings.DynamicTransitions.BlendDuration
          QueuedTransitionPlayRate := Settings.DynamicTransitions.PlayRate
          QueuedTransitionStartTime := 0 }) ∧
    ((s.bInGameThread = true ∧ s.TransitionsState.bStopTransitionsQueued = false) →
      (QueueDynamicTransition s Settings Sequence).MontageRequests =
        FMontageRequest.PlaySlotAnimationAsDynamicMontage (some Sequence) FName.TransitionSlot
          Settings.DynamicTransitions.BlendDuration Settings.DynamicTransitions.BlendDuration
          Settings.DynamicTransitions.PlayRate 1 0 0 :: s.MontageRequests) := by
  unfold QueueDynamicTransition PlayQueuedTransitionAnimation
  constructor
  · rintro (h | h)
    · simp [h]
    · cases hT : s.bInGameThread <;> simp [h]
  · rintro ⟨h1, h2⟩
    simp [h1, h2]

/-- When `RefreshDynamicTransitions` gets past the guard and the cooldown with transitions
allowed and a valid selected sequence, it queues that sequence. -/
theorem RefreshDynamicTransitions_fires (s : UAlsAnimationInstance α)
    (Settings : UAlsAnimationInstanceSettings α) (Sequence : UAnimSequenceBase)
    (hSkip : s.EditorPreviewSkip = false) (hSettings : s.Settings = some Settings)
    (hGuard : s.DynamicTransitionsState.bUpdatedThisFrame = false)
    (hDelay : s.DynamicTransitionsState.FrameDelay ≤ 0)
    (hAllowed : s.TransitionsState.bTransitionsAllowed = true)
    (hSelect : s.SelectDynamicTransitionSequence Settings = some Sequence) :
    RefreshDynamicTransitions s =
      QueueDynamicTransition
        { s with DynamicTransitionsState := { s.DynamicTransitionsState with bUpdatedThisFrame := true } }
        Settings Sequence := by
  unfold RefreshDynamicTransitions
  rw [if_neg (by rw [hSkip]; exact Bool.false_ne_true)]
  split
  · rename_i h
    rw [hSettings] at h
    cases h
  · rename_i S h
    rw [hSettings] at h
    cases h
    simp only
    rw [if_neg (by rw [hGuard]; exact Bool.false_ne_true), if_neg (not_lt.mpr hDelay),
      if_neg (by rw [hAllowed]; exact Bool.noConfusion)]
    rw [SelectDynamicTransitionSequence_congr _ s Settings (by rfl) (by rfl) (by rfl), hSelect]

end UAlsAnimationInstance


/-- C8: when `RefreshDynamicTransitions` queues a transition (game world, settings bound, guard
clear, no cooldown running, transitions allowed, a valid sequence selected) it sets `FrameDelay`
to 2; in each of the next two ticks, whatever the instance of that tick is (foot state,
transitions-allowed flag, settings), it leaves the transitions state and the issued requests
unchanged, and evaluated ticks lower `FrameDelay` to 1 and then to 0; in the third tick an
evaluated call with transitions allowed and a valid selected sequence queues again.  Every call
that changes the transitions state or issues a request leaves `FrameDelay` at 2, and `FrameDelay`
stays in {0, 1, 2}. -/
theorem C8_dynamic_transition_cooldown (s : UAlsAnimationInstance α)
    (Settings : UAlsAnimationInstanceSettings α) (Sequence : UAnimSequenceBase)
    (hSkip : s.EditorPreviewSkip = false) (hSettings : s.Settings = some Settings)
    (hGuard : s.DynamicTransitionsState.bUpdatedThisFrame = false)
    (hDelay : s.DynamicTransitionsState.FrameDelay ≤ 0)
    (hAllowed : s.TransitionsState.bTransitionsAllowed = true)
    (hSelect : s.SelectDynamicTransitionSequence Settings = some Sequence) :
    (UAlsAnimationInstance.RefreshDynamicTransitions s =
        UAlsAnimationInstance.QueueDynamicTransition
          { s with DynamicTransitionsState := { s.DynamicTransitionsState with bUpdatedThisFrame := true } }
          Settings Sequence ∧
      (UAlsAnimationInstance.RefreshDynamicTransitions s).DynamicTransitionsState.FrameDelay = 2) ∧
    (∀ N1 N2 : UAlsAnimationInstance α,
      ((DynamicTransitionsTick (UAlsAnimationInstance.RefreshDynamicTransitions s) N1).TransitionsState =
          N1.TransitionsState ∧
        (DynamicTransitionsTick (UAlsAnimationInstance.RefreshDynamicTransitions s) N1).MontageRequests =
          N1.MontageRequests) ∧
      ((DynamicTransitionsTick
            (DynamicTransitionsTick (UAlsAnimationInstance.RefreshDynamicTransitions s) N1)
            N2).TransitionsState = N2.TransitionsState ∧
        (DynamicTransitionsTick
            (DynamicTransitionsTick (UAlsAnimationInstance.RefreshDynamicTransitions s) N1)
            N2).MontageRequests = N2.MontageRequests) ∧
      (N1.EditorPreviewSkip = false → N1.Settings.isSome = true →
        (DynamicTransitionsTick (UAlsAnimationInstance.RefreshDynamicTransitions s)
            N1).DynamicTransitionsState.FrameDelay = 1 ∧
        (N2.EditorPreviewSkip = false → N2.Settings.isSome = true →
          (DynamicTransitionsTick
              (DynamicTransitionsTick (UAlsAnimationInstance.RefreshDynamicTransitions s) N1)
              N2).DynamicTransitionsState.FrameDelay = 0 ∧
          ∀ (N3 : UAlsAnimationInstance α) (Settings3 : UAlsAnimationInstanceSettings α)
            (Sequence3 : UAnimSequenceBase),
            N3.EditorPreviewSkip = false → N3.Settings = some Settings3 →
            N3.TransitionsState.bTransitionsAllowed = true →
            N3.SelectDynamicTransitionSequence Settings3 = some Sequence3 →
            (DynamicTransitionsTick
                (DynamicTransitionsTick
                  (DynamicTransitionsTick (UAlsAnimationInstance.RefreshDynamicTransitions s) N1) N2)
                N3).DynamicTransitionsState.FrameDelay = 2))) ∧
    (∀ t : UAlsAnimationInstance α,
      ((UAlsAnimationInstance.RefreshDynamicTransitions t).TransitionsState ≠ t.TransitionsState ∨
          (UAlsAnimationInstance.RefreshDynamicTransitions t).MontageRequests ≠ t.MontageRequests) →
        (UAlsAnimationInstance.RefreshDynamicTransitions t).DynamicTransitionsState.FrameDelay = 2) ∧
    (∀ t : UAlsAnimationInstance α,
      (t.DynamicTransitionsState.FrameDelay = 0 ∨ t.DynamicTransitionsState.FrameDelay = 1 ∨
          t.DynamicTransitionsState.FrameDelay = 2) →
        ((UAlsAnimationInstance.RefreshDynamicTransitions t).DynamicTransitionsState.FrameDelay = 0 ∨
          (UAlsAnimationInstance.RefreshDynamicTransitions t).DynamicTransitionsState.FrameDelay = 1 ∨
          (UAlsAnimationInstance.RefreshDynamicTransitions t).DynamicTransitionsState.FrameDelay = 2)) := by
  have hFire := UAlsAnimationInstance.RefreshDynamicTransitions_fires s Settings Sequence hSkip hSettings
    hGuard hDelay hAllowed hSelect
  have hTwo : (UAlsAnimationInstance.RefreshDynamicTransitions s).DynamicTransitionsState.FrameDelay = 2 := by
    rw [hFire, UAlsAnimationInstance.QueueDynamicTransition_DynamicTransitionsState]
  refine ⟨⟨hFire, hTwo⟩, ?_, ?_, UAlsAnimationInstance.RefreshDynamicTransitions_delay_range⟩
  · intro N1 N2
    -- the first tick after firing starts with a frame delay of 2
    have hStart1 : (DynamicTransitionsTickStart (UAlsAnimationInstance.RefreshDynamicTransitions s)
        N1).DynamicTransitionsState.FrameDelay = 2 := hTwo
    obtain ⟨a1, a2, a3, a4⟩ := UAlsAnimationInstance.RefreshDynamicTransitions_cooldown
      (DynamicTransitionsTickStart (UAlsAnimationInstance.RefreshDynamicTransitions s) N1)
      (by rw [hStart1]; norm_num)
    rw [hStart1] at a3 a4
    have hRange1 : 0 < (DynamicTransitionsTick (UAlsAnimationInstance.RefreshDynamicTransitions s)
        N1).DynamicTransitionsState.FrameDelay := by
      by_cases he : (DynamicTransitionsTickStart (UAlsAnimationInstance.RefreshDynamicTransitions s)
          N1).EditorPreviewSkip = false ∧
          (DynamicTransitionsTickStart (UAlsAnimationInstance.RefreshDynamicTransitions s)
            N1).Settings.isSome = true ∧
          (DynamicTransitionsTickStart (UAlsAnimationInstance.RefreshDynamicTransitions s)
            N1).DynamicTransitionsState.bUpdatedThisFrame = false
      · show 0 < (UAlsAnimationInstance.RefreshDynamicTransitions _).DynamicTransitionsState.FrameDelay
        rw [a3 he]; norm_num
      · show 0 < (UAlsAnimationInstance.RefreshDynamicTransitions _).DynamicTransitionsState.FrameDelay
        rw [a4 he]; norm_num
    obtain ⟨b1, b2, b3, _⟩ := UAlsAnimationInstance.RefreshDynamicTransitions_cooldown
      (DynamicTransitionsTickStart
        (DynamicTransitionsTick (UAlsAnimationInstance.RefreshDynamicTransitions s) N1) N2) hRange1
    refine ⟨⟨a1, a2⟩, ⟨b1, b2⟩, ?_⟩
    intro hS1 hV1
    have hOne : (DynamicTransitionsTick (UAlsAnimationInstance.RefreshDynamicTransitions s)
        N1).DynamicTransitionsState.FrameDelay = 1 := by
      show (UAlsAnimationInstance.RefreshDynamicTransitions _).DynamicTransitionsState.FrameDelay = 1
      rw [a3 ⟨hS1, hV1, rfl⟩]; norm_num
    refine ⟨hOne, ?_⟩
    intro hS2 hV2
    have hZero : (DynamicTransitionsTick
        (DynamicTransitionsTick (UAlsAnimationInstance.RefreshDynamicTransitions s) N1)
        N2).DynamicTransitionsState.FrameDelay = 0 := by
      show (UAlsAnimationInstance.RefreshDynamicTransitions _).DynamicTransitionsState.FrameDelay = 0
      rw [b3 ⟨hS2, hV2, rfl⟩]
      show (DynamicTransitionsTick (UAlsAnimationInstance.RefreshDynamicTransitions s)
        N1).DynamicTransitionsState.FrameDelay - 1 = 0
      rw [hOne]; norm_num
    refine ⟨hZero, ?_⟩
    intro N3 Settings3 Sequence3 hS3 hSet3 hA3 hSel3
    have hFire3 := UAlsAnimationInstance.RefreshDynamicTransitions_fires
      (DynamicTransitionsTickStart
        (DynamicTransitionsTick
          (DynamicTransitionsTick (UAlsAnimationInstance.RefreshDynamicTransitions s) N1) N2) N3)
      Settings3 Sequence3 hS3 hSet3 rfl (le_of_eq hZero) hA3
      ((UAlsAnimationInstance.SelectDynamicTransitionSequence_congr _ N3 Settings3 (by rfl) (by rfl)
        (by rfl)).trans hSel3)
    show (UAlsAnimationInstance.RefreshDynamicTransitions _).DynamicTransitionsState.FrameDelay = 2
    rw [hFire3, UAlsAnimationInstance.QueueDynamicTransition_DynamicTransitionsState]
  · intro t ht
    rcases UAlsAnimationInstance.RefreshDynamicTransitions_cases t with ⟨c1, c2, _⟩ | c
    · rcases ht with ht | ht
      · exact absurd c1 ht
      · exact absurd c2 ht
    · exact c


/-- The left sequence is selected in the dynamic-transition scenario of the fixture. -/
theorem Fixture.DynamicTransitionInstance_select :
    (Fixture.DynamicTransitionInstance : UAlsAnimationInstance ℚ).SelectDynamicTransitionSequence
      Fixture.Settings = some ⟨5⟩ := by
  simp only [UAlsAnimationInstance.SelectDynamicTransitionSequence, Fixture.DynamicTransitionInstance,
    Fixture.Instance, Fixture.FootState, Fixture.Settings, reduceCtorEq, if_false]
  norm_num [FVector.DistSquared, FMath.Square, FAnimWeight.IsRelevant, ZERO_ANIMWEIGHT_THRESH]

/-- C8, applied to the dynamic-transition scenario: the call queues the standing left sequence
and sets the frame delay to 2. -/
theorem C8_dynamic_transition_cooldown_witness :
    (Fixture.DynamicTransitionInstance : UAlsAnimationInstance ℚ).EditorPreviewSkip = false ∧
    (Fixture.DynamicTransitionInstance : UAlsAnimationInstance ℚ).Settings = some Fixture.Settings ∧
    (Fixture.DynamicTransitionInstance : UAlsAnimationInstance ℚ).DynamicTransitionsState.bUpdatedThisFrame =
      false ∧
    (Fixture.DynamicTransitionInstance : UAlsAnimationInstance ℚ).DynamicTransitionsState.FrameDelay ≤ 0 ∧
    (Fixture.DynamicTransitionInstance : UAlsAnimationInstance ℚ).TransitionsState.bTransitionsAllowed =
      true ∧
    (Fixture.DynamicTransitionInstance : UAlsAnimationInstance ℚ).SelectDynamicTransitionSequence
      Fixture.Settings = some ⟨5⟩ ∧
    (UAlsAnimationInstance.RefreshDynamicTransitions
      (Fixture.DynamicTransitionInstance : UAlsAnimationInstance ℚ)).DynamicTransitionsState.FrameDelay = 2 :=
  ⟨rfl, rfl, rfl, le_refl _, rfl, Fixture.DynamicTransitionInstance_select,
   (C8_dynamic_transition_cooldown Fixture.DynamicTransitionInstance Fixture.Settings ⟨5⟩ rfl rfl rfl
      (le_refl _) rfl Fixture.DynamicTransitionInstance_select).1.2⟩

/-! ### Per-tick guards -/

namespace UAlsAnimationInstance

/-- With its guard set, `RefreshDynamicTransitions` returns the instance unchanged. -/
theorem RefreshDynamicTransitions_guarded (s : UAlsAnimationInstance α)
    (h : s.DynamicTransitionsState.bUpdatedThisFrame = true) : RefreshDynamicTransitions s = s := by
  unfold RefreshDynamicTransitions
  cases hSkip : s.EditorPreviewSkip <;> cases hS : s.Settings <;> simp [h]

/-- A call of `RefreshDynamicTransitions` returns the instance unchanged or sets its guard. -/
theorem RefreshDynamicTransitions_sets_guard (s : UAlsAnimationInstance α) :
    RefreshDynamicTransitions s = s ∨
      (RefreshDynamicTransitions s).DynamicTransitionsState.bUpdatedThisFrame = true := by
  unfold RefreshDynamicTransitions
  cases hSkip : s.EditorPreviewSkip
  · cases hS : s.Settings with
    | none => exact Or.inl rfl
    | some Settings =>
      cases hG : s.DynamicTransitionsState.bUpdatedThisFrame
      · right
        simp only [Bool.false_eq_true, if_false]
        split_ifs
        · rfl
        · rfl
        · split
          · rfl
          · rw [QueueDynamicTransition_DynamicTransitionsState]
      · exact Or.inl rfl
  · exact Or.inl rfl

/-- With its guard set, `RefreshRotateInPlace` returns the instance unchanged. -/
theorem RefreshRotateInPlace_guarded (s : UAlsAnimationInstance α)
    (h : s.RotateInPlaceState.bUpdatedThisFrame = true) : RefreshRotateInPlace s = s := by
  unfold RefreshRotateInPlace
  cases hSkip : s.EditorPreviewSkip <;> cases hS : s.Settings <;> simp [h]

/-- A call of `RefreshRotateInPlace` returns the instance unchanged or sets its guard. -/
theorem RefreshRotateInPlace_sets_guard (s : UAlsAnimationInstance α) :
    RefreshRotateInPlace s = s ∨ (RefreshRotateInPlace s).RotateInPlaceState.bUpdatedThisFrame = true := by
  unfold RefreshRotateInPlace
  cases hSkip : s.EditorPreviewSkip
  · cases hS : s.Settings with
    | none => exact Or.inl rfl
    | some Settings =>
      cases hG : s.RotateInPlaceState.bUpdatedThisFrame
      · right
        simp only [Bool.false_eq_true, if_false]
        split_ifs <;> rfl
      · exact Or.inl rfl
  · exact Or.inl rfl

/-- Playing the queued turn in place does not touch the guard of the turn-in-place state. -/
theorem PlayQueuedTurnInPlaceAnimation_guard (s : UAlsAnimationInstance α)
    (Settings : UAlsAnimationInstanceSettings α) :
    (s.PlayQueuedTurnInPlaceAnimation Settings).TurnInPlaceState.bUpdatedThisFrame =
      s.TurnInPlaceState.bUpdatedThisFrame := by
  unfold PlayQueuedTurnInPlaceAnimation
  split_ifs
  · rfl
  · split <;> rfl

/-- With its guard set, `RefreshTurnInPlace` returns the instance unchanged. -/
theorem RefreshTurnInPlace_guarded (E : Externals α) (s : UAlsAnimationInstance α)
    (h : s.TurnInPlaceState.bUpdatedThisFrame = true) : RefreshTurnInPlace E s = s := by
  unfold RefreshTurnInPlace
  cases hSkip : s.EditorPreviewSkip <;> cases hS : s.Settings <;> simp [h]

/-- A call of `RefreshTurnInPlace` returns the instance unchanged or sets its guard. -/
theorem RefreshTurnInPlace_sets_guard (E : Externals α) (s : UAlsAnimationInstance α) :
    RefreshTurnInPlace E s = s ∨ (RefreshTurnInPlace E s).TurnInPlaceState.bUpdatedThisFrame = true := by
  unfold RefreshTurnInPlace
  cases hSkip : s.EditorPreviewSkip
  · cases hS : s.Settings with
    | none => exact Or.inl rfl
    | some Settings =>
      cases hG : s.TurnInPlaceState.bUpdatedThisFrame
      · right
        simp only [Bool.false_eq_true, if_false]
        repeat' split
        all_goals first | rfl | rw [PlayQueuedTurnInPlaceAnimation_guard]
      · exact Or.inl rfl
  · exact Or.inl rfl

end UAlsAnimationInstance


namespace UAlsAnimationInstance

/-- The thread-safe refresh does not touch the states of the three trigger machines. -/
theorem TS_Refresh_trigger_states (E : Externals α) (s : UAlsAnimationInstance α)
    (Settings : UAlsAnimationInstanceSettings α) (DeltaTime : α) :
    (TS_Refresh E s Settings DeltaTime).DynamicTransitionsState = s.DynamicTransitionsState ∧
    (TS_Refresh E s Settings DeltaTime).RotateInPlaceState = s.RotateInPlaceState ∧
    (TS_Refresh E s Settings DeltaTime).TurnInPlaceState = s.TurnInPlaceState := by
  have hView : ∀ t : UAlsAnimationInstance α,
      (TS_RefreshView E t DeltaTime).DynamicTransitionsState = t.DynamicTransitionsState ∧
      (TS_RefreshView E t DeltaTime).RotateInPlaceState = t.RotateInPlaceState ∧
      (TS_RefreshView E t DeltaTime).TurnInPlaceState = t.TurnInPlaceState := by
    intro t
    unfold TS_RefreshView RefreshSpine
    simp only
    split_ifs <;> exact ⟨rfl, rfl, rfl⟩
  obtain ⟨v1, v2, v3⟩ := hView (TS_RefreshPose (TS_RefreshLayering s))
  exact ⟨v1, v2, v3⟩

end UAlsAnimationInstance

/-- C9: a second call of `RefreshDynamicTransitions`, `RefreshRotateInPlace` or
`RefreshTurnInPlace` within the same tick leaves the whole instance unchanged, for every instance;
and `NativeThreadSafeUpdateAnimation` with settings and character bound leaves the three
`bUpdatedThisFrame` flags false, so that the first call of each machine in the tick is not
stopped by its guard. -/
theorem C9_trigger_machines_idempotent_within_tick (E : Externals α) (s : UAlsAnimationInstance α)
    (DeltaTime : α) :
    UAlsAnimationInstance.RefreshDynamicTransitions (UAlsAnimationInstance.RefreshDynamicTransitions s) =
      UAlsAnimationInstance.RefreshDynamicTransitions s ∧
    UAlsAnimationInstance.RefreshRotateInPlace (UAlsAnimationInstance.RefreshRotateInPlace s) =
      UAlsAnimationInstance.RefreshRotateInPlace s ∧
    UAlsAnimationInstance.RefreshTurnInPlace E (UAlsAnimationInstance.RefreshTurnInPlace E s) =
      UAlsAnimationInstance.RefreshTurnInPlace E s ∧
    (s.Settings.isSome = true → s.Character.isSome = true →
      (UAlsAnimationInstance.NativeThreadSafeUpdateAnimation E s
          DeltaTime).DynamicTransitionsState.bUpdatedThisFrame = false ∧
      (UAlsAnimationInstance.NativeThreadSafeUpdateAnimation E s
          DeltaTime).RotateInPlaceState.bUpdatedThisFrame = false ∧
      (UAlsAnimationInstance.NativeThreadSafeUpdateAnimation E s
          DeltaTime).TurnInPlaceState.bUpdatedThisFrame = false) := by
  refine ⟨?_, ?_, ?_, ?_⟩
  · rcases UAlsAnimationInstance.RefreshDynamicTransitions_sets_guard s with h | h
    · rw [h, h]
    · exact UAlsAnimationInstance.RefreshDynamicTransitions_guarded _ h
  · rcases UAlsAnimationInstance.RefreshRotateInPlace_sets_guard s with h | h
    · rw [h, h]
    · exact UAlsAnimationInstance.RefreshRotateInPlace_guarded _ h
  · rcases UAlsAnimationInstance.RefreshTurnInPlace_sets_guard E s with h | h
    · rw [h, h]
    · exact UAlsAnimationInstance.RefreshTurnInPlace_guarded E _ h
  · intro hSettings hCharacter
    unfold UAlsAnimationInstance.NativeThreadSafeUpdateAnimation
    cases hS : s.Settings with
    | none => rw [hS] at hSettings; cases hSettings
    | some Settings =>
      simp only [hCharacter, Bool.true_eq_false, if_false]
      refine ⟨?_, ?_, ?_⟩
      · rw [(UAlsAnimationInstance.TS_Refresh_trigger_states E _ Settings DeltaTime).1]
      · rw [(UAlsAnimationInstance.TS_Refresh_trigger_states E _ Settings DeltaTime).2.1]
      · rw [(UAlsAnimationInstance.TS_Refresh_trigger_states E _ Settings DeltaTime).2.2]


/-! ### Foot-lock angle limit, in real arithmetic -/

/-- The signed angle recovers the rotation: for a dot product `d` and a cross product `x` of two
unit vectors with `x` non-zero, the cosine and sine of `arccos d * Sign x` are `d` and `x`. -/
theorem FMath.cos_sin_arccos_mul_Sign (d x : ℝ) (h : d * d + x * x = 1) (hx : x ≠ 0) :
    Real.cos (Real.arccos d * FMath.Sign x) = d ∧ Real.sin (Real.arccos d * FMath.Sign x) = x := by
  have hd1 : -1 ≤ d := by nlinarith [mul_self_nonneg x]
  have hd3 : d ≤ 1 := by nlinarith [mul_self_nonneg x]
  have hsq : Real.sqrt (1 - d ^ 2) = |x| := by
    have : 1 - d ^ 2 = x ^ 2 := by nlinarith
    rw [this, Real.sqrt_sq_eq_abs]
  unfold FMath.Sign
  rcases lt_or_gt_of_ne hx with hneg | hpos
  · have h1 : ¬ (x > 0) := not_lt.mpr hneg.le
    simp only [h1, if_false, hneg, if_true, mul_neg, mul_one, Real.cos_neg, Real.sin_neg]
    refine ⟨Real.cos_arccos hd1 hd3, ?_⟩
    rw [Real.sin_arccos, hsq, abs_of_neg hneg, neg_neg]
  · simp only [gt_iff_lt, hpos, if_true, mul_one]
    refine ⟨Real.cos_arccos hd1 hd3, ?_⟩
    rw [Real.sin_arccos, hsq, abs_of_pos hpos]

/-- The signed angle of a rotation by an angle strictly between minus pi and pi is that angle. -/
theorem FMath.arccos_cos_mul_Sign_sin (g : ℝ) (h1 : -Real.pi < g) (h2 : g < Real.pi) :
    Real.arccos (Real.cos g) * FMath.Sign (Real.sin g) = g := by
  unfold FMath.Sign
  rcases lt_trichotomy g 0 with hneg | hzero | hpos
  · have hs : Real.sin g < 0 := Real.sin_neg_of_neg_of_neg_pi_lt hneg h1
    have h3 : ¬ (Real.sin g > 0) := not_lt.mpr hs.le
    simp only [h3, if_false, hs, if_true, mul_neg, mul_one]
    rw [← Real.cos_neg, Real.arccos_cos (by linarith) (by linarith)]
    ring
  · subst hzero
    simp
  · have hs : 0 < Real.sin g := Real.sin_pos_of_pos_of_lt_pi hpos h2
    simp only [gt_iff_lt, hs, if_true, mul_one]
    exact Real.arccos_cos hpos.le h2.le

/-- The component-relative lock location after the angle limit of `RefreshFootLock`: rotated about
the up axis when the lock angle exceeds the limit, unchanged otherwise. -/
theorem UAlsAnimationInstance.FootLockLimitAngle_location (E : Externals α) (s : UAlsAnimationInstance α)
    (Settings : UAlsAnimationInstanceSettings α) (F : FAlsFootState α) :
    (UAlsAnimationInstance.FootLockLimitAngle E s Settings F).LockComponentRelativeLocation =
      if |UAlsVector.AngleBetweenSignedXY E (s.FeetState.PelvisRotation.RotateVector F.ThighAxis)
            F.LockComponentRelativeLocation| >
          Settings.Feet.FootLockAngleLimit + UE_KINDA_SMALL_NUMBER then
        (FQuat.ofAxisAngle E FVector.UpVector
          (FMath.DegreesToRadians E
            (FMath.Clamp
                (UAlsVector.AngleBetweenSignedXY E (s.FeetState.PelvisRotation.RotateVector F.ThighAxis)
                  F.LockComponentRelativeLocation)
                (-Settings.Feet.FootLockAngleLimit) Settings.Feet.FootLockAngleLimit -
              UAlsVector.AngleBetweenSignedXY E (s.FeetState.PelvisRotation.RotateVector F.ThighAxis)
                F.LockComponentRelativeLocation))).RotateVector F.LockComponentRelativeLocation
      else F.LockComponentRelativeLocation := by
  unfold UAlsAnimationInstance.FootLockLimitAngle
  simp only
  split_ifs <;> rfl

/-- A rotation about the up axis by a quaternion built from a half-angle sine `S` and cosine
`C`. -/
theorem FQuat.RotateVector_ofAxisAngle_up (E : Externals α) (Angle : α) (V : FVector α) :
    (FQuat.ofAxisAngle E FVector.UpVector Angle).RotateVector V =
      ⟨V.X * (1 - 2 * (E.Sin (Angle / 2) * E.Sin (Angle / 2))) -
          V.Y * (2 * (E.Sin (Angle / 2) * E.Cos (Angle / 2))),
        V.X * (2 * (E.Sin (Angle / 2) * E.Cos (Angle / 2))) +
          V.Y * (1 - 2 * (E.Sin (Angle / 2) * E.Sin (Angle / 2))),
        V.Z⟩ := by
  simp only [FQuat.ofAxisAngle, FVector.UpVector, FQuat.RotateVector, FVector.cross, FVector.scale,
    FVector.add, FVector.mk.injEq]
  refine ⟨?_, ?_, ?_⟩ <;> ring


/-- The clamp of a signed angle whose magnitude exceeds the limit, in real arithmetic: with dot
product `d` and cross product `x` of two unit vectors, rotating the second one by the clamped angle
minus the angle leaves it at exactly the clamped angle, which is the limit with the sign of the
angle. -/
theorem FMath.clamped_signed_angle (d x L : ℝ) (hdx : d * d + x * x = 1) (hL : 0 ≤ L)
    (hθ : |Real.arccos d * FMath.Sign x * (180 / Real.pi)| > L + UE_KINDA_SMALL_NUMBER) :
    FMath.Clamp (Real.arccos d * FMath.Sign x * (180 / Real.pi)) (-L) L =
        FMath.Sign (Real.arccos d * FMath.Sign x * (180 / Real.pi)) * L ∧
      Real.arccos
            (d * Real.cos ((FMath.Clamp (Real.arccos d * FMath.Sign x * (180 / Real.pi)) (-L) L -
                Real.arccos d * FMath.Sign x * (180 / Real.pi)) * (Real.pi / 180)) -
              x * Real.sin ((FMath.Clamp (Real.arccos d * FMath.Sign x * (180 / Real.pi)) (-L) L -
                Real.arccos d * FMath.Sign x * (180 / Real.pi)) * (Real.pi / 180))) *
          FMath.Sign
            (d * Real.sin ((FMath.Clamp (Real.arccos d * FMath.Sign x * (180 / Real.pi)) (-L) L -
                Real.arccos d * FMath.Sign x * (180 / Real.pi)) * (Real.pi / 180)) +
              x * Real.cos ((FMath.Clamp (Real.arccos d * FMath.Sign x * (180 / Real.pi)) (-L) L -
                Real.arccos d * FMath.Sign x * (180 / Real.pi)) * (Real.pi / 180))) *
          (180 / Real.pi) =
        FMath.Clamp (Real.arccos d * FMath.Sign x * (180 / Real.pi)) (-L) L := by
  have hpi : 0 < Real.pi := Real.pi_pos
  have hε : (0 : ℝ) < UE_KINDA_SMALL_NUMBER := by norm_num [UE_KINDA_SMALL_NUMBER]
  have hx : x ≠ 0 := by
    intro h0
    rw [h0] at hθ
    simp [FMath.Sign] at hθ
    linarith
  obtain ⟨hcos, hsin⟩ := FMath.cos_sin_arccos_mul_Sign d x hdx hx
  have hr1 : -Real.pi ≤ Real.arccos d * FMath.Sign x ∧ Real.arccos d * FMath.Sign x ≤ Real.pi := by
    have h0 := Real.arccos_nonneg d
    have h1 := Real.arccos_le_pi d
    unfold FMath.Sign
    split_ifs <;> constructor <;> nlinarith
  generalize hr : Real.arccos d * FMath.Sign x = r at *
  generalize ht : r * (180 / Real.pi) = t at *
  have hrt : r = t * (Real.pi / 180) := by
    rw [← ht]
    field_simp
  have ht1 : -180 ≤ t := by
    by_contra hlt
    push_neg at hlt
    nlinarith [mul_pos (sub_pos.2 hlt) hpi, hr1.1]
  have ht2 : t ≤ 180 := by
    by_contra hlt
    push_neg at hlt
    nlinarith [mul_pos (sub_pos.2 hlt) hpi, hr1.2]
  have hfinish : ∀ c : ℝ, |c| = L → |t| > L + UE_KINDA_SMALL_NUMBER →
      Real.arccos (d * Real.cos ((c - t) * (Real.pi / 180)) - x * Real.sin ((c - t) * (Real.pi / 180))) *
          FMath.Sign (d * Real.sin ((c - t) * (Real.pi / 180)) + x * Real.cos ((c - t) * (Real.pi / 180))) *
          (180 / Real.pi) = c := by
    intro c hc hct
    have hc180 : |c| < 180 := by
      have := abs_le.2 ⟨ht1, ht2⟩
      linarith
    rw [abs_lt] at hc180
    have e1 : d * Real.cos ((c - t) * (Real.pi / 180)) - x * Real.sin ((c - t) * (Real.pi / 180)) =
        Real.cos (c * (Real.pi / 180)) := by
      rw [← hcos, ← hsin, ← Real.cos_add, hrt]
      congr 1
      ring
    have e2 : d * Real.sin ((c - t) * (Real.pi / 180)) + x * Real.cos ((c - t) * (Real.pi / 180)) =
        Real.sin (c * (Real.pi / 180)) := by
      rw [← hcos, ← hsin, hrt, show c * (Real.pi / 180) = t * (Real.pi / 180) + (c - t) * (Real.pi / 180) by ring,
        Real.sin_add]
      ring
    rw [e1, e2, FMath.arccos_cos_mul_Sign_sin _ (by nlinarith [hc180.1]) (by nlinarith [hc180.2])]
    field_simp
  rcases lt_or_le 0 t with hpos | hneg
  · rw [abs_of_pos hpos] at hθ
    have hcl : FMath.Clamp t (-L) L = L := by
      unfold FMath.Clamp
      rw [if_neg (by linarith), if_neg (by linarith)]
    have hsg : FMath.Sign t = 1 := by
      unfold FMath.Sign
      rw [if_pos hpos]
    rw [hcl, hsg]
    refine ⟨by ring, hfinish L (abs_of_nonneg hL) ?_⟩
    rw [abs_of_pos hpos]
    exact hθ
  · rw [abs_of_nonpos hneg] at hθ
    have hcl : FMath.Clamp t (-L) L = -L := by
      unfold FMath.Clamp
      rw [if_pos (by linarith)]
    have hsg : FMath.Sign t = -1 := by
      unfold FMath.Sign
      rw [if_neg (by linarith), if_pos (by linarith)]
    rw [hcl, hsg]
    refine ⟨by ring, hfinish (-L) (by rw [abs_neg, abs_of_nonneg hL]) ?_⟩
    rw [abs_of_nonpos hneg]
    exact hθ

/-- The signed angle is zero when either projection onto the XY plane is too short to normalise. -/
theorem UAlsVector.AngleBetweenSignedXY_degenerate (E : Externals α) (A P : FVector α)
    (h : ¬ (A.X * A.X + A.Y * A.Y > UE_SMALL_NUMBER) ∨ ¬ (P.X * P.X + P.Y * P.Y > UE_SMALL_NUMBER)) :
    UAlsVector.AngleBetweenSignedXY E A P = 0 := by
  unfold UAlsVector.AngleBetweenSignedXY FVector2.GetSafeNormal
  rcases h with h | h
  · simp [h, FMath.Sign]
  · simp [h, FMath.Sign]

/-- The signed angle of two vectors with normalisable projections, in real arithmetic, in terms of
the dot and the cross product of the projections. -/
theorem UAlsVector.AngleBetweenSignedXY_exact (E : Externals ℝ) (hE : E.Exact) (A P : FVector ℝ)
    (hA : A.X * A.X + A.Y * A.Y > UE_SMALL_NUMBER) (hP : P.X * P.X + P.Y * P.Y > UE_SMALL_NUMBER) :
    UAlsVector.AngleBetweenSignedXY E A P =
      Real.arccos ((A.X * P.X + A.Y * P.Y) *
            ((Real.sqrt (A.X * A.X + A.Y * A.Y))⁻¹ * (Real.sqrt (P.X * P.X + P.Y * P.Y))⁻¹)) *
          FMath.Sign ((A.X * P.Y - A.Y * P.X) *
            ((Real.sqrt (A.X * A.X + A.Y * A.Y))⁻¹ * (Real.sqrt (P.X * P.X + P.Y * P.Y))⁻¹)) *
        (180 / Real.pi) := by
  unfold UAlsVector.AngleBetweenSignedXY FVector2.GetSafeNormal FMath.RadiansToDegrees
  simp only [if_pos hA, if_pos hP, hE.InvSqrt_eq, hE.Acos_eq, hE.Pi_eq]
  have e1 : A.X * (Real.sqrt (A.X * A.X + A.Y * A.Y))⁻¹ * (P.X * (Real.sqrt (P.X * P.X + P.Y * P.Y))⁻¹) +
      A.Y * (Real.sqrt (A.X * A.X + A.Y * A.Y))⁻¹ * (P.Y * (Real.sqrt (P.X * P.X + P.Y * P.Y))⁻¹) =
      (A.X * P.X + A.Y * P.Y) *
        ((Real.sqrt (A.X * A.X + A.Y * A.Y))⁻¹ * (Real.sqrt (P.X * P.X + P.Y * P.Y))⁻¹) := by ring
  have e2 : A.X * (Real.sqrt (A.X * A.X + A.Y * A.Y))⁻¹ * (P.Y * (Real.sqrt (P.X * P.X + P.Y * P.Y))⁻¹) -
      A.Y * (Real.sqrt (A.X * A.X + A.Y * A.Y))⁻¹ * (P.X * (Real.sqrt (P.X * P.X + P.Y * P.Y))⁻¹) =
      (A.X * P.Y - A.Y * P.X) *
        ((Real.sqrt (A.X * A.X + A.Y * A.Y))⁻¹ * (Real.sqrt (P.X * P.X + P.Y * P.Y))⁻¹) := by ring
  rw [e1, e2]
  ring

/-- The normalised dot and cross product of two plane vectors of positive length lie on the unit
circle. -/
theorem FVector2.dot_cross_unit (a1 a2 p1 p2 : ℝ) (hA : 0 < a1 * a1 + a2 * a2) (hP : 0 < p1 * p1 + p2 * p2) :
    (a1 * p1 + a2 * p2) * ((Real.sqrt (a1 * a1 + a2 * a2))⁻¹ * (Real.sqrt (p1 * p1 + p2 * p2))⁻¹) *
        ((a1 * p1 + a2 * p2) * ((Real.sqrt (a1 * a1 + a2 * a2))⁻¹ * (Real.sqrt (p1 * p1 + p2 * p2))⁻¹)) +
      (a1 * p2 - a2 * p1) * ((Real.sqrt (a1 * a1 + a2 * a2))⁻¹ * (Real.sqrt (p1 * p1 + p2 * p2))⁻¹) *
        ((a1 * p2 - a2 * p1) * ((Real.sqrt (a1 * a1 + a2 * a2))⁻¹ * (Real.sqrt (p1 * p1 + p2 * p2))⁻¹)) = 1 := by
  have hsa := Real.mul_self_sqrt hA.le
  have hsb := Real.mul_self_sqrt hP.le
  have hsa0 : Real.sqrt (a1 * a1 + a2 * a2) ≠ 0 := (Real.sqrt_pos.2 hA).ne.symm
  have hsb0 : Real.sqrt (p1 * p1 + p2 * p2) ≠ 0 := (Real.sqrt_pos.2 hP).ne.symm
  generalize Real.sqrt (a1 * a1 + a2 * a2) = sa at *
  generalize Real.sqrt (p1 * p1 + p2 * p2) = sb at *
  field_simp
  have : (a1 * p1 + a2 * p2) * (a1 * p1 + a2 * p2) + (a1 * p2 - a2 * p1) * (a1 * p2 - a2 * p1) =
      (a1 * a1 + a2 * a2) * (p1 * p1 + p2 * p2) := by ring
  rw [this, ← hsa, ← hsb]
  ring

/-- A rotation about the up axis by an angle in radians, in real arithmetic: the plane rotation of
the X and Y components by that angle, the Z component kept. -/
theorem FQuat.RotateVector_ofAxisAngle_up_exact (E : Externals ℝ) (hE : E.Exact) (Angle : ℝ)
    (V : FVector ℝ) :
    (FQuat.ofAxisAngle E FVector.UpVector Angle).RotateVector V =
      ⟨V.X * Real.cos Angle - V.Y * Real.sin Angle, V.X * Real.sin Angle + V.Y * Real.cos Angle, V.Z⟩ := by
  have hc : Real.cos Angle = 1 - 2 * (Real.sin (Angle / 2) * Real.sin (Angle / 2)) := by
    have h1 := Real.cos_two_mul (Angle / 2)
    have h2 := Real.sin_sq_add_cos_sq (Angle / 2)
    rw [show 2 * (Angle / 2) = Angle by ring] at h1
    nlinarith
  have hs : Real.sin Angle = 2 * (Real.sin (Angle / 2) * Real.cos (Angle / 2)) := by
    have h1 := Real.sin_two_mul (Angle / 2)
    rw [show 2 * (Angle / 2) = Angle by ring] at h1
    rw [h1]
    ring
  rw [FQuat.RotateVector_ofAxisAngle_up, hE.Sin_eq, hE.Cos_eq, hc, hs]

/-- The angle limit as plane geometry, in real arithmetic: when the signed angle from `A` to `P`
exceeds the limit `L`, rotating `P` about the up axis by the clamped angle minus the angle gives a
vector at exactly the clamped angle from `A`, which is the limit with the sign of the angle; the
rotation keeps the distance from the up axis and the height. -/
theorem UAlsVector.AngleBetweenSignedXY_limit (E : Externals ℝ) (hE : E.Exact) (A P : FVector ℝ) (L : ℝ)
    (hL : 0 ≤ L) (hθ : |UAlsVector.AngleBetweenSignedXY E A P| > L + UE_KINDA_SMALL_NUMBER) :
    UAlsVector.AngleBetweenSignedXY E A
          ((FQuat.ofAxisAngle E FVector.UpVector
            (FMath.DegreesToRadians E
              (FMath.Clamp (UAlsVector.AngleBetweenSignedXY E A P) (-L) L -
                UAlsVector.AngleBetweenSignedXY E A P))).RotateVector P) =
        FMath.Clamp (UAlsVector.AngleBetweenSignedXY E A P) (-L) L ∧
      FMath.Clamp (UAlsVector.AngleBetweenSignedXY E A P) (-L) L =
        FMath.Sign (UAlsVector.AngleBetweenSignedXY E A P) * L ∧
      ((FQuat.ofAxisAngle E FVector.UpVector
            (FMath.DegreesToRadians E
              (FMath.Clamp (UAlsVector.AngleBetweenSignedXY E A P) (-L) L -
                UAlsVector.AngleBetweenSignedXY E A P))).RotateVector P).X *
          ((FQuat.ofAxisAngle E FVector.UpVector
            (FMath.DegreesToRadians E
              (FMath.Clamp (UAlsVector.AngleBetweenSignedXY E A P) (-L) L -
                UAlsVector.AngleBetweenSignedXY E A P))).RotateVector P).X +
        ((FQuat.ofAxisAngle E FVector.UpVector
            (FMath.DegreesToRadians E
              (FMath.Clamp (UAlsVector.AngleBetweenSignedXY E A P) (-L) L -
                UAlsVector.AngleBetweenSignedXY E A P))).RotateVector P).Y *
          ((FQuat.ofAxisAngle E FVector.UpVector
            (FMath.DegreesToRadians E
              (FMath.Clamp (UAlsVector.AngleBetweenSignedXY E A P) (-L) L -
                UAlsVector.AngleBetweenSignedXY E A P))).RotateVector P).Y =
        P.X * P.X + P.Y * P.Y ∧
      ((FQuat.ofAxisAngle E FVector.UpVector
            (FMath.DegreesToRadians E
              (FMath.Clamp (UAlsVector.AngleBetweenSignedXY E A P) (-L) L -
                UAlsVector.AngleBetweenSignedXY E A P))).RotateVector P).Z = P.Z := by
  have hε : (0 : ℝ) < UE_KINDA_SMALL_NUMBER := by norm_num [UE_KINDA_SMALL_NUMBER]
  have htol : (0 : ℝ) < UE_SMALL_NUMBER := by norm_num [UE_SMALL_NUMBER]
  by_cases hA : A.X * A.X + A.Y * A.Y > UE_SMALL_NUMBER
  swap
  · rw [UAlsVector.AngleBetweenSignedXY_degenerate E A P (Or.inl hA), abs_zero] at hθ
    linarith
  by_cases hP : P.X * P.X + P.Y * P.Y > UE_SMALL_NUMBER
  swap
  · rw [UAlsVector.AngleBetweenSignedXY_degenerate E A P (Or.inr hP), abs_zero] at hθ
    linarith
  have hunit := FVector2.dot_cross_unit A.X A.Y P.X P.Y (lt_trans htol hA) (lt_trans htol hP)
  have hθe := UAlsVector.AngleBetweenSignedXY_exact E hE A P hA hP
  rw [FQuat.RotateVector_ofAxisAngle_up_exact E hE]
  generalize hδ : FMath.DegreesToRadians E
      (FMath.Clamp (UAlsVector.AngleBetweenSignedXY E A P) (-L) L - UAlsVector.AngleBetweenSignedXY E A P) = δ
  have hsc := Real.sin_sq_add_cos_sq δ
  have hSS : (P.X * Real.cos δ - P.Y * Real.sin δ) * (P.X * Real.cos δ - P.Y * Real.sin δ) +
      (P.X * Real.sin δ + P.Y * Real.cos δ) * (P.X * Real.sin δ + P.Y * Real.cos δ) =
      P.X * P.X + P.Y * P.Y := by
    have : (P.X * Real.cos δ - P.Y * Real.sin δ) * (P.X * Real.cos δ - P.Y * Real.sin δ) +
        (P.X * Real.sin δ + P.Y * Real.cos δ) * (P.X * Real.sin δ + P.Y * Real.cos δ) =
        (P.X * P.X + P.Y * P.Y) * (Real.sin δ ^ 2 + Real.cos δ ^ 2) := by ring
    rw [this, hsc, mul_one]
  have hθe2 := UAlsVector.AngleBetweenSignedXY_exact E hE A
    ⟨P.X * Real.cos δ - P.Y * Real.sin δ, P.X * Real.sin δ + P.Y * Real.cos δ, P.Z⟩ hA
    (by simp only; rw [hSS]; exact hP)
  simp only at hθe2
  rw [hSS] at hθe2
  refine ⟨?_, ?_, hSS, rfl⟩
  · rw [hθe2]
    have e1 : (A.X * (P.X * Real.cos δ - P.Y * Real.sin δ) + A.Y * (P.X * Real.sin δ + P.Y * Real.cos δ)) *
        ((Real.sqrt (A.X * A.X + A.Y * A.Y))⁻¹ * (Real.sqrt (P.X * P.X + P.Y * P.Y))⁻¹) =
        (A.X * P.X + A.Y * P.Y) *
            ((Real.sqrt (A.X * A.X + A.Y * A.Y))⁻¹ * (Real.sqrt (P.X * P.X + P.Y * P.Y))⁻¹) * Real.cos δ -
          (A.X * P.Y - A.Y * P.X) *
            ((Real.sqrt (A.X * A.X + A.Y * A.Y))⁻¹ * (Real.sqrt (P.X * P.X + P.Y * P.Y))⁻¹) * Real.sin δ := by
      ring
    have e2 : (A.X * (P.X * Real.sin δ + P.Y * Real.cos δ) - A.Y * (P.X * Real.cos δ - P.Y * Real.sin δ)) *
        ((Real.sqrt (A.X * A.X + A.Y * A.Y))⁻¹ * (Real.sqrt (P.X * P.X + P.Y * P.Y))⁻¹) =
        (A.X * P.X + A.Y * P.Y) *
            ((Real.sqrt (A.X * A.X + A.Y * A.Y))⁻¹ * (Real.sqrt (P.X * P.X + P.Y * P.Y))⁻¹) * Real.sin δ +
          (A.X * P.Y - A.Y * P.X) *
            ((Real.sqrt (A.X * A.X + A.Y * A.Y))⁻¹ * (Real.sqrt (P.X * P.X + P.Y * P.Y))⁻¹) * Real.cos δ := by
      ring
    rw [e1, e2, ← hδ]
    unfold FMath.DegreesToRadians
    rw [hE.Pi_eq, hθe]
    rw [hθe] at hθ
    exact (FMath.clamped_signed_angle _ _ L hunit hL hθ).2
  · rw [hθe]
    rw [hθe] at hθ
    exact (FMath.clamped_signed_angle _ _ L hunit hL hθ).1

namespace UAlsAnimationInstance

/-- The thigh axis is not written by the stages of `RefreshFootLock` before the angle limit. -/
theorem FootLockBeforeLimit_ThighAxis (s : UAlsAnimationInstance α) (FootState : FAlsFootState α)
    (LockCurveName : FName) (ComponentTransformInverse : FTransform α) (DeltaTime : α) :
    (s.FootLockBeforeLimit FootState LockCurveName ComponentTransformInverse DeltaTime).ThighAxis =
      FootState.ThighAxis := by
  unfold FootLockBeforeLimit FootLockRebase FootLockUpdateAmount
  simp only
  split_ifs <;> rfl

/-- The thigh axis is not written by the angle limit of `RefreshFootLock`. -/
theorem FootLockLimitAngle_ThighAxis (E : Externals α) (s : UAlsAnimationInstance α)
    (Settings : UAlsAnimationInstanceSettings α) (F : FAlsFootState α) :
    (FootLockLimitAngle E s Settings F).ThighAxis = F.ThighAxis := by
  unfold FootLockLimitAngle
  simp only
  split_ifs <;> rfl

/-- With foot lock enabled and a relevant lock amount, `RefreshFootLock` runs the angle limit on
the foot state measured at AlsAnimationInstance.cpp:675 and then writes the final transform. -/
theorem RefreshFootLock_enabled (E : Externals α) (s : UAlsAnimationInstance α)
    (Settings : UAlsAnimationInstanceSettings α) (IkAmount : α) (FootState : FAlsFootState α)
    (LockCurveName : FName) (ComponentTransformInverse : FTransform α) (DeltaTime : α)
    (hEnabled : Settings.Feet.bDisableFootLock = false)
    (hRelevant : FAnimWeight.IsRelevant (IkAmount * s.FootLockNewAmount FootState LockCurveName DeltaTime)) :
    RefreshFootLock E s Settings IkAmount FootState LockCurveName ComponentTransformInverse DeltaTime =
      FootLockFinal E
        (FootLockLimitAngle E s Settings
          (s.FootLockBeforeLimit FootState LockCurveName ComponentTransformInverse DeltaTime))
        ComponentTransformInverse := by
  unfold RefreshFootLock FootLockBeforeLimit
  simp only
  rw [if_neg]
  rw [hEnabled]
  simp [hRelevant]

end UAlsAnimationInstance

/-- C10: with host trigonometry computed without rounding, foot lock enabled and a relevant lock
amount, if the signed XY angle from the component-space thigh axis to the component-relative lock
location, as `RefreshFootLock` measures it, exceeds a non-negative `FootLockAngleLimit` by more than
the small epsilon, then in the foot state `RefreshFootLock` returns the signed XY angle from the
thigh axis to `LockComponentRelativeLocation` equals the clamp of the measured angle to the limit,
which is the limit with the sign of the measured angle; the thigh axis is the input one, and the
lock location keeps its squared distance from the up axis and its height. -/
theorem C10_foot_lock_angle_clamp (E : Externals ℝ) (s : UAlsAnimationInstance ℝ)
    (Settings : UAlsAnimationInstanceSettings ℝ) (IkAmount : ℝ) (FootState : FAlsFootState ℝ)
    (LockCurveName : FName) (ComponentTransformInverse : FTransform ℝ) (DeltaTime : ℝ)
    (hE : E.Exact)
    (hEnabled : Settings.Feet.bDisableFootLock = false)
    (hRelevant : FAnimWeight.IsRelevant (IkAmount * s.FootLockNewAmount FootState LockCurveName DeltaTime))
    (hLimit : 0 ≤ Settings.Feet.FootLockAngleLimit)
    (hAngle :
      |UAlsAnimationInstance.FootLockAngle E s
          (s.FootLockBeforeLimit FootState LockCurveName ComponentTransformInverse DeltaTime)| >
        Settings.Feet.FootLockAngleLimit + UE_KINDA_SMALL_NUMBER) :
    UAlsAnimationInstance.FootLockAngle E s
        (UAlsAnimationInstance.RefreshFootLock E s Settings IkAmount FootState LockCurveName
          ComponentTransformInverse DeltaTime) =
      FMath.Clamp
        (UAlsAnimationInstance.FootLockAngle E s
          (s.FootLockBeforeLimit FootState LockCurveName ComponentTransformInverse DeltaTime))
        (-Settings.Feet.FootLockAngleLimit) Settings.Feet.FootLockAngleLimit ∧
    FMath.Clamp
        (UAlsAnimationInstance.FootLockAngle E s
          (s.FootLockBeforeLimit FootState LockCurveName ComponentTransformInverse DeltaTime))
        (-Settings.Feet.FootLockAngleLimit) Settings.Feet.FootLockAngleLimit =
      FMath.Sign
          (UAlsAnimationInstance.FootLockAngle E s
            (s.FootLockBeforeLimit FootState LockCurveName ComponentTransformInverse DeltaTime)) *
        Settings.Feet.FootLockAngleLimit ∧
    (UAlsAnimationInstance.RefreshFootLock E s Settings IkAmount FootState LockCurveName
        ComponentTransformInverse DeltaTime).ThighAxis = FootState.ThighAxis ∧
    (s.FootLockBeforeLimit FootState LockCurveName ComponentTransformInverse DeltaTime).ThighAxis =
      FootState.ThighAxis ∧
    (UAlsAnimationInstance.RefreshFootLock E s Settings IkAmount FootState LockCurveName
          ComponentTransformInverse DeltaTime).LockComponentRelativeLocation.X *
        (UAlsAnimationInstance.RefreshFootLock E s Settings IkAmount FootState LockCurveName
          ComponentTransformInverse DeltaTime).LockComponentRelativeLocation.X +
      (UAlsAnimationInstance.RefreshFootLock E s Settings IkAmount FootState LockCurveName
          ComponentTransformInverse DeltaTime).LockComponentRelativeLocation.Y *
        (UAlsAnimationInstance.RefreshFootLock E s Settings IkAmount FootState LockCurveName
          ComponentTransformInverse DeltaTime).LockComponentRelativeLocation.Y =
      (s.FootLockBeforeLimit FootState LockCurveName ComponentTransformInverse
          DeltaTime).LockComponentRelativeLocation.X *
        (s.FootLockBeforeLimit FootState LockCurveName ComponentTransformInverse
          DeltaTime).LockComponentRelativeLocation.X +
      (s.FootLockBeforeLimit FootState LockCurveName ComponentTransformInverse
          DeltaTime).LockComponentRelativeLocation.Y *
        (s.FootLockBeforeLimit FootState LockCurveName ComponentTransformInverse
          DeltaTime).LockComponentRelativeLocation.Y ∧
    (UAlsAnimationInstance.RefreshFootLock E s Settings IkAmount FootState LockCurveName
        ComponentTransformInverse DeltaTime).LockComponentRelativeLocation.Z =
      (s.FootLockBeforeLimit FootState LockCurveName ComponentTransformInverse
        DeltaTime).LockComponentRelativeLocation.Z := by
  rw [UAlsAnimationInstance.RefreshFootLock_enabled E s Settings IkAmount FootState LockCurveName
    ComponentTransformInverse DeltaTime hEnabled hRelevant]
  generalize hB : s.FootLockBeforeLimit FootState LockCurveName ComponentTransformInverse DeltaTime = B at *
  unfold UAlsAnimationInstance.FootLockAngle at hAngle
  have hAxisB : B.ThighAxis = FootState.ThighAxis := by
    rw [← hB]
    exact UAlsAnimationInstance.FootLockBeforeLimit_ThighAxis s FootState LockCurveName
      ComponentTransformInverse DeltaTime
  have hAxis : (UAlsAnimationInstance.FootLockFinal E (UAlsAnimationInstance.FootLockLimitAngle E s Settings B)
      ComponentTransformInverse).ThighAxis = B.ThighAxis :=
    UAlsAnimationInstance.FootLockLimitAngle_ThighAxis E s Settings B
  have hLoc : (UAlsAnimationInstance.FootLockFinal E (UAlsAnimationInstance.FootLockLimitAngle E s Settings B)
      ComponentTransformInverse).LockComponentRelativeLocation =
      (FQuat.ofAxisAngle E FVector.UpVector
        (FMath.DegreesToRadians E
          (FMath.Clamp
              (UAlsVector.AngleBetweenSignedXY E (s.FeetState.PelvisRotation.RotateVector B.ThighAxis)
                B.LockComponentRelativeLocation)
              (-Settings.Feet.FootLockAngleLimit) Settings.Feet.FootLockAngleLimit -
            UAlsVector.AngleBetweenSignedXY E (s.FeetState.PelvisRotation.RotateVector B.ThighAxis)
              B.LockComponentRelativeLocation))).RotateVector B.LockComponentRelativeLocation := by
    have h := UAlsAnimationInstance.FootLockLimitAngle_location E s Settings B
    rw [if_pos hAngle] at h
    exact h
  have hGeo := UAlsVector.AngleBetweenSignedXY_limit E hE (s.FeetState.PelvisRotation.RotateVector B.ThighAxis)
    B.LockComponentRelativeLocation Settings.Feet.FootLockAngleLimit hLimit hAngle
  unfold UAlsAnimationInstance.FootLockAngle
  rw [hAxis, hLoc]
  exact ⟨hGeo.1, hGeo.2.1, hAxisB, hAxisB, hGeo.2.2.1, hGeo.2.2.2⟩

/-- The angle-limit scenario before the limit: the lock location is (0, 2, 3) in component space
and the thigh axis is along X. -/
theorem Fixture.AngleLimit_before :
    ((Fixture.AngleLimitInstance : UAlsAnimationInstance ℝ).FootLockBeforeLimit Fixture.AngleLimitFootState
        FName.FootLeftLockCurve FTransform.Identity 0).LockComponentRelativeLocation = ⟨0, 2, 3⟩ ∧
      (Fixture.AngleLimitInstance : UAlsAnimationInstance ℝ).FeetState.PelvisRotation.RotateVector
        ((Fixture.AngleLimitInstance : UAlsAnimationInstance ℝ).FootLockBeforeLimit Fixture.AngleLimitFootState
          FName.FootLeftLockCurve FTransform.Identity 0).ThighAxis = ⟨1, 0, 0⟩ := by
  constructor
  · simp [UAlsAnimationInstance.FootLockBeforeLimit, UAlsAnimationInstance.FootLockRebase,
      UAlsAnimationInstance.FootLockUpdateAmount, UAlsAnimationInstance.FootLockNewAmount,
      UAlsAnimationInstance.GetCurveValueClamped01, UAlsAnimationInstance.GetCurveValue, UAlsMath.Clamp01,
      Fixture.AngleLimitInstance, Fixture.AngleLimitFootState, Fixture.Instance, Fixture.FootState,
      FAnimWeight.IsFullWeight, ZERO_ANIMWEIGHT_THRESH, FTransform.Identity, FTransform.TransformPosition,
      FQuat.Identity, FQuat.RotateVector, FVector.cross, FVector.scale, FVector.add, FVector.mul,
      FVector.ZeroVector]
  · rw [UAlsAnimationInstance.FootLockBeforeLimit_ThighAxis]
    simp [Fixture.AngleLimitInstance, Fixture.AngleLimitFootState, Fixture.Instance, Fixture.FootState,
      FQuat.RotateVector, FVector.cross, FVector.scale, FVector.add]

/-- The angle-limit scenario before the limit: the measured lock angle is 90 degrees. -/
theorem Fixture.AngleLimit_angle :
    UAlsAnimationInstance.FootLockAngle
        (Fixture.ExternalsWith (fun x => (Real.sqrt x)⁻¹) Real.sin Real.cos Real.arccos Real.pi)
        (Fixture.AngleLimitInstance : UAlsAnimationInstance ℝ)
        ((Fixture.AngleLimitInstance : UAlsAnimationInstance ℝ).FootLockBeforeLimit Fixture.AngleLimitFootState
          FName.FootLeftLockCurve FTransform.Identity 0) = 90 := by
  unfold UAlsAnimationInstance.FootLockAngle
  rw [Fixture.AngleLimit_before.1, Fixture.AngleLimit_before.2,
    UAlsVector.AngleBetweenSignedXY_exact _ ⟨fun _ => rfl, fun _ => rfl, fun _ => rfl, fun _ => rfl, rfl⟩ _ _
      (by norm_num [UE_SMALL_NUMBER]) (by norm_num [UE_SMALL_NUMBER])]
  have hpos : (0 : ℝ) < (1 * 2 - 0 * 0) * ((Real.sqrt (1 * 1 + 0 * 0))⁻¹ * (Real.sqrt (0 * 0 + 2 * 2))⁻¹) := by
    apply mul_pos (by norm_num)
    apply mul_pos <;> apply inv_pos.2 <;> apply Real.sqrt_pos.2 <;> norm_num
  simp only
  rw [show FMath.Sign ((1 * 2 - 0 * 0) * ((Real.sqrt (1 * 1 + 0 * 0))⁻¹ * (Real.sqrt (0 * 0 + 2 * 2))⁻¹)) = (1 : ℝ)
    from if_pos hpos]
  rw [show ((1 : ℝ) * 0 + 0 * 2) * ((Real.sqrt (1 * 1 + 0 * 0))⁻¹ * (Real.sqrt (0 * 0 + 2 * 2))⁻¹) = 0 by ring,
    Real.arccos_zero]
  field_simp
  ring

/-- C10, applied to the angle-limit scenario: a lock location at (0, 2, 3), measured 90 degrees
from a thigh axis along X, is brought to 45 degrees under a limit of 45, two units from the up axis
and three units high as before. -/
theorem C10_foot_lock_angle_clamp_witness :
    UAlsAnimationInstance.FootLockAngle
        (Fixture.ExternalsWith (fun x => (Real.sqrt x)⁻¹) Real.sin Real.cos Real.arccos Real.pi)
        (Fixture.AngleLimitInstance : UAlsAnimationInstance ℝ)
        ((Fixture.AngleLimitInstance : UAlsAnimationInstance ℝ).FootLockBeforeLimit Fixture.AngleLimitFootState
          FName.FootLeftLockCurve FTransform.Identity 0) = 90 ∧
      UAlsAnimationInstance.FootLockAngle
        (Fixture.ExternalsWith (fun x => (Real.sqrt x)⁻¹) Real.sin Real.cos Real.arccos Real.pi)
        (Fixture.AngleLimitInstance : UAlsAnimationInstance ℝ)
        (UAlsAnimationInstance.RefreshFootLock
          (Fixture.ExternalsWith (fun x => (Real.sqrt x)⁻¹) Real.sin Real.cos Real.arccos Real.pi)
          Fixture.AngleLimitInstance Fixture.AngleLimitSettings 1 Fixture.AngleLimitFootState
          FName.FootLeftLockCurve FTransform.Identity 0) = 45 ∧
      (UAlsAnimationInstance.RefreshFootLock
            (Fixture.ExternalsWith (fun x => (Real.sqrt x)⁻¹) Real.sin Real.cos Real.arccos Real.pi)
            (Fixture.AngleLimitInstance : UAlsAnimationInstance ℝ) Fixture.AngleLimitSettings 1
            Fixture.AngleLimitFootState FName.FootLeftLockCurve FTransform.Identity
            0).LockComponentRelativeLocation.X *
          (UAlsAnimationInstance.RefreshFootLock
            (Fixture.ExternalsWith (fun x => (Real.sqrt x)⁻¹) Real.sin Real.cos Real.arccos Real.pi)
            (Fixture.AngleLimitInstance : UAlsAnimationInstance ℝ) Fixture.AngleLimitSettings 1
            Fixture.AngleLimitFootState FName.FootLeftLockCurve FTransform.Identity
            0).LockComponentRelativeLocation.X +
        (UAlsAnimationInstance.RefreshFootLock
            (Fixture.ExternalsWith (fun x => (Real.sqrt x)⁻¹) Real.sin Real.cos Real.arccos Real.pi)
            (Fixture.AngleLimitInstance : UAlsAnimationInstance ℝ) Fixture.AngleLimitSettings 1
            Fixture.AngleLimitFootState FName.FootLeftLockCurve FTransform.Identity
            0).LockComponentRelativeLocation.Y *
          (UAlsAnimationInstance.RefreshFootLock
            (Fixture.ExternalsWith (fun x => (Real.sqrt x)⁻¹) Real.sin Real.cos Real.arccos Real.pi)
            (Fixture.AngleLimitInstance : UAlsAnimationInstance ℝ) Fixture.AngleLimitSettings 1
            Fixture.AngleLimitFootState FName.FootLeftLockCurve FTransform.Identity
            0).LockComponentRelativeLocation.Y = 4 ∧
      (UAlsAnimationInstance.RefreshFootLock
          (Fixture.ExternalsWith (fun x => (Real.sqrt x)⁻¹) Real.sin Real.cos Real.arccos Real.pi)
          (Fixture.AngleLimitInstance : UAlsAnimationInstance ℝ) Fixture.AngleLimitSettings 1
          Fixture.AngleLimitFootState FName.FootLeftLockCurve FTransform.Identity
          0).LockComponentRelativeLocation.Z = 3 := by
  have h := C10_foot_lock_angle_clamp
    (Fixture.ExternalsWith (fun x => (Real.sqrt x)⁻¹) Real.sin Real.cos Real.arccos Real.pi)
    (Fixture.AngleLimitInstance : UAlsAnimationInstance ℝ) Fixture.AngleLimitSettings 1
    Fixture.AngleLimitFootState FName.FootLeftLockCurve FTransform.Identity 0
    ⟨fun _ => rfl, fun _ => rfl, fun _ => rfl, fun _ => rfl, rfl⟩ rfl
    (by
      norm_num [FAnimWeight.IsRelevant, ZERO_ANIMWEIGHT_THRESH, UAlsAnimationInstance.FootLockNewAmount,
        UAlsAnimationInstance.GetCurveValueClamped01, UAlsAnimationInstance.GetCurveValue, UAlsMath.Clamp01,
        Fixture.AngleLimitInstance, Fixture.Instance])
    (by norm_num [Fixture.AngleLimitSettings])
    (by
      rw [Fixture.AngleLimit_angle]
      norm_num [Fixture.AngleLimitSettings, UE_KINDA_SMALL_NUMBER])
  rw [Fixture.AngleLimit_angle, Fixture.AngleLimit_before.1] at h
  refine ⟨Fixture.AngleLimit_angle, ?_, ?_, h.2.2.2.2.2⟩
  · rw [h.1]
    norm_num [FMath.Clamp, Fixture.AngleLimitSettings]
  · rw [h.2.2.2.2.1]
    norm_num

/-! ### Velocity blend on snap -/

/-- The unit-interval clamp of a value that is at most one is its positive part. -/
theorem UAlsMath.Clamp01_of_le_one (t : α) (h : t ≤ 1) : UAlsMath.Clamp01 t = max t 0 := by
  unfold UAlsMath.Clamp01
  split_ifs with h1 h2
  · exact (max_eq_left h1.le).symm
  · rw [le_antisymm h (not_lt.1 h2)]
    exact (max_eq_left zero_le_one).symm
  · exact (max_eq_right (not_lt.1 h1)).symm

/-- The magnitude of the clamp to [-1, 0] of a value that is at least minus one is its negative
part. -/
theorem FMath.abs_Clamp_neg_one_zero (t : α) (h : -1 ≤ t) : |FMath.Clamp t (-1) 0| = max (-t) 0 := by
  unfold FMath.Clamp
  rw [if_neg (not_lt.2 h)]
  split_ifs with h1
  · rw [abs_of_neg h1, max_eq_left (by linarith)]
  · rw [abs_zero, max_eq_right (by linarith [not_lt.1 h1])]

namespace UAlsAnimationInstance

/-- The target of the velocity blend for a relative velocity long enough to be normalised, with a
positive inverse square root: the relative velocity divided by the sum of the absolute values of its
components, which is positive. -/
theorem TargetVelocityBlend_of_normalizable (E : Externals α) (s : UAlsAnimationInstance α)
    (hLong : s.GetRelativeVelocity.SizeSquared > UE_SMALL_NUMBER)
    (hInvSqrt : 0 < E.InvSqrt s.GetRelativeVelocity.SizeSquared) :
    0 < |s.GetRelativeVelocity.X| + |s.GetRelativeVelocity.Y| + |s.GetRelativeVelocity.Z| ∧
      TargetVelocityBlend E s =
        s.GetRelativeVelocity.divide
          (|s.GetRelativeVelocity.X| + |s.GetRelativeVelocity.Y| + |s.GetRelativeVelocity.Z|) := by
  unfold TargetVelocityBlend
  generalize s.GetRelativeVelocity = V at *
  have htol : (0 : α) < UE_SMALL_NUMBER := by norm_num [UE_SMALL_NUMBER]
  have hS : 0 < |V.X| + |V.Y| + |V.Z| := by
    by_contra h0
    have hx := abs_nonneg V.X
    have hy := abs_nonneg V.Y
    have hz := abs_nonneg V.Z
    have ex : V.X = 0 := abs_eq_zero.1 (by linarith)
    have ey : V.Y = 0 := abs_eq_zero.1 (by linarith)
    have ez : V.Z = 0 := abs_eq_zero.1 (by linarith)
    unfold FVector.SizeSquared at hLong
    rw [ex, ey, ez] at hLong
    simp only [mul_zero, add_zero] at hLong
    exact absurd hLong (not_lt.2 htol.le)
  refine ⟨hS, ?_⟩
  unfold FVector.Normalize
  simp only [if_pos hLong, if_true]
  generalize E.InvSqrt V.SizeSquared = k at *
  have hk : k ≠ 0 := hInvSqrt.ne.symm
  have hsum : |V.X * k| + |V.Y * k| + |V.Z * k| = (|V.X| + |V.Y| + |V.Z|) * k := by
    rw [abs_mul, abs_mul, abs_mul, abs_of_pos hInvSqrt]
    ring
  simp only [FVector.scale, FVector.divide, hsum, FVector.mk.injEq]
  have hS0 := hS.ne.symm
  refine ⟨?_, ?_, ?_⟩ <;> field_simp <;> ring

/-- The target of the velocity blend is zero for a relative velocity too short to be normalised. -/
theorem TargetVelocityBlend_of_short (E : Externals α) (s : UAlsAnimationInstance α)
    (hShort : ¬ s.GetRelativeVelocity.SizeSquared > UE_SMALL_NUMBER) :
    TargetVelocityBlend E s = FVector.ZeroVector := by
  unfold TargetVelocityBlend FVector.Normalize
  simp [hShort]

end UAlsAnimationInstance

/-- C11, as stated, fails: on a snap, a relative velocity of (0.00001, 0, 0), which is not zero
but too short for the engine to normalise, gives a forward amount of 0, where the claimed value
max(x, 0) / (|x| + |y| + |z|) is 1. -/
theorem C11_short_velocity_gives_zero_blend :
    (Fixture.VelocityBlendSnapInstance (⟨1 / 100000, 0, 0⟩ : FVector ℝ)).GetRelativeVelocity =
        ⟨1 / 100000, 0, 0⟩ ∧
      (UAlsAnimationInstance.RefreshVelocityBlend
          (Fixture.ExternalsWith (fun x => (Real.sqrt x)⁻¹) Real.sin Real.cos Real.arccos Real.pi)
          (Fixture.VelocityBlendSnapInstance (⟨1 / 100000, 0, 0⟩ : FVector ℝ))
          Fixture.Settings).GroundedState.VelocityBlend.ForwardAmount = 0 ∧
      max (1 / 100000 : ℝ) 0 / (|(1 / 100000 : ℝ)| + |(0 : ℝ)| + |(0 : ℝ)|) = 1 := by
  have hV : (Fixture.VelocityBlendSnapInstance (⟨1 / 100000, 0, 0⟩ : FVector ℝ)).GetRelativeVelocity =
      ⟨1 / 100000, 0, 0⟩ := by
    simp [Fixture.VelocityBlendSnapInstance, Fixture.Instance, UAlsAnimationInstance.GetRelativeVelocity,
      FQuat.UnrotateVector, FVector.cross, FVector.scale, FVector.add]
  have hT := UAlsAnimationInstance.TargetVelocityBlend_of_short
    (Fixture.ExternalsWith (fun x => (Real.sqrt x)⁻¹) Real.sin Real.cos Real.arccos Real.pi)
    (Fixture.VelocityBlendSnapInstance (⟨1 / 100000, 0, 0⟩ : FVector ℝ))
    (by rw [hV]; norm_num [FVector.SizeSquared, UE_SMALL_NUMBER])
  refine ⟨hV, ?_, ?_⟩
  · unfold UAlsAnimationInstance.RefreshVelocityBlend
    simp only [hT]
    simp [Fixture.VelocityBlendSnapInstance, FVector.ZeroVector, UAlsMath.Clamp01]
  · rw [abs_zero, add_zero, add_zero, max_eq_left (by norm_num), abs_of_pos (by norm_num)]
    norm_num

/-- C11 (amended): on a snap (initialisation required or non-positive interpolation speed), for a
relative velocity (x, y, z) whose squared length exceeds the engine tolerance 1e-8 and whose inverse
square root is positive, `RefreshVelocityBlend` sets the forward, backward, right and left amounts
to max(x, 0), max(-x, 0), max(y, 0) and max(-y, 0) divided by |x| + |y| + |z|, which sum to 1 when z
is 0; for a relative velocity whose squared length is at most the tolerance, zero included, all
four amounts are 0. -/
theorem C11_velocity_blend_on_snap (E : Externals α) (s : UAlsAnimationInstance α)
    (Settings : UAlsAnimationInstanceSettings α)
    (hSnap : s.GroundedState.VelocityBlend.bInitializationRequired = true ∨
      Settings.Grounded.VelocityBlendInterpolationSpeed ≤ 0) :
    (s.GetRelativeVelocity.SizeSquared > UE_SMALL_NUMBER →
      0 < E.InvSqrt s.GetRelativeVelocity.SizeSquared →
      (UAlsAnimationInstance.RefreshVelocityBlend E s Settings).GroundedState.VelocityBlend.ForwardAmount =
          max s.GetRelativeVelocity.X 0 /
            (|s.GetRelativeVelocity.X| + |s.GetRelativeVelocity.Y| + |s.GetRelativeVelocity.Z|) ∧
        (UAlsAnimationInstance.RefreshVelocityBlend E s Settings).GroundedState.VelocityBlend.BackwardAmount =
          max (-s.GetRelativeVelocity.X) 0 /
            (|s.GetRelativeVelocity.X| + |s.GetRelativeVelocity.Y| + |s.GetRelativeVelocity.Z|) ∧
        (UAlsAnimationInstance.RefreshVelocityBlend E s Settings).GroundedState.VelocityBlend.RightAmount =
          max s.GetRelativeVelocity.Y 0 /
            (|s.GetRelativeVelocity.X| + |s.GetRelativeVelocity.Y| + |s.GetRelativeVelocity.Z|) ∧
        (UAlsAnimationInstance.RefreshVelocityBlend E s Settings).GroundedState.VelocityBlend.LeftAmount =
          max (-s.GetRelativeVelocity.Y) 0 /
            (|s.GetRelativeVelocity.X| + |s.GetRelativeVelocity.Y| + |s.GetRelativeVelocity.Z|) ∧
        (s.GetRelativeVelocity.Z = 0 →
          (UAlsAnimationInstance.RefreshVelocityBlend E s Settings).GroundedState.VelocityBlend.ForwardAmount +
              (UAlsAnimationInstance.RefreshVelocityBlend E s Settings).GroundedState.VelocityBlend.BackwardAmount +
              (UAlsAnimationInstance.RefreshVelocityBlend E s Settings).GroundedState.VelocityBlend.RightAmount +
              (UAlsAnimationInstance.RefreshVelocityBlend E s Settings).GroundedState.VelocityBlend.LeftAmount =
            1)) ∧
    (¬ s.GetRelativeVelocity.SizeSquared > UE_SMALL_NUMBER →
      (UAlsAnimationInstance.RefreshVelocityBlend E s Settings).GroundedState.VelocityBlend.ForwardAmount = 0 ∧
        (UAlsAnimationInstance.RefreshVelocityBlend E s Settings).GroundedState.VelocityBlend.BackwardAmount = 0 ∧
        (UAlsAnimationInstance.RefreshVelocityBlend E s Settings).GroundedState.VelocityBlend.RightAmount = 0 ∧
        (UAlsAnimationInstance.RefreshVelocityBlend E s Settings).GroundedState.VelocityBlend.LeftAmount = 0) := by
  have hBlend : (UAlsAnimationInstance.RefreshVelocityBlend E s Settings).GroundedState.VelocityBlend =
      { bInitializationRequired := false
        ForwardAmount := UAlsMath.Clamp01 (UAlsAnimationInstance.TargetVelocityBlend E s).X
        BackwardAmount := |FMath.Clamp (UAlsAnimationInstance.TargetVelocityBlend E s).X (-1) 0|
        LeftAmount := |FMath.Clamp (UAlsAnimationInstance.TargetVelocityBlend E s).Y (-1) 0|
        RightAmount := UAlsMath.Clamp01 (UAlsAnimationInstance.TargetVelocityBlend E s).Y } := by
    unfold UAlsAnimationInstance.RefreshVelocityBlend
    simp only [if_pos hSnap]
  rw [hBlend]
  constructor
  · intro hLong hInvSqrt
    obtain ⟨hS, hT⟩ := UAlsAnimationInstance.TargetVelocityBlend_of_normalizable E s hLong hInvSqrt
    rw [hT]
    generalize s.GetRelativeVelocity = V at *
    generalize hSdef : |V.X| + |V.Y| + |V.Z| = S at *
    have hxS : |V.X| ≤ S := by rw [← hSdef]; linarith [abs_nonneg V.Y, abs_nonneg V.Z]
    have hyS : |V.Y| ≤ S := by rw [← hSdef]; linarith [abs_nonneg V.X, abs_nonneg V.Z]
    have hx1 : V.X / S ≤ 1 := (div_le_one hS).2 (le_trans (le_abs_self _) hxS)
    have hx2 : -1 ≤ V.X / S := by
      rw [le_div_iff₀ hS]
      linarith [neg_abs_le V.X]
    have hy1 : V.Y / S ≤ 1 := (div_le_one hS).2 (le_trans (le_abs_self _) hyS)
    have hy2 : -1 ≤ V.Y / S := by
      rw [le_div_iff₀ hS]
      linarith [neg_abs_le V.Y]
    have hmax : ∀ t : α, max (t / S) 0 = max t 0 / S := by
      intro t
      rcases le_total 0 t with h | h
      · rw [max_eq_left h, max_eq_left (div_nonneg h hS.le)]
      · rw [max_eq_right h, max_eq_right (div_nonpos_of_nonpos_of_nonneg h hS.le), zero_div]
    simp only [FVector.divide]
    have eF := UAlsMath.Clamp01_of_le_one (V.X / S) hx1
    have eR := UAlsMath.Clamp01_of_le_one (V.Y / S) hy1
    have eB := FMath.abs_Clamp_neg_one_zero (V.X / S) hx2
    have eL := FMath.abs_Clamp_neg_one_zero (V.Y / S) hy2
    rw [hmax] at eF eR
    rw [← neg_div, hmax] at eB eL
    refine ⟨eF, eB, eR, eL, ?_⟩
    intro hZ
    rw [eF, eB, eR, eL, ← add_div, ← add_div, ← add_div, div_eq_one_iff_eq hS.ne.symm, ← hSdef, hZ, abs_zero,
      add_zero]
    have ax : max V.X 0 + max (-V.X) 0 = |V.X| := by
      rcases le_total 0 V.X with h | h
      · rw [max_eq_left h, max_eq_right (by linarith), abs_of_nonneg h, add_zero]
      · rw [max_eq_right h, max_eq_left (by linarith), abs_of_nonpos h, zero_add]
    have ay : max V.Y 0 + max (-V.Y) 0 = |V.Y| := by
      rcases le_total 0 V.Y with h | h
      · rw [max_eq_left h, max_eq_right (by linarith), abs_of_nonneg h, add_zero]
      · rw [max_eq_right h, max_eq_left (by linarith), abs_of_nonpos h, zero_add]
    rw [← ax, ← ay]
    ring
  · intro hShort
    rw [UAlsAnimationInstance.TargetVelocityBlend_of_short E s hShort]
    simp [FVector.ZeroVector, UAlsMath.Clamp01, FMath.Clamp]

/-- C11 (amended), applied to a relative velocity of (1, 1, 0) with the exact inverse square root:
the forward and right amounts are 0.5 and the backward and left amounts are 0. -/
theorem C11_velocity_blend_on_snap_witness :
    (UAlsAnimationInstance.RefreshVelocityBlend
          (Fixture.ExternalsWith (fun x => (Real.sqrt x)⁻¹) Real.sin Real.cos Real.arccos Real.pi)
          (Fixture.VelocityBlendSnapInstance (⟨1, 1, 0⟩ : FVector ℝ))
          Fixture.Settings).GroundedState.VelocityBlend.ForwardAmount = 1 / 2 ∧
      (UAlsAnimationInstance.RefreshVelocityBlend
          (Fixture.ExternalsWith (fun x => (Real.sqrt x)⁻¹) Real.sin Real.cos Real.arccos Real.pi)
          (Fixture.VelocityBlendSnapInstance (⟨1, 1, 0⟩ : FVector ℝ))
          Fixture.Settings).GroundedState.VelocityBlend.BackwardAmount = 0 ∧
      (UAlsAnimationInstance.RefreshVelocityBlend
          (Fixture.ExternalsWith (fun x => (Real.sqrt x)⁻¹) Real.sin Real.cos Real.arccos Real.pi)
          (Fixture.VelocityBlendSnapInstance (⟨1, 1, 0⟩ : FVector ℝ))
          Fixture.Settings).GroundedState.VelocityBlend.RightAmount = 1 / 2 ∧
      (UAlsAnimationInstance.RefreshVelocityBlend
          (Fixture.ExternalsWith (fun x => (Real.sqrt x)⁻¹) Real.sin Real.cos Real.arccos Real.pi)
          (Fixture.VelocityBlendSnapInstance (⟨1, 1, 0⟩ : FVector ℝ))
          Fixture.Settings).GroundedState.VelocityBlend.LeftAmount = 0 := by
  have hV : (Fixture.VelocityBlendSnapInstance (⟨1, 1, 0⟩ : FVector ℝ)).GetRelativeVelocity = ⟨1, 1, 0⟩ := by
    simp [Fixture.VelocityBlendSnapInstance, Fixture.Instance, UAlsAnimationInstance.GetRelativeVelocity,
      FQuat.UnrotateVector, FVector.cross, FVector.scale, FVector.add]
  have h := (C11_velocity_blend_on_snap
    (Fixture.ExternalsWith (fun x => (Real.sqrt x)⁻¹) Real.sin Real.cos Real.arccos Real.pi)
    (Fixture.VelocityBlendSnapInstance (⟨1, 1, 0⟩ : FVector ℝ)) Fixture.Settings (Or.inl rfl)).1
    (by rw [hV]; norm_num [FVector.SizeSquared, UE_SMALL_NUMBER])
    (by
      rw [hV]
      exact inv_pos.2 (Real.sqrt_pos.2 (by norm_num [FVector.SizeSquared])))
  rw [hV] at h
  refine ⟨?_, ?_, ?_, ?_⟩
  · rw [h.1]; norm_num
  · rw [h.2.1]; norm_num
  · rw [h.2.2.1]; norm_num
  · rw [h.2.2.2.1]; norm_num

/-! ### Ground prediction -/

/-- C12: for every state whose vertical velocity is above -200, `RefreshGroundPrediction` sets
`GroundPredictionAmount` to 0 and changes nothing else, and its result is the same for every world
(capsule sweep) and every settings object (prediction curve); the block curve is part of the
arbitrary state. -/
theorem C12_ground_prediction_zero_above_threshold (E : Externals α) (s : UAlsAnimationInstance α)
    (Settings : UAlsAnimationInstanceSettings α) (hVelocity : s.InAirState.VerticalVelocity > -200) :
    (UAlsAnimationInstance.RefreshGroundPrediction E s Settings).InAirState.GroundPredictionAmount = 0 ∧
      UAlsAnimationInstance.RefreshGroundPrediction E s Settings =
        { s with InAirState := { s.InAirState with GroundPredictionAmount := 0 } } ∧
      ∀ (E2 : Externals α) (Settings2 : UAlsAnimationInstanceSettings α),
        UAlsAnimationInstance.RefreshGroundPrediction E2 s Settings2 =
          UAlsAnimationInstance.RefreshGroundPrediction E s Settings := by
  have h : ∀ (E1 : Externals α) (Settings1 : UAlsAnimationInstanceSettings α),
      UAlsAnimationInstance.RefreshGroundPrediction E1 s Settings1 =
        { s with InAirState := { s.InAirState with GroundPredictionAmount := 0 } } := by
    intro E1 Settings1
    unfold UAlsAnimationInstance.RefreshGroundPrediction
    rw [if_pos hVelocity]
  refine ⟨?_, h E Settings, ?_⟩
  · rw [h E Settings]
  · intro E2 Settings2
    rw [h E2 Settings2, h E Settings]

/-- C12, applied to a fall at vertical velocity -100 in a world whose sweep returns a walkable
blocking hit: the ground prediction amount is 0. -/
theorem C12_ground_prediction_zero_above_threshold_witness :
    (Fixture.FallingInstance (-100) : UAlsAnimationInstance ℚ).InAirState.VerticalVelocity > -200 ∧
      (UAlsAnimationInstance.RefreshGroundPrediction
          (Fixture.ExternalsWithSweep ⟨true, false, 1 / 2, ⟨0, 0, 1⟩⟩)
          (Fixture.FallingInstance (-100) : UAlsAnimationInstance ℚ)
          Fixture.GroundPredictionSettings).InAirState.GroundPredictionAmount = 0 :=
  ⟨by norm_num [Fixture.FallingInstance],
    (C12_ground_prediction_zero_above_threshold (Fixture.ExternalsWithSweep ⟨true, false, 1 / 2, ⟨0, 0, 1⟩⟩)
      (Fixture.FallingInstance (-100)) Fixture.GroundPredictionSettings
      (by norm_num [Fixture.FallingInstance])).1⟩

/-- C13: when the ground prediction is not skipped (vertical velocity at most -200 and, for the
clamped block-curve value b, 1 - b above the small epsilon), `RefreshGroundPrediction` sets
`GroundPredictionAmount` to the prediction curve at the hit time, times 1 - b, if the sweep it makes
returns a blocking hit that does not start penetrating and whose impact-normal Z is at least the
walkable-floor cosine, and to 0 for every other sweep result: no blocking hit, a hit that starts
penetrating, or an impact-normal Z below the cosine. -/
theorem C13_ground_prediction_amount (E : Externals α) (s : UAlsAnimationInstance α)
    (Settings : UAlsAnimationInstanceSettings α)
    (hVelocity : s.InAirState.VerticalVelocity ≤ -200)
    (hAllowance : 1 - s.GetCurveValueClamped01 FName.GroundPredictionBlockCurve > UE_KINDA_SMALL_NUMBER) :
    ((UAlsAnimationInstance.GroundPredictionHit E s).bBlockingHit = true →
        (UAlsAnimationInstance.GroundPredictionHit E s).bStartPenetrating = false →
        (UAlsAnimationInstance.GroundPredictionHit E s).ImpactNormal.Z ≥
          s.LocomotionState.WalkableFloorAngleCos →
        (UAlsAnimationInstance.RefreshGroundPrediction E s Settings).InAirState.GroundPredictionAmount =
          Settings.InAir.GroundPredictionAmountCurve.GetFloatValue
              (UAlsAnimationInstance.GroundPredictionHit E s).Time *
            (1 - s.GetCurveValueClamped01 FName.GroundPredictionBlockCurve)) ∧
      ((UAlsAnimationInstance.GroundPredictionHit E s).bBlockingHit = false ∨
          (UAlsAnimationInstance.GroundPredictionHit E s).bStartPenetrating = true ∨
          (UAlsAnimationInstance.GroundPredictionHit E s).ImpactNormal.Z <
            s.LocomotionState.WalkableFloorAngleCos →
        (UAlsAnimationInstance.RefreshGroundPrediction E s Settings).InAirState.GroundPredictionAmount = 0) := by
  have h : (UAlsAnimationInstance.RefreshGroundPrediction E s Settings).InAirState.GroundPredictionAmount =
      if ((UAlsAnimationInstance.GroundPredictionHit E s).IsValidBlockingHit &&
          decide ((UAlsAnimationInstance.GroundPredictionHit E s).ImpactNormal.Z ≥
            s.LocomotionState.WalkableFloorAngleCos)) = true then
        Settings.InAir.GroundPredictionAmountCurve.GetFloatValue
            (UAlsAnimationInstance.GroundPredictionHit E s).Time *
          (1 - s.GetCurveValueClamped01 FName.GroundPredictionBlockCurve)
      else 0 := by
    unfold UAlsAnimationInstance.RefreshGroundPrediction UAlsAnimationInstance.GroundPredictionHit
    rw [if_neg (not_lt.2 hVelocity)]
    simp only
    rw [if_neg (not_le.2 hAllowance)]
  rw [h]
  constructor
  · intro hB hP hZ
    rw [if_pos]
    simp [FHitResult.IsValidBlockingHit, hB, hP, hZ]
  · intro hOther
    rw [if_neg]
    rcases hOther with hB | hP | hZ
    · simp [FHitResult.IsValidBlockingHit, hB]
    · simp [FHitResult.IsValidBlockingHit, hP]
    · simp [FHitResult.IsValidBlockingHit, not_le.2 hZ]

/-- C13, applied to a fall at vertical velocity -300 with no block curve, a prediction curve of
one minus the hit time, and a sweep returning a walkable blocking hit at time 0.5: the ground
prediction amount is 0.5. -/
theorem C13_ground_prediction_amount_witness :
    (UAlsAnimationInstance.RefreshGroundPrediction
        (Fixture.ExternalsWithSweep ⟨true, false, 1 / 2, ⟨0, 0, 1⟩⟩)
        (Fixture.FallingInstance (-300) : UAlsAnimationInstance ℚ)
        Fixture.GroundPredictionSettings).InAirState.GroundPredictionAmount = 1 / 2 := by
  have h := (C13_ground_prediction_amount (Fixture.ExternalsWithSweep ⟨true, false, 1 / 2, ⟨0, 0, 1⟩⟩)
    (Fixture.FallingInstance (-300) : UAlsAnimationInstance ℚ) Fixture.GroundPredictionSettings
    (by norm_num [Fixture.FallingInstance])
    (by
      norm_num [Fixture.FallingInstance, Fixture.Instance, UAlsAnimationInstance.GetCurveValueClamped01,
        UAlsAnimationInstance.GetCurveValue, UAlsMath.Clamp01, UE_KINDA_SMALL_NUMBER])).1 rfl rfl
    (by
      norm_num [UAlsAnimationInstance.GroundPredictionHit, Fixture.ExternalsWithSweep,
        Fixture.FallingInstance, Fixture.Instance])
  rw [h]
  norm_num [UAlsAnimationInstance.GroundPredictionHit, Fixture.ExternalsWithSweep,
    Fixture.GroundPredictionSettings, Fixture.FallingInstance, Fixture.Instance,
    UAlsAnimationInstance.GetCurveValueClamped01, UAlsAnimationInstance.GetCurveValue, UAlsMath.Clamp01]

/-! ### Sprint acceleration amount -/

namespace UAlsAnimationInstance

/-- An evaluated `RefreshStandingMovement` with the sprinting gait: the sprint time becomes 0.5
under a pending update and grows by the frame delta time otherwise, and the sprint acceleration
amount is 0 if the new sprint time is at least 0.5 and the forward relative-acceleration amount
otherwise. -/
theorem RefreshStandingMovement_sprinting (E : Externals α) (s : UAlsAnimationInstance α)
    (hSkip : s.EditorPreviewSkip = false) (hSettings : s.Settings.isSome = true)
    (hGait : s.Gait = FGameplayTag.Gait_Sprinting) :
    (RefreshStandingMovement E s).StandingState.SprintTime =
        (if s.bPendingUpdate = true then 5 / 10 else s.StandingState.SprintTime + s.GetDeltaSeconds) ∧
      (RefreshStandingMovement E s).StandingState.SprintAccelerationAmount =
        (if (if s.bPendingUpdate = true then 5 / 10 else s.StandingState.SprintTime + s.GetDeltaSeconds) ≥
            5 / 10 then 0
         else (GetRelativeAccelerationAmount E s).X) := by
  unfold RefreshStandingMovement
  rw [if_neg (by rw [hSkip]; exact Bool.false_ne_true)]
  split
  · rename_i hNone
    rw [hNone] at hSettings
    exact absurd hSettings (by simp)
  · rw [if_neg (by rw [hGait]; exact fun h => h rfl)]
    exact ⟨rfl, rfl⟩

/-- An evaluated `RefreshStandingMovement` with a gait other than sprinting resets the sprint time
and the sprint acceleration amount to 0. -/
theorem RefreshStandingMovement_not_sprinting (E : Externals α) (s : UAlsAnimationInstance α)
    (hSkip : s.EditorPreviewSkip = false) (hSettings : s.Settings.isSome = true)
    (hGait : s.Gait ≠ FGameplayTag.Gait_Sprinting) :
    (RefreshStandingMovement E s).StandingState.SprintTime = 0 ∧
      (RefreshStandingMovement E s).StandingState.SprintAccelerationAmount = 0 := by
  unfold RefreshStandingMovement
  rw [if_neg (by rw [hSkip]; exact Bool.false_ne_true)]
  split
  · rename_i hNone
    rw [hNone] at hSettings
    exact absurd hSettings (by simp)
  · rw [if_pos hGait]
    exact ⟨rfl, rfl⟩

end UAlsAnimationInstance

/-- One sprinting tick of the harness, in terms of the standing state the previous tick left. -/
theorem StandingMovementTick_sprinting (E : Externals α) (Standing : FAlsStandingState α)
    (Tick : UAlsAnimationInstance α) (hTick : SprintingTick Tick) :
    (StandingMovementTick E Standing Tick).SprintTime =
        (if Tick.bPendingUpdate = true then 5 / 10 else Standing.SprintTime + Tick.GetDeltaSeconds) ∧
      (StandingMovementTick E Standing Tick).SprintAccelerationAmount =
        (if (StandingMovementTick E Standing Tick).SprintTime ≥ 5 / 10 then 0
         else (UAlsAnimationInstance.GetRelativeAccelerationAmount E Tick).X) := by
  have h := UAlsAnimationInstance.RefreshStandingMovement_sprinting E { Tick with StandingState := Standing }
    hTick.Evaluated hTick.SettingsBound hTick.Sprinting
  unfold StandingMovementTick
  rw [h.2, h.1]
  exact ⟨rfl, rfl⟩

/-- The sprint time after a sequence of sprinting ticks is at least the elapsed time capped at
0.5, when it was so before the sequence. -/
theorem StandingMovementTicks_SprintTime_ge (E : Externals α) (Ticks : List (UAlsAnimationInstance α)) :
    ∀ (Standing : FAlsStandingState α) (Elapsed : α), (∀ Tick ∈ Ticks, SprintingTick Tick) →
      min Elapsed (5 / 10) ≤ Standing.SprintTime →
      min (Elapsed + ElapsedTime Ticks) (5 / 10) ≤ (StandingMovementTicks E Standing Ticks).SprintTime := by
  induction Ticks with
  | nil =>
    intro Standing Elapsed _ h
    simpa [ElapsedTime, StandingMovementTicks] using h
  | cons T Ts ih =>
    intro Standing Elapsed hTicks h
    have hT := hTicks T (List.mem_cons_self _ _)
    have hStep := (StandingMovementTick_sprinting E Standing T hT).1
    have hNext : min (Elapsed + T.GetDeltaSeconds) (5 / 10) ≤ (StandingMovementTick E Standing T).SprintTime := by
      rw [hStep]
      have hd := hT.DeltaNonneg
      split_ifs
      · exact min_le_right _ _
      · rcases min_le_iff.1 (le_refl (min Elapsed (5 / 10 : α))) with h1 | h1
        · exact le_trans (min_le_left _ _) (by linarith)
        · exact le_trans (min_le_right _ _) (by linarith)
    have := ih (StandingMovementTick E Standing T) (Elapsed + T.GetDeltaSeconds)
      (fun Tick hmem => hTicks Tick (List.mem_cons_of_mem _ hmem)) hNext
    simpa [ElapsedTime, StandingMovementTicks, add_assoc] using this

/-- The sprint time after a sequence of sprinting ticks without a pending update is the sprint time
before it plus the elapsed time. -/
theorem StandingMovementTicks_SprintTime_eq (E : Externals α) (Ticks : List (UAlsAnimationInstance α)) :
    ∀ Standing : FAlsStandingState α, (∀ Tick ∈ Ticks, SprintingTick Tick) →
      (∀ Tick ∈ Ticks, Tick.bPendingUpdate = false) →
      (StandingMovementTicks E Standing Ticks).SprintTime = Standing.SprintTime + ElapsedTime Ticks := by
  induction Ticks with
  | nil =>
    intro Standing _ _
    simp [ElapsedTime, StandingMovementTicks]
  | cons T Ts ih =>
    intro Standing hTicks hPending
    have hT := hTicks T (List.mem_cons_self _ _)
    have hStep := (StandingMovementTick_sprinting E Standing T hT).1
    rw [hPending T (List.mem_cons_self _ _)] at hStep
    simp only [Bool.false_eq_true, if_false] at hStep
    have := ih (StandingMovementTick E Standing T)
      (fun Tick hmem => hTicks Tick (List.mem_cons_of_mem _ hmem))
      (fun Tick hmem => hPending Tick (List.mem_cons_of_mem _ hmem))
    rw [hStep] at this
    simpa [ElapsedTime, StandingMovementTicks, add_assoc] using this

/-- C14: for every sequence of evaluated `RefreshStandingMovement` ticks with the sprinting gait
and non-negative delta times, started from `SprintTime` 0, after the last tick (hence after each
tick, every prefix being such a sequence) `SprintAccelerationAmount` is the forward relative
acceleration amount of that tick if the accumulated `SprintTime` is below 0.5 and 0 if it is at
least 0.5; `SprintTime` is at least the elapsed time capped at 0.5, so the amount is 0 once 0.5 s
have elapsed, and `SprintTime` is the elapsed time when no tick had a pending update (a pending
update sets it to 0.5).  On an evaluated tick whose gait is not sprinting `SprintTime` and
`SprintAccelerationAmount` are both reset to 0. -/
theorem C14_sprint_acceleration_amount (E : Externals α) (Standing : FAlsStandingState α)
    (Init : List (UAlsAnimationInstance α)) (Last : UAlsAnimationInstance α)
    (hStart : Standing.SprintTime = 0) (hTicks : ∀ Tick ∈ Init ++ [Last], SprintingTick Tick) :
    (StandingMovementTicks E Standing (Init ++ [Last])).SprintAccelerationAmount =
        (if (StandingMovementTicks E Standing (Init ++ [Last])).SprintTime < 5 / 10 then
          (UAlsAnimationInstance.GetRelativeAccelerationAmount E Last).X
         else 0) ∧
      min (ElapsedTime (Init ++ [Last])) (5 / 10) ≤
        (StandingMovementTicks E Standing (Init ++ [Last])).SprintTime ∧
      (5 / 10 ≤ ElapsedTime (Init ++ [Last]) →
        (StandingMovementTicks E Standing (Init ++ [Last])).SprintAccelerationAmount = 0) ∧
      ((∀ Tick ∈ Init ++ [Last], Tick.bPendingUpdate = false) →
        (StandingMovementTicks E Standing (Init ++ [Last])).SprintTime = ElapsedTime (Init ++ [Last])) ∧
      ∀ (Previous : FAlsStandingState α) (Tick : UAlsAnimationInstance α),
        Tick.EditorPreviewSkip = false → Tick.Settings.isSome = true →
        Tick.Gait ≠ FGameplayTag.Gait_Sprinting →
        (StandingMovementTick E Previous Tick).SprintTime = 0 ∧
          (StandingMovementTick E Previous Tick).SprintAccelerationAmount = 0 := by
  have hLast : StandingMovementTicks E Standing (Init ++ [Last]) =
      StandingMovementTick E (StandingMovementTicks E Standing Init) Last := by
    simp [StandingMovementTicks, List.foldl_append]
  have hAmount := (StandingMovementTick_sprinting E (StandingMovementTicks E Standing Init) Last
    (hTicks Last (by simp))).2
  have hGe := StandingMovementTicks_SprintTime_ge E (Init ++ [Last]) Standing 0 hTicks
    (by rw [hStart]; exact min_le_left _ _)
  rw [zero_add] at hGe
  have hFirst : (StandingMovementTicks E Standing (Init ++ [Last])).SprintAccelerationAmount =
      (if (StandingMovementTicks E Standing (Init ++ [Last])).SprintTime < 5 / 10 then
        (UAlsAnimationInstance.GetRelativeAccelerationAmount E Last).X
       else 0) := by
    rw [hLast, hAmount]
    by_cases h : (StandingMovementTick E (StandingMovementTicks E Standing Init) Last).SprintTime ≥ 5 / 10
    · rw [if_pos h, if_neg (not_lt.2 h)]
    · rw [if_neg h, if_pos (not_le.1 h)]
  refine ⟨hFirst, hGe, ?_, ?_, ?_⟩
  · intro hElapsed
    rw [hFirst, if_neg]
    rw [min_eq_right hElapsed] at hGe
    exact not_lt.2 hGe
  · intro hPending
    rw [StandingMovementTicks_SprintTime_eq E (Init ++ [Last]) Standing hTicks hPending, hStart, zero_add]
  · intro Previous Tick hSkip hSettings hGait
    exact UAlsAnimationInstance.RefreshStandingMovement_not_sprinting E
      { Tick with StandingState := Previous } hSkip hSettings hGait

/-- The sprint ticks of the fixture are evaluated sprinting ticks. -/
theorem Fixture.SprintInstance_sprinting (DeltaSeconds : ℚ) (h : 0 ≤ DeltaSeconds) :
    SprintingTick (Fixture.SprintInstance DeltaSeconds) :=
  ⟨rfl, rfl, rfl, h⟩

/-- C14, applied to a sprint started at sprint time 0 with forward acceleration at half the
maximum and ticks of 0.3 s: after the first tick the sprint acceleration amount is 0.5, and after
the second, at elapsed time 0.6 s, it is 0. -/
theorem C14_sprint_acceleration_amount_witness :
    (StandingMovementTicks Fixture.Externals (Fixture.Instance : UAlsAnimationInstance ℚ).StandingState
        [Fixture.SprintInstance (3 / 10)]).SprintAccelerationAmount = 1 / 2 ∧
      (StandingMovementTicks Fixture.Externals (Fixture.Instance : UAlsAnimationInstance ℚ).StandingState
        [Fixture.SprintInstance (3 / 10), Fixture.SprintInstance (3 / 10)]).SprintAccelerationAmount = 0 := by
  have hTick := Fixture.SprintInstance_sprinting (3 / 10) (by norm_num)
  have h1 := C14_sprint_acceleration_amount Fixture.Externals
    (Fixture.Instance : UAlsAnimationInstance ℚ).StandingState [] (Fixture.SprintInstance (3 / 10)) rfl
    (by intro Tick hmem; rw [List.mem_singleton.1 hmem]; exact hTick)
  have h2 := C14_sprint_acceleration_amount Fixture.Externals
    (Fixture.Instance : UAlsAnimationInstance ℚ).StandingState [Fixture.SprintInstance (3 / 10)]
    (Fixture.SprintInstance (3 / 10)) rfl
    (by
      intro Tick hmem
      simp only [List.singleton_append, List.mem_cons, List.mem_singleton, or_self, List.not_mem_nil,
        or_false] at hmem
      rw [hmem]
      exact hTick)
  constructor
  · have hTime := h1.2.2.2.1 (by intro Tick hmem; rw [List.mem_singleton.1 hmem]; rfl)
    have hA := h1.1
    rw [hTime] at hA
    simp only [List.nil_append] at hA
    rw [hA]
    norm_num [ElapsedTime, UAlsAnimationInstance.GetDeltaSeconds, Fixture.SprintInstance, Fixture.Instance,
      UAlsAnimationInstance.GetRelativeAccelerationAmount, FVector.dot, UE_KINDA_SMALL_NUMBER,
      FQuat.UnrotateVector, FVector.cross, FVector.scale, FVector.add, FVector.divide,
      UAlsVector.ClampMagnitude01, FVector.SizeSquared]
  · exact h2.2.2.1 (by
      norm_num [ElapsedTime, UAlsAnimationInstance.GetDeltaSeconds, Fixture.SprintInstance, Fixture.Instance])

/-! ### Turn-in-place timer and preset selection -/

namespace UAlsAnimationInstance

/-- An evaluated `RefreshTurnInPlace` (game world, settings bound, guard not set) in terms of the
blocking conditions, the required delay and the selected preset. -/
theorem RefreshTurnInPlace_evaluated (E : Externals α) (s : UAlsAnimationInstance α)
    (Settings : UAlsAnimationInstanceSettings α) (hSkip : s.EditorPreviewSkip = false)
    (hSettings : s.Settings = some Settings) (hGuard : s.TurnInPlaceState.bUpdatedThisFrame = false) :
    RefreshTurnInPlace E s =
      if TurnInPlaceBlocked s Settings then TurnInPlaceTimed s 0
      else if s.TurnInPlaceState.ActivationDelay + s.GetDeltaSeconds ≤ TurnInPlaceRequiredDelay s Settings then
        TurnInPlaceTimed s (s.TurnInPlaceState.ActivationDelay + s.GetDeltaSeconds)
      else
        match SelectTurnInPlaceSettings E s Settings with
        | (none, _) => TurnInPlaceTimed s (s.TurnInPlaceState.ActivationDelay + s.GetDeltaSeconds)
        | (some Preset, SlotName) =>
          if Preset.Sequence.isSome = false then
            TurnInPlaceTimed s (s.TurnInPlaceState.ActivationDelay + s.GetDeltaSeconds)
          else if s.bInGameThread = true then
            (TurnInPlaceQueued s Preset SlotName).PlayQueuedTurnInPlaceAnimation Settings
          else TurnInPlaceQueued s Preset SlotName := by
  unfold RefreshTurnInPlace
  rw [if_neg (by rw [hSkip]; exact Bool.false_ne_true)]
  split
  · rename_i hNone
    rw [hNone] at hSettings
    exact absurd hSettings (by simp)
  · rename_i S hS
    have hEq : S = Settings := Option.some.inj (hS.symm.trans hSettings)
    subst hEq
    rw [if_neg (by rw [hGuard]; exact Bool.false_ne_true)]
    dsimp only
    by_cases h1 : s.TransitionsState.bTransitionsAllowed = false ∨ s.IsTurnInPlaceAllowed = false
    · rw [if_pos (by exact h1), if_pos]
      · rfl
      · rcases h1 with h | h
        · exact Or.inl h
        · exact Or.inr (Or.inl h)
    · rw [if_neg (by exact h1)]
      by_cases h2 : s.ViewState.YawSpeed ≥ S.TurnInPlace.ViewYawSpeedThreshold ∨
          |s.ViewState.YawAngle| ≤ S.TurnInPlace.ViewYawAngleThreshold
      · rw [if_pos (by exact h2), if_pos]
        · rfl
        · exact Or.inr (Or.inr h2)
      · have hNB : ¬ TurnInPlaceBlocked s S := by
          intro hB
          rcases hB with h | h | h
          · exact h1 (Or.inl h)
          · exact h1 (Or.inr h)
          · exact h2 h
        rw [if_neg (by exact h2), if_neg hNB]
        by_cases h3 : s.TurnInPlaceState.ActivationDelay + s.GetDeltaSeconds ≤ TurnInPlaceRequiredDelay s S
        · rw [if_pos (by exact h3), if_pos h3]
          rfl
        · rw [if_neg (by exact h3), if_neg h3]
          have hSel : ∀ T : FAlsTurnInPlaceState α,
              SelectTurnInPlaceSettings E { s with TurnInPlaceState := T } S =
                SelectTurnInPlaceSettings E s S := fun _ => rfl
          rw [hSel]
          split
          · rfl
          · rfl

/-- Playing the queued turn in place does not touch the activation delay. -/
theorem PlayQueuedTurnInPlaceAnimation_ActivationDelay (s : UAlsAnimationInstance α)
    (Settings : UAlsAnimationInstanceSettings α) :
    (s.PlayQueuedTurnInPlaceAnimation Settings).TurnInPlaceState.ActivationDelay =
      s.TurnInPlaceState.ActivationDelay := by
  unfold PlayQueuedTurnInPlaceAnimation
  split_ifs
  · rfl
  · split <;> rfl

/-- The preset the code selects is the one the specification tabulates, with the slot of the
stance when a preset is selected. -/
theorem SelectTurnInPlaceSettings_eq_spec (E : Externals α) (s : UAlsAnimationInstance α)
    (Settings : UAlsAnimationInstanceSettings α) :
    (SelectTurnInPlaceSettings E s Settings).1 = TurnInPlacePresetBySpec E s Settings ∧
      (s.Stance = FGameplayTag.Stance_Standing ∨ s.Stance = FGameplayTag.Stance_Crouching →
        (SelectTurnInPlaceSettings E s Settings).2 = TurnInPlaceSlotBySpec s) := by
  unfold SelectTurnInPlaceSettings TurnInPlacePresetBySpec TurnInPlaceSlotBySpec
  by_cases hS : s.Stance = FGameplayTag.Stance_Standing
  · have hC : s.Stance ≠ FGameplayTag.Stance_Crouching := by rw [hS]; decide
    by_cases hL : UAlsRotation.RemapAngleForCounterClockwiseRotation E s.ViewState.YawAngle ≤ 0 <;>
      by_cases h90 : |s.ViewState.YawAngle| < Settings.TurnInPlace.Turn180AngleThreshold <;>
      simp [hS, hL, h90, TurnInPlacePresetTable]
  · by_cases hC : s.Stance = FGameplayTag.Stance_Crouching
    · by_cases hL : UAlsRotation.RemapAngleForCounterClockwiseRotation E s.ViewState.YawAngle ≤ 0 <;>
        by_cases h90 : |s.ViewState.YawAngle| < Settings.TurnInPlace.Turn180AngleThreshold <;>
        simp [hC, hL, h90, TurnInPlacePresetTable]
    · simp [hS, hC]

end UAlsAnimationInstance
/-- C15: on a tick where `RefreshTurnInPlace` is evaluated (game world, settings bound, guard not
set), if transitions are not allowed, or turn in place is not allowed, or the view yaw speed is not
below `ViewYawSpeedThreshold`, or the magnitude of the view yaw angle does not exceed
`ViewYawAngleThreshold`, then the activation delay is reset to 0 and nothing is queued (only the
guard and the delay change); otherwise the activation delay grows by exactly the frame delta time,
and nothing is queued unless the new delay is strictly greater than the required delay, the clamped
linear map of the magnitude of the view yaw angle from [`ViewYawAngleThreshold`, 180] onto the
configured delay range. -/
theorem C15_turn_in_place_activation_timer (E : Externals α) (s : UAlsAnimationInstance α)
    (Settings : UAlsAnimationInstanceSettings α) (hSkip : s.EditorPreviewSkip = false)
    (hSettings : s.Settings = some Settings) (hGuard : s.TurnInPlaceState.bUpdatedThisFrame = false) :
    (TurnInPlaceBlocked s Settings →
      UAlsAnimationInstance.RefreshTurnInPlace E s = TurnInPlaceTimed s 0 ∧
        (UAlsAnimationInstance.RefreshTurnInPlace E s).TurnInPlaceState.ActivationDelay = 0 ∧
        (UAlsAnimationInstance.RefreshTurnInPlace E s).TurnInPlaceState.QueuedSettings =
          s.TurnInPlaceState.QueuedSettings ∧
        (UAlsAnimationInstance.RefreshTurnInPlace E s).MontageRequests = s.MontageRequests) ∧
      (¬ TurnInPlaceBlocked s Settings →
        (UAlsAnimationInstance.RefreshTurnInPlace E s).TurnInPlaceState.ActivationDelay =
            s.TurnInPlaceState.ActivationDelay + s.GetDeltaSeconds ∧
          (s.TurnInPlaceState.ActivationDelay + s.GetDeltaSeconds ≤ TurnInPlaceRequiredDelay s Settings →
            UAlsAnimationInstance.RefreshTurnInPlace E s =
                TurnInPlaceTimed s (s.TurnInPlaceState.ActivationDelay + s.GetDeltaSeconds) ∧
              (UAlsAnimationInstance.RefreshTurnInPlace E s).TurnInPlaceState.QueuedSettings =
                s.TurnInPlaceState.QueuedSettings ∧
              (UAlsAnimationInstance.RefreshTurnInPlace E s).MontageRequests = s.MontageRequests)) := by
  have hEval := UAlsAnimationInstance.RefreshTurnInPlace_evaluated E s Settings hSkip hSettings hGuard
  constructor
  · intro hB
    rw [if_pos hB] at hEval
    rw [hEval]
    exact ⟨rfl, rfl, rfl, rfl⟩
  · intro hNB
    rw [if_neg hNB] at hEval
    constructor
    · rw [hEval]
      by_cases hD : s.TurnInPlaceState.ActivationDelay + s.GetDeltaSeconds ≤ TurnInPlaceRequiredDelay s Settings
      · rw [if_pos hD]
        rfl
      · rw [if_neg hD]
        split
        · rfl
        · split_ifs
          · rfl
          · rw [UAlsAnimationInstance.PlayQueuedTurnInPlaceAnimation_ActivationDelay]
            rfl
          · rfl
    · intro hDelay
      rw [if_pos hDelay] at hEval
      rw [hEval]
      exact ⟨rfl, rfl, rfl⟩

/-- The turn-in-place timer scenario is not blocked, and its required delay is 1/4. -/
theorem Fixture.TurnInPlaceTimerInstance_unblocked (bInGameThread : Bool) (ActivationDelay DeltaSeconds : ℚ) :
    ¬ TurnInPlaceBlocked (Fixture.TurnInPlaceTimerInstance bInGameThread ActivationDelay DeltaSeconds)
        Fixture.TurnInPlaceSettings ∧
      TurnInPlaceRequiredDelay (Fixture.TurnInPlaceTimerInstance bInGameThread ActivationDelay DeltaSeconds)
        Fixture.TurnInPlaceSettings = 1 / 4 := by
  constructor
  · unfold TurnInPlaceBlocked
    simp [Fixture.TurnInPlaceTimerInstance, Fixture.TurnInPlaceInstance, Fixture.Instance,
      Fixture.TurnInPlaceSettings, Fixture.Settings, UAlsAnimationInstance.IsTurnInPlaceAllowed]
    norm_num
  · simp [TurnInPlaceRequiredDelay, Fixture.TurnInPlaceTimerInstance, Fixture.TurnInPlaceInstance,
      Fixture.Instance, Fixture.TurnInPlaceSettings, Fixture.Settings, FMath.GetMappedRangeValueClamped,
      FMath.GetRangePct, FMath.IsNearlyZero, FMath.Clamp, FMath.Lerp, UE_SMALL_NUMBER]
    norm_num

/-- C15, applied to the turn-in-place scenario with activation delay 0 and a tick of 0.1 s: the
activation delay becomes 0.1, which does not exceed the required 0.25, and nothing is queued. -/
theorem C15_turn_in_place_activation_timer_witness :
    (UAlsAnimationInstance.RefreshTurnInPlace Fixture.Externals
        (Fixture.TurnInPlaceTimerInstance false 0 (1 / 10) : UAlsAnimationInstance ℚ)).TurnInPlaceState.ActivationDelay =
        0 + 1 / 10 ∧
      (UAlsAnimationInstance.RefreshTurnInPlace Fixture.Externals
        (Fixture.TurnInPlaceTimerInstance false 0 (1 / 10) : UAlsAnimationInstance ℚ)).TurnInPlaceState.QueuedSettings =
        none := by
  have h := (C15_turn_in_place_activation_timer Fixture.Externals
    (Fixture.TurnInPlaceTimerInstance false 0 (1 / 10) : UAlsAnimationInstance ℚ) Fixture.TurnInPlaceSettings
    rfl rfl rfl).2 (Fixture.TurnInPlaceTimerInstance_unblocked false 0 (1 / 10)).1
  refine ⟨h.1, ?_⟩
  have h2 := (h.2 (by
    rw [(Fixture.TurnInPlaceTimerInstance_unblocked false 0 (1 / 10)).2]
    norm_num [Fixture.TurnInPlaceTimerInstance, Fixture.TurnInPlaceInstance, Fixture.Instance,
      UAlsAnimationInstance.GetDeltaSeconds])).2.1
  rw [h2]
  rfl

/-- C16: whenever an evaluated `RefreshTurnInPlace` passes the blocking conditions with the new
activation delay above the required delay, it queues a preset exactly when the preset the
specification tabulates for the stance (standing or crouching), the direction (left when the view
yaw angle remapped for counter-clockwise rotation is at most 0) and the size (90 degrees when the
magnitude of the view yaw angle is below `Turn180AngleThreshold`) is set and has a sequence; the
queue then holds that preset, the slot of the stance and the view yaw angle of the tick, and on the
game thread the queue is played at once by `PlayQueuedTurnInPlaceAnimation`, which requests that
preset on that slot unless a stop is queued. -/
theorem C16_turn_in_place_preset_selection (E : Externals α) (s : UAlsAnimationInstance α)
    (Settings : UAlsAnimationInstanceSettings α) (hSkip : s.EditorPreviewSkip = false)
    (hSettings : s.Settings = some Settings) (hGuard : s.TurnInPlaceState.bUpdatedThisFrame = false)
    (hUnblocked : ¬ TurnInPlaceBlocked s Settings)
    (hDelay : TurnInPlaceRequiredDelay s Settings < s.TurnInPlaceState.ActivationDelay + s.GetDeltaSeconds) :
    (∀ Preset : UAlsTurnInPlaceSettings α, TurnInPlacePresetBySpec E s Settings = some Preset →
      Preset.Sequence.isSome = true →
      UAlsAnimationInstance.RefreshTurnInPlace E s =
          (if s.bInGameThread = true then
            (TurnInPlaceQueued s Preset (TurnInPlaceSlotBySpec s)).PlayQueuedTurnInPlaceAnimation Settings
           else TurnInPlaceQueued s Preset (TurnInPlaceSlotBySpec s)) ∧
        (s.bInGameThread = false →
          (UAlsAnimationInstance.RefreshTurnInPlace E s).TurnInPlaceState.QueuedSettings = some Preset ∧
            (UAlsAnimationInstance.RefreshTurnInPlace E s).TurnInPlaceState.QueuedSlotName =
              TurnInPlaceSlotBySpec s ∧
            (UAlsAnimationInstance.RefreshTurnInPlace E s).TurnInPlaceState.QueuedTurnYawAngle =
              s.ViewState.YawAngle) ∧
        (s.bInGameThread = true → s.TransitionsState.bStopTransitionsQueued = false →
          (UAlsAnimationInstance.RefreshTurnInPlace E s).MontageRequests =
            FMontageRequest.PlaySlotAnimationAsDynamicMontage Preset.Sequence (TurnInPlaceSlotBySpec s)
                Settings.TurnInPlace.BlendDuration Settings.TurnInPlace.BlendDuration Preset.PlayRate 1 0 0 ::
              s.MontageRequests)) ∧
      ((TurnInPlacePresetBySpec E s Settings = none ∨
          ∃ Preset : UAlsTurnInPlaceSettings α,
            TurnInPlacePresetBySpec E s Settings = some Preset ∧ Preset.Sequence.isSome = false) →
        UAlsAnimationInstance.RefreshTurnInPlace E s =
          TurnInPlaceTimed s (s.TurnInPlaceState.ActivationDelay + s.GetDeltaSeconds)) := by
  have hEval := UAlsAnimationInstance.RefreshTurnInPlace_evaluated E s Settings hSkip hSettings hGuard
  rw [if_neg hUnblocked, if_neg (not_le.2 hDelay)] at hEval
  obtain ⟨hSel1, hSel2⟩ := UAlsAnimationInstance.SelectTurnInPlaceSettings_eq_spec E s Settings
  constructor
  · intro Preset hPreset hSequence
    have hStance : s.Stance = FGameplayTag.Stance_Standing ∨ s.Stance = FGameplayTag.Stance_Crouching := by
      by_contra hNot
      unfold TurnInPlacePresetBySpec at hPreset
      rw [if_neg hNot] at hPreset
      exact absurd hPreset (by simp)
    have hPair : UAlsAnimationInstance.SelectTurnInPlaceSettings E s Settings =
        (some Preset, TurnInPlaceSlotBySpec s) := by
      rw [← hPreset, ← hSel1, ← hSel2 hStance]
    rw [hPair] at hEval
    simp only [hSequence, Bool.true_eq_false, if_false] at hEval
    refine ⟨hEval, ?_, ?_⟩
    · intro hThread
      rw [hEval, if_neg (by rw [hThread]; exact Bool.false_ne_true)]
      exact ⟨rfl, rfl, rfl⟩
    · intro hThread hStop
      rw [hEval, if_pos hThread]
      unfold UAlsAnimationInstance.PlayQueuedTurnInPlaceAnimation
      rw [if_neg (by
        show ¬ s.TransitionsState.bStopTransitionsQueued = true
        rw [hStop]
        exact Bool.false_ne_true)]
      rfl
  · intro hNone
    rcases hNone with hNone | ⟨Preset, hPreset, hSequence⟩
    · rw [← hSel1] at hNone
      rw [hEval]
      split
      · rfl
      · rename_i heq
        rw [heq] at hNone
        exact absurd hNone (by simp)
    · rw [← hSel1] at hPreset
      rw [hEval]
      split
      · rfl
      · rename_i P Slot heq
        rw [heq] at hPreset
        have hP : P = Preset := Option.some.inj hPreset
        rw [hP, if_pos hSequence]

/-- C16, applied to the turn-in-place scenario off the game thread with activation delay 0.25 and
a tick of 0.1 s (standing, view yaw angle 90): the standing 90-degree right preset is queued on the
standing slot with the yaw angle 90. -/
theorem C16_turn_in_place_preset_selection_witness :
    (UAlsAnimationInstance.RefreshTurnInPlace Fixture.Externals
        (Fixture.TurnInPlaceTimerInstance false (1 / 4) (1 / 10) :
          UAlsAnimationInstance ℚ)).TurnInPlaceState.QueuedSettings = some (Fixture.TurnPreset 12 90) ∧
      (UAlsAnimationInstance.RefreshTurnInPlace Fixture.Externals
        (Fixture.TurnInPlaceTimerInstance false (1 / 4) (1 / 10) :
          UAlsAnimationInstance ℚ)).TurnInPlaceState.QueuedSlotName = FName.TurnInPlaceStandingSlot ∧
      (UAlsAnimationInstance.RefreshTurnInPlace Fixture.Externals
        (Fixture.TurnInPlaceTimerInstance false (1 / 4) (1 / 10) :
          UAlsAnimationInstance ℚ)).TurnInPlaceState.QueuedTurnYawAngle = 90 := by
  have h := ((C16_turn_in_place_preset_selection Fixture.Externals
    (Fixture.TurnInPlaceTimerInstance false (1 / 4) (1 / 10) : UAlsAnimationInstance ℚ)
    Fixture.TurnInPlaceSettings rfl rfl rfl (Fixture.TurnInPlaceTimerInstance_unblocked false (1 / 4) (1 / 10)).1
    (by
      rw [(Fixture.TurnInPlaceTimerInstance_unblocked false (1 / 4) (1 / 10)).2]
      norm_num [Fixture.TurnInPlaceTimerInstance, Fixture.TurnInPlaceInstance, Fixture.Instance,
        UAlsAnimationInstance.GetDeltaSeconds])).1 (Fixture.TurnPreset 12 90)
    (by
      simp [TurnInPlacePresetBySpec, TurnInPlacePresetTable, Fixture.TurnInPlaceTimerInstance,
        Fixture.TurnInPlaceInstance, Fixture.Instance, Fixture.TurnInPlaceSettings, Fixture.Settings,
        UAlsRotation.RemapAngleForCounterClockwiseRotation, Fixture.Externals]
      norm_num)
    rfl).2.1 rfl
  exact h

/-! ### Foot lock disabled or negligible -/

namespace UAlsAnimationInstance

/-- With foot lock disabled or a lock weight that is not relevant, `RefreshFootLock` is the
disabled branch. -/
theorem RefreshFootLock_disabled (E : Externals α) (s : UAlsAnimationInstance α)
    (Settings : UAlsAnimationInstanceSettings α) (IkAmount : α) (FootState : FAlsFootState α)
    (LockCurveName : FName) (ComponentTransformInverse : FTransform α) (DeltaTime : α)
    (hDisabled : Settings.Feet.bDisableFootLock = true ∨
      ¬ FAnimWeight.IsRelevant (IkAmount * s.FootLockNewAmount FootState LockCurveName DeltaTime)) :
    RefreshFootLock E s Settings IkAmount FootState LockCurveName ComponentTransformInverse DeltaTime =
      FootLockDisabled FootState ComponentTransformInverse := by
  unfold RefreshFootLock
  simp only
  rw [if_pos hDisabled]

/-- The disabled branch on a foot state whose lock amount is not positive changes only the final
location and rotation. -/
theorem FootLockDisabled_of_not_pos (F : FAlsFootState α) (C : FTransform α) (h : ¬ F.LockAmount > 0) :
    FootLockDisabled F C =
      { F with
        FinalLocation := C.TransformPosition F.TargetLocation
        FinalRotation := C.TransformRotation F.TargetRotation } := by
  unfold FootLockDisabled
  simp only
  rw [if_neg h]

/-- The disabled branch on a foot state whose lock amount is positive zeroes the lock state. -/
theorem FootLockDisabled_of_pos (F : FAlsFootState α) (C : FTransform α) (h : F.LockAmount > 0) :
    FootLockDisabled F C =
      { F with
        LockAmount := 0
        LockLocation := FVector.ZeroVector
        LockRotation := FQuat.Identity
        LockComponentRelativeLocation := FVector.ZeroVector
        LockComponentRelativeRotation := FQuat.Identity
        LockMovementBaseRelativeLocation := FVector.ZeroVector
        LockMovementBaseRelativeRotation := FQuat.Identity
        FinalLocation := C.TransformPosition F.TargetLocation
        FinalRotation := C.TransformRotation F.TargetRotation } := by
  unfold FootLockDisabled
  simp only
  rw [if_pos h]

end UAlsAnimationInstance

/-- The foot state after the half lock of the fixture: the lock amount is still 0, and the
component-relative lock location has been recomputed to (5, 0, 0). -/
theorem Fixture.HalfLockFootState_eval (E : ALS.Externals ℝ) :
    (Fixture.HalfLockFootState E).LockAmount = 0 ∧
      (Fixture.HalfLockFootState E).LockComponentRelativeLocation = ⟨5, 0, 0⟩ := by
  have hNew : (Fixture.OffsetInstance (1 / 2) : UAlsAnimationInstance ℝ).FootLockNewAmount Fixture.FootState
      FName.FootLeftLockCurve 0 = 1 / 2 := by
    norm_num [UAlsAnimationInstance.FootLockNewAmount, UAlsAnimationInstance.GetCurveValueClamped01,
      UAlsAnimationInstance.GetCurveValue, UAlsMath.Clamp01, Fixture.OffsetInstance, Fixture.Instance]
  constructor
  · unfold Fixture.HalfLockFootState
    rw [UAlsAnimationInstance.RefreshFootLock_LockAmount, hNew]
    norm_num [Fixture.Settings, Fixture.FootState, FAnimWeight.IsRelevant, FAnimWeight.IsFullWeight,
      ZERO_ANIMWEIGHT_THRESH]
  · unfold Fixture.HalfLockFootState
    rw [UAlsAnimationInstance.RefreshFootLock_enabled _ _ _ _ _ _ _ _ rfl
      (by rw [hNew]; norm_num [FAnimWeight.IsRelevant, ZERO_ANIMWEIGHT_THRESH])]
    have hLoc := UAlsAnimationInstance.FootLockLimitAngle_location E
      (Fixture.OffsetInstance (1 / 2) : UAlsAnimationInstance ℝ) Fixture.Settings
      ((Fixture.OffsetInstance (1 / 2) : UAlsAnimationInstance ℝ).FootLockBeforeLimit Fixture.FootState
        FName.FootLeftLockCurve Fixture.OffsetComponentTransformInverse 0)
    rw [UAlsVector.AngleBetweenSignedXY_degenerate E _ _ (Or.inl (by
      rw [UAlsAnimationInstance.FootLockBeforeLimit_ThighAxis]
      norm_num [Fixture.OffsetInstance, Fixture.Instance, Fixture.FootState, FQuat.RotateVector,
        FVector.cross, FVector.scale, FVector.add, UE_SMALL_NUMBER])),
      if_neg (by norm_num [Fixture.Settings, UE_KINDA_SMALL_NUMBER])] at hLoc
    show (UAlsAnimationInstance.FootLockLimitAngle E _ _ _).LockComponentRelativeLocation = _
    rw [hLoc]
    unfold UAlsAnimationInstance.FootLockBeforeLimit
    rw [hNew]
    simp [UAlsAnimationInstance.FootLockRebase,
      UAlsAnimationInstance.FootLockUpdateAmount, Fixture.OffsetInstance, Fixture.Instance,
      Fixture.FootState, Fixture.OffsetComponentTransformInverse, FAnimWeight.IsFullWeight,
      ZERO_ANIMWEIGHT_THRESH, FTransform.TransformPosition, FQuat.RotateVector, FVector.cross, FVector.scale,
      FVector.add, FVector.mul]
    norm_num

/-- C17, as stated, fails: from the zeroed foot state, a call with foot lock enabled and the lock
curve at one half leaves the lock amount at 0 and recomputes the component-relative lock location
to (5, 0, 0); the next call, with a lock weight of 0, finds the lock amount not positive and leaves
that location as it is, where the claim has it zeroed. -/
theorem C17_zero_lock_amount_keeps_lock_location :
    (Fixture.HalfLockFootState
        (Fixture.ExternalsWith (fun x => (Real.sqrt x)⁻¹) Real.sin Real.cos Real.arccos Real.pi)).LockAmount =
        0 ∧
      ¬ FAnimWeight.IsRelevant
        (1 * (Fixture.OffsetInstance 0 : UAlsAnimationInstance ℝ).FootLockNewAmount
          (Fixture.HalfLockFootState
            (Fixture.ExternalsWith (fun x => (Real.sqrt x)⁻¹) Real.sin Real.cos Real.arccos Real.pi))
          FName.FootLeftLockCurve 0) ∧
      (UAlsAnimationInstance.RefreshFootLock
          (Fixture.ExternalsWith (fun x => (Real.sqrt x)⁻¹) Real.sin Real.cos Real.arccos Real.pi)
          (Fixture.OffsetInstance 0 : UAlsAnimationInstance ℝ) Fixture.Settings 1
          (Fixture.HalfLockFootState
            (Fixture.ExternalsWith (fun x => (Real.sqrt x)⁻¹) Real.sin Real.cos Real.arccos Real.pi))
          FName.FootLeftLockCurve Fixture.OffsetComponentTransformInverse 0).LockComponentRelativeLocation =
        ⟨5, 0, 0⟩ ∧
      (⟨5, 0, 0⟩ : FVector ℝ) ≠ FVector.ZeroVector := by
  obtain ⟨hAmount, hLoc⟩ := Fixture.HalfLockFootState_eval
    (Fixture.ExternalsWith (fun x => (Real.sqrt x)⁻¹) Real.sin Real.cos Real.arccos Real.pi)
  have hNew : ∀ F : FAlsFootState ℝ,
      (Fixture.OffsetInstance 0 : UAlsAnimationInstance ℝ).FootLockNewAmount F FName.FootLeftLockCurve 0 = 0 := by
    intro F
    norm_num [UAlsAnimationInstance.FootLockNewAmount, UAlsAnimationInstance.GetCurveValueClamped01,
      UAlsAnimationInstance.GetCurveValue, UAlsMath.Clamp01, Fixture.OffsetInstance, Fixture.Instance]
  have hIrrelevant : ¬ FAnimWeight.IsRelevant
      (1 * (Fixture.OffsetInstance 0 : UAlsAnimationInstance ℝ).FootLockNewAmount
        (Fixture.HalfLockFootState
          (Fixture.ExternalsWith (fun x => (Real.sqrt x)⁻¹) Real.sin Real.cos Real.arccos Real.pi))
        FName.FootLeftLockCurve 0) := by
    rw [hNew]
    norm_num [FAnimWeight.IsRelevant, ZERO_ANIMWEIGHT_THRESH]
  refine ⟨hAmount, hIrrelevant, ?_, ?_⟩
  · rw [UAlsAnimationInstance.RefreshFootLock_disabled _ _ _ _ _ _ _ _ (Or.inr hIrrelevant),
      UAlsAnimationInstance.FootLockDisabled_of_not_pos _ _ (by rw [hAmount]; exact lt_irrefl 0)]
    exact hLoc
  · intro h
    have hX := congrArg FVector.X h
    norm_num [FVector.ZeroVector] at hX

/-- C17 (amended): if foot lock is disabled in settings or the product of the IK weight and the
effective lock weight is not relevant, then after `RefreshFootLock` the final location and rotation
are the target location and rotation expressed in component space; if `LockAmount` was positive it
is 0, the world, component-relative and base-relative lock locations are zero and the lock rotations
identity; if `LockAmount` was not positive, it and the lock locations and rotations are left as they
were. -/
theorem C17_foot_lock_disabled_or_negligible (E : Externals α) (s : UAlsAnimationInstance α)
    (Settings : UAlsAnimationInstanceSettings α) (IkAmount : α) (FootState : FAlsFootState α)
    (LockCurveName : FName) (ComponentTransformInverse : FTransform α) (DeltaTime : α)
    (hDisabled : Settings.Feet.bDisableFootLock = true ∨
      ¬ FAnimWeight.IsRelevant (IkAmount * s.FootLockNewAmount FootState LockCurveName DeltaTime)) :
    (UAlsAnimationInstance.RefreshFootLock E s Settings IkAmount FootState LockCurveName
          ComponentTransformInverse DeltaTime).FinalLocation =
        ComponentTransformInverse.TransformPosition FootState.TargetLocation ∧
      (UAlsAnimationInstance.RefreshFootLock E s Settings IkAmount FootState LockCurveName
          ComponentTransformInverse DeltaTime).FinalRotation =
        ComponentTransformInverse.TransformRotation FootState.TargetRotation ∧
      (FootState.LockAmount > 0 →
        UAlsAnimationInstance.RefreshFootLock E s Settings IkAmount FootState LockCurveName
            ComponentTransformInverse DeltaTime =
          { FootState with
            LockAmount := 0
            LockLocation := FVector.ZeroVector
            LockRotation := FQuat.Identity
            LockComponentRelativeLocation := FVector.ZeroVector
            LockComponentRelativeRotation := FQuat.Identity
            LockMovementBaseRelativeLocation := FVector.ZeroVector
            LockMovementBaseRelativeRotation := FQuat.Identity
            FinalLocation := ComponentTransformInverse.TransformPosition FootState.TargetLocation
            FinalRotation := ComponentTransformInverse.TransformRotation FootState.TargetRotation }) ∧
      (¬ FootState.LockAmount > 0 →
        UAlsAnimationInstance.RefreshFootLock E s Settings IkAmount FootState LockCurveName
            ComponentTransformInverse DeltaTime =
          { FootState with
            FinalLocation := ComponentTransformInverse.TransformPosition FootState.TargetLocation
            FinalRotation := ComponentTransformInverse.TransformRotation FootState.TargetRotation }) := by
  rw [UAlsAnimationInstance.RefreshFootLock_disabled E s Settings IkAmount FootState LockCurveName
    ComponentTransformInverse DeltaTime hDisabled]
  refine ⟨?_, ?_, UAlsAnimationInstance.FootLockDisabled_of_pos FootState ComponentTransformInverse,
    UAlsAnimationInstance.FootLockDisabled_of_not_pos FootState ComponentTransformInverse⟩
  · by_cases h : FootState.LockAmount > 0
    · rw [UAlsAnimationInstance.FootLockDisabled_of_pos _ _ h]
    · rw [UAlsAnimationInstance.FootLockDisabled_of_not_pos _ _ h]
  · by_cases h : FootState.LockAmount > 0
    · rw [UAlsAnimationInstance.FootLockDisabled_of_pos _ _ h]
    · rw [UAlsAnimationInstance.FootLockDisabled_of_not_pos _ _ h]

/-- C17 (amended), applied to a foot fully locked at (1, 2, 3) with its target at (4, 5, 6) and a
lock weight of 0: the lock amount becomes 0, the lock locations zero, and the final location is the
target. -/
theorem C17_foot_lock_disabled_or_negligible_witness :
    (UAlsAnimationInstance.RefreshFootLock Fixture.Externals (Fixture.Instance : UAlsAnimationInstance ℚ)
        Fixture.Settings 1 Fixture.LockedFootState FName.FootLeftLockCurve FTransform.Identity 0).LockAmount = 0 ∧
      (UAlsAnimationInstance.RefreshFootLock Fixture.Externals (Fixture.Instance : UAlsAnimationInstance ℚ)
        Fixture.Settings 1 Fixture.LockedFootState FName.FootLeftLockCurve FTransform.Identity
        0).LockComponentRelativeLocation = FVector.ZeroVector ∧
      (UAlsAnimationInstance.RefreshFootLock Fixture.Externals (Fixture.Instance : UAlsAnimationInstance ℚ)
        Fixture.Settings 1 Fixture.LockedFootState FName.FootLeftLockCurve FTransform.Identity
        0).FinalLocation = ⟨4, 5, 6⟩ := by
  have h := C17_foot_lock_disabled_or_negligible Fixture.Externals
    (Fixture.Instance : UAlsAnimationInstance ℚ) Fixture.Settings 1 Fixture.LockedFootState
    FName.FootLeftLockCurve FTransform.Identity 0
    (Or.inr (by
      norm_num [FAnimWeight.IsRelevant, ZERO_ANIMWEIGHT_THRESH, UAlsAnimationInstance.FootLockNewAmount,
        UAlsAnimationInstance.GetCurveValueClamped01, UAlsAnimationInstance.GetCurveValue, UAlsMath.Clamp01,
        Fixture.Instance]))
  have hPos := h.2.2.1 (by norm_num [Fixture.LockedFootState])
  refine ⟨?_, ?_, ?_⟩
  · rw [hPos]
  · rw [hPos]
  · rw [h.1]
    norm_num [Fixture.LockedFootState, Fixture.FootState, FTransform.Identity, FTransform.TransformPosition,
      FQuat.Identity, FQuat.RotateVector, FVector.cross, FVector.scale, FVector.add, FVector.mul,
      FVector.ZeroVector]

/-! ### Lock amount range -/

/-- The unit-interval clamp lies in [0, 1]. -/
theorem UAlsMath.Clamp01_mem (t : α) : 0 ≤ UAlsMath.Clamp01 t ∧ UAlsMath.Clamp01 t ≤ 1 := by
  unfold UAlsMath.Clamp01
  split_ifs with h1 h2
  · exact ⟨h1.le, h2.le⟩
  · exact ⟨zero_le_one, le_rfl⟩
  · exact ⟨le_rfl, zero_le_one⟩

namespace UAlsAnimationInstance

/-- The lock weight `RefreshFootLock` works with lies in [0, 1]. -/
theorem FootLockNewAmount_mem (s : UAlsAnimationInstance α) (F : FAlsFootState α) (LockCurveName : FName)
    (DeltaTime : α) :
    0 ≤ s.FootLockNewAmount F LockCurveName DeltaTime ∧ s.FootLockNewAmount F LockCurveName DeltaTime ≤ 1 := by
  have hC := UAlsMath.Clamp01_mem (s.GetCurveValue LockCurveName)
  unfold FootLockNewAmount GetCurveValueClamped01
  simp only
  split_ifs
  · exact ⟨le_rfl, zero_le_one⟩
  · exact ⟨le_max_left _ _, max_le zero_le_one (le_trans (min_le_left _ _) hC.2)⟩
  · exact ⟨le_max_left _ _, max_le zero_le_one (le_trans (min_le_left _ _) hC.2)⟩
  · exact hC

/-- The teleport handling of `RefreshFoot` does not touch the lock amount. -/
theorem ProcessFootLockTeleport_LockAmount (s : UAlsAnimationInstance α) (IkAmount : α)
    (F : FAlsFootState α) : (s.ProcessFootLockTeleport IkAmount F).LockAmount = F.LockAmount := by
  unfold ProcessFootLockTeleport
  simp only
  split_ifs <;> rfl

/-- The base-change handling of `RefreshFoot` does not touch the lock amount. -/
theorem ProcessFootLockBaseChange_LockAmount (s : UAlsAnimationInstance α) (IkAmount : α)
    (F : FAlsFootState α) (C : FTransform α) :
    (s.ProcessFootLockBaseChange IkAmount F C).LockAmount = F.LockAmount := by
  unfold ProcessFootLockBaseChange
  simp only
  split_ifs <;> rfl

/-- One call of `RefreshFootLock` keeps the lock amount in range. -/
theorem RefreshFootLock_LockAmountInRange (E : Externals α) (s : UAlsAnimationInstance α)
    (Settings : UAlsAnimationInstanceSettings α) (IkAmount : α) (F : FAlsFootState α)
    (LockCurveName : FName) (C : FTransform α) (DeltaTime : α) (h : LockAmountInRange F.LockAmount) :
    LockAmountInRange (RefreshFootLock E s Settings IkAmount F LockCurveName C DeltaTime).LockAmount := by
  have hN := FootLockNewAmount_mem s F LockCurveName DeltaTime
  have hT : (0 : α) < 1 - ZERO_ANIMWEIGHT_THRESH := by norm_num [ZERO_ANIMWEIGHT_THRESH]
  rw [RefreshFootLock_LockAmount]
  split_ifs with h1 h2 h3 h4
  · exact ⟨le_rfl, zero_le_one, Or.inr hT⟩
  · exact h
  · exact ⟨zero_le_one, le_rfl, Or.inl rfl⟩
  · exact h
  · exact ⟨hN.1, hN.2, Or.inr (not_le.1 h3)⟩

/-- One call of `RefreshFoot` keeps the lock amount in range. -/
theorem RefreshFoot_LockAmountInRange (E : Externals α) (s : UAlsAnimationInstance α)
    (Settings : UAlsAnimationInstanceSettings α) (F : FAlsFootState α) (IkCurveName LockCurveName : FName)
    (C : FTransform α) (DeltaTime : α) (h : LockAmountInRange F.LockAmount) :
    LockAmountInRange (RefreshFoot E s Settings F IkCurveName LockCurveName C DeltaTime).LockAmount := by
  unfold RefreshFoot
  apply RefreshFootLock_LockAmountInRange
  rw [ProcessFootLockBaseChange_LockAmount, ProcessFootLockTeleport_LockAmount]
  exact h

end UAlsAnimationInstance

/-- C18: starting from `LockAmount` 0, after any sequence of `RefreshFoot` and `RefreshFootLock`
calls with arbitrary instances (curve values, flags), settings, IK weights, other foot fields and
delta times, every realized `LockAmount` is in [0, 1] and is either exactly 1 or strictly below the
full-weight threshold 1 - 0.00001. -/
theorem C18_lock_amount_range (E : Externals α) (Calls : List (FootCall α)) :
    List.Forall
      (fun LockAmount : α =>
        0 ≤ LockAmount ∧ LockAmount ≤ 1 ∧ (LockAmount = 1 ∨ LockAmount < 1 - ZERO_ANIMWEIGHT_THRESH))
      (LockAmountsAfterCalls E 0 Calls) := by
  have hStep : ∀ (a : α) (C : FootCall α), LockAmountInRange a → LockAmountInRange (LockAmountAfterCall E a C) := by
    intro a C ha
    cases C with
    | RefreshFoot T =>
      exact UAlsAnimationInstance.RefreshFoot_LockAmountInRange E T.Instance T.Settings
        { T.FootState with LockAmount := a } T.IkCurveName T.LockCurveName T.ComponentTransformInverse
        T.DeltaTime ha
    | RefreshFootLock T =>
      exact UAlsAnimationInstance.RefreshFootLock_LockAmountInRange E T.Instance T.Settings T.IkAmount
        { T.FootState with LockAmount := a } T.LockCurveName T.ComponentTransformInverse T.DeltaTime ha
  have hAll : ∀ (Cs : List (FootCall α)) (a : α), LockAmountInRange a →
      List.Forall LockAmountInRange (LockAmountsAfterCalls E a Cs) := by
    intro Cs
    induction Cs with
    | nil => intro a _; exact trivial
    | cons C Cs ih =>
      intro a ha
      rw [LockAmountsAfterCalls, List.forall_cons]
      exact ⟨hStep a C ha, ih _ (hStep a C ha)⟩
  exact hAll Calls 0 ⟨le_rfl, zero_le_one, Or.inr (by norm_num [ZERO_ANIMWEIGHT_THRESH])⟩

/-! ### Spine amount range -/

/-- The engine's inverse exponential approximation lies in (0, 1] on non-negative arguments. -/
theorem FMath.InvExpApprox_mem (X : α) (h : 0 ≤ X) :
    0 ≤ FMath.InvExpApprox X ∧ FMath.InvExpApprox X ≤ 1 := by
  unfold FMath.InvExpApprox
  have h2 : 0 ≤ X * X := mul_nonneg h h
  have h3 : 0 ≤ X * X * X := mul_nonneg h2 h
  have hD : (1 : α) ≤ 1 + 100746054 / 100000000 * X + 45053901 / 100000000 * X * X +
      25724632 / 100000000 * X * X * X := by
    have e1 : (0 : α) ≤ 100746054 / 100000000 * X := mul_nonneg (by norm_num) h
    have e2 : (0 : α) ≤ 45053901 / 100000000 * X * X := by
      rw [mul_assoc]; exact mul_nonneg (by norm_num) h2
    have e3 : (0 : α) ≤ 25724632 / 100000000 * X * X * X := by
      rw [mul_assoc, mul_assoc, ← mul_assoc X X X]; exact mul_nonneg (by norm_num) h3
    linarith
  have hpos : (0 : α) < 1 + 100746054 / 100000000 * X + 45053901 / 100000000 * X * X +
      25724632 / 100000000 * X * X * X := lt_of_lt_of_le zero_lt_one hD
  exact ⟨(div_pos zero_lt_one hpos).le, (div_le_one hpos).2 hD⟩

/-- Exponential decay between two values of the unit interval stays in the unit interval, when the
inverse exponential of the host lies in [0, 1] on non-negative arguments and the product of a
positive speed with the delta time is non-negative. -/
theorem UAlsMath.ExponentialDecay_mem (E : Externals α) (hE : E.InvExpApproxInUnitInterval)
    (Current Target DeltaTime Lambda : α) (hC : 0 ≤ Current ∧ Current ≤ 1) (hT : 0 ≤ Target ∧ Target ≤ 1)
    (hD : 0 ≤ DeltaTime) :
    0 ≤ UAlsMath.ExponentialDecay E Current Target DeltaTime Lambda ∧
      UAlsMath.ExponentialDecay E Current Target DeltaTime Lambda ≤ 1 := by
  unfold UAlsMath.ExponentialDecay
  split_ifs with hL
  · unfold UAlsMath.ExponentialDecayAmount FMath.Lerp
    obtain ⟨h0, h1⟩ := hE (Lambda * DeltaTime) (mul_nonneg hL.le hD)
    generalize E.InvExpApprox (Lambda * DeltaTime) = k at *
    have e : Current + (1 - k) * (Target - Current) = k * Current + (1 - k) * Target := by ring
    rw [e]
    constructor
    · exact add_nonneg (mul_nonneg h0 hC.1) (mul_nonneg (by linarith) hT.1)
    · nlinarith [mul_nonneg h0 (sub_nonneg.2 hC.2), mul_nonneg (sub_nonneg.2 h1) (sub_nonneg.2 hT.2)]
  · exact hT

namespace UAlsAnimationInstance

/-- The re-basing step of `RefreshSpine` does not touch the spine amount. -/
theorem SpineRebase_SpineAmount (s : UAlsAnimationInstance α) :
    s.SpineRebase.SpineAmount = s.SpineState.SpineAmount := by
  unfold SpineRebase
  simp only
  split_ifs <;> rfl

/-- The interpolation step of `RefreshSpine` keeps a spine amount of the unit interval in the unit
interval. -/
theorem SpineInterpolate_SpineAmount_mem (E : Externals α) (hE : E.InvExpApproxInUnitInterval)
    (s : UAlsAnimationInstance α) (S : FAlsSpineState α) (DeltaTime : α)
    (hS : 0 ≤ S.SpineAmount ∧ S.SpineAmount ≤ 1) (hD : 0 ≤ DeltaTime) :
    0 ≤ (SpineInterpolate E s S DeltaTime).SpineAmount ∧ (SpineInterpolate E s S DeltaTime).SpineAmount ≤ 1 := by
  unfold SpineInterpolate
  split_ifs
  all_goals
    first
    | exact ⟨zero_le_one, le_rfl⟩
    | exact ⟨le_rfl, zero_le_one⟩
    | exact UAlsMath.ExponentialDecay_mem E hE _ _ _ _ hS ⟨zero_le_one, le_rfl⟩ hD
    | exact UAlsMath.ExponentialDecay_mem E hE _ _ _ _ hS ⟨le_rfl, zero_le_one⟩ hD

/-- The scale and bias the re-basing step of `RefreshSpine` leaves. -/
theorem SpineRebase_scale_bias (s : UAlsAnimationInstance α) :
    (s.SpineState.bSpineRotationAllowed = s.IsSpineRotationAllowed →
        s.SpineRebase.SpineAmountScale = s.SpineState.SpineAmountScale ∧
          s.SpineRebase.SpineAmountBias = s.SpineState.SpineAmountBias) ∧
      (s.SpineState.bSpineRotationAllowed = false → s.IsSpineRotationAllowed = true →
        (FAnimWeight.IsFullWeight s.SpineState.SpineAmount →
          s.SpineRebase.SpineAmountScale = 1 ∧ s.SpineRebase.SpineAmountBias = 0) ∧
        (¬ FAnimWeight.IsFullWeight s.SpineState.SpineAmount →
          s.SpineRebase.SpineAmountScale = 1 / (1 - s.SpineState.SpineAmount) ∧
            s.SpineRebase.SpineAmountBias =
              -s.SpineState.SpineAmount * (1 / (1 - s.SpineState.SpineAmount)))) ∧
      (s.SpineState.bSpineRotationAllowed = true → s.IsSpineRotationAllowed = false →
        (¬ FAnimWeight.IsRelevant s.SpineState.SpineAmount → s.SpineRebase.SpineAmountScale = 1) ∧
        (FAnimWeight.IsRelevant s.SpineState.SpineAmount →
          s.SpineRebase.SpineAmountScale = 1 / s.SpineState.SpineAmount) ∧
        s.SpineRebase.SpineAmountBias = 0) := by
  unfold SpineRebase
  refine ⟨?_, ?_, ?_⟩
  · intro h
    rw [if_neg (by rw [h]; exact fun hne => hne rfl)]
    exact ⟨rfl, rfl⟩
  · intro h1 h2
    rw [if_pos (by rw [h1, h2]; exact Bool.false_ne_true)]
    simp only [h1, Bool.not_false, if_true]
    constructor
    · intro hF
      rw [if_pos hF]
      exact ⟨rfl, rfl⟩
    · intro hF
      rw [if_neg hF]
      exact ⟨rfl, rfl⟩
  · intro h1 h2
    rw [if_pos (by rw [h1, h2]; exact fun h => Bool.false_ne_true h.symm)]
    simp only [h1, Bool.not_true, Bool.false_eq_true, if_false]
    refine ⟨?_, ?_, trivial⟩
    · intro hR
      rw [if_pos hR]
    · intro hR
      rw [if_neg (not_not.2 hR)]

end UAlsAnimationInstance

/-- C19: for every state with `SpineAmount` in [0, 1], every non-negative delta time and every
view yaw speed, rotation mode and pending-update flag, with the inverse exponential of the host in
[0, 1] on non-negative arguments, `RefreshSpine` leaves `SpineAmount` in [0, 1]; the re-basing
divides by 1 - amount only when the amount is not at full weight, where 1 - amount is positive, and
by the amount only when it is relevant, where it is positive, and sets the scale to 1 in the
full-weight and not-relevant cases; without a flip of the flag the scale and bias are kept. -/
theorem C19_spine_amount_range (E : Externals α) (s : UAlsAnimationInstance α)
    (SpineBlendAmount DeltaTime : α) (hE : E.InvExpApproxInUnitInterval)
    (hAmount : 0 ≤ s.SpineState.SpineAmount ∧ s.SpineState.SpineAmount ≤ 1) (hDelta : 0 ≤ DeltaTime) :
    (0 ≤ (UAlsAnimationInstance.RefreshSpine E s SpineBlendAmount DeltaTime).SpineState.SpineAmount ∧
        (UAlsAnimationInstance.RefreshSpine E s SpineBlendAmount DeltaTime).SpineState.SpineAmount ≤ 1) ∧
      (s.SpineState.bSpineRotationAllowed = s.IsSpineRotationAllowed →
        (UAlsAnimationInstance.RefreshSpine E s SpineBlendAmount DeltaTime).SpineState.SpineAmountScale =
            s.SpineState.SpineAmountScale ∧
          (UAlsAnimationInstance.RefreshSpine E s SpineBlendAmount DeltaTime).SpineState.SpineAmountBias =
            s.SpineState.SpineAmountBias) ∧
      (s.SpineState.bSpineRotationAllowed = false → s.IsSpineRotationAllowed = true →
        (FAnimWeight.IsFullWeight s.SpineState.SpineAmount →
          (UAlsAnimationInstance.RefreshSpine E s SpineBlendAmount DeltaTime).SpineState.SpineAmountScale = 1 ∧
            (UAlsAnimationInstance.RefreshSpine E s SpineBlendAmount DeltaTime).SpineState.SpineAmountBias = 0) ∧
        (¬ FAnimWeight.IsFullWeight s.SpineState.SpineAmount →
          0 < 1 - s.SpineState.SpineAmount ∧
            (UAlsAnimationInstance.RefreshSpine E s SpineBlendAmount DeltaTime).SpineState.SpineAmountScale =
              1 / (1 - s.SpineState.SpineAmount) ∧
            (UAlsAnimationInstance.RefreshSpine E s SpineBlendAmount DeltaTime).SpineState.SpineAmountBias =
              -s.SpineState.SpineAmount * (1 / (1 - s.SpineState.SpineAmount)))) ∧
      (s.SpineState.bSpineRotationAllowed = true → s.IsSpineRotationAllowed = false →
        (¬ FAnimWeight.IsRelevant s.SpineState.SpineAmount →
          (UAlsAnimationInstance.RefreshSpine E s SpineBlendAmount DeltaTime).SpineState.SpineAmountScale = 1) ∧
        (FAnimWeight.IsRelevant s.SpineState.SpineAmount →
          0 < s.SpineState.SpineAmount ∧
            (UAlsAnimationInstance.RefreshSpine E s SpineBlendAmount DeltaTime).SpineState.SpineAmountScale =
              1 / s.SpineState.SpineAmount) ∧
        (UAlsAnimationInstance.RefreshSpine E s SpineBlendAmount DeltaTime).SpineState.SpineAmountBias = 0) := by
  have hFrame := UAlsAnimationInstance.SpineInterpolate_frame E s s.SpineRebase DeltaTime
  have hScale : (UAlsAnimationInstance.RefreshSpine E s SpineBlendAmount DeltaTime).SpineState.SpineAmountScale =
      s.SpineRebase.SpineAmountScale := hFrame.2.1
  have hBias : (UAlsAnimationInstance.RefreshSpine E s SpineBlendAmount DeltaTime).SpineState.SpineAmountBias =
      s.SpineRebase.SpineAmountBias := hFrame.2.2.1
  have hRange : 0 ≤ (UAlsAnimationInstance.RefreshSpine E s SpineBlendAmount DeltaTime).SpineState.SpineAmount ∧
      (UAlsAnimationInstance.RefreshSpine E s SpineBlendAmount DeltaTime).SpineState.SpineAmount ≤ 1 :=
    UAlsAnimationInstance.SpineInterpolate_SpineAmount_mem E hE s s.SpineRebase DeltaTime
      (by rw [UAlsAnimationInstance.SpineRebase_SpineAmount]; exact hAmount) hDelta
  obtain ⟨hKeep, hEnter, hLeave⟩ := UAlsAnimationInstance.SpineRebase_scale_bias s
  rw [hScale, hBias]
  refine ⟨hRange, hKeep, ?_, ?_⟩
  · intro h1 h2
    refine ⟨(hEnter h1 h2).1, ?_⟩
    intro hF
    refine ⟨?_, (hEnter h1 h2).2 hF⟩
    have hlt : s.SpineState.SpineAmount < 1 - ZERO_ANIMWEIGHT_THRESH := not_le.1 hF
    have hT : (0 : α) < ZERO_ANIMWEIGHT_THRESH := by norm_num [ZERO_ANIMWEIGHT_THRESH]
    linarith
  · intro h1 h2
    refine ⟨(hLeave h1 h2).1, ?_, (hLeave h1 h2).2.2⟩
    intro hR
    refine ⟨?_, (hLeave h1 h2).2.1 hR⟩
    have hgt : s.SpineState.SpineAmount > ZERO_ANIMWEIGHT_THRESH := hR
    have hT : (0 : α) < ZERO_ANIMWEIGHT_THRESH := by norm_num [ZERO_ANIMWEIGHT_THRESH]
    linarith

/-- C19, applied to entering aiming with a spine amount of one half, a tick of 0.05 s and the
engine's inverse exponential: the spine amount stays in [0, 1] and the scale is 1 / (1 - 1/2). -/
theorem C19_spine_amount_range_witness :
    (0 ≤ (UAlsAnimationInstance.RefreshSpine Fixture.ExternalsWithInvExpApprox
          (Fixture.SpineEnterAimingHalfInstance : UAlsAnimationInstance ℚ) 1 (1 / 20)).SpineState.SpineAmount ∧
        (UAlsAnimationInstance.RefreshSpine Fixture.ExternalsWithInvExpApprox
          (Fixture.SpineEnterAimingHalfInstance : UAlsAnimationInstance ℚ) 1 (1 / 20)).SpineState.SpineAmount ≤
          1) ∧
      (UAlsAnimationInstance.RefreshSpine Fixture.ExternalsWithInvExpApprox
        (Fixture.SpineEnterAimingHalfInstance : UAlsAnimationInstance ℚ) 1 (1 / 20)).SpineState.SpineAmountScale =
        1 / (1 - 1 / 2) := by
  have h := C19_spine_amount_range Fixture.ExternalsWithInvExpApprox
    (Fixture.SpineEnterAimingHalfInstance : UAlsAnimationInstance ℚ) 1 (1 / 20)
    (fun X hX => FMath.InvExpApprox_mem X hX)
    (by norm_num [Fixture.SpineEnterAimingHalfInstance, Fixture.SpineEnterAimingInstance])
    (by norm_num)
  refine ⟨h.1, ?_⟩
  exact ((h.2.2.1 rfl rfl).2 (by
    norm_num [FAnimWeight.IsFullWeight, ZERO_ANIMWEIGHT_THRESH, Fixture.SpineEnterAimingHalfInstance,
      Fixture.SpineEnterAimingInstance])).2.1

/-! ### Unweighted gait -/

/-- C20: `TS_RefreshPose` sets `GroundedAmount` to the grounded pose curve and `GaitAmount` to the
gait pose curve clamped to [0, 3]; it sets `UnweightedGaitAmount` to `GaitAmount / GroundedAmount`
when `GroundedAmount` exceeds the small epsilon 1e-8, where the divisor is not zero, and to
`GaitAmount` itself when `GroundedAmount` does not exceed the epsilon; the unweighted walking,
running and sprinting amounts are the unit clamps of `UnweightedGaitAmount` and of it less 1 and
less 2.  So for a gait value g in [0, 3] and a grounded weight w with epsilon < w ≤ 1, if the raw
curves are w and g * w then `UnweightedGaitAmount` is g and the unweighted walking, running and
sprinting amounts are the unit clamps of g, g - 1 and g - 2. -/
theorem C20_unweighted_gait (s : UAlsAnimationInstance α) (g w : α) :
    ((UAlsAnimationInstance.TS_RefreshPose s).PoseState.GroundedAmount =
          s.GetCurveValue FName.PoseGroundedCurve ∧
        (UAlsAnimationInstance.TS_RefreshPose s).PoseState.GaitAmount =
          FMath.Clamp (s.GetCurveValue FName.PoseGaitCurve) 0 3) ∧
      ((UAlsAnimationInstance.TS_RefreshPose s).PoseState.GroundedAmount > UE_SMALL_NUMBER →
        (UAlsAnimationInstance.TS_RefreshPose s).PoseState.GroundedAmount ≠ 0 ∧
          (UAlsAnimationInstance.TS_RefreshPose s).PoseState.UnweightedGaitAmount =
            (UAlsAnimationInstance.TS_RefreshPose s).PoseState.GaitAmount /
              (UAlsAnimationInstance.TS_RefreshPose s).PoseState.GroundedAmount) ∧
      ((UAlsAnimationInstance.TS_RefreshPose s).PoseState.GroundedAmount ≤ UE_SMALL_NUMBER →
        (UAlsAnimationInstance.TS_RefreshPose s).PoseState.UnweightedGaitAmount =
          (UAlsAnimationInstance.TS_RefreshPose s).PoseState.GaitAmount) ∧
      ((UAlsAnimationInstance.TS_RefreshPose s).PoseState.UnweightedGaitWalkingAmount =
          UAlsMath.Clamp01 (UAlsAnimationInstance.TS_RefreshPose s).PoseState.UnweightedGaitAmount ∧
        (UAlsAnimationInstance.TS_RefreshPose s).PoseState.UnweightedGaitRunningAmount =
          UAlsMath.Clamp01 ((UAlsAnimationInstance.TS_RefreshPose s).PoseState.UnweightedGaitAmount - 1) ∧
        (UAlsAnimationInstance.TS_RefreshPose s).PoseState.UnweightedGaitSprintingAmount =
          UAlsMath.Clamp01 ((UAlsAnimationInstance.TS_RefreshPose s).PoseState.UnweightedGaitAmount - 2)) ∧
      (0 ≤ g → g ≤ 3 → UE_SMALL_NUMBER < w → w ≤ 1 → s.GetCurveValue FName.PoseGroundedCurve = w →
        s.GetCurveValue FName.PoseGaitCurve = g * w →
        (UAlsAnimationInstance.TS_RefreshPose s).PoseState.UnweightedGaitAmount = g ∧
          (UAlsAnimationInstance.TS_RefreshPose s).PoseState.UnweightedGaitWalkingAmount =
            UAlsMath.Clamp01 g ∧
          (UAlsAnimationInstance.TS_RefreshPose s).PoseState.UnweightedGaitRunningAmount =
            UAlsMath.Clamp01 (g - 1) ∧
          (UAlsAnimationInstance.TS_RefreshPose s).PoseState.UnweightedGaitSprintingAmount =
            UAlsMath.Clamp01 (g - 2)) := by
  have htol : (0 : α) < UE_SMALL_NUMBER := by norm_num [UE_SMALL_NUMBER]
  have hGrounded : (UAlsAnimationInstance.TS_RefreshPose s).PoseState.GroundedAmount =
      s.GetCurveValue FName.PoseGroundedCurve := rfl
  have hGait : (UAlsAnimationInstance.TS_RefreshPose s).PoseState.GaitAmount =
      FMath.Clamp (s.GetCurveValue FName.PoseGaitCurve) 0 3 := rfl
  have hForm : (UAlsAnimationInstance.TS_RefreshPose s).PoseState.UnweightedGaitAmount =
      (if (UAlsAnimationInstance.TS_RefreshPose s).PoseState.GroundedAmount > UE_SMALL_NUMBER then
        (UAlsAnimationInstance.TS_RefreshPose s).PoseState.GaitAmount /
          (UAlsAnimationInstance.TS_RefreshPose s).PoseState.GroundedAmount
       else (UAlsAnimationInstance.TS_RefreshPose s).PoseState.GaitAmount) := rfl
  have hW : (UAlsAnimationInstance.TS_RefreshPose s).PoseState.UnweightedGaitWalkingAmount =
      UAlsMath.Clamp01 (UAlsAnimationInstance.TS_RefreshPose s).PoseState.UnweightedGaitAmount := rfl
  have hR : (UAlsAnimationInstance.TS_RefreshPose s).PoseState.UnweightedGaitRunningAmount =
      UAlsMath.Clamp01 ((UAlsAnimationInstance.TS_RefreshPose s).PoseState.UnweightedGaitAmount - 1) := rfl
  have hS : (UAlsAnimationInstance.TS_RefreshPose s).PoseState.UnweightedGaitSprintingAmount =
      UAlsMath.Clamp01 ((UAlsAnimationInstance.TS_RefreshPose s).PoseState.UnweightedGaitAmount - 2) := rfl
  refine ⟨⟨hGrounded, hGait⟩, ?_, ?_, ⟨hW, hR, hS⟩, ?_⟩
  · intro h
    exact ⟨(lt_trans htol h).ne.symm, by rw [hForm, if_pos h]⟩
  · intro h
    rw [hForm, if_neg (not_lt.2 h)]
  · intro hg0 hg3 hw hw1 hCurveGrounded hCurveGait
    have hw0 : 0 < w := lt_trans htol hw
    have hClamp : FMath.Clamp (g * w) 0 3 = g * w := by
      unfold FMath.Clamp
      rw [if_neg (not_lt.2 (mul_nonneg hg0 hw0.le))]
      split_ifs with h
      · rfl
      · have h3 : g * w ≤ 3 := by nlinarith
        exact (le_antisymm h3 (not_lt.1 h)).symm
    have hU : (UAlsAnimationInstance.TS_RefreshPose s).PoseState.UnweightedGaitAmount = g := by
      rw [hForm, hGrounded, hGait, hCurveGrounded, hCurveGait, if_pos hw, hClamp]
      field_simp
    exact ⟨hU, by rw [hW, hU], by rw [hR, hU], by rw [hS, hU]⟩

/-- C20, applied to a grounded weight of one half and a raw gait curve of 1, that is a gait value
of 2 blended in half way: the unweighted gait amount is 2 and the unweighted running amount is 1;
and applied to a grounded weight of 0 with a raw gait curve of 2: nothing is divided and the
unweighted gait amount is the gait amount 2. -/
theorem C20_unweighted_gait_witness :
    (UAlsAnimationInstance.TS_RefreshPose
        (Fixture.PoseInstance (1 / 2) 1 : UAlsAnimationInstance ℚ)).PoseState.UnweightedGaitAmount = 2 ∧
      (UAlsAnimationInstance.TS_RefreshPose
        (Fixture.PoseInstance (1 / 2) 1 : UAlsAnimationInstance ℚ)).PoseState.UnweightedGaitRunningAmount = 1 ∧
      (UAlsAnimationInstance.TS_RefreshPose
        (Fixture.PoseInstance 0 2 : UAlsAnimationInstance ℚ)).PoseState.UnweightedGaitAmount = 2 := by
  have h := (C20_unweighted_gait (Fixture.PoseInstance (1 / 2) 1 : UAlsAnimationInstance ℚ) 2 (1 / 2)).2.2.2.2
    (by norm_num) (by norm_num) (by norm_num [UE_SMALL_NUMBER]) (by norm_num)
    (by simp [UAlsAnimationInstance.GetCurveValue, Fixture.PoseInstance])
    (by simp [UAlsAnimationInstance.GetCurveValue, Fixture.PoseInstance])
  have hAir := C20_unweighted_gait (Fixture.PoseInstance 0 2 : UAlsAnimationInstance ℚ) 0 0
  have hG0 : (Fixture.PoseInstance 0 2 : UAlsAnimationInstance ℚ).GetCurveValue FName.PoseGroundedCurve = 0 := by
    simp [UAlsAnimationInstance.GetCurveValue, Fixture.PoseInstance]
  have hG2 : (Fixture.PoseInstance 0 2 : UAlsAnimationInstance ℚ).GetCurveValue FName.PoseGaitCurve = 2 := by
    simp [UAlsAnimationInstance.GetCurveValue, Fixture.PoseInstance]
  refine ⟨h.1, ?_, ?_⟩
  · rw [h.2.2.1]
    norm_num [UAlsMath.Clamp01]
  · rw [hAir.2.2.1 (by rw [hAir.1.1, hG0]; norm_num [UE_SMALL_NUMBER]), hAir.1.2, hG2]
    norm_num [FMath.Clamp]

/-! ### Relative acceleration amount -/

/-- The clamp of a vector to the unit ball has squared length at most one, and is the vector itself
when its squared length is at most one. -/
theorem UAlsVector.ClampMagnitude01_SizeSquared (E : Externals α) (hE : E.InvSqrtBounded) (V : FVector α) :
    (UAlsVector.ClampMagnitude01 E V).SizeSquared ≤ 1 ∧
      (V.SizeSquared ≤ 1 → UAlsVector.ClampMagnitude01 E V = V) := by
  unfold UAlsVector.ClampMagnitude01
  simp only
  by_cases h : V.SizeSquared ≤ 1
  · rw [if_pos h]
    exact ⟨h, fun _ => rfl⟩
  · rw [if_neg h]
    refine ⟨?_, fun h1 => absurd h1 h⟩
    obtain ⟨_, hk⟩ := hE V.SizeSquared (not_le.1 h)
    have e : (V.scale (E.InvSqrt V.SizeSquared)).SizeSquared =
        E.InvSqrt V.SizeSquared * E.InvSqrt V.SizeSquared * V.SizeSquared := by
      simp only [FVector.scale, FVector.SizeSquared]
      ring
    rw [e]
    exact hk

/-- The exact inverse square root does not overshoot. -/
theorem Externals.InvSqrtBounded_of_exact (E : Externals ℝ) (h : ∀ X, E.InvSqrt X = (Real.sqrt X)⁻¹) :
    E.InvSqrtBounded := by
  intro X hX
  have hpos : 0 < Real.sqrt X := Real.sqrt_pos.2 (by linarith)
  rw [h]
  refine ⟨(inv_pos.2 hpos).le, ?_⟩
  have hs := Real.mul_self_sqrt (show (0 : ℝ) ≤ X by linarith)
  have : (Real.sqrt X)⁻¹ * (Real.sqrt X)⁻¹ * X = 1 := by
    nth_rewrite 3 [← hs]
    field_simp
  rw [this]

/-- C21: `GetRelativeAccelerationAmount` selects `MaxAcceleration` when the dot product of
acceleration and velocity is at least 0 and `MaxBrakingDeceleration` when it is negative; it
returns the zero vector when the selected maximum is at most the small epsilon 1e-4; otherwise,
with an inverse square root of the host that does not overshoot, the returned vector has squared
length at most 1, each component in [-1, 1], and is the X and Y of the unclamped quotient (the
actor-relative acceleration divided by the selected maximum) when that quotient has squared length
at most 1. -/
theorem C21_relative_acceleration_amount (E : Externals α) (s : UAlsAnimationInstance α)
    (hE : E.InvSqrtBounded) :
    (s.LocomotionState.Acceleration.dot s.LocomotionState.Velocity ≥ 0 →
        s.SelectedMaxAcceleration = s.LocomotionState.MaxAcceleration) ∧
      (s.LocomotionState.Acceleration.dot s.LocomotionState.Velocity < 0 →
        s.SelectedMaxAcceleration = s.LocomotionState.MaxBrakingDeceleration) ∧
      (s.SelectedMaxAcceleration ≤ UE_KINDA_SMALL_NUMBER →
        UAlsAnimationInstance.GetRelativeAccelerationAmount E s = ⟨0, 0⟩) ∧
      (UE_KINDA_SMALL_NUMBER < s.SelectedMaxAcceleration →
        (UAlsAnimationInstance.GetRelativeAccelerationAmount E s).X *
              (UAlsAnimationInstance.GetRelativeAccelerationAmount E s).X +
            (UAlsAnimationInstance.GetRelativeAccelerationAmount E s).Y *
              (UAlsAnimationInstance.GetRelativeAccelerationAmount E s).Y ≤ 1 ∧
          |(UAlsAnimationInstance.GetRelativeAccelerationAmount E s).X| ≤ 1 ∧
          |(UAlsAnimationInstance.GetRelativeAccelerationAmount E s).Y| ≤ 1 ∧
          (s.RelativeAccelerationQuotient.SizeSquared ≤ 1 →
            UAlsAnimationInstance.GetRelativeAccelerationAmount E s =
              ⟨s.RelativeAccelerationQuotient.X, s.RelativeAccelerationQuotient.Y⟩)) := by
  have hForm : UAlsAnimationInstance.GetRelativeAccelerationAmount E s =
      if s.SelectedMaxAcceleration ≤ UE_KINDA_SMALL_NUMBER then ⟨0, 0⟩
      else
        ⟨(UAlsVector.ClampMagnitude01 E s.RelativeAccelerationQuotient).X,
          (UAlsVector.ClampMagnitude01 E s.RelativeAccelerationQuotient).Y⟩ := rfl
  refine ⟨?_, ?_, ?_, ?_⟩
  · intro h
    unfold UAlsAnimationInstance.SelectedMaxAcceleration
    rw [if_pos h]
  · intro h
    unfold UAlsAnimationInstance.SelectedMaxAcceleration
    rw [if_neg (not_le.2 h)]
  · intro h
    rw [hForm, if_pos h]
  · intro h
    rw [hForm, if_neg (not_le.2 h)]
    obtain ⟨hLen, hSame⟩ := UAlsVector.ClampMagnitude01_SizeSquared E hE s.RelativeAccelerationQuotient
    generalize UAlsVector.ClampMagnitude01 E s.RelativeAccelerationQuotient = C at *
    unfold FVector.SizeSquared at hLen
    have hXY : C.X * C.X + C.Y * C.Y ≤ 1 := by nlinarith [mul_self_nonneg C.Z]
    refine ⟨hXY, ?_, ?_, ?_⟩
    · exact abs_le_one_iff_mul_self_le_one.2 (by nlinarith [mul_self_nonneg C.Y])
    · exact abs_le_one_iff_mul_self_le_one.2 (by nlinarith [mul_self_nonneg C.X])
    · intro hQ
      rw [hSame hQ]

/-- C21, applied to an acceleration of (1024, 0, 0) along a velocity of (600, 0, 0) with a maximum
acceleration of 2048 and the exact inverse square root: the amount is (0.5, 0). -/
theorem C21_relative_acceleration_amount_witness :
    UAlsAnimationInstance.GetRelativeAccelerationAmount
        (Fixture.ExternalsWith (fun x => (Real.sqrt x)⁻¹) Real.sin Real.cos Real.arccos Real.pi)
        (Fixture.SprintInstance 0 : UAlsAnimationInstance ℝ) = ⟨1 / 2, 0⟩ := by
  have h := (C21_relative_acceleration_amount
    (Fixture.ExternalsWith (fun x => (Real.sqrt x)⁻¹) Real.sin Real.cos Real.arccos Real.pi)
    (Fixture.SprintInstance 0 : UAlsAnimationInstance ℝ)
    (Externals.InvSqrtBounded_of_exact _ (fun _ => rfl))).2.2.2
  have hMax : (Fixture.SprintInstance 0 : UAlsAnimationInstance ℝ).SelectedMaxAcceleration = 2048 := by
    norm_num [UAlsAnimationInstance.SelectedMaxAcceleration, Fixture.SprintInstance, Fixture.Instance,
      FVector.dot]
  have hQ : (Fixture.SprintInstance 0 : UAlsAnimationInstance ℝ).RelativeAccelerationQuotient =
      ⟨1 / 2, 0, 0⟩ := by
    unfold UAlsAnimationInstance.RelativeAccelerationQuotient
    rw [hMax]
    norm_num [Fixture.SprintInstance, Fixture.Instance, FQuat.UnrotateVector, FVector.cross, FVector.scale,
      FVector.add, FVector.divide]
  have h2 := (h (by rw [hMax]; norm_num [UE_KINDA_SMALL_NUMBER])).2.2.2
    (by rw [hQ]; norm_num [FVector.SizeSquared])
  rw [h2, hQ]

/-! ### No settings bound -/

namespace UAlsAnimationInstance

/-- With no settings bound, the update functions and the refresh functions the animation blueprint
calls return the instance unchanged. -/
theorem Refresh_unbound (E : Externals α) (s : UAlsAnimationInstance α) (DeltaTime : α)
    (h : s.Settings = none) :
    NativeUpdateAnimation E s DeltaTime = s ∧ NativeThreadSafeUpdateAnimation E s DeltaTime = s ∧
      NativePostUpdateAnimation s = s ∧ RefreshGrounded E s = s ∧ RefreshGroundedMovement E s = s ∧
      RefreshStandingMovement E s = s ∧ RefreshCrouchingMovement s = s ∧ RefreshInAir E s = s ∧
      RefreshLook E s = s ∧ RefreshDynamicTransitions s = s ∧ RefreshRotateInPlace s = s ∧
      RefreshTurnInPlace E s = s := by
  refine ⟨?_, ?_, ?_, ?_, ?_, ?_, ?_, ?_, ?_, ?_, ?_, ?_⟩
  · unfold NativeUpdateAnimation
    simp only [h]
  · unfold NativeThreadSafeUpdateAnimation
    simp only [h]
  · unfold NativePostUpdateAnimation
    simp only [h]
  · unfold RefreshGrounded
    simp only [h, ite_self]
  · unfold RefreshGroundedMovement
    simp only [h, ite_self]
  · unfold RefreshStandingMovement
    simp only [h, ite_self]
  · unfold RefreshCrouchingMovement
    simp only [h, ite_self]
  · unfold RefreshInAir
    simp only [h, ite_self]
  · unfold RefreshLook
    simp only [h, ite_self]
  · unfold RefreshDynamicTransitions
    simp only [h, ite_self]
  · unfold RefreshRotateInPlace
    simp only [h, ite_self]
  · unfold RefreshTurnInPlace
    simp only [h, ite_self]

/-- With no settings bound, the functions that play a transition return the instance unchanged. -/
theorem PlayTransition_unbound (E : Externals α) (s : UAlsAnimationInstance α)
    (BlendInDuration BlendOutDuration PlayRate StartTime : α) (bFromStandingIdleOnly : Bool)
    (h : s.Settings = none) :
    PlayQuickStopAnimation E s = s ∧
      PlayTransitionLeftAnimation s BlendInDuration BlendOutDuration PlayRate StartTime
        bFromStandingIdleOnly = s ∧
      PlayTransitionRightAnimation s BlendInDuration BlendOutDuration PlayRate StartTime
        bFromStandingIdleOnly = s := by
  refine ⟨?_, ?_, ?_⟩
  · unfold PlayQuickStopAnimation
    simp only [h]
  · unfold PlayTransitionLeftAnimation
    simp only [h]
  · unfold PlayTransitionRightAnimation
    simp only [h]

/-- `ActivatePivot` reads the settings without checking them: it fails exactly when no settings are
bound. -/
theorem ActivatePivot_eq_none_iff (s : UAlsAnimationInstance α) :
    ActivatePivot s = none ↔ s.Settings = none := by
  unfold ActivatePivot
  cases h : s.Settings <;> simp

end UAlsAnimationInstance

/-- C22, for `ActivatePivot`: on the fixture instance with no settings bound the fifteen guarded
entry points return the instance unchanged, while `ActivatePivot` has no guard and fails on the
dereference of the settings. -/
theorem C22_activate_pivot_without_settings :
    (Fixture.UnboundInstance : UAlsAnimationInstance ℚ).Settings = none ∧
      UAlsAnimationInstance.ActivatePivot (Fixture.UnboundInstance : UAlsAnimationInstance ℚ) = none ∧
      (UAlsAnimationInstance.NativeUpdateAnimation Fixture.Externals Fixture.UnboundInstance (1 / 60) =
          (Fixture.UnboundInstance : UAlsAnimationInstance ℚ) ∧
        UAlsAnimationInstance.NativeThreadSafeUpdateAnimation Fixture.Externals Fixture.UnboundInstance (1 / 60) =
          (Fixture.UnboundInstance : UAlsAnimationInstance ℚ) ∧
        UAlsAnimationInstance.NativePostUpdateAnimation Fixture.UnboundInstance =
          (Fixture.UnboundInstance : UAlsAnimationInstance ℚ) ∧
        UAlsAnimationInstance.RefreshGrounded Fixture.Externals Fixture.UnboundInstance =
          (Fixture.UnboundInstance : UAlsAnimationInstance ℚ) ∧
        UAlsAnimationInstance.RefreshGroundedMovement Fixture.Externals Fixture.UnboundInstance =
          (Fixture.UnboundInstance : UAlsAnimationInstance ℚ) ∧
        UAlsAnimationInstance.RefreshStandingMovement Fixture.Externals Fixture.UnboundInstance =
          (Fixture.UnboundInstance : UAlsAnimationInstance ℚ) ∧
        UAlsAnimationInstance.RefreshCrouchingMovement Fixture.UnboundInstance =
          (Fixture.UnboundInstance : UAlsAnimationInstance ℚ) ∧
        UAlsAnimationInstance.RefreshInAir Fixture.Externals Fixture.UnboundInstance =
          (Fixture.UnboundInstance : UAlsAnimationInstance ℚ) ∧
        UAlsAnimationInstance.RefreshLook Fixture.Externals Fixture.UnboundInstance =
          (Fixture.UnboundInstance : UAlsAnimationInstance ℚ) ∧
        UAlsAnimationInstance.RefreshDynamicTransitions Fixture.UnboundInstance =
          (Fixture.UnboundInstance : UAlsAnimationInstance ℚ) ∧
        UAlsAnimationInstance.RefreshRotateInPlace Fixture.UnboundInstance =
          (Fixture.UnboundInstance : UAlsAnimationInstance ℚ) ∧
        UAlsAnimationInstance.RefreshTurnInPlace Fixture.Externals Fixture.UnboundInstance =
          (Fixture.UnboundInstance : UAlsAnimationInstance ℚ)) ∧
      (UAlsAnimationInstance.PlayQuickStopAnimation Fixture.Externals Fixture.UnboundInstance =
          (Fixture.UnboundInstance : UAlsAnimationInstance ℚ) ∧
        UAlsAnimationInstance.PlayTransitionLeftAnimation Fixture.UnboundInstance (2 / 10) (2 / 10) 1 0 false =
          (Fixture.UnboundInstance : UAlsAnimationInstance ℚ) ∧
        UAlsAnimationInstance.PlayTransitionRightAnimation Fixture.UnboundInstance (2 / 10) (2 / 10) 1 0 false =
          (Fixture.UnboundInstance : UAlsAnimationInstance ℚ)) :=
  ⟨rfl, (UAlsAnimationInstance.ActivatePivot_eq_none_iff _).2 rfl,
    UAlsAnimationInstance.Refresh_unbound Fixture.Externals _ (1 / 60) rfl,
    UAlsAnimationInstance.PlayTransition_unbound Fixture.Externals _ (2 / 10) (2 / 10) 1 0 false rfl⟩
/-! ### Selection of the dynamic transition -/

namespace UAlsAnimationInstance

/-- An evaluated `RefreshDynamicTransitions` past the cooldown with transitions allowed: the guard
is set, and the selected sequence, if any, is queued. -/
theorem RefreshDynamicTransitions_evaluated (s : UAlsAnimationInstance α)
    (Settings : UAlsAnimationInstanceSettings α) (hSkip : s.EditorPreviewSkip = false)
    (hSettings : s.Settings = some Settings) (hGuard : s.DynamicTransitionsState.bUpdatedThisFrame = false)
    (hDelay : s.DynamicTransitionsState.FrameDelay ≤ 0)
    (hAllowed : s.TransitionsState.bTransitionsAllowed = true) :
    (s.SelectDynamicTransitionSequence Settings = none →
      RefreshDynamicTransitions s = DynamicTransitionGuarded s) ∧
    (∀ Sequence : UAnimSequenceBase, s.SelectDynamicTransitionSequence Settings = some Sequence →
      RefreshDynamicTransitions s = QueueDynamicTransition (DynamicTransitionGuarded s) Settings Sequence) := by
  constructor
  · intro hSelect
    unfold RefreshDynamicTransitions
    rw [if_neg (by rw [hSkip]; exact Bool.false_ne_true)]
    split
    · rename_i h
      rw [hSettings] at h
      cases h
    · rename_i S h
      rw [hSettings] at h
      cases h
      simp only
      rw [if_neg (by rw [hGuard]; exact Bool.false_ne_true), if_neg (not_lt.mpr hDelay),
        if_neg (by rw [hAllowed]; exact Bool.noConfusion)]
      rw [SelectDynamicTransitionSequence_congr _ s Settings (by rfl) (by rfl) (by rfl), hSelect]
      rfl
  · intro Sequence hSelect
    exact RefreshDynamicTransitions_fires s Settings Sequence hSkip hSettings hGuard hDelay hAllowed hSelect

/-- The sequence the code selects is the one the specification selects. -/
theorem SelectDynamicTransitionSequence_eq_spec (s : UAlsAnimationInstance α)
    (Settings : UAlsAnimationInstanceSettings α) :
    s.SelectDynamicTransitionSequence Settings = DynamicTransitionSequenceBySpec s Settings := by
  have hSq : (Settings.DynamicTransitions.FootLockDistanceThreshold * s.LocomotionState.Scale) ^ 2 =
      FMath.Square (Settings.DynamicTransitions.FootLockDistanceThreshold * s.LocomotionState.Scale) := by
    unfold FMath.Square
    ring
  unfold SelectDynamicTransitionSequence DynamicTransitionSequenceBySpec DynamicTransitionFootBySpec
    DynamicTransitionEligibleBySpec
  simp only [hSq]
  by_cases hL : FAnimWeight.IsRelevant s.FeetState.Left.LockAmount ∧
      FVector.DistSquared s.FeetState.Left.TargetLocation s.FeetState.Left.LockLocation >
        FMath.Square (Settings.DynamicTransitions.FootLockDistanceThreshold * s.LocomotionState.Scale) <;>
    by_cases hR : FAnimWeight.IsRelevant s.FeetState.Right.LockAmount ∧
      FVector.DistSquared s.FeetState.Right.TargetLocation s.FeetState.Right.LockLocation >
        FMath.Square (Settings.DynamicTransitions.FootLockDistanceThreshold * s.LocomotionState.Scale) <;>
    by_cases hC : s.Stance = FGameplayTag.Stance_Crouching <;>
    by_cases hD : FVector.DistSquared s.FeetState.Right.TargetLocation s.FeetState.Right.LockLocation >
      FVector.DistSquared s.FeetState.Left.TargetLocation s.FeetState.Left.LockLocation <;>
    simp [hL, hR, hC, hD, DynamicTransitionSequenceTable, not_le.2, not_lt.1, le_of_not_gt]

end UAlsAnimationInstance

/-- C23: when an evaluated `RefreshDynamicTransitions` (game world, settings bound, guard clear, no
cooldown running, transitions allowed) selects no valid sequence, it only sets its guard: nothing
is queued or played and the frame delay is not started; and when an evaluated `RefreshTurnInPlace`
whose activation delay has passed the required delay selects no preset (the preset of the
specification's table is unset, or the stance is neither standing nor crouching), it only sets its
guard and advances the activation delay by the frame delta time: nothing is queued or played. -/
theorem C23_missing_references_skipped (E : Externals α) (s : UAlsAnimationInstance α)
    (Settings : UAlsAnimationInstanceSettings α) (hSkip : s.EditorPreviewSkip = false)
    (hSettings : s.Settings = some Settings) :
    (s.DynamicTransitionsState.bUpdatedThisFrame = false → s.DynamicTransitionsState.FrameDelay ≤ 0 →
      s.TransitionsState.bTransitionsAllowed = true →
      DynamicTransitionSequenceBySpec s Settings = none →
      UAlsAnimationInstance.RefreshDynamicTransitions s = DynamicTransitionGuarded s ∧
        (UAlsAnimationInstance.RefreshDynamicTransitions s).TransitionsState = s.TransitionsState ∧
        (UAlsAnimationInstance.RefreshDynamicTransitions s).MontageRequests = s.MontageRequests ∧
        (UAlsAnimationInstance.RefreshDynamicTransitions s).DynamicTransitionsState.FrameDelay =
          s.DynamicTransitionsState.FrameDelay) ∧
      (s.TurnInPlaceState.bUpdatedThisFrame = false → ¬ TurnInPlaceBlocked s Settings →
        TurnInPlaceRequiredDelay s Settings < s.TurnInPlaceState.ActivationDelay + s.GetDeltaSeconds →
        (TurnInPlacePresetBySpec E s Settings = none ∨
          (s.Stance ≠ FGameplayTag.Stance_Standing ∧ s.Stance ≠ FGameplayTag.Stance_Crouching)) →
        UAlsAnimationInstance.RefreshTurnInPlace E s =
            TurnInPlaceTimed s (s.TurnInPlaceState.ActivationDelay + s.GetDeltaSeconds) ∧
          (UAlsAnimationInstance.RefreshTurnInPlace E s).TurnInPlaceState.QueuedSettings =
            s.TurnInPlaceState.QueuedSettings ∧
          (UAlsAnimationInstance.RefreshTurnInPlace E s).MontageRequests = s.MontageRequests) := by
  constructor
  · intro hGuard hDelay hAllowed hNone
    rw [← UAlsAnimationInstance.SelectDynamicTransitionSequence_eq_spec] at hNone
    rw [(UAlsAnimationInstance.RefreshDynamicTransitions_evaluated s Settings hSkip hSettings hGuard hDelay
      hAllowed).1 hNone]
    exact ⟨rfl, rfl, rfl, rfl⟩
  · intro hGuard hUnblocked hDelay hNone
    have hPreset : TurnInPlacePresetBySpec E s Settings = none := by
      rcases hNone with h | ⟨h1, h2⟩
      · exact h
      · unfold TurnInPlacePresetBySpec
        rw [if_neg]
        rintro (h | h)
        · exact h1 h
        · exact h2 h
    have hEval := UAlsAnimationInstance.RefreshTurnInPlace_evaluated E s Settings hSkip hSettings hGuard
    rw [if_neg hUnblocked, if_neg (not_le.2 hDelay)] at hEval
    have hSel := (UAlsAnimationInstance.SelectTurnInPlaceSettings_eq_spec E s Settings).1
    rw [hPreset] at hSel
    have hResult : UAlsAnimationInstance.RefreshTurnInPlace E s =
        TurnInPlaceTimed s (s.TurnInPlaceState.ActivationDelay + s.GetDeltaSeconds) := by
      rw [hEval]
      generalize UAlsAnimationInstance.SelectTurnInPlaceSettings E s Settings = P at hSel
      obtain ⟨P1, P2⟩ := P
      simp only at hSel
      rw [hSel]
    rw [hResult]
    exact ⟨rfl, rfl, rfl⟩

/-- C23, applied to the dynamic-transition scenario with settings that lack the standing left
sequence (the left foot is 10 units from its lock location, so that sequence is the one selected),
and to the turn-in-place scenario with a stance that is neither standing nor crouching (activation
delay 0.25, tick of 0.1 s, required delay 0.25): the frame delay stays 0 and no sequence is queued,
and the activation delay becomes 0.35 with no preset queued. -/
theorem C23_missing_references_skipped_witness :
    ((UAlsAnimationInstance.RefreshDynamicTransitions
          (Fixture.MissingSequenceInstance : UAlsAnimationInstance ℚ)).DynamicTransitionsState.FrameDelay = 0 ∧
        (UAlsAnimationInstance.RefreshDynamicTransitions
          (Fixture.MissingSequenceInstance : UAlsAnimationInstance ℚ)).TransitionsState.QueuedTransitionSequence =
          none) ∧
      ((UAlsAnimationInstance.RefreshTurnInPlace Fixture.Externals
          (Fixture.StancelessTurnInstance (1 / 4) (1 / 10) :
            UAlsAnimationInstance ℚ)).TurnInPlaceState.ActivationDelay = 1 / 4 + 1 / 10 ∧
        (UAlsAnimationInstance.RefreshTurnInPlace Fixture.Externals
          (Fixture.StancelessTurnInstance (1 / 4) (1 / 10) :
            UAlsAnimationInstance ℚ)).TurnInPlaceState.QueuedSettings = none) := by
  have hD := (C23_missing_references_skipped Fixture.Externals
    (Fixture.MissingSequenceInstance : UAlsAnimationInstance ℚ) Fixture.MissingSequenceSettings rfl rfl).1
    rfl (by norm_num [Fixture.MissingSequenceInstance, Fixture.DynamicTransitionInstance, Fixture.Instance]) rfl
    (by
      have hFoot : DynamicTransitionFootBySpec (Fixture.MissingSequenceInstance : UAlsAnimationInstance ℚ)
          Fixture.MissingSequenceSettings = some EAlsFoot.Left := by
        norm_num [DynamicTransitionFootBySpec, DynamicTransitionEligibleBySpec, Fixture.MissingSequenceInstance,
          Fixture.MissingSequenceSettings, Fixture.DynamicTransitionInstance, Fixture.Instance,
          Fixture.Settings, Fixture.FootState, FAnimWeight.IsRelevant, ZERO_ANIMWEIGHT_THRESH,
          FVector.DistSquared, FMath.Square]
      unfold DynamicTransitionSequenceBySpec
      rw [hFoot]
      rfl)
  have hUnblocked : ¬ TurnInPlaceBlocked (Fixture.StancelessTurnInstance (1 / 4) (1 / 10) : UAlsAnimationInstance ℚ)
      Fixture.TurnInPlaceSettings := (Fixture.TurnInPlaceTimerInstance_unblocked false (1 / 4) (1 / 10)).1
  have hRequired : TurnInPlaceRequiredDelay (Fixture.StancelessTurnInstance (1 / 4) (1 / 10) : UAlsAnimationInstance ℚ)
      Fixture.TurnInPlaceSettings = 1 / 4 := (Fixture.TurnInPlaceTimerInstance_unblocked false (1 / 4) (1 / 10)).2
  have hT := (C23_missing_references_skipped Fixture.Externals
    (Fixture.StancelessTurnInstance (1 / 4) (1 / 10) : UAlsAnimationInstance ℚ) Fixture.TurnInPlaceSettings
    rfl rfl).2 rfl hUnblocked
    (by
      rw [hRequired]
      norm_num [Fixture.StancelessTurnInstance, Fixture.TurnInPlaceTimerInstance, Fixture.TurnInPlaceInstance,
        Fixture.Instance, UAlsAnimationInstance.GetDeltaSeconds])
    (Or.inr ⟨by decide, by decide⟩)
  refine ⟨⟨?_, ?_⟩, ?_, ?_⟩
  · rw [hD.2.2.2]
    rfl
  · rw [hD.2.1]
    rfl
  · rw [hT.1]
    norm_num [TurnInPlaceTimed, Fixture.StancelessTurnInstance, Fixture.TurnInPlaceTimerInstance,
      Fixture.TurnInPlaceInstance, Fixture.Instance, UAlsAnimationInstance.GetDeltaSeconds]
  · rw [hT.2.1]
    rfl

/-- C25: when `RefreshDynamicTransitions` evaluates (game world, settings bound, guard clear, no
cooldown running, transitions allowed), the sequence the code selects is the one the specification
selects: a foot is eligible exactly when its lock amount is relevant and the squared distance
between its target and its lock location is strictly greater than the square of
`FootLockDistanceThreshold` times the scale, the chosen foot is the eligible one or, of two, the
one with the greater distance (left on a tie), and its sequence is the crouching one exactly when
the stance is crouching.  With no foot chosen only the guard is set; with a chosen foot whose
sequence is valid the cooldown starts and the request is written to the queue with both blend
durations `BlendDuration`, play rate `PlayRate` and start time 0, and on the game thread (with no
stop queued) played at once with these parameters. -/
theorem C25_dynamic_transition_foot_selection (s : UAlsAnimationInstance α)
    (Settings : UAlsAnimationInstanceSettings α) (hSkip : s.EditorPreviewSkip = false)
    (hSettings : s.Settings = some Settings) (hGuard : s.DynamicTransitionsState.bUpdatedThisFrame = false)
    (hDelay : s.DynamicTransitionsState.FrameDelay ≤ 0)
    (hAllowed : s.TransitionsState.bTransitionsAllowed = true) :
    s.SelectDynamicTransitionSequence Settings = DynamicTransitionSequenceBySpec s Settings ∧
      (DynamicTransitionFootBySpec s Settings = none →
        UAlsAnimationInstance.RefreshDynamicTransitions s = DynamicTransitionGuarded s) ∧
      (∀ (Foot : EAlsFoot) (Sequence : UAnimSequenceBase), DynamicTransitionFootBySpec s Settings = some Foot →
        DynamicTransitionSequenceTable Settings.DynamicTransitions
            (decide (s.Stance = FGameplayTag.Stance_Crouching)) Foot = some Sequence →
        (UAlsAnimationInstance.RefreshDynamicTransitions s).DynamicTransitionsState.FrameDelay = 2 ∧
          ((s.bInGameThread = false ∨ s.TransitionsState.bStopTransitionsQueued = true) →
            (UAlsAnimationInstance.RefreshDynamicTransitions s).MontageRequests = s.MontageRequests ∧
              (UAlsAnimationInstance.RefreshDynamicTransitions s).TransitionsState =
                { s.TransitionsState with
                  QueuedTransitionSequence := some Sequence
                  QueuedTransitionBlendInDuration := Settings.DynamicTransitions.BlendDuration
                  QueuedTransitionBlendOutDuration := Settings.DynamicTransitions.BlendDuration
                  QueuedTransitionPlayRate := Settings.DynamicTransitions.PlayRate
                  QueuedTransitionStartTime := 0 }) ∧
          ((s.bInGameThread = true ∧ s.TransitionsState.bStopTransitionsQueued = false) →
            (UAlsAnimationInstance.RefreshDynamicTransitions s).MontageRequests =
              FMontageRequest.PlaySlotAnimationAsDynamicMontage (some Sequence) FName.TransitionSlot
                Settings.DynamicTransitions.BlendDuration Settings.DynamicTransitions.BlendDuration
                Settings.DynamicTransitions.PlayRate 1 0 0 :: s.MontageRequests)) := by
  have hSpec := UAlsAnimationInstance.SelectDynamicTransitionSequence_eq_spec s Settings
  have hEval := UAlsAnimationInstance.RefreshDynamicTransitions_evaluated s Settings hSkip hSettings hGuard
    hDelay hAllowed
  refine ⟨hSpec, ?_, ?_⟩
  · intro hFoot
    apply hEval.1
    rw [hSpec]
    unfold DynamicTransitionSequenceBySpec
    rw [hFoot]
  · intro Foot Sequence hFoot hSequence
    have hSelect : s.SelectDynamicTransitionSequence Settings = some Sequence := by
      rw [hSpec]
      unfold DynamicTransitionSequenceBySpec
      rw [hFoot]
      exact hSequence
    rw [hEval.2 Sequence hSelect]
    have hEffect := UAlsAnimationInstance.QueueDynamicTransition_effect (DynamicTransitionGuarded s) Settings
      Sequence
    exact ⟨by rw [UAlsAnimationInstance.QueueDynamicTransition_DynamicTransitionsState], hEffect.1, hEffect.2⟩

/-- C25, applied to the dynamic-transition scenario with both feet fully locked, the left foot 10
units and the right foot 12 units from their lock locations (threshold 8), crouching, off the game
thread: the right foot is chosen, and the crouching right sequence is queued with the blend
duration and play rate of the settings and start time 0. -/
theorem C25_dynamic_transition_foot_selection_witness :
    DynamicTransitionFootBySpec (Fixture.BothFeetInstance 12 FGameplayTag.Stance_Crouching : UAlsAnimationInstance ℚ)
        Fixture.Settings = some EAlsFoot.Right ∧
      (UAlsAnimationInstance.RefreshDynamicTransitions
          (Fixture.BothFeetInstance 12 FGameplayTag.Stance_Crouching : UAlsAnimationInstance ℚ)).TransitionsState =
        { (Fixture.BothFeetInstance 12 FGameplayTag.Stance_Crouching : UAlsAnimationInstance ℚ).TransitionsState with
          QueuedTransitionSequence := some ⟨8⟩
          QueuedTransitionBlendInDuration := (Fixture.Settings : UAlsAnimationInstanceSettings ℚ).DynamicTransitions.BlendDuration
          QueuedTransitionBlendOutDuration := (Fixture.Settings : UAlsAnimationInstanceSettings ℚ).DynamicTransitions.BlendDuration
          QueuedTransitionPlayRate := (Fixture.Settings : UAlsAnimationInstanceSettings ℚ).DynamicTransitions.PlayRate
          QueuedTransitionStartTime := 0 } := by
  have hFoot : DynamicTransitionFootBySpec
      (Fixture.BothFeetInstance 12 FGameplayTag.Stance_Crouching : UAlsAnimationInstance ℚ)
      Fixture.Settings = some EAlsFoot.Right := by
    norm_num [DynamicTransitionFootBySpec, DynamicTransitionEligibleBySpec, Fixture.BothFeetInstance,
      Fixture.DynamicTransitionInstance, Fixture.Instance, Fixture.Settings, Fixture.FootState,
      FAnimWeight.IsRelevant, ZERO_ANIMWEIGHT_THRESH, FVector.DistSquared, FMath.Square]
  have h := (C25_dynamic_transition_foot_selection
    (Fixture.BothFeetInstance 12 FGameplayTag.Stance_Crouching : UAlsAnimationInstance ℚ) Fixture.Settings
    rfl rfl rfl (by norm_num [Fixture.BothFeetInstance, Fixture.DynamicTransitionInstance, Fixture.Instance])
    rfl).2.2 EAlsFoot.Right ⟨8⟩ hFoot rfl
  exact ⟨hFoot, (h.2.1 (Or.inl rfl)).2⟩

/-! ### Derived acceleration and yaw speed -/

/-- C24: `RefreshLocomotionOnGameThread` takes the velocity of the character; when the
pending-update flag is clear and the actor delta time exceeds the small epsilon 1e-8, the delta
time is not zero, the acceleration is the new velocity less the velocity of the previous tick
divided by the actor delta time, and the yaw speed is the unwound difference of the new and the
previous yaw divided by the actor delta time; on a pending-update tick and whenever the actor
delta time is not above the epsilon, the acceleration is the zero vector and the yaw speed is 0. -/
theorem C24_derived_acceleration (E : Externals α) (s : UAlsAnimationInstance α)
    (Settings : UAlsAnimationInstanceSettings α) (Character : AAlsCharacter α) :
    (UAlsAnimationInstance.RefreshLocomotionOnGameThread E s Settings Character).LocomotionState.Velocity =
        Character.LocomotionState.Velocity ∧
      (s.bPendingUpdate = false ∧ UE_SMALL_NUMBER < s.ActorDeltaTime Character →
        s.ActorDeltaTime Character ≠ 0 ∧
          (UAlsAnimationInstance.RefreshLocomotionOnGameThread E s Settings Character).LocomotionState.Acceleration =
            ((UAlsAnimationInstance.RefreshLocomotionOnGameThread E s Settings
                Character).LocomotionState.Velocity.sub s.LocomotionState.Velocity).divide
              (s.ActorDeltaTime Character) ∧
          (UAlsAnimationInstance.RefreshLocomotionOnGameThread E s Settings Character).LocomotionState.YawSpeed =
            FMath.UnwindDegrees
                ((UAlsAnimationInstance.RefreshLocomotionOnGameThread E s Settings
                    Character).LocomotionState.Rotation.Yaw - s.LocomotionState.Rotation.Yaw) /
              s.ActorDeltaTime Character) ∧
      (s.bPendingUpdate = true ∨ s.ActorDeltaTime Character ≤ UE_SMALL_NUMBER →
        (UAlsAnimationInstance.RefreshLocomotionOnGameThread E s Settings Character).LocomotionState.Acceleration =
            FVector.ZeroVector ∧
          (UAlsAnimationInstance.RefreshLocomotionOnGameThread E s Settings Character).LocomotionState.YawSpeed =
            0) := by
  have hA : (UAlsAnimationInstance.RefreshLocomotionOnGameThread E s Settings Character).LocomotionState.Acceleration =
      if (!s.bPendingUpdate && decide (s.ActorDeltaTime Character > UE_SMALL_NUMBER)) = true then
        (Character.LocomotionState.Velocity.sub s.LocomotionState.Velocity).divide (s.ActorDeltaTime Character)
      else FVector.ZeroVector := rfl
  have hY : (UAlsAnimationInstance.RefreshLocomotionOnGameThread E s Settings Character).LocomotionState.YawSpeed =
      if (!s.bPendingUpdate && decide (s.ActorDeltaTime Character > UE_SMALL_NUMBER)) = true then
        FMath.UnwindDegrees
            ((UAlsAnimationInstance.RefreshLocomotionOnGameThread E s Settings
                Character).LocomotionState.Rotation.Yaw - s.LocomotionState.Rotation.Yaw) /
          s.ActorDeltaTime Character
      else 0 := rfl
  have hV : (UAlsAnimationInstance.RefreshLocomotionOnGameThread E s Settings Character).LocomotionState.Velocity =
      Character.LocomotionState.Velocity := rfl
  have htol : (0 : α) < UE_SMALL_NUMBER := by norm_num [UE_SMALL_NUMBER]
  refine ⟨hV, ?_, ?_⟩
  · rintro ⟨hP, hD⟩
    have hC : (!s.bPendingUpdate && decide (s.ActorDeltaTime Character > UE_SMALL_NUMBER)) = true := by
      rw [hP]
      simpa using hD
    refine ⟨(lt_trans htol hD).ne.symm, ?_, ?_⟩
    · rw [hA, if_pos hC, hV]
    · rw [hY, if_pos hC]
  · intro h
    have hC : ¬ (!s.bPendingUpdate && decide (s.ActorDeltaTime Character > UE_SMALL_NUMBER)) = true := by
      rcases h with h | h
      · rw [h]
        simp
      · simp only [Bool.and_eq_true, decide_eq_true_eq, not_and]
        intro _
        exact not_lt.2 h
    exact ⟨by rw [hA, if_neg hC], by rw [hY, if_neg hC]⟩

/-- C24, applied to a tick of 0.1 s on which the velocity goes from (50, 0, 0) to (100, 0, 0): the
acceleration is (500, 0, 0); on the same tick with the pending-update flag set it is zero. -/
theorem C24_derived_acceleration_witness :
    (UAlsAnimationInstance.RefreshLocomotionOnGameThread Fixture.Externals
          (Fixture.LocomotionTickInstance (1 / 10) ⟨50, 0, 0⟩ false : UAlsAnimationInstance ℚ) Fixture.Settings
          (Fixture.MovingCharacter ⟨100, 0, 0⟩)).LocomotionState.Acceleration = ⟨500, 0, 0⟩ ∧
      (UAlsAnimationInstance.RefreshLocomotionOnGameThread Fixture.Externals
          (Fixture.LocomotionTickInstance (1 / 10) ⟨50, 0, 0⟩ true : UAlsAnimationInstance ℚ) Fixture.Settings
          (Fixture.MovingCharacter ⟨100, 0, 0⟩)).LocomotionState.Acceleration = ⟨0, 0, 0⟩ := by
  have hD : ∀ b, (Fixture.LocomotionTickInstance (1 / 10) ⟨50, 0, 0⟩ b : UAlsAnimationInstance ℚ).ActorDeltaTime
      (Fixture.MovingCharacter ⟨100, 0, 0⟩) = 1 / 10 := by
    intro b
    norm_num [UAlsAnimationInstance.ActorDeltaTime, Fixture.LocomotionTickInstance, Fixture.Instance,
      Fixture.MovingCharacter, Fixture.Character]
  have h1 := ((C24_derived_acceleration Fixture.Externals
    (Fixture.LocomotionTickInstance (1 / 10) ⟨50, 0, 0⟩ false : UAlsAnimationInstance ℚ) Fixture.Settings
    (Fixture.MovingCharacter ⟨100, 0, 0⟩)).2.1 ⟨rfl, by rw [hD]; norm_num [UE_SMALL_NUMBER]⟩).2.1
  have h2 := ((C24_derived_acceleration Fixture.Externals
    (Fixture.LocomotionTickInstance (1 / 10) ⟨50, 0, 0⟩ true : UAlsAnimationInstance ℚ) Fixture.Settings
    (Fixture.MovingCharacter ⟨100, 0, 0⟩)).2.2 (Or.inl rfl)).1
  refine ⟨?_, h2⟩
  rw [h1, hD, (C24_derived_acceleration Fixture.Externals
    (Fixture.LocomotionTickInstance (1 / 10) ⟨50, 0, 0⟩ false : UAlsAnimationInstance ℚ) Fixture.Settings
    (Fixture.MovingCharacter ⟨100, 0, 0⟩)).1]
  norm_num [Fixture.LocomotionTickInstance, Fixture.Instance, Fixture.MovingCharacter, Fixture.Character,
    FVector.sub, FVector.divide]

/-! ### Forced decay of the foot lock -/

/-- Every lock amount realized by a sequence of calls started from a lock amount in range is in
range. -/
theorem LockAmountsAfterCalls_mem_range (E : Externals α) (Calls : List (FootCall α)) :
    ∀ LockAmount : α, LockAmountInRange LockAmount →
      ∀ a ∈ LockAmountsAfterCalls E LockAmount Calls, LockAmountInRange a := by
  induction Calls with
  | nil =>
    intro _ _ a ha
    simp [LockAmountsAfterCalls] at ha
  | cons C Cs ih =>
    intro LockAmount hRange a ha
    have hStep : LockAmountInRange (LockAmountAfterCall E LockAmount C) := by
      cases C with
      | RefreshFoot T =>
        exact UAlsAnimationInstance.RefreshFoot_LockAmountInRange E T.Instance T.Settings
          { T.FootState with LockAmount := LockAmount } T.IkCurveName T.LockCurveName
          T.ComponentTransformInverse T.DeltaTime hRange
      | RefreshFootLock T =>
        exact UAlsAnimationInstance.RefreshFootLock_LockAmountInRange E T.Instance T.Settings T.IkAmount
          { T.FootState with LockAmount := LockAmount } T.LockCurveName T.ComponentTransformInverse
          T.DeltaTime hRange
    rw [LockAmountsAfterCalls, List.mem_cons] at ha
    rcases ha with ha | ha
    · rw [ha]
      exact hStep
    · exact ih _ hStep a ha

/-- C26: when the character is moving smoothly or its locomotion mode is not grounded, the lock
weight `RefreshFootLock` works with is 0 on a pending-update tick and otherwise
max(0, min(c, previous LockAmount - rate * DeltaTime)), with c the clamped lock curve and the rate 5
when moving smoothly and 0.6 otherwise; so for a previous `LockAmount` that is the initial 0 or was
realized by a sequence of `RefreshFoot` and `RefreshFootLock` calls started from 0, and a
non-negative delta time, the `LockAmount` after the call does not exceed the previous one. -/
theorem C26_foot_lock_forced_decay (E : Externals α) (s : UAlsAnimationInstance α)
    (Settings : UAlsAnimationInstanceSettings α) (IkAmount : α) (FootState : FAlsFootState α)
    (LockCurveName : FName) (ComponentTransformInverse : FTransform α) (DeltaTime : α)
    (Calls : List (FootCall α))
    (hDecay : s.LocomotionState.bMovingSmooth = true ∨ s.LocomotionMode ≠ FGameplayTag.LocomotionMode_Grounded)
    (hReached : FootState.LockAmount ∈ (0 : α) :: LockAmountsAfterCalls E 0 Calls)
    (hDelta : 0 ≤ DeltaTime) :
    s.FootLockNewAmount FootState LockCurveName DeltaTime =
        (if s.bPendingUpdate = true then 0
         else
          max 0 (min (s.GetCurveValueClamped01 LockCurveName)
            (FootState.LockAmount -
              (if s.LocomotionState.bMovingSmooth = true then 5 else 6 / 10) * DeltaTime))) ∧
      (UAlsAnimationInstance.RefreshFootLock E s Settings IkAmount FootState LockCurveName
          ComponentTransformInverse DeltaTime).LockAmount ≤ FootState.LockAmount := by
  have hZero : LockAmountInRange (0 : α) := ⟨le_rfl, zero_le_one, Or.inr (by norm_num [ZERO_ANIMWEIGHT_THRESH])⟩
  have hRange : LockAmountInRange FootState.LockAmount := by
    rw [List.mem_cons] at hReached
    rcases hReached with h | h
    · rw [h]
      exact hZero
    · exact LockAmountsAfterCalls_mem_range E Calls 0 hZero _ h
  have hNew : s.FootLockNewAmount FootState LockCurveName DeltaTime =
      (if s.bPendingUpdate = true then 0
       else
        max 0 (min (s.GetCurveValueClamped01 LockCurveName)
          (FootState.LockAmount -
            (if s.LocomotionState.bMovingSmooth = true then 5 else 6 / 10) * DeltaTime))) := by
    unfold UAlsAnimationInstance.FootLockNewAmount
    simp only
    rw [if_pos hDecay, mul_comm]
  have hRate : (0 : α) ≤ (if s.LocomotionState.bMovingSmooth = true then 5 else 6 / 10) * DeltaTime := by
    apply mul_nonneg _ hDelta
    split_ifs <;> norm_num
  have hLe : s.FootLockNewAmount FootState LockCurveName DeltaTime ≤ FootState.LockAmount := by
    rw [hNew]
    by_cases hP : s.bPendingUpdate = true
    · rw [if_pos hP]
      exact hRange.1
    · rw [if_neg hP]
      exact max_le hRange.1 (le_trans (min_le_right _ _) (by linarith))
  refine ⟨hNew, ?_⟩
  rw [UAlsAnimationInstance.RefreshFootLock_LockAmount]
  split_ifs with h1 h2 h3 h4
  · exact h2.le
  · exact le_rfl
  · have hFull : 1 - ZERO_ANIMWEIGHT_THRESH ≤ FootState.LockAmount := le_trans h3 hLe
    rcases hRange.2.2 with h | h
    · rw [h]
    · exact absurd h (not_lt.2 hFull)
  · exact le_rfl
  · exact hLe

/-- C26, applied to a fully locked foot (the amount a call with the lock curve at 1 realizes from
0) on a character that moves smoothly on the ground with the lock curve at 1, on a tick of 0.05 s:
the lock weight is 1 - 5 * 0.05 = 0.75, and the lock amount after the call is at most 1. -/
theorem C26_foot_lock_forced_decay_witness :
    (Fixture.DecayInstance true FGameplayTag.LocomotionMode_Grounded : UAlsAnimationInstance ℚ).FootLockNewAmount
        (Fixture.FootStateWithLockAmount 1) FName.FootLeftLockCurve (1 / 20) = 3 / 4 ∧
      (UAlsAnimationInstance.RefreshFootLock Fixture.Externals
          (Fixture.DecayInstance true FGameplayTag.LocomotionMode_Grounded : UAlsAnimationInstance ℚ)
          Fixture.Settings 1 (Fixture.FootStateWithLockAmount 1) FName.FootLeftLockCurve
          FTransform.Identity (1 / 20)).LockAmount ≤ 1 := by
  have h := C26_foot_lock_forced_decay Fixture.Externals
    (Fixture.DecayInstance true FGameplayTag.LocomotionMode_Grounded : UAlsAnimationInstance ℚ)
    Fixture.Settings 1 (Fixture.FootStateWithLockAmount 1) FName.FootLeftLockCurve
    FTransform.Identity (1 / 20)
    [FootCall.RefreshFootLock
      ⟨Fixture.OffsetInstance 1, Fixture.Settings, 1, Fixture.FootState, FName.FootLeftLockCurve,
        Fixture.OffsetComponentTransformInverse, 0⟩]
    (Or.inl rfl)
    (by
      rw [LockAmountsAfterCalls, LockAmountAfterCall, UAlsAnimationInstance.RefreshFootLock_LockAmount]
      have hNew : ∀ F : FAlsFootState ℚ,
          (Fixture.OffsetInstance 1 : UAlsAnimationInstance ℚ).FootLockNewAmount F
            FName.FootLeftLockCurve 0 = 1 := by
        intro F
        norm_num [UAlsAnimationInstance.FootLockNewAmount, UAlsAnimationInstance.GetCurveValueClamped01,
          UAlsAnimationInstance.GetCurveValue, UAlsMath.Clamp01, Fixture.OffsetInstance, Fixture.Instance]
      simp only [hNew]
      norm_num [Fixture.Settings, FAnimWeight.IsRelevant, FAnimWeight.IsFullWeight, ZERO_ANIMWEIGHT_THRESH,
        Fixture.FootState, Fixture.FootStateWithLockAmount])
    (by norm_num)
  refine ⟨?_, h.2⟩
  rw [h.1]
  norm_num [Fixture.DecayInstance, Fixture.AngleLimitInstance, Fixture.Instance,
    Fixture.FootStateWithLockAmount, Fixture.FootState, UAlsAnimationInstance.GetCurveValueClamped01,
    UAlsAnimationInstance.GetCurveValue, UAlsMath.Clamp01]
/-! ### Foot lock across a teleport -/

/-- C27: when the update is not pending, the time since the teleport mark is at most 0.2 s and
the product of the IK weight and the lock amount is relevant, `ProcessFootLockTeleport` sets the
world lock location and rotation to the component transform applied to the component-relative
lock location and rotation, whatever the world lock location and rotation were before; it
re-derives the lock relative to the movement base from them when the base has a relative location
and leaves it as it is otherwise; and it changes no other field.  In every other case it leaves
the foot state unchanged. -/
theorem C27_foot_lock_teleport (s : UAlsAnimationInstance α) (IkAmount : α) (FootState : FAlsFootState α) :
    (s.bPendingUpdate = false ∧ s.World.TimeSeconds - s.TeleportedTime ≤ 2 / 10 ∧
        FAnimWeight.IsRelevant (IkAmount * FootState.LockAmount) →
      (s.ProcessFootLockTeleport IkAmount FootState).LockLocation =
          s.Proxy.ComponentTransform.TransformPosition FootState.LockComponentRelativeLocation ∧
        (s.ProcessFootLockTeleport IkAmount FootState).LockRotation =
          s.Proxy.ComponentTransform.TransformRotation FootState.LockComponentRelativeRotation ∧
        (∀ (LockLocation : FVector α) (LockRotation : FQuat α),
          s.ProcessFootLockTeleport IkAmount
              { FootState with LockLocation := LockLocation, LockRotation := LockRotation } =
            s.ProcessFootLockTeleport IkAmount FootState) ∧
        (s.MovementBase.bHasRelativeLocation = true →
          (s.ProcessFootLockTeleport IkAmount FootState).LockMovementBaseRelativeLocation =
              s.MovementBase.Rotation.Inverse.RotateVector
                ((s.ProcessFootLockTeleport IkAmount FootState).LockLocation.sub s.MovementBase.Location) ∧
            (s.ProcessFootLockTeleport IkAmount FootState).LockMovementBaseRelativeRotation =
              s.MovementBase.Rotation.Inverse.mul (s.ProcessFootLockTeleport IkAmount FootState).LockRotation) ∧
        (s.MovementBase.bHasRelativeLocation = false →
          (s.ProcessFootLockTeleport IkAmount FootState).LockMovementBaseRelativeLocation =
              FootState.LockMovementBaseRelativeLocation ∧
            (s.ProcessFootLockTeleport IkAmount FootState).LockMovementBaseRelativeRotation =
              FootState.LockMovementBaseRelativeRotation) ∧
        { s.ProcessFootLockTeleport IkAmount FootState with
            LockLocation := FootState.LockLocation
            LockRotation := FootState.LockRotation
            LockMovementBaseRelativeLocation := FootState.LockMovementBaseRelativeLocation
            LockMovementBaseRelativeRotation := FootState.LockMovementBaseRelativeRotation } = FootState) ∧
      (s.bPendingUpdate = true ∨ s.World.TimeSeconds - s.TeleportedTime > 2 / 10 ∨
          ¬ FAnimWeight.IsRelevant (IkAmount * FootState.LockAmount) →
        s.ProcessFootLockTeleport IkAmount FootState = FootState) := by
  constructor
  · rintro ⟨hPending, hTime, hRelevant⟩
    have hActive : ∀ F : FAlsFootState α, F.LockAmount = FootState.LockAmount →
        ¬ (s.bPendingUpdate = true ∨ s.World.TimeSeconds - s.TeleportedTime > 2 / 10 ∨
          ¬ FAnimWeight.IsRelevant (IkAmount * F.LockAmount)) := by
      intro F hF
      rw [hF]
      rintro (h | h | h)
      · rw [hPending] at h
        exact Bool.false_ne_true h
      · exact absurd h (not_lt.2 hTime)
      · exact h hRelevant
    have hIndependent : ∀ (LockLocation : FVector α) (LockRotation : FQuat α),
        s.ProcessFootLockTeleport IkAmount
            { FootState with LockLocation := LockLocation, LockRotation := LockRotation } =
          s.ProcessFootLockTeleport IkAmount FootState := by
      intro LockLocation LockRotation
      unfold UAlsAnimationInstance.ProcessFootLockTeleport
      rw [if_neg (hActive _ rfl), if_neg (hActive _ rfl)]
    unfold UAlsAnimationInstance.ProcessFootLockTeleport at hIndependent ⊢
    rw [if_neg (hActive _ rfl)] at hIndependent ⊢
    cases hBase : s.MovementBase.bHasRelativeLocation
    · simp only [hBase, Bool.false_eq_true, if_false] at hIndependent ⊢
      exact ⟨trivial, trivial, hIndependent, fun h => h.elim, fun _ => ⟨trivial, trivial⟩, trivial⟩
    · simp only [hBase, if_true] at hIndependent ⊢
      exact ⟨trivial, trivial, hIndependent, fun _ => ⟨rfl, rfl⟩, fun h => absurd h (by simp), trivial⟩
  · intro h
    unfold UAlsAnimationInstance.ProcessFootLockTeleport
    rw [if_pos h]

/-- C27, applied to a fully locked foot with the component-relative lock location (1, 2, 3) on a
component at (-5, 0, 0): 0.1 s after the teleport mark the world lock location becomes (-4, 2, 3)
from a stale (100, 100, 100) as from a stale (0, 0, 0); 0.3 s after the mark the stale location
is left as it is. -/
theorem C27_foot_lock_teleport_witness :
    ((Fixture.RecentTeleportInstance (1 / 10) : UAlsAnimationInstance ℚ).ProcessFootLockTeleport 1
          (Fixture.TeleportFootState ⟨100, 100, 100⟩)).LockLocation = ⟨-4, 2, 3⟩ ∧
      (Fixture.RecentTeleportInstance (1 / 10) : UAlsAnimationInstance ℚ).ProcessFootLockTeleport 1
          (Fixture.TeleportFootState ⟨100, 100, 100⟩) =
        (Fixture.RecentTeleportInstance (1 / 10) : UAlsAnimationInstance ℚ).ProcessFootLockTeleport 1
          (Fixture.TeleportFootState ⟨0, 0, 0⟩) ∧
      (Fixture.RecentTeleportInstance (3 / 10) : UAlsAnimationInstance ℚ).ProcessFootLockTeleport 1
          (Fixture.TeleportFootState ⟨100, 100, 100⟩) = Fixture.TeleportFootState ⟨100, 100, 100⟩ := by
  have hActive : (Fixture.RecentTeleportInstance (1 / 10) : UAlsAnimationInstance ℚ).bPendingUpdate = false ∧
      (Fixture.RecentTeleportInstance (1 / 10) : UAlsAnimationInstance ℚ).World.TimeSeconds -
          (Fixture.RecentTeleportInstance (1 / 10) : UAlsAnimationInstance ℚ).TeleportedTime ≤ 2 / 10 ∧
        FAnimWeight.IsRelevant (1 * (Fixture.TeleportFootState ⟨100, 100, 100⟩ : FAlsFootState ℚ).LockAmount) := by
    refine ⟨rfl, ?_, ?_⟩
    · norm_num [Fixture.RecentTeleportInstance, Fixture.OffsetInstance, Fixture.Instance]
    · norm_num [Fixture.TeleportFootState, Fixture.FootState, FAnimWeight.IsRelevant, ZERO_ANIMWEIGHT_THRESH]
  have h := (C27_foot_lock_teleport (Fixture.RecentTeleportInstance (1 / 10) : UAlsAnimationInstance ℚ) 1
    (Fixture.TeleportFootState ⟨100, 100, 100⟩)).1 hActive
  have hLate := (C27_foot_lock_teleport (Fixture.RecentTeleportInstance (3 / 10) : UAlsAnimationInstance ℚ) 1
    (Fixture.TeleportFootState ⟨100, 100, 100⟩)).2
    (Or.inr (Or.inl (by norm_num [Fixture.RecentTeleportInstance, Fixture.OffsetInstance, Fixture.Instance])))
  refine ⟨?_, ?_, hLate⟩
  · rw [h.1]
    norm_num [Fixture.RecentTeleportInstance, Fixture.OffsetInstance, Fixture.Instance,
      Fixture.TeleportFootState, Fixture.FootState, FTransform.TransformPosition, FQuat.RotateVector,
      FVector.cross, FVector.scale, FVector.add, FVector.mul]
  · exact (h.2.2.1 ⟨0, 0, 0⟩ ⟨0, 0, 0, 1⟩).symm
/-! ### Re-locking a foot -/

/-- The signed angle is zero when the projections onto the XY plane are parallel. -/
theorem UAlsVector.AngleBetweenSignedXY_parallel (E : Externals α) (A P : FVector α)
    (h : A.X * P.Y - A.Y * P.X = 0) : UAlsVector.AngleBetweenSignedXY E A P = 0 := by
  by_cases hA : A.X * A.X + A.Y * A.Y > UE_SMALL_NUMBER
  · by_cases hP : P.X * P.X + P.Y * P.Y > UE_SMALL_NUMBER
    · unfold UAlsVector.AngleBetweenSignedXY FVector2.GetSafeNormal
      simp only [if_pos hA, if_pos hP]
      have e : A.X * E.InvSqrt (A.X * A.X + A.Y * A.Y) * (P.Y * E.InvSqrt (P.X * P.X + P.Y * P.Y)) -
          A.Y * E.InvSqrt (A.X * A.X + A.Y * A.Y) * (P.X * E.InvSqrt (P.X * P.X + P.Y * P.Y)) =
          (A.X * P.Y - A.Y * P.X) *
            (E.InvSqrt (A.X * A.X + A.Y * A.Y) * E.InvSqrt (P.X * P.X + P.Y * P.Y)) := by ring
      rw [e, h, zero_mul]
      simp [FMath.Sign]
    · exact UAlsVector.AngleBetweenSignedXY_degenerate E A P (Or.inr hP)
  · exact UAlsVector.AngleBetweenSignedXY_degenerate E A P (Or.inl hA)

namespace UAlsAnimationInstance

/-- With foot lock enabled, a relevant lock weight and a lock angle within the limit,
`RefreshFootLock` leaves the world lock location and rotation as they are where the lock angle is
measured. -/
theorem RefreshFootLock_lock_within_limit (E : Externals α) (s : UAlsAnimationInstance α)
    (Settings : UAlsAnimationInstanceSettings α) (IkAmount : α) (FootState : FAlsFootState α)
    (LockCurveName : FName) (ComponentTransformInverse : FTransform α) (DeltaTime : α)
    (hEnabled : Settings.Feet.bDisableFootLock = false)
    (hRelevant : FAnimWeight.IsRelevant (IkAmount * s.FootLockNewAmount FootState LockCurveName DeltaTime))
    (hAngle : ¬ |FootLockAngle E s (s.FootLockBeforeLimit FootState LockCurveName ComponentTransformInverse
        DeltaTime)| > Settings.Feet.FootLockAngleLimit + UE_KINDA_SMALL_NUMBER) :
    (RefreshFootLock E s Settings IkAmount FootState LockCurveName ComponentTransformInverse
          DeltaTime).LockLocation =
        (s.FootLockBeforeLimit FootState LockCurveName ComponentTransformInverse DeltaTime).LockLocation ∧
      (RefreshFootLock E s Settings IkAmount FootState LockCurveName ComponentTransformInverse
          DeltaTime).LockRotation =
        (s.FootLockBeforeLimit FootState LockCurveName ComponentTransformInverse DeltaTime).LockRotation := by
  rw [RefreshFootLock_enabled E s Settings IkAmount FootState LockCurveName ComponentTransformInverse
    DeltaTime hEnabled hRelevant]
  have hLimit : FootLockLimitAngle E s Settings
      (s.FootLockBeforeLimit FootState LockCurveName ComponentTransformInverse DeltaTime) =
      s.FootLockBeforeLimit FootState LockCurveName ComponentTransformInverse DeltaTime := by
    unfold FootLockAngle at hAngle
    unfold FootLockLimitAngle
    simp only
    rw [if_neg hAngle]
  unfold FootLockFinal
  simp only
  rw [hLimit]
  exact ⟨rfl, rfl⟩

/-- Where the lock angle is measured after a full lock weight above the previous lock amount: off
a movement base the world lock is the target when the previous amount is at most 0.9 and the
previous world lock when it is above 0.9; on a movement base with a relative location it is, for
every previous amount, the target taken relative to the base and back. -/
theorem FootLockBeforeLimit_relock (s : UAlsAnimationInstance α) (FootState : FAlsFootState α)
    (LockCurveName : FName) (ComponentTransformInverse : FTransform α) (DeltaTime : α)
    (hFull : FAnimWeight.IsFullWeight (s.FootLockNewAmount FootState LockCurveName DeltaTime))
    (hGreater : s.FootLockNewAmount FootState LockCurveName DeltaTime > FootState.LockAmount) :
    (s.MovementBase.bHasRelativeLocation = false →
      (FootState.LockAmount ≤ 9 / 10 →
        (s.FootLockBeforeLimit FootState LockCurveName ComponentTransformInverse DeltaTime).LockLocation =
            FootState.TargetLocation ∧
          (s.FootLockBeforeLimit FootState LockCurveName ComponentTransformInverse DeltaTime).LockRotation =
            FootState.TargetRotation) ∧
      (9 / 10 < FootState.LockAmount →
        (s.FootLockBeforeLimit FootState LockCurveName ComponentTransformInverse DeltaTime).LockLocation =
            FootState.LockLocation ∧
          (s.FootLockBeforeLimit FootState LockCurveName ComponentTransformInverse DeltaTime).LockRotation =
            FootState.LockRotation)) ∧
    (s.MovementBase.bHasRelativeLocation = true →
      (s.FootLockBeforeLimit FootState LockCurveName ComponentTransformInverse DeltaTime).LockLocation =
          s.MovementBase.Location.add
            (s.MovementBase.Rotation.RotateVector
              (s.MovementBase.Rotation.Inverse.RotateVector
                (FootState.TargetLocation.sub s.MovementBase.Location))) ∧
        (s.FootLockBeforeLimit FootState LockCurveName ComponentTransformInverse DeltaTime).LockRotation =
          s.MovementBase.Rotation.mul (s.MovementBase.Rotation.Inverse.mul FootState.TargetRotation)) := by
  unfold FootLockBeforeLimit
  generalize s.FootLockNewAmount FootState LockCurveName DeltaTime = N at hFull hGreater
  unfold FootLockRebase FootLockUpdateAmount FootLockToMovementBase
  simp only [if_pos hFull, if_pos hGreater]
  constructor
  · intro hBase
    simp only [hBase, Bool.false_eq_true, if_false]
    constructor
    · intro hLow
      simp only [if_pos hLow]
      exact ⟨trivial, trivial⟩
    · intro hHigh
      simp only [if_neg (not_le.2 hHigh)]
      exact ⟨trivial, trivial⟩
  · intro hBase
    simp only [hBase, if_true]
    by_cases hLow : FootState.LockAmount ≤ 9 / 10
    · simp only [if_pos hLow]
      exact ⟨trivial, trivial⟩
    · simp only [if_neg hLow]
      exact ⟨trivial, trivial⟩

end UAlsAnimationInstance

/-- C28, on a movement base: a foot locked by 0.95 at (1, 0, 0), with its target at (4, 0, 0), on a
movement base at (10, 0, 0) receives the full lock weight 1 with the lock angle within the limit;
after `RefreshFootLock` its world lock location is the target (4, 0, 0), not the location (1, 0, 0)
it had before; the same call off the movement base keeps (1, 0, 0). -/
theorem C28_relock_on_movement_base_takes_target :
    FAnimWeight.IsFullWeight
        ((Fixture.RelockInstance true : UAlsAnimationInstance ℚ).FootLockNewAmount
          (Fixture.RelockFootState (95 / 100)) FName.FootLeftLockCurve 0) ∧
      (9 / 10 < (Fixture.RelockFootState (95 / 100) : FAlsFootState ℚ).LockAmount ∧
        (Fixture.RelockFootState (95 / 100) : FAlsFootState ℚ).LockAmount < 1) ∧
      ¬ |UAlsAnimationInstance.FootLockAngle Fixture.Externals (Fixture.RelockInstance true : UAlsAnimationInstance ℚ)
            ((Fixture.RelockInstance true : UAlsAnimationInstance ℚ).FootLockBeforeLimit
              (Fixture.RelockFootState (95 / 100)) FName.FootLeftLockCurve FTransform.Identity 0)| >
          (Fixture.Settings : UAlsAnimationInstanceSettings ℚ).Feet.FootLockAngleLimit + UE_KINDA_SMALL_NUMBER ∧
      (Fixture.RelockFootState (95 / 100) : FAlsFootState ℚ).LockLocation = ⟨1, 0, 0⟩ ∧
      (Fixture.RelockFootState (95 / 100) : FAlsFootState ℚ).TargetLocation = ⟨4, 0, 0⟩ ∧
      (UAlsAnimationInstance.RefreshFootLock Fixture.Externals
          (Fixture.RelockInstance true : UAlsAnimationInstance ℚ) Fixture.Settings 1
          (Fixture.RelockFootState (95 / 100)) FName.FootLeftLockCurve FTransform.Identity 0).LockLocation =
        ⟨4, 0, 0⟩ ∧
      (UAlsAnimationInstance.RefreshFootLock Fixture.Externals
          (Fixture.RelockInstance false : UAlsAnimationInstance ℚ) Fixture.Settings 1
          (Fixture.RelockFootState (95 / 100)) FName.FootLeftLockCurve FTransform.Identity 0).LockLocation =
        ⟨1, 0, 0⟩ := by
  have hNew : ∀ b : Bool, (Fixture.RelockInstance b : UAlsAnimationInstance ℚ).FootLockNewAmount
      (Fixture.RelockFootState (95 / 100)) FName.FootLeftLockCurve 0 = 1 := by
    intro b
    norm_num [UAlsAnimationInstance.FootLockNewAmount, UAlsAnimationInstance.GetCurveValueClamped01,
      UAlsAnimationInstance.GetCurveValue, UAlsMath.Clamp01, Fixture.RelockInstance,
      Fixture.AngleLimitInstance, Fixture.Instance]
  have hFull : ∀ b : Bool, FAnimWeight.IsFullWeight
      ((Fixture.RelockInstance b : UAlsAnimationInstance ℚ).FootLockNewAmount
        (Fixture.RelockFootState (95 / 100)) FName.FootLeftLockCurve 0) := by
    intro b
    rw [hNew]
    norm_num [FAnimWeight.IsFullWeight, ZERO_ANIMWEIGHT_THRESH]
  have hGreater : ∀ b : Bool, (Fixture.RelockInstance b : UAlsAnimationInstance ℚ).FootLockNewAmount
      (Fixture.RelockFootState (95 / 100)) FName.FootLeftLockCurve 0 >
        (Fixture.RelockFootState (95 / 100) : FAlsFootState ℚ).LockAmount := by
    intro b
    rw [hNew]
    norm_num [Fixture.RelockFootState, Fixture.FootState]
  have hRelevant : ∀ b : Bool, FAnimWeight.IsRelevant
      (1 * (Fixture.RelockInstance b : UAlsAnimationInstance ℚ).FootLockNewAmount
        (Fixture.RelockFootState (95 / 100)) FName.FootLeftLockCurve 0) := by
    intro b
    rw [hNew]
    norm_num [FAnimWeight.IsRelevant, ZERO_ANIMWEIGHT_THRESH]
  have hBefore := fun b : Bool => UAlsAnimationInstance.FootLockBeforeLimit_relock
    (Fixture.RelockInstance b : UAlsAnimationInstance ℚ) (Fixture.RelockFootState (95 / 100))
    FName.FootLeftLockCurve FTransform.Identity 0 (hFull b) (hGreater b)
  have hOn : ((Fixture.RelockInstance true : UAlsAnimationInstance ℚ).FootLockBeforeLimit
      (Fixture.RelockFootState (95 / 100)) FName.FootLeftLockCurve FTransform.Identity 0).LockLocation =
      ⟨4, 0, 0⟩ := by
    rw [((hBefore true).2 rfl).1]
    norm_num [Fixture.RelockInstance, Fixture.AngleLimitInstance, Fixture.Instance, Fixture.RelockFootState,
      Fixture.FootState, FQuat.RotateVector, FQuat.Inverse, FVector.cross, FVector.scale, FVector.add,
      FVector.sub]
  have hOff : ((Fixture.RelockInstance false : UAlsAnimationInstance ℚ).FootLockBeforeLimit
      (Fixture.RelockFootState (95 / 100)) FName.FootLeftLockCurve FTransform.Identity 0).LockLocation =
      ⟨1, 0, 0⟩ := by
    rw [(((hBefore false).1 rfl).2 (by norm_num [Fixture.RelockFootState, Fixture.FootState])).1]
    rfl
  have hRelative : ∀ b : Bool, ((Fixture.RelockInstance b : UAlsAnimationInstance ℚ).FootLockBeforeLimit
      (Fixture.RelockFootState (95 / 100)) FName.FootLeftLockCurve
      FTransform.Identity 0).LockComponentRelativeLocation =
      FTransform.Identity.TransformPosition
        ((Fixture.RelockInstance b : UAlsAnimationInstance ℚ).FootLockBeforeLimit
          (Fixture.RelockFootState (95 / 100)) FName.FootLeftLockCurve FTransform.Identity 0).LockLocation := by
    intro b
    unfold UAlsAnimationInstance.FootLockBeforeLimit UAlsAnimationInstance.FootLockRebase
    rfl
  have hThigh : ∀ b : Bool, ((Fixture.RelockInstance b : UAlsAnimationInstance ℚ).FootLockBeforeLimit
      (Fixture.RelockFootState (95 / 100)) FName.FootLeftLockCurve FTransform.Identity 0).ThighAxis =
      ⟨1, 0, 0⟩ := by
    intro b
    rw [UAlsAnimationInstance.FootLockBeforeLimit_ThighAxis]
    rfl
  have hAngle : ∀ (b : Bool) (L : FVector ℚ),
      ((Fixture.RelockInstance b : UAlsAnimationInstance ℚ).FootLockBeforeLimit
        (Fixture.RelockFootState (95 / 100)) FName.FootLeftLockCurve FTransform.Identity 0).LockLocation = L →
      L.Y = 0 →
      UAlsAnimationInstance.FootLockAngle Fixture.Externals (Fixture.RelockInstance b : UAlsAnimationInstance ℚ)
        ((Fixture.RelockInstance b : UAlsAnimationInstance ℚ).FootLockBeforeLimit
          (Fixture.RelockFootState (95 / 100)) FName.FootLeftLockCurve FTransform.Identity 0) = 0 := by
    intro b L hL hY
    unfold UAlsAnimationInstance.FootLockAngle
    apply UAlsVector.AngleBetweenSignedXY_parallel
    rw [hRelative, hThigh, hL]
    cases b <;>
      norm_num [Fixture.RelockInstance, Fixture.AngleLimitInstance, Fixture.Instance,
        FTransform.TransformPosition, FTransform.Identity, FQuat.Identity, FVector.ZeroVector,
        FQuat.RotateVector, FVector.cross, FVector.scale, FVector.add, FVector.mul, hY]
  have hWithin : ∀ b : Bool, UAlsAnimationInstance.FootLockAngle Fixture.Externals
        (Fixture.RelockInstance b : UAlsAnimationInstance ℚ)
        ((Fixture.RelockInstance b : UAlsAnimationInstance ℚ).FootLockBeforeLimit
          (Fixture.RelockFootState (95 / 100)) FName.FootLeftLockCurve FTransform.Identity 0) = 0 →
      ¬ |UAlsAnimationInstance.FootLockAngle Fixture.Externals (Fixture.RelockInstance b : UAlsAnimationInstance ℚ)
            ((Fixture.RelockInstance b : UAlsAnimationInstance ℚ).FootLockBeforeLimit
              (Fixture.RelockFootState (95 / 100)) FName.FootLeftLockCurve FTransform.Identity 0)| >
          (Fixture.Settings : UAlsAnimationInstanceSettings ℚ).Feet.FootLockAngleLimit + UE_KINDA_SMALL_NUMBER := by
    intro b h
    rw [h]
    norm_num [Fixture.Settings, UE_KINDA_SMALL_NUMBER]
  refine ⟨hFull true, ⟨by norm_num [Fixture.RelockFootState, Fixture.FootState],
    by norm_num [Fixture.RelockFootState, Fixture.FootState]⟩,
    hWithin true (hAngle true _ hOn rfl), rfl, rfl, ?_, ?_⟩
  · rw [(UAlsAnimationInstance.RefreshFootLock_lock_within_limit Fixture.Externals _ Fixture.Settings 1 _ _ _ _
      rfl (hRelevant true) (hWithin true (hAngle true _ hOn rfl))).1]
    exact hOn
  · rw [(UAlsAnimationInstance.RefreshFootLock_lock_within_limit Fixture.Externals _ Fixture.Settings 1 _ _ _ _
      rfl (hRelevant false) (hWithin false (hAngle false _ hOff rfl))).1]
    exact hOff

/-! ### Gait decomposition -/

/-- The clamp of a scalar to a non-empty range lies in the range. -/
theorem FMath.Clamp_mem (X Min Max : α) (h : Min ≤ Max) :
    Min ≤ FMath.Clamp X Min Max ∧ FMath.Clamp X Min Max ≤ Max := by
  unfold FMath.Clamp
  split_ifs with h1 h2
  · exact ⟨le_rfl, h⟩
  · exact ⟨not_lt.1 h1, h2.le⟩
  · exact ⟨h, le_rfl⟩

/-- The unit clamps of a value, the value less one and the value less two fill in order. -/
theorem UAlsMath.Clamp01_fill (t : α) :
    (0 < UAlsMath.Clamp01 (t - 1) → UAlsMath.Clamp01 t = 1) ∧
      (0 < UAlsMath.Clamp01 (t - 2) → UAlsMath.Clamp01 (t - 1) = 1) := by
  unfold UAlsMath.Clamp01
  constructor
  · intro h
    split_ifs at h with h1 h2
    · rw [if_pos (by linarith), if_neg (by linarith)]
    · rw [if_pos (by linarith), if_neg (by linarith)]
    · exact absurd h (lt_irrefl 0)
  · intro h
    split_ifs at h with h1 h2
    · rw [if_pos (by linarith), if_neg (by linarith)]
    · rw [if_pos (by linarith), if_neg (by linarith)]
    · exact absurd h (lt_irrefl 0)

/-- The unit clamps of a value in [0, 3], of the value less one and of the value less two add up
to the value. -/
theorem UAlsMath.Clamp01_sum (t : α) (h0 : 0 ≤ t) (h3 : t ≤ 3) :
    UAlsMath.Clamp01 t + UAlsMath.Clamp01 (t - 1) + UAlsMath.Clamp01 (t - 2) = t := by
  unfold UAlsMath.Clamp01
  split_ifs <;> linarith

/-- C29: for every raw gait curve value, after `TS_RefreshPose` the gait amount lies in [0, 3], the
walking, running and sprinting amounts lie in [0, 1], add up to the gait amount and fill in order
(a positive running amount implies a walking amount of 1, a positive sprinting amount implies a
running amount of 1); the unweighted walking, running and sprinting amounts lie in [0, 1] and fill
in order as well. -/
theorem C29_gait_decomposition (s : UAlsAnimationInstance α) :
    (0 ≤ (UAlsAnimationInstance.TS_RefreshPose s).PoseState.GaitAmount ∧
        (UAlsAnimationInstance.TS_RefreshPose s).PoseState.GaitAmount ≤ 3) ∧
      ((0 ≤ (UAlsAnimationInstance.TS_RefreshPose s).PoseState.GaitWalkingAmount ∧
          (UAlsAnimationInstance.TS_RefreshPose s).PoseState.GaitWalkingAmount ≤ 1) ∧
        (0 ≤ (UAlsAnimationInstance.TS_RefreshPose s).PoseState.GaitRunningAmount ∧
          (UAlsAnimationInstance.TS_RefreshPose s).PoseState.GaitRunningAmount ≤ 1) ∧
        (0 ≤ (UAlsAnimationInstance.TS_RefreshPose s).PoseState.GaitSprintingAmount ∧
          (UAlsAnimationInstance.TS_RefreshPose s).PoseState.GaitSprintingAmount ≤ 1)) ∧
      (UAlsAnimationInstance.TS_RefreshPose s).PoseState.GaitWalkingAmount +
          (UAlsAnimationInstance.TS_RefreshPose s).PoseState.GaitRunningAmount +
          (UAlsAnimationInstance.TS_RefreshPose s).PoseState.GaitSprintingAmount =
        (UAlsAnimationInstance.TS_RefreshPose s).PoseState.GaitAmount ∧
      ((0 < (UAlsAnimationInstance.TS_RefreshPose s).PoseState.GaitRunningAmount →
          (UAlsAnimationInstance.TS_RefreshPose s).PoseState.GaitWalkingAmount = 1) ∧
        (0 < (UAlsAnimationInstance.TS_RefreshPose s).PoseState.GaitSprintingAmount →
          (UAlsAnimationInstance.TS_RefreshPose s).PoseState.GaitRunningAmount = 1)) ∧
      ((0 ≤ (UAlsAnimationInstance.TS_RefreshPose s).PoseState.UnweightedGaitWalkingAmount ∧
          (UAlsAnimationInstance.TS_RefreshPose s).PoseState.UnweightedGaitWalkingAmount ≤ 1) ∧
        (0 ≤ (UAlsAnimationInstance.TS_RefreshPose s).PoseState.UnweightedGaitRunningAmount ∧
          (UAlsAnimationInstance.TS_RefreshPose s).PoseState.UnweightedGaitRunningAmount ≤ 1) ∧
        (0 ≤ (UAlsAnimationInstance.TS_RefreshPose s).PoseState.UnweightedGaitSprintingAmount ∧
          (UAlsAnimationInstance.TS_RefreshPose s).PoseState.UnweightedGaitSprintingAmount ≤ 1)) ∧
      ((0 < (UAlsAnimationInstance.TS_RefreshPose s).PoseState.UnweightedGaitRunningAmount →
          (UAlsAnimationInstance.TS_RefreshPose s).PoseState.UnweightedGaitWalkingAmount = 1) ∧
        (0 < (UAlsAnimationInstance.TS_RefreshPose s).PoseState.UnweightedGaitSprintingAmount →
          (UAlsAnimationInstance.TS_RefreshPose s).PoseState.UnweightedGaitRunningAmount = 1)) := by
  have hG : (UAlsAnimationInstance.TS_RefreshPose s).PoseState.GaitAmount =
      FMath.Clamp ((s.Proxy.AnimationCurves FName.PoseGaitCurve).getD 0) 0 3 := rfl
  have hW : (UAlsAnimationInstance.TS_RefreshPose s).PoseState.GaitWalkingAmount =
      UAlsMath.Clamp01 (UAlsAnimationInstance.TS_RefreshPose s).PoseState.GaitAmount := rfl
  have hR : (UAlsAnimationInstance.TS_RefreshPose s).PoseState.GaitRunningAmount =
      UAlsMath.Clamp01 ((UAlsAnimationInstance.TS_RefreshPose s).PoseState.GaitAmount - 1) := rfl
  have hS : (UAlsAnimationInstance.TS_RefreshPose s).PoseState.GaitSprintingAmount =
      UAlsMath.Clamp01 ((UAlsAnimationInstance.TS_RefreshPose s).PoseState.GaitAmount - 2) := rfl
  have hUW : (UAlsAnimationInstance.TS_RefreshPose s).PoseState.UnweightedGaitWalkingAmount =
      UAlsMath.Clamp01 (UAlsAnimationInstance.TS_RefreshPose s).PoseState.UnweightedGaitAmount := rfl
  have hUR : (UAlsAnimationInstance.TS_RefreshPose s).PoseState.UnweightedGaitRunningAmount =
      UAlsMath.Clamp01 ((UAlsAnimationInstance.TS_RefreshPose s).PoseState.UnweightedGaitAmount - 1) := rfl
  have hUS : (UAlsAnimationInstance.TS_RefreshPose s).PoseState.UnweightedGaitSprintingAmount =
      UAlsMath.Clamp01 ((UAlsAnimationInstance.TS_RefreshPose s).PoseState.UnweightedGaitAmount - 2) := rfl
  have hRange : 0 ≤ (UAlsAnimationInstance.TS_RefreshPose s).PoseState.GaitAmount ∧
      (UAlsAnimationInstance.TS_RefreshPose s).PoseState.GaitAmount ≤ 3 := by
    rw [hG]
    exact FMath.Clamp_mem _ 0 3 (by norm_num)
  rw [hW, hR, hS, hUW, hUR, hUS]
  exact ⟨hRange, ⟨UAlsMath.Clamp01_mem _, UAlsMath.Clamp01_mem _, UAlsMath.Clamp01_mem _⟩,
    UAlsMath.Clamp01_sum _ hRange.1 hRange.2, UAlsMath.Clamp01_fill _,
    ⟨UAlsMath.Clamp01_mem _, UAlsMath.Clamp01_mem _, UAlsMath.Clamp01_mem _⟩, UAlsMath.Clamp01_fill _⟩

/-- C29, applied to a raw gait curve of 1.5 at full grounded weight: the running amount is 0.5,
which is positive, so the walking amount is 1, and the sprinting amount is 0. -/
theorem C29_gait_decomposition_witness :
    (UAlsAnimationInstance.TS_RefreshPose
        (Fixture.PoseInstance 1 (3 / 2) : UAlsAnimationInstance ℚ)).PoseState.GaitRunningAmount = 1 / 2 ∧
      (UAlsAnimationInstance.TS_RefreshPose
        (Fixture.PoseInstance 1 (3 / 2) : UAlsAnimationInstance ℚ)).PoseState.GaitWalkingAmount = 1 ∧
      (UAlsAnimationInstance.TS_RefreshPose
        (Fixture.PoseInstance 1 (3 / 2) : UAlsAnimationInstance ℚ)).PoseState.GaitSprintingAmount = 0 := by
  have hG : (UAlsAnimationInstance.TS_RefreshPose
      (Fixture.PoseInstance 1 (3 / 2) : UAlsAnimationInstance ℚ)).PoseState.GaitAmount = 3 / 2 := by
    show FMath.Clamp (((Fixture.PoseInstance 1 (3 / 2) : UAlsAnimationInstance ℚ).Proxy.AnimationCurves
      FName.PoseGaitCurve).getD 0) 0 3 = 3 / 2
    have hC : ((Fixture.PoseInstance 1 (3 / 2) : UAlsAnimationInstance ℚ).Proxy.AnimationCurves
        FName.PoseGaitCurve).getD 0 = 3 / 2 := by
      simp [Fixture.PoseInstance]
    rw [hC]
    norm_num [FMath.Clamp]
  have hR : (UAlsAnimationInstance.TS_RefreshPose
      (Fixture.PoseInstance 1 (3 / 2) : UAlsAnimationInstance ℚ)).PoseState.GaitRunningAmount = 1 / 2 := by
    show UAlsMath.Clamp01 ((UAlsAnimationInstance.TS_RefreshPose
      (Fixture.PoseInstance 1 (3 / 2) : UAlsAnimationInstance ℚ)).PoseState.GaitAmount - 1) = 1 / 2
    rw [hG]
    norm_num [UAlsMath.Clamp01]
  have h := C29_gait_decomposition (Fixture.PoseInstance 1 (3 / 2) : UAlsAnimationInstance ℚ)
  have hW := h.2.2.2.1.1 (by rw [hR]; norm_num)
  refine ⟨hR, hW, ?_⟩
  have hSum := h.2.2.1
  rw [hW, hR, hG] at hSum
  linarith

/-! ### Turn in place and rotate in place -/

/-- C30: `IsTurnInPlaceAllowed` and `IsRotateInPlaceAllowed` are never both true; and a call of
`RefreshRotateInPlace` that evaluates (no editor preview, guard clear) with bound settings whose
`ViewYawAngleThreshold` is non-negative leaves `bRotatingLeft` and `bRotatingRight` not both true,
and both false when the character is moving or rotate in place is not allowed; any call with such
settings keeps the two flags not both true if they were so before. -/
theorem C30_turn_and_rotate_in_place_exclusive (s : UAlsAnimationInstance α)
    (Settings : UAlsAnimationInstanceSettings α) (hSettings : s.Settings = some Settings)
    (hThreshold : 0 ≤ Settings.RotateInPlace.ViewYawAngleThreshold) :
    ¬ (s.IsTurnInPlaceAllowed = true ∧ s.IsRotateInPlaceAllowed = true) ∧
      (s.EditorPreviewSkip = false → s.RotateInPlaceState.bUpdatedThisFrame = false →
        ¬ ((UAlsAnimationInstance.RefreshRotateInPlace s).RotateInPlaceState.bRotatingLeft = true ∧
            (UAlsAnimationInstance.RefreshRotateInPlace s).RotateInPlaceState.bRotatingRight = true) ∧
          (s.LocomotionState.bMoving = true ∨ s.IsRotateInPlaceAllowed = false →
            (UAlsAnimationInstance.RefreshRotateInPlace s).RotateInPlaceState.bRotatingLeft = false ∧
              (UAlsAnimationInstance.RefreshRotateInPlace s).RotateInPlaceState.bRotatingRight = false)) ∧
      (¬ (s.RotateInPlaceState.bRotatingLeft = true ∧ s.RotateInPlaceState.bRotatingRight = true) →
        ¬ ((UAlsAnimationInstance.RefreshRotateInPlace s).RotateInPlaceState.bRotatingLeft = true ∧
            (UAlsAnimationInstance.RefreshRotateInPlace s).RotateInPlaceState.bRotatingRight = true)) := by
  have hExclusive : ¬ (s.IsTurnInPlaceAllowed = true ∧ s.IsRotateInPlaceAllowed = true) := by
    unfold UAlsAnimationInstance.IsTurnInPlaceAllowed UAlsAnimationInstance.IsRotateInPlaceAllowed
    rintro ⟨h1, h2⟩
    simp only [Bool.and_eq_true, Bool.or_eq_true, decide_eq_true_eq] at h1 h2
    rcases h2 with h2 | h2
    · rw [h1.1] at h2
      exact absurd h2 (by decide)
    · exact h1.2 h2
  have hEval : s.EditorPreviewSkip = false → s.RotateInPlaceState.bUpdatedThisFrame = false →
      ¬ ((UAlsAnimationInstance.RefreshRotateInPlace s).RotateInPlaceState.bRotatingLeft = true ∧
          (UAlsAnimationInstance.RefreshRotateInPlace s).RotateInPlaceState.bRotatingRight = true) ∧
        (s.LocomotionState.bMoving = true ∨ s.IsRotateInPlaceAllowed = false →
          (UAlsAnimationInstance.RefreshRotateInPlace s).RotateInPlaceState.bRotatingLeft = false ∧
            (UAlsAnimationInstance.RefreshRotateInPlace s).RotateInPlaceState.bRotatingRight = false) := by
    intro hSkip hGuard
    unfold UAlsAnimationInstance.RefreshRotateInPlace
    rw [if_neg (by rw [hSkip]; exact Bool.false_ne_true)]
    split
    · rename_i hS
      rw [hSettings] at hS
      exact absurd hS (by simp)
    · rename_i S hS
      have hEq : S = Settings := Option.some.inj (hS.symm.trans hSettings)
      subst hEq
      rw [if_neg (by rw [hGuard]; exact Bool.false_ne_true)]
      by_cases hBlock : s.LocomotionState.bMoving = true ∨ s.IsRotateInPlaceAllowed = false
      · simp only [if_pos hBlock]
        simp
      · simp only [if_neg hBlock]
        refine ⟨?_, fun h => absurd h hBlock⟩
        split_ifs <;> simp only [decide_eq_true_eq] <;> rintro ⟨h1, h2⟩ <;> linarith
  refine ⟨hExclusive, hEval, ?_⟩
  intro hBefore
  cases hSkip : s.EditorPreviewSkip
  · cases hGuard : s.RotateInPlaceState.bUpdatedThisFrame
    · exact (hEval hSkip hGuard).1
    · rw [UAlsAnimationInstance.RefreshRotateInPlace_guarded s hGuard]
      exact hBefore
  · have : UAlsAnimationInstance.RefreshRotateInPlace s = s := by
      unfold UAlsAnimationInstance.RefreshRotateInPlace
      rw [if_pos hSkip]
    rw [this]
    exact hBefore

/-- C30, applied to the fixture instance in the aiming rotation mode with the view 60 degrees to
the right of the actor and a threshold of 50 degrees: rotate in place is allowed and turn in place
is not, and the character rotates right and not left. -/
theorem C30_turn_and_rotate_in_place_exclusive_witness :
    (Fixture.AimingInstance 60 : UAlsAnimationInstance ℚ).IsRotateInPlaceAllowed = true ∧
      (Fixture.AimingInstance 60 : UAlsAnimationInstance ℚ).IsTurnInPlaceAllowed = false ∧
      (UAlsAnimationInstance.RefreshRotateInPlace
        (Fixture.AimingInstance 60 : UAlsAnimationInstance ℚ)).RotateInPlaceState.bRotatingRight = true ∧
      ¬ ((UAlsAnimationInstance.RefreshRotateInPlace
            (Fixture.AimingInstance 60 : UAlsAnimationInstance ℚ)).RotateInPlaceState.bRotatingLeft = true ∧
          (UAlsAnimationInstance.RefreshRotateInPlace
            (Fixture.AimingInstance 60 : UAlsAnimationInstance ℚ)).RotateInPlaceState.bRotatingRight = true) := by
  have h := C30_turn_and_rotate_in_place_exclusive (Fixture.AimingInstance 60 : UAlsAnimationInstance ℚ)
    Fixture.Settings rfl (by norm_num [Fixture.Settings])
  refine ⟨by decide, by decide, ?_, (h.2.1 rfl rfl).1⟩
  norm_num [UAlsAnimationInstance.RefreshRotateInPlace, UAlsAnimationInstance.EditorPreviewSkip,
    Fixture.AimingInstance, Fixture.Instance, Fixture.Settings, UAlsAnimationInstance.IsRotateInPlaceAllowed]

end ALS
